import Mathlib

/-!
# GB-C-Emulator: a shallow embedding of the CPU and the memory unit

The C++ sources are translated function by function.  Machine integers are
natural numbers; every narrowing conversion of the source (`WORD` to `BYTE`,
`int` to `WORD`, wrap-around of `++` and `+=`) is written as an explicit
`% 256` or `% 65536`.  C++ references (`BYTE&`, `WORD&`) are modelled by
register names, so that aliasing between a destination and a source is
kept.  The process-wide globals of `registers.hpp` and the singleton objects
`cpu`, `mmu`, `timer`, `joypad`, `apu`, `ppu` are the fields of one record,
`Machine`.
-/

namespace GB

/-! ## definitions.hpp, cpu.hpp, registers.hpp -/

def CLOCKSPEED : Nat := 4194304

def FLAG_Z : Nat := 0x80
def FLAG_N : Nat := 0x40
def FLAG_HC : Nat := 0x20
def FLAG_C : Nat := 0x10

/-- The union `Register` of registers.hpp: `reg` is the 16-bit view of the
two bytes `lo` and `hi` (little-endian host). -/
structure Register where
  lo : Nat := 0
  hi : Nat := 0
deriving DecidableEq

/-- The 16-bit view `r.reg` of the union. -/
def Register.reg (r : Register) : Nat := r.hi * 256 + r.lo

/-- Assignment of a value to `r.reg`, truncated to a `WORD`. -/
def Register.ofWord (w : Nat) : Register := { lo := w % 256, hi := w / 256 % 256 }

/-- The conversion `(SIGNED_BYTE) b` followed by integer promotion. -/
def toSigned (b : Nat) : Int := if b % 256 < 128 then (b % 256 : Nat) else ((b % 256 : Nat) : Int) - 256

/-- Conversion of an `int` to `WORD`. -/
def toWord (i : Int) : Nat := (i % 65536).toNat

/-- Conversion of an `int` to `BYTE`. -/
def toByte (i : Int) : Nat := (i % 256).toNat

/-- The function `isFlagged` of bitOperations.cpp. -/
def isFlagged (reg b : Nat) : Bool := (reg &&& b) != 0

/-! ## tone.cpp -/

/-- The class `Tone` (one pulse channel).  The two `float` members only ever
hold whole numbers and are integers here; the constant table `waveDuty` is
the function `Tone.waveDuty`. -/
structure Tone where
  duty : Nat := 0
  soundLengthData : Nat := 0
  soundLength : Int := 0
  useSoundLength : Bool := false
  waveDutyPointer : Nat := 0
  outputVolume : Nat := 0
  volume : Nat := 0
  volumeEnvelope : Nat := 0
  increaseEnvelope : Bool := false
  envelopeRunning : Bool := false
  numEnvelopeSweep : Nat := 0
  stepLength : Int := 0
  frequencyRegister : Nat := 0
  counterConsecutiveSelection : Bool := false
  initial : Bool := false
  frequency : Int := 0
  digitalToAnalog : Bool := false
  enabled : Bool := false
  sweepTime : Nat := 0
  sweepPeriod : Int := 0
  sweepDecrease : Bool := false
  sweepShift : Nat := 0
  sweepFrequency : Nat := 0
  sweepEnable : Bool := false
deriving DecidableEq

namespace Tone

def waveDuty (d p : Nat) : Bool :=
  match d with
  | 0 => decide (1 ≤ p)
  | 1 => decide (2 ≤ p)
  | 2 => decide (4 ≤ p)
  | _ => decide (6 ≤ p)

/-- The method `Tone::sweepCalculation`: the new frequency, and the channel. -/
def sweepCalculation (t : Tone) : Nat × Tone :=
  let shifted := (t.sweepFrequency >>> t.sweepShift) % 65536
  let newFrequency :=
    if t.sweepDecrease then toWord ((t.sweepFrequency : Int) - shifted)
    else (t.sweepFrequency + shifted) % 65536
  let t1 := if newFrequency > 2047 then { t with enabled := false } else t
  (newFrequency, t1)

/-- The method `Tone::trigger`.  Its assignments go to different members, and
none reads a member that an earlier one has written, except `sweepPeriod`;
they are one record update here. -/
def trigger (t : Tone) : Tone :=
  let sweepPeriod : Int := if (t.sweepTime : Int) = 0 then 8 else (t.sweepTime : Int)
  let t1 : Tone :=
    { t with enabled := true,
             soundLength := if t.soundLength = 0 then 64 else t.soundLength,
             frequency := (2048 - (t.frequencyRegister : Int)) * 4,
             envelopeRunning := true,
             stepLength := t.numEnvelopeSweep,
             volume := t.volumeEnvelope,
             sweepFrequency := t.frequencyRegister,
             sweepPeriod := sweepPeriod,
             sweepEnable := decide (sweepPeriod > 0) || decide (t.sweepShift > 0) }
  if t.sweepShift > 0 then (sweepCalculation t1).2 else t1

/-- The method `Tone::writeByte`. -/
def writeByte (t : Tone) (address val : Nat) : Tone :=
  match (address &&& 0xF) % 5 with
  | 0 =>
    { t with sweepShift := val &&& 0x7,
             sweepDecrease := decide ((val &&& 0x8) = 0x8),
             sweepTime := (val >>> 4) &&& 0x7 }
  | 1 =>
    { t with duty := (val >>> 6) &&& 0x3, soundLengthData := val &&& 0x3F }
  | 2 =>
    { t with digitalToAnalog := decide ((val &&& 0xF8) ≠ 0),
             volumeEnvelope := (val >>> 4) &&& 0xF,
             volume := (val >>> 4) &&& 0xF,
             increaseEnvelope := decide (((val >>> 3) &&& 0x1) ≠ 0),
             numEnvelopeSweep := val &&& 0x7,
             stepLength := ((val &&& 0x7 : Nat) : Int) }
  | 3 =>
    { t with frequencyRegister := (t.frequencyRegister &&& 0xFF00) ||| val }
  | 4 =>
    let t := { t with initial := decide (((val >>> 7) &&& 0x1) ≠ 0) }
    let t := { t with counterConsecutiveSelection := decide (((val >>> 6) &&& 0x1) ≠ 0) }
    let t := { t with frequencyRegister := t.frequencyRegister &&& 0x00FF }
    let t := { t with frequencyRegister := t.frequencyRegister ||| ((val &&& 0x7) <<< 8) }
    if t.initial then trigger t else t
  | _ => t

/-- The method `Tone::readByte`. -/
def readByte (t : Tone) (address : Nat) : Nat :=
  match (address &&& 0xF) % 5 with
  | 0 => ((t.sweepTime <<< 4) ||| ((if t.sweepDecrease then 1 else 0) <<< 3) ||| t.sweepShift) % 256
  | 1 => (((t.duty &&& 0x3) <<< 6) ||| (t.soundLengthData &&& 0x3F)) % 256
  | 2 => (((t.volumeEnvelope &&& 0xF) <<< 4) ||| ((if t.increaseEnvelope then 1 else 0) <<< 3)
            ||| (t.numEnvelopeSweep &&& 0x7)) % 256
  | 3 => t.frequencyRegister &&& 0xFF
  | 4 => (((if t.initial then 1 else 0) <<< 7) ||| ((if t.counterConsecutiveSelection then 1 else 0) <<< 6)
            ||| ((t.frequencyRegister >>> 8) &&& 0x7)) % 256
  | _ => 0

/-- The method `Tone::isRunning`. -/
def isRunning (t : Tone) : Bool := decide (t.soundLength > 0)

end Tone

/-! ## apu.cpp (register file; the sample mixer is not part of this model) -/

/-- The class `APU` without its SDL handles and its float sample buffer. -/
structure APU where
  leftOutputLevel : Nat := 0
  rightOutputLevel : Nat := 0
  leftSoundEnable : Nat → Bool := fun _ => false
  rightSoundEnable : Nat → Bool := fun _ => false
  soundControl : Bool := false
  tone1 : Tone := {}
  tone2 : Tone := {}
  downSampleCount : Int := 95
  bufferFillAmount : Int := 0
  clockCounter : Int := 8192
  clockStep : Nat := 0

namespace APU

/-- The loop of case 0x25 in `APU::writeByte`. -/
def writeEnables (a : APU) (val : Nat) : APU :=
  (List.range 8).foldl
    (fun acc i =>
      if i ≥ 4 then
        { acc with leftSoundEnable := fun j =>
            if j = i - 4 then decide (((val >>> i) &&& 0x1) ≠ 0) else acc.leftSoundEnable j }
      else
        { acc with rightSoundEnable := fun j =>
            if j = i then decide (((val >>> i) &&& 0x1) ≠ 0) else acc.rightSoundEnable j })
    a

/-- The method `APU::writeByte`.  The source calls itself for the addresses
0xFF10..0xFF25 when the master switch is turned off; the first argument bounds
the depth of that recursion. -/
def writeByteFuel : Nat → APU → Nat → Nat → APU
  | 0, a, _, _ => a
  | fuel + 1, a, address, val =>
    if address ≥ 0xFF10 ∧ address ≤ 0xFF14 then
      { a with tone1 := a.tone1.writeByte address val }
    else if address ≥ 0xFF16 ∧ address ≤ 0xFF19 then
      { a with tone2 := a.tone2.writeByte address val }
    else if address ≥ 0xFF24 ∧ address ≤ 0xFF26 then
      match address &&& 0xFF with
      | 0x24 => { a with leftOutputLevel := (val >>> 4) &&& 0x7, rightOutputLevel := val &&& 0x7 }
      | 0x25 => writeEnables a val
      | 0x26 =>
        let a := { a with soundControl := decide (((val >>> 7) &&& 0x1) ≠ 0) }
        if !a.soundControl then
          (List.range' 0xFF10 22).foldl (fun acc i => writeByteFuel fuel acc i 0) a
        else a
      | _ => a
    else a

/-- The method `APU::writeByte`: the recursion is one level deep. -/
def writeByte (a : APU) (address val : Nat) : APU := writeByteFuel 2 a address val

/-- The method `APU::readByte`. -/
def readByte (a : APU) (address : Nat) : Nat :=
  if address ≥ 0xFF10 ∧ address ≤ 0xFF14 then a.tone1.readByte address
  else if address ≥ 0xFF16 ∧ address ≤ 0xFF19 then a.tone2.readByte address
  else if address ≥ 0xFF24 ∧ address ≤ 0xFF26 then
    match address &&& 0xFF with
    | 0x24 => ((a.leftOutputLevel <<< 4) ||| a.rightOutputLevel) % 256
    | 0x25 =>
      (List.range 8).foldl
        (fun acc i =>
          if i < 4 then (acc ||| ((if a.rightSoundEnable i then 1 else 0) <<< i)) % 256
          else (acc ||| ((if a.leftSoundEnable (i - 4) then 1 else 0) <<< i)) % 256)
        0
    | 0x26 =>
      (((if a.soundControl then 1 else 0) <<< 7) % 256)
        ||| (((if a.tone2.isRunning then 1 else 0) <<< 1) ||| (if a.tone1.isRunning then 1 else 0))
    | _ => 0
  else 0

end APU

/-! ## timer.cpp, joypad.cpp, sprite.hpp, ppu.hpp -/

/-- The class `Timer`. -/
structure Timer where
  divider : Nat := 0
  counter : Nat := 0
  modulo : Nat := 0
  control : Nat := 0
  controlClock : Int := 1024
  dividerClock : Int := 0
  isClockEnabled : Bool := true
deriving DecidableEq

/-- The method `Timer::setControlRate`. -/
def Timer.setControlRate (t : Timer) : Timer :=
  let t :=
    match t.control &&& 0x3 with
    | 0 => { t with controlClock := ((CLOCKSPEED / 4096 : Nat) : Int) }
    | 1 => { t with controlClock := ((CLOCKSPEED / 262144 : Nat) : Int) }
    | 2 => { t with controlClock := ((CLOCKSPEED / 65536 : Nat) : Int) }
    | 3 => { t with controlClock := ((CLOCKSPEED / 16384 : Nat) : Int) }
    | _ => t
  { t with isClockEnabled := decide ((t.control &&& 0x4) ≠ 0) }

/-- The class `JOYPAD`; `controls0` and `controls1` are `controls[0]` and
`controls[1]`. -/
structure JOYPAD where
  controls0 : Nat := 0x0F
  controls1 : Nat := 0x0F
  column : Nat := 0
deriving DecidableEq

/-- The method `JOYPAD::readByte`. -/
def JOYPAD.readByte (j : JOYPAD) : Nat :=
  match j.column with
  | 0x10 => j.controls1
  | 0x20 => j.controls0
  | _ => 0x0

/-- The method `JOYPAD::writeByte`. -/
def JOYPAD.writeByte (j : JOYPAD) (val : Nat) : JOYPAD := { j with column := val &&& 0x30 }

/-- The class `SPRITE`. -/
structure SPRITE where
  posY : Int := 0
  posX : Int := 0
  tileNumber : Nat := 0
  prioritized : Bool := false
  flippedY : Bool := false
  flippedX : Bool := false
  zeroPalette : Bool := false
deriving DecidableEq

/-- The data members of the class `PPU` (without the SDL handles). -/
structure PPU where
  mode : Nat := 2
  clock : Int := 0
  frameBuffer : Nat → Nat := fun _ => 0

/-- The data members of the class `CPU`. -/
structure CPU where
  clock : Int := 0
  halt : Bool := false
  IME : Bool := false
deriving DecidableEq

/-- The data members of the class `MMU`.  Arrays are functions of the index;
`bootROM` is the 256-byte table of the class declaration. -/
structure MMU where
  tileSet : Nat → Nat → Nat → Nat := fun _ _ _ => 0
  spriteSet : Nat → SPRITE := fun _ => {}
  bgMap : Bool := false
  bgTile : Bool := false
  switchBG : Bool := false
  switchOBJ : Bool := false
  switchLCD : Bool := false
  spriteDoubled : Bool := false
  switchWindow : Bool := false
  windowTile : Bool := false
  scrollX : Nat := 0
  scrollY : Nat := 0
  windowX : Nat := 0
  windowY : Nat := 0
  line : Nat := 0
  palette : Nat → Nat → Nat := fun _ _ => 0
  obj0Palette : Nat → Nat → Nat := fun _ _ => 0
  obj1Palette : Nat → Nat → Nat := fun _ _ => 0
  lcdStatRegister : Nat := 0
  mbc1 : Bool := false
  romBankNumber : Nat := 0x01
  ramBankNumber : Nat := 0x0
  ramEnabled : Bool := false
  romMode : Bool := true
  memory : Nat → Nat := fun _ => 0
  cartridgeMemory : Nat → Nat := fun _ => 0
  ramMemory : Nat → Nat := fun _ => 0
  bootROM : Nat → Nat := fun _ => 0
  inBIOS : Bool := true

/-- The whole machine: the globals of registers.hpp and the singleton objects. -/
structure Machine where
  AF : Register := {}
  BC : Register := {}
  DE : Register := {}
  HL : Register := {}
  SP : Register := {}
  PC : Nat := 0
  ifRegister : Nat := 0
  ieRegister : Nat := 0
  cpu : CPU := {}
  timer : Timer := {}
  joypad : JOYPAD := {}
  apu : APU := {}
  mmu : MMU := {}
  ppu : PPU := {}

/-! ## mmu.cpp -/

namespace MMU

/-- The method `MMU::readByte`. -/
def readByte (s : Machine) (address : Nat) : Nat :=
  if s.mmu.inBIOS ∧ address < 0x100 then s.mmu.bootROM address
  else if address < 0x4000 then s.mmu.cartridgeMemory address
  else if address ≥ 0x4000 ∧ address ≤ 0x7FFF then
    s.mmu.cartridgeMemory ((address - 0x4000) + (s.mmu.romBankNumber * 0x4000))
  else if address ≥ 0xA000 ∧ address ≤ 0xBFFF then
    s.mmu.ramMemory ((address - 0xA000) + (s.mmu.ramBankNumber * 0x2000))
  else if address = 0xFF00 then s.joypad.readByte
  else if address = 0xFF04 then s.timer.divider
  else if address = 0xFF05 then s.timer.counter
  else if address = 0xFF06 then s.timer.modulo
  else if address = 0xFF07 then s.timer.control &&& 0x3
  else if (address ≥ 0xFF10 ∧ address ≤ 0xFF3F) ∧ ¬(address ≥ 0xFF27 ∧ address ≤ 0xFF2F) then
    s.apu.readByte address
  else if address = 0xFF40 then
    (if s.mmu.switchBG then 0x01 else 0x00) |||
    (if s.mmu.switchOBJ then 0x02 else 0x00) |||
    (if s.mmu.spriteDoubled then 0x04 else 0x00) |||
    (if s.mmu.bgMap then 0x08 else 0x00) |||
    (if s.mmu.bgTile then 0x10 else 0x00) |||
    (if s.mmu.switchWindow then 0x20 else 0x00) |||
    (if s.mmu.windowTile then 0x40 else 0x00) |||
    (if s.mmu.switchLCD then 0x80 else 0x00)
  else if address = 0xFF41 then s.mmu.lcdStatRegister
  else if address = 0xFF42 then s.mmu.scrollY
  else if address = 0xFF43 then s.mmu.scrollX
  else if address = 0xFF44 then s.mmu.line % 256
  else if address = 0xFF4A then s.mmu.windowY
  else if address = 0xFF4B then s.mmu.windowX
  else if address = 0xFF0F then s.ifRegister % 256
  else if address = 0xFFFF then s.ieRegister % 256
  else s.mmu.memory address

/-- The method `MMU::readWord`. -/
def readWord (s : Machine) (address : Nat) : Nat :=
  let lowerByte := readByte s address
  let higherByte := readByte s ((address + 1) % 65536)
  (lowerByte ||| (higherByte <<< 8)) % 65536

/-- The assignment `memory[address] = val`. -/
def storeMemory (s : Machine) (address val : Nat) : Machine :=
  { s with mmu := { s.mmu with memory := fun a => if a = address then val else s.mmu.memory a } }

/-- The method `MMU::handleBanking`. -/
def handleBanking (m : MMU) (address val : Nat) : MMU :=
  if !m.mbc1 then m
  else if address < 0x2000 then
    { m with ramEnabled := decide ((val &&& 0x0F) = 0x0A) }
  else if address < 0x4000 then
    let val := (m.romBankNumber &&& 0xE0) ||| (val &&& 0x1F)
    let val := if val = 0x00 ∨ val = 0x20 ∨ val = 0x40 ∨ val = 0x60 then (val + 1) % 256 else val
    { m with romBankNumber := val }
  else if address < 0x6000 then
    if m.romMode then
      let m := { m with romBankNumber := (((val &&& 0x3) <<< 5) + (m.romBankNumber &&& 0x1F)) % 256 }
      if m.romBankNumber = 0 then { m with romBankNumber := (m.romBankNumber + 1) % 256 } else m
    else
      { m with ramBankNumber := val &&& 0x3 }
  else if address < 0x8000 then
    let m := { m with romMode := decide ((val &&& 0x1) = 0x00) }
    if m.romMode then { m with ramBankNumber := 0 } else m
  else m

/-- The method `MMU::updateTileSet`. -/
def updateTileSet (s : Machine) (addr : Nat) : Machine :=
  let baseAddr := addr &&& 0x1FFE
  let tile := (baseAddr >>> 4) &&& 0x1FF
  let y := (baseAddr >>> 1) % 8
  (List.range 8).foldl
    (fun acc x =>
      let bitIndex := (1 <<< (7 - x)) % 256
      let val :=
        (if (readByte acc (addr &&& 0xFFFE) &&& bitIndex) ≠ 0 then 1 else 0) +
        (if (readByte acc (((addr &&& 0xFFFE) + 1) % 65536) &&& bitIndex) ≠ 0 then 2 else 0)
      { acc with mmu := { acc.mmu with tileSet := fun t r c =>
          if t = tile ∧ r = y ∧ c = x then val else acc.mmu.tileSet t r c } })
    s

/-- The method `MMU::updateSpriteSet`. -/
def updateSpriteSet (m : MMU) (addr val : Nat) : MMU :=
  let spriteNumber := (addr - 0xFE00) >>> 2
  let sprite := m.spriteSet spriteNumber
  let sprite :=
    match (addr - 0xFE00) &&& 0x03 with
    | 0 => { sprite with posY := (val : Int) - 16 }
    | 1 => { sprite with posX := (val : Int) - 8 }
    | 2 => { sprite with tileNumber := val }
    | 3 =>
      { sprite with prioritized := if (val &&& 0x80) ≠ 0 then false else true,
                    flippedY := if (val &&& 0x40) ≠ 0 then true else false,
                    flippedX := if (val &&& 0x20) ≠ 0 then true else false,
                    zeroPalette := if (val &&& 0x10) ≠ 0 then false else true }
    | _ => sprite
  { m with spriteSet := fun i => if i = spriteNumber then sprite else m.spriteSet i }

/-- The method `MMU::setPalette`: the table after the call. -/
def setPalette (palette : Nat → Nat → Nat) (val : Nat) : Nat → Nat → Nat :=
  (List.range 4).foldl
    (fun acc i =>
      let rgba : Nat → Nat :=
        match (val >>> (i * 2)) &&& 3 with
        | 0 => fun k => if k = 3 then 255 else 255
        | 1 => fun k => if k = 3 then 255 else 192
        | 2 => fun k => if k = 3 then 255 else 96
        | _ => fun k => if k = 3 then 255 else 0
      fun j k => if j = i ∧ k < 4 then rgba k else acc j k)
    palette

/-- The method `MMU::writeByte`.  The source calls itself for the echo area
and, through `dmaTransfer`, for the sprite table; the first argument bounds
the depth of that recursion.  A branch of the source that does not `return`
goes on to the final `memory[address] = val`. -/
def writeByteFuel : Nat → Machine → Nat → Nat → Machine
  | 0, s, _, _ => s
  | fuel + 1, s, address, val =>
    if address ≥ 0xFEA0 ∧ address ≤ 0xFEFF then s
    else if address < 0x8000 then
      storeMemory { s with mmu := handleBanking s.mmu address val } address val
    else if address ≥ 0xA000 ∧ address < 0xC000 then
      if s.mmu.ramEnabled then
        { s with mmu := { s.mmu with ramMemory := fun a =>
            if a = (address - 0xA000) + (s.mmu.ramBankNumber * 0x2000) then val else s.mmu.ramMemory a } }
      else s
    else if address ≥ 0xE000 ∧ address ≤ 0xFDFF then
      storeMemory (writeByteFuel fuel s (address - 0x2000) val) address val
    else if address ≥ 0x8000 ∧ address ≤ 0x97FF then
      updateTileSet (storeMemory s address val) address
    else if address ≥ 0xFE00 ∧ address ≤ 0xFE9F then
      let s := storeMemory s address val
      { s with mmu := updateSpriteSet s.mmu address val }
    else if address = 0xFF00 then { s with joypad := s.joypad.writeByte val }
    else if address = 0xFF04 then { s with timer := { s.timer with divider := 0 } }
    else if address = 0xFF05 then { s with timer := { s.timer with counter := val } }
    else if address = 0xFF06 then { s with timer := { s.timer with modulo := val } }
    else if address = 0xFF07 then
      { s with timer := Timer.setControlRate { s.timer with control := val } }
    else if address = 0xFF0F then { s with ifRegister := 0x1F &&& val }
    else if (address ≥ 0xFF10 ∧ address ≤ 0xFF3F) ∧ ¬(address ≥ 0xFF27 ∧ address ≤ 0xFF2F) then
      { s with apu := s.apu.writeByte address val }
    else if address = 0xFF40 then
      { s with mmu := { s.mmu with
          switchBG := decide ((val &&& 0x01) ≠ 0),
          switchOBJ := decide ((val &&& 0x02) ≠ 0),
          spriteDoubled := decide ((val &&& 0x04) ≠ 0),
          bgMap := decide ((val &&& 0x08) ≠ 0),
          bgTile := decide ((val &&& 0x10) ≠ 0),
          switchWindow := decide ((val &&& 0x20) ≠ 0),
          windowTile := decide ((val &&& 0x40) ≠ 0),
          switchLCD := decide ((val &&& 0x80) ≠ 0) } }
    else if address = 0xFF41 then
      { s with mmu := { s.mmu with
          lcdStatRegister := (val &&& 0x78) ||| (s.mmu.memory address &&& 0x07) } }
    else if address = 0xFF42 then { s with mmu := { s.mmu with scrollY := val } }
    else if address = 0xFF43 then { s with mmu := { s.mmu with scrollX := val } }
    else if address = 0xFF4A then { s with mmu := { s.mmu with windowY := val } }
    else if address = 0xFF4B then { s with mmu := { s.mmu with windowX := val } }
    else if address = 0xFF46 then
      let startAddr := (val * 0x100) % 65536
      let s := (List.range 0xA0).foldl
        (fun acc i => writeByteFuel fuel acc (0xFE00 + i) (readByte acc ((startAddr + i) % 65536))) s
      storeMemory s address val
    else if address = 0xFF47 then { s with mmu := { s.mmu with palette := setPalette s.mmu.palette val } }
    else if address = 0xFF48 then
      { s with mmu := { s.mmu with obj0Palette := setPalette s.mmu.obj0Palette val } }
    else if address = 0xFF49 then
      { s with mmu := { s.mmu with obj1Palette := setPalette s.mmu.obj1Palette val } }
    else if address = 0xFF50 then { s with mmu := { s.mmu with inBIOS := false } }
    else if address = 0xFFFF then { s with ieRegister := val }
    else storeMemory s address val

/-- The method `MMU::writeByte`: the recursion is one level deep. -/
def writeByte (s : Machine) (address val : Nat) : Machine := writeByteFuel 2 s address val

/-- The method `MMU::writeWord`. -/
def writeWord (s : Machine) (address val : Nat) : Machine :=
  let s := writeByte s address (val % 256)
  writeByte s ((address + 1) % 65536) ((val >>> 8) % 256)

end MMU

/-! ## References to registers -/

/-- The byte halves of the register unions that the CPU passes as `BYTE&`. -/
inductive Reg8 where
  | AFhi | AFlo | BChi | BClo | DEhi | DElo | HLhi | HLlo
deriving DecidableEq

/-- The 16-bit objects that the CPU passes as `WORD&`. -/
inductive Reg16 where
  | AF | BC | DE | HL | SP | PC
deriving DecidableEq

namespace Machine

def get8 (s : Machine) : Reg8 → Nat
  | .AFhi => s.AF.hi
  | .AFlo => s.AF.lo
  | .BChi => s.BC.hi
  | .BClo => s.BC.lo
  | .DEhi => s.DE.hi
  | .DElo => s.DE.lo
  | .HLhi => s.HL.hi
  | .HLlo => s.HL.lo

def set8 (s : Machine) (r : Reg8) (v : Nat) : Machine :=
  match r with
  | .AFhi => { s with AF := { s.AF with hi := v } }
  | .AFlo => { s with AF := { s.AF with lo := v } }
  | .BChi => { s with BC := { s.BC with hi := v } }
  | .BClo => { s with BC := { s.BC with lo := v } }
  | .DEhi => { s with DE := { s.DE with hi := v } }
  | .DElo => { s with DE := { s.DE with lo := v } }
  | .HLhi => { s with HL := { s.HL with hi := v } }
  | .HLlo => { s with HL := { s.HL with lo := v } }

def get16 (s : Machine) : Reg16 → Nat
  | .AF => s.AF.reg
  | .BC => s.BC.reg
  | .DE => s.DE.reg
  | .HL => s.HL.reg
  | .SP => s.SP.reg
  | .PC => s.PC

/-- Assignment to a `WORD`: the value is truncated to 16 bits. -/
def set16 (s : Machine) (r : Reg16) (w : Nat) : Machine :=
  match r with
  | .AF => { s with AF := Register.ofWord w }
  | .BC => { s with BC := Register.ofWord w }
  | .DE => { s with DE := Register.ofWord w }
  | .HL => { s with HL := Register.ofWord w }
  | .SP => { s with SP := Register.ofWord w }
  | .PC => { s with PC := w % 65536 }

end Machine

/-! ## bitOperations.cpp -/

/-- The function `flagBit` on a register: `reg |= b`, then the test
`reg == AF.lo`, which compares the two values. -/
def flagBit (s : Machine) (reg : Reg8) (b : Nat) : Machine :=
  let s := s.set8 reg ((s.get8 reg ||| b) % 256)
  if s.get8 reg = s.AF.lo then s.set8 .AFlo (s.AF.lo &&& 0xF0) else s

/-- The function `unflagBit` on a register: `reg &= ~b`, then the same test. -/
def unflagBit (s : Machine) (reg : Reg8) (b : Nat) : Machine :=
  let s := s.set8 reg (s.get8 reg &&& (0xFF ^^^ b))
  if s.get8 reg = s.AF.lo then s.set8 .AFlo (s.AF.lo &&& 0xF0) else s

/-- The function `flagBit` on a local `BYTE` of the caller: the new value of
the local, and the machine (whose `AF.lo` the value test may mask). -/
def flagBitLocal (s : Machine) (reg b : Nat) : Nat × Machine :=
  let reg := (reg ||| b) % 256
  (reg, if reg = s.AF.lo then s.set8 .AFlo (s.AF.lo &&& 0xF0) else s)

/-! ## cpu.cpp: the instruction bodies -/

/-- The bit pattern of a 32-bit `int`. -/
def toU32 (i : Int) : Nat := (i % 4294967296).toNat

/-- The assignment `AF.lo = 0`. -/
def clearF (s : Machine) : Machine := s.set8 .AFlo 0

/-- The expression `PC++`: the machine after the increment. -/
def pcInc (s : Machine) : Machine := { s with PC := (s.PC + 1) % 65536 }

/-- The statement `PC += 2`. -/
def pcAdd2 (s : Machine) : Machine := { s with PC := (s.PC + 2) % 65536 }

/-- The argument `mmu.readWord(PC - 2)`. -/
def readWordBehindPC (s : Machine) : Nat := MMU.readWord s ((s.PC + 65536 - 2) % 65536)

def CPU_LOAD (s : Machine) (b1 : Reg8) (b2 : Nat) : Machine := s.set8 b1 b2

def CPU_LOAD_WRITE (s : Machine) (w b : Nat) : Machine := MMU.writeByte s w b

def CPU_LOAD_16BIT (s : Machine) (reg : Reg16) (val : Nat) (immValue : Int) (isStackPointer : Bool) :
    Machine :=
  let s := s.set16 reg val
  if isStackPointer then
    let result : Int := (val : Int) + immValue
    let s := clearF s
    let x := val ^^^ toU32 immValue ^^^ (toU32 result &&& 0xFFFF)
    let s := if (x &&& 0x10) = 0x10 then flagBit s .AFlo FLAG_HC else s
    let s := if (x &&& 0x100) = 0x100 then flagBit s .AFlo FLAG_C else s
    s.set16 reg (toWord result)
  else s

def CPU_LOAD_WRITE_16BIT (s : Machine) (w b : Nat) : Machine := MMU.writeWord s w b

def CPU_PUSH (s : Machine) (reg : Reg16) : Machine :=
  let s := s.set16 .SP ((s.SP.reg + 65536 - 2) % 65536)
  MMU.writeWord s s.SP.reg (s.get16 reg)

def CPU_POP (s : Machine) (reg : Reg16) : Machine :=
  let s := s.set16 reg (MMU.readWord s s.SP.reg)
  s.set16 .SP ((s.SP.reg + 2) % 65536)

def CPU_ADD (s : Machine) (b : Nat) (carry : Bool) : Machine :=
  let prev := s.AF.hi
  let adding := b
  let carryVal := if carry && isFlagged s.AF.lo FLAG_C then 1 else 0
  let s := s.set8 .AFhi ((s.AF.hi + adding + carryVal) % 256)
  let result := prev + adding + carryVal
  let s := clearF s
  let s := if s.AF.hi = 0 then flagBit s .AFlo FLAG_Z else s
  let s := if (prev &&& 0xF) + (adding &&& 0xF) + carryVal > 0xF then flagBit s .AFlo FLAG_HC else s
  if (result &&& 0x100) ≠ 0 then flagBit s .AFlo FLAG_C else s

def CPU_SUB (s : Machine) (b : Nat) (carry : Bool) : Machine :=
  let prev := s.AF.hi
  let carryVal := if carry && isFlagged s.AF.lo FLAG_C then 1 else 0
  let subtracting : Int := (prev : Int) - (b : Int) - (carryVal : Int)
  let result := toByte subtracting
  let s := clearF s
  let s := flagBit s .AFlo FLAG_N
  let s := if result = 0 then flagBit s .AFlo FLAG_Z else s
  let s :=
    if ((prev &&& 0xf : Nat) : Int) - ((b &&& 0xf : Nat) : Int) - (carryVal : Int) < 0 then
      flagBit s .AFlo FLAG_HC
    else s
  let s := if subtracting < 0 then flagBit s .AFlo FLAG_C else s
  s.set8 .AFhi result

def CPU_AND (s : Machine) (b : Nat) : Machine :=
  let s := s.set8 .AFhi (s.AF.hi &&& b)
  let s := clearF s
  let s := if s.AF.hi = 0 then flagBit s .AFlo FLAG_Z else s
  flagBit s .AFlo FLAG_HC

def CPU_XOR (s : Machine) (b : Nat) : Machine :=
  let s := s.set8 .AFhi (s.AF.hi ^^^ b)
  let s := clearF s
  if s.AF.hi = 0 then flagBit s .AFlo FLAG_Z else s

def CPU_OR (s : Machine) (b : Nat) : Machine :=
  let s := s.set8 .AFhi (s.AF.hi ||| b)
  let s := clearF s
  if s.AF.hi = 0 then flagBit s .AFlo FLAG_Z else s

def CPU_CP (s : Machine) (b : Nat) : Machine :=
  let regA := toByte ((s.AF.hi : Int) - (b : Int))
  let s := clearF s
  let s := flagBit s .AFlo FLAG_N
  let s := if regA = 0 then flagBit s .AFlo FLAG_Z else s
  let s :=
    if ((s.AF.hi &&& 0xF : Nat) : Int) - ((b &&& 0xF : Nat) : Int) < 0 then flagBit s .AFlo FLAG_HC
    else s
  if s.AF.hi < b then flagBit s .AFlo FLAG_C else s

def CPU_INC (s : Machine) (b : Reg8) : Machine :=
  let s := s.set8 b ((s.get8 b + 1) % 256)
  let s := if s.get8 b = 0 then flagBit s .AFlo FLAG_Z else unflagBit s .AFlo FLAG_Z
  let s := unflagBit s .AFlo FLAG_N
  if (s.get8 b &&& 0x0F) = 0x00 then flagBit s .AFlo FLAG_HC else unflagBit s .AFlo FLAG_HC

def CPU_INC_WRITE (s : Machine) : Machine :=
  let before := MMU.readByte s s.HL.reg
  let before := (before + 1) % 256
  let s := MMU.writeByte s s.HL.reg before
  let s := if before = 0 then flagBit s .AFlo FLAG_Z else unflagBit s .AFlo FLAG_Z
  let s := unflagBit s .AFlo FLAG_N
  if (before &&& 0x0F) = 0x00 then flagBit s .AFlo FLAG_HC else unflagBit s .AFlo FLAG_HC

def CPU_DEC (s : Machine) (b : Reg8) : Machine :=
  let s := s.set8 b ((s.get8 b + 256 - 1) % 256)
  let s := if s.get8 b = 0 then flagBit s .AFlo FLAG_Z else unflagBit s .AFlo FLAG_Z
  let s := flagBit s .AFlo FLAG_N
  if (s.get8 b &&& 0x0F) = 0x0F then flagBit s .AFlo FLAG_HC else unflagBit s .AFlo FLAG_HC

/-- In the source `before - 1` is an `int`; its low byte is what is stored and
what `& 0x0F` looks at. -/
def CPU_DEC_WRITE (s : Machine) : Machine :=
  let before := MMU.readByte s s.HL.reg
  let s := MMU.writeByte s s.HL.reg (toByte ((before : Int) - 1))
  let s := if (before : Int) - 1 = 0 then flagBit s .AFlo FLAG_Z else unflagBit s .AFlo FLAG_Z
  let s := flagBit s .AFlo FLAG_N
  if (toByte ((before : Int) - 1) &&& 0x0F) = 0x0F then flagBit s .AFlo FLAG_HC
  else unflagBit s .AFlo FLAG_HC

def CPU_DAA (s : Machine) : Machine :=
  let s :=
    if !isFlagged s.AF.lo FLAG_N then
      let s :=
        if isFlagged s.AF.lo FLAG_C || decide (s.AF.hi > 0x99) then
          flagBit (s.set8 .AFhi ((s.AF.hi + 0x60) % 256)) .AFlo FLAG_C
        else s
      if isFlagged s.AF.lo FLAG_HC || decide ((s.AF.hi &&& 0x0F) > 0x09) then
        s.set8 .AFhi ((s.AF.hi + 0x6) % 256)
      else s
    else
      let s :=
        if isFlagged s.AF.lo FLAG_C then s.set8 .AFhi ((s.AF.hi + 256 - 0x60) % 256) else s
      if isFlagged s.AF.lo FLAG_HC then s.set8 .AFhi ((s.AF.hi + 256 - 0x6) % 256) else s
  let s := unflagBit s .AFlo FLAG_Z
  let s := unflagBit s .AFlo FLAG_HC
  if s.AF.hi = 0 then flagBit s .AFlo FLAG_Z else s

def CPU_CPL (s : Machine) : Machine :=
  let s := s.set8 .AFhi (0xFF ^^^ s.AF.hi)
  let s := flagBit s .AFlo FLAG_N
  flagBit s .AFlo FLAG_HC

/-- Both parameters are references: `val` is read again after `reg += val`. -/
def CPU_ADD_16BIT (s : Machine) (reg val : Reg16) : Machine :=
  let result := s.get16 reg + s.get16 val
  let prev := s.get16 reg
  let s := s.set16 reg (s.get16 reg + s.get16 val)
  let s :=
    if (prev &&& 0xFFF) + (s.get16 val &&& 0xFFF) > 0xFFF then flagBit s .AFlo FLAG_HC
    else unflagBit s .AFlo FLAG_HC
  let s := if (result &&& 0x10000) ≠ 0 then flagBit s .AFlo FLAG_C else unflagBit s .AFlo FLAG_C
  unflagBit s .AFlo FLAG_N

def CPU_ADD_16BIT_SIGNED (s : Machine) (reg : Reg16) (val : Int) : Machine :=
  let prev := s.get16 reg
  let result : Int := (prev : Int) + val
  let x := prev ^^^ toU32 val ^^^ (toU32 result &&& 0xFFFF)
  let s := if (x &&& 0x10) = 0x10 then flagBit s .AFlo FLAG_HC else unflagBit s .AFlo FLAG_HC
  let s := if (x &&& 0x100) = 0x100 then flagBit s .AFlo FLAG_C else unflagBit s .AFlo FLAG_C
  let s := unflagBit s .AFlo FLAG_N
  let s := unflagBit s .AFlo FLAG_Z
  s.set16 reg (toWord result)

def CPU_INC_16BIT (s : Machine) (reg : Reg16) : Machine := s.set16 reg (s.get16 reg + 1)

def CPU_DEC_16BIT (s : Machine) (reg : Reg16) : Machine := s.set16 reg (s.get16 reg + 65536 - 1)

def CPU_RLC (s : Machine) (reg : Reg8) : Machine :=
  let msb := isFlagged (s.get8 reg) 0x80
  let s := s.set8 reg ((s.get8 reg <<< 1) % 256)
  let s := clearF s
  let s := if msb then flagBit (flagBit s reg 0x01) .AFlo FLAG_C else s
  if s.get8 reg = 0 then flagBit s .AFlo FLAG_Z else s

def CPU_RLCA (s : Machine) (reg : Reg8) : Machine :=
  let msb := isFlagged (s.get8 reg) 0x80
  let s := s.set8 reg ((s.get8 reg <<< 1) % 256)
  let s := clearF s
  if msb then flagBit (flagBit s reg 0x01) .AFlo FLAG_C else s

def CPU_RL (s : Machine) (reg : Reg8) : Machine :=
  let msb := isFlagged (s.get8 reg) 0x80
  let carry := isFlagged s.AF.lo FLAG_C
  let s := s.set8 reg ((s.get8 reg <<< 1) % 256)
  let s := clearF s
  let s := if msb then flagBit s .AFlo FLAG_C else s
  let s := if carry then flagBit s reg 0x01 else s
  if s.get8 reg = 0 then flagBit s .AFlo FLAG_Z else s

def CPU_RLA (s : Machine) (reg : Reg8) : Machine :=
  let msb := isFlagged (s.get8 reg) 0x80
  let carry := isFlagged s.AF.lo FLAG_C
  let s := s.set8 reg ((s.get8 reg <<< 1) % 256)
  let s := clearF s
  let s := if msb then flagBit s .AFlo FLAG_C else s
  if carry then flagBit s reg 0x01 else s

def CPU_RRC (s : Machine) (reg : Reg8) : Machine :=
  let lsb := isFlagged (s.get8 reg) 0x01
  let s := s.set8 reg (s.get8 reg >>> 1)
  let s := clearF s
  let s := if lsb then flagBit (flagBit s reg 0x80) .AFlo FLAG_C else s
  if s.get8 reg = 0 then flagBit s .AFlo FLAG_Z else s

def CPU_RR (s : Machine) (reg : Reg8) : Machine :=
  let lsb := isFlagged (s.get8 reg) 0x01
  let carry := isFlagged s.AF.lo FLAG_C
  let s := s.set8 reg (s.get8 reg >>> 1)
  let s := clearF s
  let s := if lsb then flagBit s .AFlo FLAG_C else s
  let s := if carry then flagBit s reg 0x80 else s
  if s.get8 reg = 0 then flagBit s .AFlo FLAG_Z else s

def CPU_RRCA (s : Machine) (reg : Reg8) : Machine :=
  let lsb := isFlagged (s.get8 reg) 0x01
  let s := s.set8 reg (s.get8 reg >>> 1)
  let s := clearF s
  if lsb then flagBit (flagBit s reg 0x80) .AFlo FLAG_C else s

def CPU_RRA (s : Machine) (reg : Reg8) : Machine :=
  let lsb := isFlagged (s.get8 reg) 0x01
  let carry := isFlagged s.AF.lo FLAG_C
  let s := s.set8 reg (s.get8 reg >>> 1)
  let s := clearF s
  let s := if lsb then flagBit s .AFlo FLAG_C else s
  if carry then flagBit s reg 0x80 else s

def CPU_RLC_WRITE (s : Machine) : Machine :=
  let reg := MMU.readByte s s.HL.reg
  let msb := isFlagged reg 0x80
  let reg := (reg <<< 1) % 256
  let s := clearF s
  let p := if msb then flagBitLocal (flagBit s .AFlo FLAG_C) reg 0x01 else (reg, s)
  let reg := p.1
  let s := MMU.writeByte p.2 p.2.HL.reg reg
  if reg = 0 then flagBit s .AFlo FLAG_Z else s

def CPU_RL_WRITE (s : Machine) : Machine :=
  let reg := MMU.readByte s s.HL.reg
  let msb := isFlagged reg 0x80
  let carry := isFlagged s.AF.lo FLAG_C
  let reg := (reg <<< 1) % 256
  let s := clearF s
  let s := if msb then flagBit s .AFlo FLAG_C else s
  let p := if carry then flagBitLocal s reg 0x01 else (reg, s)
  let reg := p.1
  let s := MMU.writeByte p.2 p.2.HL.reg reg
  if reg = 0 then flagBit s .AFlo FLAG_Z else s

def CPU_RRC_WRITE (s : Machine) : Machine :=
  let reg := MMU.readByte s s.HL.reg
  let lsb := isFlagged reg 0x01
  let reg := reg >>> 1
  let s := clearF s
  let p := if lsb then flagBitLocal (flagBit s .AFlo FLAG_C) reg 0x80 else (reg, s)
  let reg := p.1
  let s := MMU.writeByte p.2 p.2.HL.reg reg
  if reg = 0 then flagBit s .AFlo FLAG_Z else s

def CPU_RR_WRITE (s : Machine) : Machine :=
  let reg := MMU.readByte s s.HL.reg
  let lsb := isFlagged reg 0x01
  let carry := isFlagged s.AF.lo FLAG_C
  let reg := reg >>> 1
  let s := clearF s
  let s := if lsb then flagBit s .AFlo FLAG_C else s
  let p := if carry then flagBitLocal s reg 0x80 else (reg, s)
  let reg := p.1
  let s := MMU.writeByte p.2 p.2.HL.reg reg
  if reg = 0 then flagBit s .AFlo FLAG_Z else s

def CPU_SLA (s : Machine) (reg : Reg8) : Machine :=
  let msb := isFlagged (s.get8 reg) 0x80
  let s := s.set8 reg ((s.get8 reg <<< 1) % 256)
  let s := clearF s
  let s := if msb then flagBit s .AFlo FLAG_C else s
  if s.get8 reg = 0 then flagBit s .AFlo FLAG_Z else s

def CPU_SLA_WRITE (s : Machine) : Machine :=
  let reg := MMU.readByte s s.HL.reg
  let msb := isFlagged reg 0x80
  let reg := (reg <<< 1) % 256
  let s := MMU.writeByte s s.HL.reg reg
  let s := clearF s
  let s := if msb then flagBit s .AFlo FLAG_C else s
  if reg = 0 then flagBit s .AFlo FLAG_Z else s

def CPU_SWAP (s : Machine) (reg : Reg8) : Machine :=
  let s := s.set8 reg (((s.get8 reg >>> 4) ||| (s.get8 reg <<< 4)) % 256)
  let s := clearF s
  if s.get8 reg = 0 then flagBit s .AFlo FLAG_Z else s

def CPU_SWAP_WRITE (s : Machine) : Machine :=
  let reg := MMU.readByte s s.HL.reg
  let reg := ((reg >>> 4) ||| (reg <<< 4)) % 256
  let s := MMU.writeByte s s.HL.reg reg
  let s := clearF s
  if reg = 0 then flagBit s .AFlo FLAG_Z else s

def CPU_SRA (s : Machine) (reg : Reg8) : Machine :=
  let msb := isFlagged (s.get8 reg) 0x80
  let carryBit := isFlagged (s.get8 reg) 0x1
  let s := s.set8 reg (s.get8 reg >>> 1)
  let s := clearF s
  let s := if msb then flagBit s reg 0x80 else s
  let s := if carryBit then flagBit s .AFlo FLAG_C else s
  if s.get8 reg = 0 then flagBit s .AFlo FLAG_Z else s

def CPU_SRA_WRITE (s : Machine) : Machine :=
  let reg := MMU.readByte s s.HL.reg
  let msb := isFlagged reg 0x80
  let carryBit := isFlagged reg 0x1
  let reg := reg >>> 1
  let s := clearF s
  let p := if msb then flagBitLocal s reg 0x80 else (reg, s)
  let reg := p.1
  let s := if carryBit then flagBit p.2 .AFlo FLAG_C else p.2
  let s := MMU.writeByte s s.HL.reg reg
  if reg = 0 then flagBit s .AFlo FLAG_Z else s

def CPU_SRL (s : Machine) (reg : Reg8) : Machine :=
  let msb := isFlagged (s.get8 reg) 0x1
  let s := s.set8 reg (s.get8 reg >>> 1)
  let s := clearF s
  let s := if msb then flagBit s .AFlo FLAG_C else s
  if s.get8 reg = 0 then flagBit s .AFlo FLAG_Z else s

def CPU_SRL_WRITE (s : Machine) : Machine :=
  let reg := MMU.readByte s s.HL.reg
  let msb := isFlagged reg 0x1
  let reg := reg >>> 1
  let s := MMU.writeByte s s.HL.reg reg
  let s := clearF s
  let s := if msb then flagBit s .AFlo FLAG_C else s
  if reg = 0 then flagBit s .AFlo FLAG_Z else s

/-- The expression `(mask >> (8 - bit)) & 0xFF` with `mask = 256`. -/
def bitMask (bit : Nat) : Nat := (256 >>> (8 - bit)) &&& 0xFF

def CPU_BIT (s : Machine) (bit reg : Nat) : Machine :=
  let s := if (bitMask bit &&& reg) = 0 then flagBit s .AFlo FLAG_Z else unflagBit s .AFlo FLAG_Z
  let s := unflagBit s .AFlo FLAG_N
  flagBit s .AFlo FLAG_HC

def CPU_SET (s : Machine) (bit : Nat) (reg : Reg8) : Machine :=
  s.set8 reg ((bitMask bit ||| s.get8 reg) % 256)

def CPU_SET_WRITE (s : Machine) (bit : Nat) : Machine :=
  let reg := MMU.readByte s s.HL.reg
  let reg := (bitMask bit ||| reg) % 256
  MMU.writeByte s s.HL.reg reg

def CPU_RES (s : Machine) (bit : Nat) (reg : Reg8) : Machine :=
  s.set8 reg ((0xFF ^^^ bitMask bit) &&& s.get8 reg)

def CPU_RES_WRITE (s : Machine) (bit : Nat) : Machine :=
  let reg := MMU.readByte s s.HL.reg
  let reg := (0xFF ^^^ bitMask bit) &&& reg
  MMU.writeByte s s.HL.reg reg

def CPU_CCF (s : Machine) : Machine :=
  let s := unflagBit s .AFlo FLAG_N
  let s := unflagBit s .AFlo FLAG_HC
  if isFlagged s.AF.lo FLAG_C then unflagBit s .AFlo FLAG_C else flagBit s .AFlo FLAG_C

def CPU_SCF (s : Machine) : Machine :=
  let s := unflagBit s .AFlo FLAG_N
  let s := unflagBit s .AFlo FLAG_HC
  flagBit s .AFlo FLAG_C

def CPU_HALT (s : Machine) : Machine :=
  if !s.cpu.IME && decide ((s.ifRegister &&& s.ieRegister &&& 0x1F) ≠ 0) then
    { s with cpu := { s.cpu with halt := false } }
  else
    let s := { s with PC := (s.PC + 65536 - 1) % 65536 }
    { s with cpu := { s.cpu with halt := true } }

def CPU_DI (s : Machine) : Machine := { s with cpu := { s.cpu with IME := false } }

def CPU_EI (s : Machine) : Machine := { s with cpu := { s.cpu with IME := true } }

def CPU_JP (s : Machine) (useFlag : Bool) (address flag : Nat) (set : Bool) : Machine :=
  if !useFlag then { s with PC := address % 65536 }
  else if set && isFlagged s.AF.lo flag then { s with PC := address % 65536 }
  else if !set && !isFlagged s.AF.lo flag then { s with PC := address % 65536 }
  else s

def CPU_JR (s : Machine) (useFlag : Bool) (address : Int) (flag : Nat) (set : Bool) : Machine :=
  if !useFlag then { s with PC := toWord ((s.PC : Int) + address) }
  else if set && isFlagged s.AF.lo flag then { s with PC := toWord ((s.PC : Int) + address) }
  else if !set && !isFlagged s.AF.lo flag then { s with PC := toWord ((s.PC : Int) + address) }
  else s

def CPU_CALL (s : Machine) (useFlag : Bool) (address flag : Nat) (set : Bool) : Machine :=
  if !useFlag || (useFlag && set && isFlagged s.AF.lo flag)
      || (useFlag && !set && !isFlagged s.AF.lo flag) then
    let s := CPU_PUSH s .PC
    { s with PC := address % 65536 }
  else s

def CPU_RET (s : Machine) (useFlag : Bool) (flag : Nat) (set : Bool) : Machine :=
  if !useFlag || (useFlag && set && isFlagged s.AF.lo flag)
      || (useFlag && !set && !isFlagged s.AF.lo flag) then
    CPU_POP s .PC
  else s

def CPU_RETI (s : Machine) : Machine :=
  let s := CPU_RET s false 0 false
  { s with cpu := { s.cpu with IME := true } }

def CPU_RST (s : Machine) (address : Nat) : Machine := CPU_CALL s false address 0 false

def CPU_RESET (s : Machine) : Machine :=
  { s with AF := Register.ofWord 0, BC := Register.ofWord 0, DE := Register.ofWord 0,
           HL := Register.ofWord 0, SP := Register.ofWord 0, PC := 0,
           cpu := { s.cpu with clock := 0 }, ifRegister := 0x0 }

/-! ## cpu.cpp: the decoder -/

/-- What a call of the decoder ends in: a new machine and a cycle count, the
`assert(false)` of the `default` case, or a recursion deeper than the depth
bound given to `executeOpcode`. -/
inductive Outcome where
  | done (s : Machine) (cycles : Nat)
  | unknownOpcode
  | outOfFuel

set_option maxRecDepth 100000 in
/-- The method `CPU::executeExtendedOpcode`; the `switch` is a chain of tests in
the order of its `case` labels. -/
def executeExtendedOpcode (s : Machine) (opcode : Nat) : Outcome :=
    if opcode = 0x00 then .done (CPU_RLC s .BChi) 8
    else if opcode = 0x01 then .done (CPU_RLC s .BClo) 8
    else if opcode = 0x02 then .done (CPU_RLC s .DEhi) 8
    else if opcode = 0x03 then .done (CPU_RLC s .DElo) 8
    else if opcode = 0x04 then .done (CPU_RLC s .HLhi) 8
    else if opcode = 0x05 then .done (CPU_RLC s .HLlo) 8
    else if opcode = 0x07 then .done (CPU_RLC s .AFhi) 8
    else if opcode = 0x06 then .done (CPU_RLC_WRITE s) 16
    else if opcode = 0x10 then .done (CPU_RL s .BChi) 8
    else if opcode = 0x11 then .done (CPU_RL s .BClo) 8
    else if opcode = 0x12 then .done (CPU_RL s .DEhi) 8
    else if opcode = 0x13 then .done (CPU_RL s .DElo) 8
    else if opcode = 0x14 then .done (CPU_RL s .HLhi) 8
    else if opcode = 0x15 then .done (CPU_RL s .HLlo) 8
    else if opcode = 0x17 then .done (CPU_RL s .AFhi) 8
    else if opcode = 0x16 then .done (CPU_RL_WRITE s) 16
    else if opcode = 0x08 then .done (CPU_RRC s .BChi) 8
    else if opcode = 0x09 then .done (CPU_RRC s .BClo) 8
    else if opcode = 0x0A then .done (CPU_RRC s .DEhi) 8
    else if opcode = 0x0B then .done (CPU_RRC s .DElo) 8
    else if opcode = 0x0C then .done (CPU_RRC s .HLhi) 8
    else if opcode = 0x0D then .done (CPU_RRC s .HLlo) 8
    else if opcode = 0x0F then .done (CPU_RRC s .AFhi) 8
    else if opcode = 0x0E then .done (CPU_RRC_WRITE s) 16
    else if opcode = 0x18 then .done (CPU_RR s .BChi) 8
    else if opcode = 0x19 then .done (CPU_RR s .BClo) 8
    else if opcode = 0x1A then .done (CPU_RR s .DEhi) 8
    else if opcode = 0x1B then .done (CPU_RR s .DElo) 8
    else if opcode = 0x1C then .done (CPU_RR s .HLhi) 8
    else if opcode = 0x1D then .done (CPU_RR s .HLlo) 8
    else if opcode = 0x1F then .done (CPU_RR s .AFhi) 8
    else if opcode = 0x1E then .done (CPU_RR_WRITE s) 16
    else if opcode = 0x20 then .done (CPU_SLA s .BChi) 8
    else if opcode = 0x21 then .done (CPU_SLA s .BClo) 8
    else if opcode = 0x22 then .done (CPU_SLA s .DEhi) 8
    else if opcode = 0x23 then .done (CPU_SLA s .DElo) 8
    else if opcode = 0x24 then .done (CPU_SLA s .HLhi) 8
    else if opcode = 0x25 then .done (CPU_SLA s .HLlo) 8
    else if opcode = 0x27 then .done (CPU_SLA s .AFhi) 8
    else if opcode = 0x26 then .done (CPU_SLA_WRITE s) 16
    else if opcode = 0x30 then .done (CPU_SWAP s .BChi) 8
    else if opcode = 0x31 then .done (CPU_SWAP s .BClo) 8
    else if opcode = 0x32 then .done (CPU_SWAP s .DEhi) 8
    else if opcode = 0x33 then .done (CPU_SWAP s .DElo) 8
    else if opcode = 0x34 then .done (CPU_SWAP s .HLhi) 8
    else if opcode = 0x35 then .done (CPU_SWAP s .HLlo) 8
    else if opcode = 0x37 then .done (CPU_SWAP s .AFhi) 8
    else if opcode = 0x36 then .done (CPU_SWAP_WRITE s) 16
    else if opcode = 0x28 then .done (CPU_SRA s .BChi) 8
    else if opcode = 0x29 then .done (CPU_SRA s .BClo) 8
    else if opcode = 0x2A then .done (CPU_SRA s .DEhi) 8
    else if opcode = 0x2B then .done (CPU_SRA s .DElo) 8
    else if opcode = 0x2C then .done (CPU_SRA s .HLhi) 8
    else if opcode = 0x2D then .done (CPU_SRA s .HLlo) 8
    else if opcode = 0x2F then .done (CPU_SRA s .AFhi) 8
    else if opcode = 0x2E then .done (CPU_SRA_WRITE s) 16
    else if opcode = 0x38 then .done (CPU_SRL s .BChi) 8
    else if opcode = 0x39 then .done (CPU_SRL s .BClo) 8
    else if opcode = 0x3A then .done (CPU_SRL s .DEhi) 8
    else if opcode = 0x3B then .done (CPU_SRL s .DElo) 8
    else if opcode = 0x3C then .done (CPU_SRL s .HLhi) 8
    else if opcode = 0x3D then .done (CPU_SRL s .HLlo) 8
    else if opcode = 0x3F then .done (CPU_SRL s .AFhi) 8
    else if opcode = 0x3E then .done (CPU_SRL_WRITE s) 16
    else if opcode = 0x40 then .done (CPU_BIT s 0 s.BC.hi) 8
    else if opcode = 0x41 then .done (CPU_BIT s 0 s.BC.lo) 8
    else if opcode = 0x42 then .done (CPU_BIT s 0 s.DE.hi) 8
    else if opcode = 0x43 then .done (CPU_BIT s 0 s.DE.lo) 8
    else if opcode = 0x44 then .done (CPU_BIT s 0 s.HL.hi) 8
    else if opcode = 0x45 then .done (CPU_BIT s 0 s.HL.lo) 8
    else if opcode = 0x47 then .done (CPU_BIT s 0 s.AF.hi) 8
    else if opcode = 0x48 then .done (CPU_BIT s 1 s.BC.hi) 8
    else if opcode = 0x49 then .done (CPU_BIT s 1 s.BC.lo) 8
    else if opcode = 0x4A then .done (CPU_BIT s 1 s.DE.hi) 8
    else if opcode = 0x4B then .done (CPU_BIT s 1 s.DE.lo) 8
    else if opcode = 0x4C then .done (CPU_BIT s 1 s.HL.hi) 8
    else if opcode = 0x4D then .done (CPU_BIT s 1 s.HL.lo) 8
    else if opcode = 0x4F then .done (CPU_BIT s 1 s.AF.hi) 8
    else if opcode = 0x50 then .done (CPU_BIT s 2 s.BC.hi) 8
    else if opcode = 0x51 then .done (CPU_BIT s 2 s.BC.lo) 8
    else if opcode = 0x52 then .done (CPU_BIT s 2 s.DE.hi) 8
    else if opcode = 0x53 then .done (CPU_BIT s 2 s.DE.lo) 8
    else if opcode = 0x54 then .done (CPU_BIT s 2 s.HL.hi) 8
    else if opcode = 0x55 then .done (CPU_BIT s 2 s.HL.lo) 8
    else if opcode = 0x57 then .done (CPU_BIT s 2 s.AF.hi) 8
    else if opcode = 0x58 then .done (CPU_BIT s 3 s.BC.hi) 8
    else if opcode = 0x59 then .done (CPU_BIT s 3 s.BC.lo) 8
    else if opcode = 0x5A then .done (CPU_BIT s 3 s.DE.hi) 8
    else if opcode = 0x5B then .done (CPU_BIT s 3 s.DE.lo) 8
    else if opcode = 0x5C then .done (CPU_BIT s 3 s.HL.hi) 8
    else if opcode = 0x5D then .done (CPU_BIT s 3 s.HL.lo) 8
    else if opcode = 0x5F then .done (CPU_BIT s 3 s.AF.hi) 8
    else if opcode = 0x60 then .done (CPU_BIT s 4 s.BC.hi) 8
    else if opcode = 0x61 then .done (CPU_BIT s 4 s.BC.lo) 8
    else if opcode = 0x62 then .done (CPU_BIT s 4 s.DE.hi) 8
    else if opcode = 0x63 then .done (CPU_BIT s 4 s.DE.lo) 8
    else if opcode = 0x64 then .done (CPU_BIT s 4 s.HL.hi) 8
    else if opcode = 0x65 then .done (CPU_BIT s 4 s.HL.lo) 8
    else if opcode = 0x67 then .done (CPU_BIT s 4 s.AF.hi) 8
    else if opcode = 0x68 then .done (CPU_BIT s 5 s.BC.hi) 8
    else if opcode = 0x69 then .done (CPU_BIT s 5 s.BC.lo) 8
    else if opcode = 0x6A then .done (CPU_BIT s 5 s.DE.hi) 8
    else if opcode = 0x6B then .done (CPU_BIT s 5 s.DE.lo) 8
    else if opcode = 0x6C then .done (CPU_BIT s 5 s.HL.hi) 8
    else if opcode = 0x6D then .done (CPU_BIT s 5 s.HL.lo) 8
    else if opcode = 0x6F then .done (CPU_BIT s 5 s.AF.hi) 8
    else if opcode = 0x70 then .done (CPU_BIT s 6 s.BC.hi) 8
    else if opcode = 0x71 then .done (CPU_BIT s 6 s.BC.lo) 8
    else if opcode = 0x72 then .done (CPU_BIT s 6 s.DE.hi) 8
    else if opcode = 0x73 then .done (CPU_BIT s 6 s.DE.lo) 8
    else if opcode = 0x74 then .done (CPU_BIT s 6 s.HL.hi) 8
    else if opcode = 0x75 then .done (CPU_BIT s 6 s.HL.lo) 8
    else if opcode = 0x77 then .done (CPU_BIT s 6 s.AF.hi) 8
    else if opcode = 0x78 then .done (CPU_BIT s 7 s.BC.hi) 8
    else if opcode = 0x79 then .done (CPU_BIT s 7 s.BC.lo) 8
    else if opcode = 0x7A then .done (CPU_BIT s 7 s.DE.hi) 8
    else if opcode = 0x7B then .done (CPU_BIT s 7 s.DE.lo) 8
    else if opcode = 0x7C then .done (CPU_BIT s 7 s.HL.hi) 8
    else if opcode = 0x7D then .done (CPU_BIT s 7 s.HL.lo) 8
    else if opcode = 0x7F then .done (CPU_BIT s 7 s.AF.hi) 8
    else if opcode = 0x46 then .done (CPU_BIT s 0 (MMU.readByte s s.HL.reg)) 16
    else if opcode = 0x4E then .done (CPU_BIT s 1 (MMU.readByte s s.HL.reg)) 16
    else if opcode = 0x56 then .done (CPU_BIT s 2 (MMU.readByte s s.HL.reg)) 16
    else if opcode = 0x5E then .done (CPU_BIT s 3 (MMU.readByte s s.HL.reg)) 16
    else if opcode = 0x66 then .done (CPU_BIT s 4 (MMU.readByte s s.HL.reg)) 16
    else if opcode = 0x6E then .done (CPU_BIT s 5 (MMU.readByte s s.HL.reg)) 16
    else if opcode = 0x76 then .done (CPU_BIT s 6 (MMU.readByte s s.HL.reg)) 16
    else if opcode = 0x7E then .done (CPU_BIT s 7 (MMU.readByte s s.HL.reg)) 16
    else if opcode = 0xC0 then .done (CPU_SET s 0 .BChi) 8
    else if opcode = 0xC1 then .done (CPU_SET s 0 .BClo) 8
    else if opcode = 0xC2 then .done (CPU_SET s 0 .DEhi) 8
    else if opcode = 0xC3 then .done (CPU_SET s 0 .DElo) 8
    else if opcode = 0xC4 then .done (CPU_SET s 0 .HLhi) 8
    else if opcode = 0xC5 then .done (CPU_SET s 0 .HLlo) 8
    else if opcode = 0xC7 then .done (CPU_SET s 0 .AFhi) 8
    else if opcode = 0xC8 then .done (CPU_SET s 1 .BChi) 8
    else if opcode = 0xC9 then .done (CPU_SET s 1 .BClo) 8
    else if opcode = 0xCA then .done (CPU_SET s 1 .DEhi) 8
    else if opcode = 0xCB then .done (CPU_SET s 1 .DElo) 8
    else if opcode = 0xCC then .done (CPU_SET s 1 .HLhi) 8
    else if opcode = 0xCD then .done (CPU_SET s 1 .HLlo) 8
    else if opcode = 0xCF then .done (CPU_SET s 1 .AFhi) 8
    else if opcode = 0xD0 then .done (CPU_SET s 2 .BChi) 8
    else if opcode = 0xD1 then .done (CPU_SET s 2 .BClo) 8
    else if opcode = 0xD2 then .done (CPU_SET s 2 .DEhi) 8
    else if opcode = 0xD3 then .done (CPU_SET s 2 .DElo) 8
    else if opcode = 0xD4 then .done (CPU_SET s 2 .HLhi) 8
    else if opcode = 0xD5 then .done (CPU_SET s 2 .HLlo) 8
    else if opcode = 0xD7 then .done (CPU_SET s 2 .AFhi) 8
    else if opcode = 0xD8 then .done (CPU_SET s 3 .BChi) 8
    else if opcode = 0xD9 then .done (CPU_SET s 3 .BClo) 8
    else if opcode = 0xDA then .done (CPU_SET s 3 .DEhi) 8
    else if opcode = 0xDB then .done (CPU_SET s 3 .DElo) 8
    else if opcode = 0xDC then .done (CPU_SET s 3 .HLhi) 8
    else if opcode = 0xDD then .done (CPU_SET s 3 .HLlo) 8
    else if opcode = 0xDF then .done (CPU_SET s 3 .AFhi) 8
    else if opcode = 0xE0 then .done (CPU_SET s 4 .BChi) 8
    else if opcode = 0xE1 then .done (CPU_SET s 4 .BClo) 8
    else if opcode = 0xE2 then .done (CPU_SET s 4 .DEhi) 8
    else if opcode = 0xE3 then .done (CPU_SET s 4 .DElo) 8
    else if opcode = 0xE4 then .done (CPU_SET s 4 .HLhi) 8
    else if opcode = 0xE5 then .done (CPU_SET s 4 .HLlo) 8
    else if opcode = 0xE7 then .done (CPU_SET s 4 .AFhi) 8
    else if opcode = 0xE8 then .done (CPU_SET s 5 .BChi) 8
    else if opcode = 0xE9 then .done (CPU_SET s 5 .BClo) 8
    else if opcode = 0xEA then .done (CPU_SET s 5 .DEhi) 8
    else if opcode = 0xEB then .done (CPU_SET s 5 .DElo) 8
    else if opcode = 0xEC then .done (CPU_SET s 5 .HLhi) 8
    else if opcode = 0xED then .done (CPU_SET s 5 .HLlo) 8
    else if opcode = 0xEF then .done (CPU_SET s 5 .AFhi) 8
    else if opcode = 0xF0 then .done (CPU_SET s 6 .BChi) 8
    else if opcode = 0xF1 then .done (CPU_SET s 6 .BClo) 8
    else if opcode = 0xF2 then .done (CPU_SET s 6 .DEhi) 8
    else if opcode = 0xF3 then .done (CPU_SET s 6 .DElo) 8
    else if opcode = 0xF4 then .done (CPU_SET s 6 .HLhi) 8
    else if opcode = 0xF5 then .done (CPU_SET s 6 .HLlo) 8
    else if opcode = 0xF7 then .done (CPU_SET s 6 .AFhi) 8
    else if opcode = 0xF8 then .done (CPU_SET s 7 .BChi) 8
    else if opcode = 0xF9 then .done (CPU_SET s 7 .BClo) 8
    else if opcode = 0xFA then .done (CPU_SET s 7 .DEhi) 8
    else if opcode = 0xFB then .done (CPU_SET s 7 .DElo) 8
    else if opcode = 0xFC then .done (CPU_SET s 7 .HLhi) 8
    else if opcode = 0xFD then .done (CPU_SET s 7 .HLlo) 8
    else if opcode = 0xFF then .done (CPU_SET s 7 .AFhi) 8
    else if opcode = 0xC6 then .done (CPU_SET_WRITE s 0) 16
    else if opcode = 0xCE then .done (CPU_SET_WRITE s 1) 16
    else if opcode = 0xD6 then .done (CPU_SET_WRITE s 2) 16
    else if opcode = 0xDE then .done (CPU_SET_WRITE s 3) 16
    else if opcode = 0xE6 then .done (CPU_SET_WRITE s 4) 16
    else if opcode = 0xEE then .done (CPU_SET_WRITE s 5) 16
    else if opcode = 0xF6 then .done (CPU_SET_WRITE s 6) 16
    else if opcode = 0xFE then .done (CPU_SET_WRITE s 7) 16
    else if opcode = 0x80 then .done (CPU_RES s 0 .BChi) 8
    else if opcode = 0x81 then .done (CPU_RES s 0 .BClo) 8
    else if opcode = 0x82 then .done (CPU_RES s 0 .DEhi) 8
    else if opcode = 0x83 then .done (CPU_RES s 0 .DElo) 8
    else if opcode = 0x84 then .done (CPU_RES s 0 .HLhi) 8
    else if opcode = 0x85 then .done (CPU_RES s 0 .HLlo) 8
    else if opcode = 0x87 then .done (CPU_RES s 0 .AFhi) 8
    else if opcode = 0x88 then .done (CPU_RES s 1 .BChi) 8
    else if opcode = 0x89 then .done (CPU_RES s 1 .BClo) 8
    else if opcode = 0x8A then .done (CPU_RES s 1 .DEhi) 8
    else if opcode = 0x8B then .done (CPU_RES s 1 .DElo) 8
    else if opcode = 0x8C then .done (CPU_RES s 1 .HLhi) 8
    else if opcode = 0x8D then .done (CPU_RES s 1 .HLlo) 8
    else if opcode = 0x8F then .done (CPU_RES s 1 .AFhi) 8
    else if opcode = 0x90 then .done (CPU_RES s 2 .BChi) 8
    else if opcode = 0x91 then .done (CPU_RES s 2 .BClo) 8
    else if opcode = 0x92 then .done (CPU_RES s 2 .DEhi) 8
    else if opcode = 0x93 then .done (CPU_RES s 2 .DElo) 8
    else if opcode = 0x94 then .done (CPU_RES s 2 .HLhi) 8
    else if opcode = 0x95 then .done (CPU_RES s 2 .HLlo) 8
    else if opcode = 0x97 then .done (CPU_RES s 2 .AFhi) 8
    else if opcode = 0x98 then .done (CPU_RES s 3 .BChi) 8
    else if opcode = 0x99 then .done (CPU_RES s 3 .BClo) 8
    else if opcode = 0x9A then .done (CPU_RES s 3 .DEhi) 8
    else if opcode = 0x9B then .done (CPU_RES s 3 .DElo) 8
    else if opcode = 0x9C then .done (CPU_RES s 3 .HLhi) 8
    else if opcode = 0x9D then .done (CPU_RES s 3 .HLlo) 8
    else if opcode = 0x9F then .done (CPU_RES s 3 .AFhi) 8
    else if opcode = 0xA0 then .done (CPU_RES s 4 .BChi) 8
    else if opcode = 0xA1 then .done (CPU_RES s 4 .BClo) 8
    else if opcode = 0xA2 then .done (CPU_RES s 4 .DEhi) 8
    else if opcode = 0xA3 then .done (CPU_RES s 4 .DElo) 8
    else if opcode = 0xA4 then .done (CPU_RES s 4 .HLhi) 8
    else if opcode = 0xA5 then .done (CPU_RES s 4 .HLlo) 8
    else if opcode = 0xA7 then .done (CPU_RES s 4 .AFhi) 8
    else if opcode = 0xA8 then .done (CPU_RES s 5 .BChi) 8
    else if opcode = 0xA9 then .done (CPU_RES s 5 .BClo) 8
    else if opcode = 0xAA then .done (CPU_RES s 5 .DEhi) 8
    else if opcode = 0xAB then .done (CPU_RES s 5 .DElo) 8
    else if opcode = 0xAC then .done (CPU_RES s 5 .HLhi) 8
    else if opcode = 0xAD then .done (CPU_RES s 5 .HLlo) 8
    else if opcode = 0xAF then .done (CPU_RES s 5 .AFhi) 8
    else if opcode = 0xB0 then .done (CPU_RES s 6 .BChi) 8
    else if opcode = 0xB1 then .done (CPU_RES s 6 .BClo) 8
    else if opcode = 0xB2 then .done (CPU_RES s 6 .DEhi) 8
    else if opcode = 0xB3 then .done (CPU_RES s 6 .DElo) 8
    else if opcode = 0xB4 then .done (CPU_RES s 6 .HLhi) 8
    else if opcode = 0xB5 then .done (CPU_RES s 6 .HLlo) 8
    else if opcode = 0xB7 then .done (CPU_RES s 6 .AFhi) 8
    else if opcode = 0xB8 then .done (CPU_RES s 7 .BChi) 8
    else if opcode = 0xB9 then .done (CPU_RES s 7 .BClo) 8
    else if opcode = 0xBA then .done (CPU_RES s 7 .DEhi) 8
    else if opcode = 0xBB then .done (CPU_RES s 7 .DElo) 8
    else if opcode = 0xBC then .done (CPU_RES s 7 .HLhi) 8
    else if opcode = 0xBD then .done (CPU_RES s 7 .HLlo) 8
    else if opcode = 0xBF then .done (CPU_RES s 7 .AFhi) 8
    else if opcode = 0x86 then .done (CPU_RES_WRITE s 0) 16
    else if opcode = 0x8E then .done (CPU_RES_WRITE s 1) 16
    else if opcode = 0x96 then .done (CPU_RES_WRITE s 2) 16
    else if opcode = 0x9E then .done (CPU_RES_WRITE s 3) 16
    else if opcode = 0xA6 then .done (CPU_RES_WRITE s 4) 16
    else if opcode = 0xAE then .done (CPU_RES_WRITE s 5) 16
    else if opcode = 0xB6 then .done (CPU_RES_WRITE s 6) 16
    else if opcode = 0xBE then .done (CPU_RES_WRITE s 7) 16
    else .unknownOpcode

set_option maxRecDepth 100000 in
/-- The method `CPU::executeOpcode`, in the same form.  Case 0x76 calls the method
again; the first argument bounds the depth of that recursion. -/
def executeOpcode : Nat → Machine → Nat → Outcome
  | 0, _, _ => .outOfFuel
  | fuel + 1, s, opcode =>
    if opcode = 0x78 then .done (CPU_LOAD s .AFhi s.BC.hi) 4
    else if opcode = 0x79 then .done (CPU_LOAD s .AFhi s.BC.lo) 4
    else if opcode = 0x7A then .done (CPU_LOAD s .AFhi s.DE.hi) 4
    else if opcode = 0x7B then .done (CPU_LOAD s .AFhi s.DE.lo) 4
    else if opcode = 0x7C then .done (CPU_LOAD s .AFhi s.HL.hi) 4
    else if opcode = 0x7D then .done (CPU_LOAD s .AFhi s.HL.lo) 4
    else if opcode = 0x7F then .done (CPU_LOAD s .AFhi s.AF.hi) 4
    else if opcode = 0x40 then .done (CPU_LOAD s .BChi s.BC.hi) 4
    else if opcode = 0x41 then .done (CPU_LOAD s .BChi s.BC.lo) 4
    else if opcode = 0x42 then .done (CPU_LOAD s .BChi s.DE.hi) 4
    else if opcode = 0x43 then .done (CPU_LOAD s .BChi s.DE.lo) 4
    else if opcode = 0x44 then .done (CPU_LOAD s .BChi s.HL.hi) 4
    else if opcode = 0x45 then .done (CPU_LOAD s .BChi s.HL.lo) 4
    else if opcode = 0x47 then .done (CPU_LOAD s .BChi s.AF.hi) 4
    else if opcode = 0x48 then .done (CPU_LOAD s .BClo s.BC.hi) 4
    else if opcode = 0x49 then .done (CPU_LOAD s .BClo s.BC.lo) 4
    else if opcode = 0x4A then .done (CPU_LOAD s .BClo s.DE.hi) 4
    else if opcode = 0x4B then .done (CPU_LOAD s .BClo s.DE.lo) 4
    else if opcode = 0x4C then .done (CPU_LOAD s .BClo s.HL.hi) 4
    else if opcode = 0x4D then .done (CPU_LOAD s .BClo s.HL.lo) 4
    else if opcode = 0x4F then .done (CPU_LOAD s .BClo s.AF.hi) 4
    else if opcode = 0x50 then .done (CPU_LOAD s .DEhi s.BC.hi) 4
    else if opcode = 0x51 then .done (CPU_LOAD s .DEhi s.BC.lo) 4
    else if opcode = 0x52 then .done (CPU_LOAD s .DEhi s.DE.hi) 4
    else if opcode = 0x53 then .done (CPU_LOAD s .DEhi s.DE.lo) 4
    else if opcode = 0x54 then .done (CPU_LOAD s .DEhi s.HL.hi) 4
    else if opcode = 0x55 then .done (CPU_LOAD s .DEhi s.HL.lo) 4
    else if opcode = 0x57 then .done (CPU_LOAD s .DEhi s.AF.hi) 4
    else if opcode = 0x58 then .done (CPU_LOAD s .DElo s.BC.hi) 4
    else if opcode = 0x59 then .done (CPU_LOAD s .DElo s.BC.lo) 4
    else if opcode = 0x5A then .done (CPU_LOAD s .DElo s.DE.hi) 4
    else if opcode = 0x5B then .done (CPU_LOAD s .DElo s.DE.lo) 4
    else if opcode = 0x5C then .done (CPU_LOAD s .DElo s.HL.hi) 4
    else if opcode = 0x5D then .done (CPU_LOAD s .DElo s.HL.lo) 4
    else if opcode = 0x5F then .done (CPU_LOAD s .DElo s.AF.hi) 4
    else if opcode = 0x60 then .done (CPU_LOAD s .HLhi s.BC.hi) 4
    else if opcode = 0x61 then .done (CPU_LOAD s .HLhi s.BC.lo) 4
    else if opcode = 0x62 then .done (CPU_LOAD s .HLhi s.DE.hi) 4
    else if opcode = 0x63 then .done (CPU_LOAD s .HLhi s.DE.lo) 4
    else if opcode = 0x64 then .done (CPU_LOAD s .HLhi s.HL.hi) 4
    else if opcode = 0x65 then .done (CPU_LOAD s .HLhi s.HL.lo) 4
    else if opcode = 0x67 then .done (CPU_LOAD s .HLhi s.AF.hi) 4
    else if opcode = 0x68 then .done (CPU_LOAD s .HLlo s.BC.hi) 4
    else if opcode = 0x69 then .done (CPU_LOAD s .HLlo s.BC.lo) 4
    else if opcode = 0x6A then .done (CPU_LOAD s .HLlo s.DE.hi) 4
    else if opcode = 0x6B then .done (CPU_LOAD s .HLlo s.DE.lo) 4
    else if opcode = 0x6C then .done (CPU_LOAD s .HLlo s.HL.hi) 4
    else if opcode = 0x6D then .done (CPU_LOAD s .HLlo s.HL.lo) 4
    else if opcode = 0x6F then .done (CPU_LOAD s .HLlo s.AF.hi) 4
    else if opcode = 0x3E then
      let v := MMU.readByte s s.PC
      let s := pcInc s
      let s := CPU_LOAD s .AFhi v
      .done s 8
    else if opcode = 0x06 then
      let v := MMU.readByte s s.PC
      let s := pcInc s
      let s := CPU_LOAD s .BChi v
      .done s 8
    else if opcode = 0x0E then
      let v := MMU.readByte s s.PC
      let s := pcInc s
      let s := CPU_LOAD s .BClo v
      .done s 8
    else if opcode = 0x16 then
      let v := MMU.readByte s s.PC
      let s := pcInc s
      let s := CPU_LOAD s .DEhi v
      .done s 8
    else if opcode = 0x1E then
      let v := MMU.readByte s s.PC
      let s := pcInc s
      let s := CPU_LOAD s .DElo v
      .done s 8
    else if opcode = 0x26 then
      let v := MMU.readByte s s.PC
      let s := pcInc s
      let s := CPU_LOAD s .HLhi v
      .done s 8
    else if opcode = 0x2E then
      let v := MMU.readByte s s.PC
      let s := pcInc s
      let s := CPU_LOAD s .HLlo v
      .done s 8
    else if opcode = 0x7E then .done (CPU_LOAD s .AFhi (MMU.readByte s s.HL.reg)) 8
    else if opcode = 0x46 then .done (CPU_LOAD s .BChi (MMU.readByte s s.HL.reg)) 8
    else if opcode = 0x4E then .done (CPU_LOAD s .BClo (MMU.readByte s s.HL.reg)) 8
    else if opcode = 0x56 then .done (CPU_LOAD s .DEhi (MMU.readByte s s.HL.reg)) 8
    else if opcode = 0x5E then .done (CPU_LOAD s .DElo (MMU.readByte s s.HL.reg)) 8
    else if opcode = 0x66 then .done (CPU_LOAD s .HLhi (MMU.readByte s s.HL.reg)) 8
    else if opcode = 0x6E then .done (CPU_LOAD s .HLlo (MMU.readByte s s.HL.reg)) 8
    else if opcode = 0x70 then .done (CPU_LOAD_WRITE s s.HL.reg s.BC.hi) 8
    else if opcode = 0x71 then .done (CPU_LOAD_WRITE s s.HL.reg s.BC.lo) 8
    else if opcode = 0x72 then .done (CPU_LOAD_WRITE s s.HL.reg s.DE.hi) 8
    else if opcode = 0x73 then .done (CPU_LOAD_WRITE s s.HL.reg s.DE.lo) 8
    else if opcode = 0x74 then .done (CPU_LOAD_WRITE s s.HL.reg s.HL.hi) 8
    else if opcode = 0x75 then .done (CPU_LOAD_WRITE s s.HL.reg s.HL.lo) 8
    else if opcode = 0x77 then .done (CPU_LOAD_WRITE s s.HL.reg s.AF.hi) 8
    else if opcode = 0x36 then
      let v := MMU.readByte s s.PC
      let s := pcInc s
      let s := CPU_LOAD_WRITE s s.HL.reg v
      .done s 12
    else if opcode = 0x0A then .done (CPU_LOAD s .AFhi (MMU.readByte s s.BC.reg)) 8
    else if opcode = 0x1A then .done (CPU_LOAD s .AFhi (MMU.readByte s s.DE.reg)) 8
    else if opcode = 0xFA then
      let s := pcAdd2 s
      let s := CPU_LOAD s .AFhi (MMU.readByte s (readWordBehindPC s))
      .done s 16
    else if opcode = 0x02 then .done (CPU_LOAD_WRITE s s.BC.reg s.AF.hi) 8
    else if opcode = 0x12 then .done (CPU_LOAD_WRITE s s.DE.reg s.AF.hi) 8
    else if opcode = 0xEA then
      let s := pcAdd2 s
      let s := CPU_LOAD_WRITE s (readWordBehindPC s) s.AF.hi
      .done s 16
    else if opcode = 0x08 then
      let s := pcAdd2 s
      let s := CPU_LOAD_WRITE_16BIT s (readWordBehindPC s) s.SP.reg
      .done s 20
    else if opcode = 0xF0 then
      let v := MMU.readByte s s.PC
      let s := pcInc s
      let s := CPU_LOAD s .AFhi (MMU.readByte s ((0xFF00 + v) % 65536))
      .done s 12
    else if opcode = 0xE0 then
      let v := MMU.readByte s s.PC
      let s := pcInc s
      let s := CPU_LOAD_WRITE s ((0xFF00 + v) % 65536) s.AF.hi
      .done s 12
    else if opcode = 0xF2 then .done (CPU_LOAD s .AFhi (MMU.readByte s ((0xFF00 + s.BC.lo) % 65536))) 8
    else if opcode = 0xE2 then .done (CPU_LOAD_WRITE s ((0xFF00 + s.BC.lo) % 65536) s.AF.hi) 8
    else if opcode = 0x22 then
      let w := s.HL.reg
      let s := s.set16 .HL (s.HL.reg + 1)
      let s := CPU_LOAD_WRITE s w s.AF.hi
      .done s 8
    else if opcode = 0x2A then
      let w := s.HL.reg
      let s := s.set16 .HL (s.HL.reg + 1)
      let s := CPU_LOAD s .AFhi (MMU.readByte s w)
      .done s 8
    else if opcode = 0x32 then
      let w := s.HL.reg
      let s := s.set16 .HL (s.HL.reg + 65536 - 1)
      let s := CPU_LOAD_WRITE s w s.AF.hi
      .done s 8
    else if opcode = 0x3A then
      let w := s.HL.reg
      let s := s.set16 .HL (s.HL.reg + 65536 - 1)
      let s := CPU_LOAD s .AFhi (MMU.readByte s w)
      .done s 8
    else if opcode = 0x01 then
      let s := pcAdd2 s
      let s := CPU_LOAD_16BIT s .BC (readWordBehindPC s) 0 false
      .done s 12
    else if opcode = 0x11 then
      let s := pcAdd2 s
      let s := CPU_LOAD_16BIT s .DE (readWordBehindPC s) 0 false
      .done s 12
    else if opcode = 0x21 then
      let s := pcAdd2 s
      let s := CPU_LOAD_16BIT s .HL (readWordBehindPC s) 0 false
      .done s 12
    else if opcode = 0x31 then
      let s := pcAdd2 s
      let s := CPU_LOAD_16BIT s .SP (readWordBehindPC s) 0 false
      .done s 12
    else if opcode = 0xF9 then .done (CPU_LOAD_16BIT s .SP s.HL.reg 0 false) 8
    else if opcode = 0xC5 then .done (CPU_PUSH s .BC) 16
    else if opcode = 0xD5 then .done (CPU_PUSH s .DE) 16
    else if opcode = 0xE5 then .done (CPU_PUSH s .HL) 16
    else if opcode = 0xF5 then
      let s := s.set16 .AF (s.AF.reg &&& 0xFFF0)
      let s := CPU_PUSH s .AF
      .done s 16
    else if opcode = 0xC1 then .done (CPU_POP s .BC) 12
    else if opcode = 0xD1 then .done (CPU_POP s .DE) 12
    else if opcode = 0xE1 then .done (CPU_POP s .HL) 12
    else if opcode = 0xF1 then
      let s := s.set16 .AF (s.AF.reg &&& 0xFFF0)
      let s := CPU_POP s .AF
      .done s 12
    else if opcode = 0x80 then .done (CPU_ADD s s.BC.hi false) 4
    else if opcode = 0x81 then .done (CPU_ADD s s.BC.lo false) 4
    else if opcode = 0x82 then .done (CPU_ADD s s.DE.hi false) 4
    else if opcode = 0x83 then .done (CPU_ADD s s.DE.lo false) 4
    else if opcode = 0x84 then .done (CPU_ADD s s.HL.hi false) 4
    else if opcode = 0x85 then .done (CPU_ADD s s.HL.lo false) 4
    else if opcode = 0x87 then .done (CPU_ADD s s.AF.hi false) 4
    else if opcode = 0xC6 then
      let v := MMU.readByte s s.PC
      let s := pcInc s
      let s := CPU_ADD s v false
      .done s 8
    else if opcode = 0x86 then .done (CPU_ADD s (MMU.readByte s s.HL.reg) false) 8
    else if opcode = 0x88 then .done (CPU_ADD s s.BC.hi true) 4
    else if opcode = 0x89 then .done (CPU_ADD s s.BC.lo true) 4
    else if opcode = 0x8A then .done (CPU_ADD s s.DE.hi true) 4
    else if opcode = 0x8B then .done (CPU_ADD s s.DE.lo true) 4
    else if opcode = 0x8C then .done (CPU_ADD s s.HL.hi true) 4
    else if opcode = 0x8D then .done (CPU_ADD s s.HL.lo true) 4
    else if opcode = 0x8F then .done (CPU_ADD s s.AF.hi true) 4
    else if opcode = 0xCE then
      let v := MMU.readByte s s.PC
      let s := pcInc s
      let s := CPU_ADD s v true
      .done s 8
    else if opcode = 0x8E then .done (CPU_ADD s (MMU.readByte s s.HL.reg) true) 8
    else if opcode = 0x90 then .done (CPU_SUB s s.BC.hi false) 4
    else if opcode = 0x91 then .done (CPU_SUB s s.BC.lo false) 4
    else if opcode = 0x92 then .done (CPU_SUB s s.DE.hi false) 4
    else if opcode = 0x93 then .done (CPU_SUB s s.DE.lo false) 4
    else if opcode = 0x94 then .done (CPU_SUB s s.HL.hi false) 4
    else if opcode = 0x95 then .done (CPU_SUB s s.HL.lo false) 4
    else if opcode = 0x97 then .done (CPU_SUB s s.AF.hi false) 4
    else if opcode = 0xD6 then
      let v := MMU.readByte s s.PC
      let s := pcInc s
      let s := CPU_SUB s v false
      .done s 8
    else if opcode = 0x96 then .done (CPU_SUB s (MMU.readByte s s.HL.reg) false) 8
    else if opcode = 0x98 then .done (CPU_SUB s s.BC.hi true) 4
    else if opcode = 0x99 then .done (CPU_SUB s s.BC.lo true) 4
    else if opcode = 0x9A then .done (CPU_SUB s s.DE.hi true) 4
    else if opcode = 0x9B then .done (CPU_SUB s s.DE.lo true) 4
    else if opcode = 0x9C then .done (CPU_SUB s s.HL.hi true) 4
    else if opcode = 0x9D then .done (CPU_SUB s s.HL.lo true) 4
    else if opcode = 0x9F then .done (CPU_SUB s s.AF.hi true) 4
    else if opcode = 0xDE then
      let v := MMU.readByte s s.PC
      let s := pcInc s
      let s := CPU_SUB s v true
      .done s 8
    else if opcode = 0x9E then .done (CPU_SUB s (MMU.readByte s s.HL.reg) true) 8
    else if opcode = 0xA0 then .done (CPU_AND s s.BC.hi) 4
    else if opcode = 0xA1 then .done (CPU_AND s s.BC.lo) 4
    else if opcode = 0xA2 then .done (CPU_AND s s.DE.hi) 4
    else if opcode = 0xA3 then .done (CPU_AND s s.DE.lo) 4
    else if opcode = 0xA4 then .done (CPU_AND s s.HL.hi) 4
    else if opcode = 0xA5 then .done (CPU_AND s s.HL.lo) 4
    else if opcode = 0xA7 then .done (CPU_AND s s.AF.hi) 4
    else if opcode = 0xE6 then
      let v := MMU.readByte s s.PC
      let s := pcInc s
      let s := CPU_AND s v
      .done s 8
    else if opcode = 0xA6 then .done (CPU_AND s (MMU.readByte s s.HL.reg)) 8
    else if opcode = 0xA8 then .done (CPU_XOR s s.BC.hi) 4
    else if opcode = 0xA9 then .done (CPU_XOR s s.BC.lo) 4
    else if opcode = 0xAA then .done (CPU_XOR s s.DE.hi) 4
    else if opcode = 0xAB then .done (CPU_XOR s s.DE.lo) 4
    else if opcode = 0xAC then .done (CPU_XOR s s.HL.hi) 4
    else if opcode = 0xAD then .done (CPU_XOR s s.HL.lo) 4
    else if opcode = 0xAF then .done (CPU_XOR s s.AF.hi) 4
    else if opcode = 0xEE then
      let v := MMU.readByte s s.PC
      let s := pcInc s
      let s := CPU_XOR s v
      .done s 8
    else if opcode = 0xAE then .done (CPU_XOR s (MMU.readByte s s.HL.reg)) 8
    else if opcode = 0xB0 then .done (CPU_OR s s.BC.hi) 4
    else if opcode = 0xB1 then .done (CPU_OR s s.BC.lo) 4
    else if opcode = 0xB2 then .done (CPU_OR s s.DE.hi) 4
    else if opcode = 0xB3 then .done (CPU_OR s s.DE.lo) 4
    else if opcode = 0xB4 then .done (CPU_OR s s.HL.hi) 4
    else if opcode = 0xB5 then .done (CPU_OR s s.HL.lo) 4
    else if opcode = 0xB7 then .done (CPU_OR s s.AF.hi) 4
    else if opcode = 0xF6 then
      let v := MMU.readByte s s.PC
      let s := pcInc s
      let s := CPU_OR s v
      .done s 8
    else if opcode = 0xB6 then .done (CPU_OR s (MMU.readByte s s.HL.reg)) 8
    else if opcode = 0xB8 then .done (CPU_CP s s.BC.hi) 4
    else if opcode = 0xB9 then .done (CPU_CP s s.BC.lo) 4
    else if opcode = 0xBA then .done (CPU_CP s s.DE.hi) 4
    else if opcode = 0xBB then .done (CPU_CP s s.DE.lo) 4
    else if opcode = 0xBC then .done (CPU_CP s s.HL.hi) 4
    else if opcode = 0xBD then .done (CPU_CP s s.HL.lo) 4
    else if opcode = 0xBF then .done (CPU_CP s s.AF.hi) 4
    else if opcode = 0xFE then
      let v := MMU.readByte s s.PC
      let s := pcInc s
      let s := CPU_CP s v
      .done s 8
    else if opcode = 0xBE then .done (CPU_CP s (MMU.readByte s s.HL.reg)) 8
    else if opcode = 0x04 then .done (CPU_INC s .BChi) 4
    else if opcode = 0x0C then .done (CPU_INC s .BClo) 4
    else if opcode = 0x14 then .done (CPU_INC s .DEhi) 4
    else if opcode = 0x1C then .done (CPU_INC s .DElo) 4
    else if opcode = 0x24 then .done (CPU_INC s .HLhi) 4
    else if opcode = 0x2C then .done (CPU_INC s .HLlo) 4
    else if opcode = 0x3C then .done (CPU_INC s .AFhi) 4
    else if opcode = 0x34 then .done (CPU_INC_WRITE s) 12
    else if opcode = 0x05 then .done (CPU_DEC s .BChi) 4
    else if opcode = 0x0D then .done (CPU_DEC s .BClo) 4
    else if opcode = 0x15 then .done (CPU_DEC s .DEhi) 4
    else if opcode = 0x1D then .done (CPU_DEC s .DElo) 4
    else if opcode = 0x25 then .done (CPU_DEC s .HLhi) 4
    else if opcode = 0x2D then .done (CPU_DEC s .HLlo) 4
    else if opcode = 0x3D then .done (CPU_DEC s .AFhi) 4
    else if opcode = 0x35 then .done (CPU_DEC_WRITE s) 12
    else if opcode = 0x27 then .done (CPU_DAA s) 4
    else if opcode = 0x2F then .done (CPU_CPL s) 4
    else if opcode = 0x09 then .done (CPU_ADD_16BIT s .HL .BC) 8
    else if opcode = 0x19 then .done (CPU_ADD_16BIT s .HL .DE) 8
    else if opcode = 0x29 then .done (CPU_ADD_16BIT s .HL .HL) 8
    else if opcode = 0x39 then .done (CPU_ADD_16BIT s .HL .SP) 8
    else if opcode = 0x03 then .done (CPU_INC_16BIT s .BC) 8
    else if opcode = 0x13 then .done (CPU_INC_16BIT s .DE) 8
    else if opcode = 0x23 then .done (CPU_INC_16BIT s .HL) 8
    else if opcode = 0x33 then .done (CPU_INC_16BIT s .SP) 8
    else if opcode = 0x0B then .done (CPU_DEC_16BIT s .BC) 8
    else if opcode = 0x1B then .done (CPU_DEC_16BIT s .DE) 8
    else if opcode = 0x2B then .done (CPU_DEC_16BIT s .HL) 8
    else if opcode = 0x3B then .done (CPU_DEC_16BIT s .SP) 8
    else if opcode = 0xE8 then
      let v := MMU.readByte s s.PC
      let s := pcInc s
      let s := CPU_ADD_16BIT_SIGNED s .SP (toSigned v)
      .done s 16
    else if opcode = 0xF8 then
      let v := MMU.readByte s s.PC
      let s := pcInc s
      let s := CPU_LOAD_16BIT s .HL s.SP.reg (toSigned v) true
      .done s 12
    else if opcode = 0x07 then .done (CPU_RLCA s .AFhi) 4
    else if opcode = 0x17 then .done (CPU_RLA s .AFhi) 4
    else if opcode = 0x0F then .done (CPU_RRCA s .AFhi) 4
    else if opcode = 0x1F then .done (CPU_RRA s .AFhi) 4
    else if opcode = 0xCB then
      let v := MMU.readByte s s.PC
      let s := pcInc s
      executeExtendedOpcode s v
    else if opcode = 0x3F then .done (CPU_CCF s) 4
    else if opcode = 0x37 then .done (CPU_SCF s) 4
    else if opcode = 0x00 then .done s 4
    else if opcode = 0x76 then
      let s := CPU_HALT s
      if !s.cpu.halt then
        match executeOpcode fuel s (MMU.readByte s s.PC) with
        | .done s1 cycles => .done s1 (4 + cycles)
        | o => o
      else .done s 4
    else if opcode = 0x10 then .done s 4
    else if opcode = 0xF3 then .done (CPU_DI s) 4
    else if opcode = 0xFB then .done (CPU_EI s) 4
    else if opcode = 0xC3 then
      let s := pcAdd2 s
      let s := CPU_JP s false (readWordBehindPC s) 0 false
      .done s 16
    else if opcode = 0xE9 then .done (CPU_JP s false s.HL.reg 0 false) 4
    else if opcode = 0xC2 then
      let s := pcAdd2 s
      let s := CPU_JP s true (readWordBehindPC s) FLAG_Z false
      .done s (if !isFlagged s.AF.lo FLAG_Z then 16 else 12)
    else if opcode = 0xCA then
      let s := pcAdd2 s
      let s := CPU_JP s true (readWordBehindPC s) FLAG_Z true
      .done s (if isFlagged s.AF.lo FLAG_Z then 16 else 12)
    else if opcode = 0xD2 then
      let s := pcAdd2 s
      let s := CPU_JP s true (readWordBehindPC s) FLAG_C false
      .done s (if !isFlagged s.AF.lo FLAG_C then 16 else 12)
    else if opcode = 0xDA then
      let s := pcAdd2 s
      let s := CPU_JP s true (readWordBehindPC s) FLAG_C true
      .done s (if isFlagged s.AF.lo FLAG_C then 16 else 12)
    else if opcode = 0x18 then
      let v := MMU.readByte s s.PC
      let s := pcInc s
      let s := CPU_JR s false (toSigned v) 0 false
      .done s 12
    else if opcode = 0x20 then
      let v := MMU.readByte s s.PC
      let s := pcInc s
      let s := CPU_JR s true (toSigned v) FLAG_Z false
      .done s (if !isFlagged s.AF.lo FLAG_Z then 12 else 8)
    else if opcode = 0x28 then
      let v := MMU.readByte s s.PC
      let s := pcInc s
      let s := CPU_JR s true (toSigned v) FLAG_Z true
      .done s (if isFlagged s.AF.lo FLAG_Z then 12 else 8)
    else if opcode = 0x30 then
      let v := MMU.readByte s s.PC
      let s := pcInc s
      let s := CPU_JR s true (toSigned v) FLAG_C false
      .done s (if !isFlagged s.AF.lo FLAG_C then 12 else 8)
    else if opcode = 0x38 then
      let v := MMU.readByte s s.PC
      let s := pcInc s
      let s := CPU_JR s true (toSigned v) FLAG_C true
      .done s (if isFlagged s.AF.lo FLAG_C then 12 else 8)
    else if opcode = 0xCD then
      let s := pcAdd2 s
      let s := CPU_CALL s false (readWordBehindPC s) 0 false
      .done s 24
    else if opcode = 0xC4 then
      let s := pcAdd2 s
      let s := CPU_CALL s true (readWordBehindPC s) FLAG_Z false
      .done s (if !isFlagged s.AF.lo FLAG_Z then 24 else 12)
    else if opcode = 0xCC then
      let s := pcAdd2 s
      let s := CPU_CALL s true (readWordBehindPC s) FLAG_Z true
      .done s (if isFlagged s.AF.lo FLAG_Z then 24 else 12)
    else if opcode = 0xD4 then
      let s := pcAdd2 s
      let s := CPU_CALL s true (readWordBehindPC s) FLAG_C false
      .done s (if !isFlagged s.AF.lo FLAG_C then 24 else 12)
    else if opcode = 0xDC then
      let s := pcAdd2 s
      let s := CPU_CALL s true (readWordBehindPC s) FLAG_C true
      .done s (if isFlagged s.AF.lo FLAG_C then 24 else 12)
    else if opcode = 0xC9 then .done (CPU_RET s false 0 false) 16
    else if opcode = 0xC0 then
      let s := CPU_RET s true FLAG_Z false
      .done s (if !isFlagged s.AF.lo FLAG_Z then 20 else 8)
    else if opcode = 0xC8 then
      let s := CPU_RET s true FLAG_Z true
      .done s (if isFlagged s.AF.lo FLAG_Z then 20 else 8)
    else if opcode = 0xD0 then
      let s := CPU_RET s true FLAG_C false
      .done s (if !isFlagged s.AF.lo FLAG_C then 20 else 8)
    else if opcode = 0xD8 then
      let s := CPU_RET s true FLAG_C true
      .done s (if isFlagged s.AF.lo FLAG_C then 20 else 8)
    else if opcode = 0xD9 then .done (CPU_RETI s) 16
    else if opcode = 0xC7 then .done (CPU_RST s 0x0000) 16
    else if opcode = 0xCF then .done (CPU_RST s 0x0008) 16
    else if opcode = 0xD7 then .done (CPU_RST s 0x0010) 16
    else if opcode = 0xDF then .done (CPU_RST s 0x0018) 16
    else if opcode = 0xE7 then .done (CPU_RST s 0x0020) 16
    else if opcode = 0xEF then .done (CPU_RST s 0x0028) 16
    else if opcode = 0xF7 then .done (CPU_RST s 0x0030) 16
    else if opcode = 0xFF then .done (CPU_RST s 0x0038) 16
    else .unknownOpcode

/-- The method `CPU::addToClock`. -/
def CPU.addToClock (s : Machine) (clockCycles : Int) : Machine :=
  { s with cpu := { s.cpu with clock := s.cpu.clock + clockCycles } }

/-- The method `CPU::handleInterrupts`. -/
def handleInterrupts (s : Machine) : Machine :=
  let interrupts := (s.ifRegister &&& s.ieRegister &&& 0x1F) % 256
  let s :=
    if s.cpu.halt && decide (interrupts ≠ 0) then
      let s := pcInc s
      { s with cpu := { s.cpu with halt := false } }
    else s
  if !s.cpu.IME then s
  else if (interrupts &&& 0x1) ≠ 0 then
    let s := { s with cpu := { s.cpu with IME := false } }
    let s := { s with ifRegister := s.ifRegister &&& 0xFE }
    CPU_RST s 0x0040
  else if (interrupts &&& 0x2) ≠ 0 then
    let s := { s with cpu := { s.cpu with IME := false } }
    let s := { s with ifRegister := s.ifRegister &&& 0xFD }
    CPU_RST s 0x0048
  else if (interrupts &&& 0x4) ≠ 0 then
    let s := { s with cpu := { s.cpu with IME := false } }
    let s := { s with ifRegister := s.ifRegister &&& 0xFB }
    CPU_RST s 0x0050
  else if (interrupts &&& 0x10) ≠ 0 then
    let s := { s with cpu := { s.cpu with IME := false } }
    let s := { s with ifRegister := s.ifRegister &&& 0xEF }
    CPU_RST s 0x0060
  else s

/-- The method `CPU::step`; the first argument bounds the depth of the
recursion of `executeOpcode`. -/
def step (fuel : Nat) (s : Machine) : Outcome :=
  let v := MMU.readByte s s.PC
  let s := pcInc s
  executeOpcode fuel s v

/-! ## Notions used in the statements -/

/-- What a finished call leaves in an observable of the machine. -/
def Outcome.read {α : Type} (o : Outcome) (f : Machine → α) : Option α :=
  match o with
  | .done s _ => some (f s)
  | _ => none

/-- The cycle count a finished call returns. -/
def Outcome.cycles (o : Outcome) : Option Nat :=
  match o with
  | .done _ c => some c
  | _ => none

/-- Work RAM (0xC000-0xDFFF) or high RAM (0xFF80-0xFFFE). -/
def InRam (a : Nat) : Prop := (0xC000 ≤ a ∧ a ≤ 0xDFFF) ∨ (0xFF80 ≤ a ∧ a ≤ 0xFFFE)

/-- The registers, the program counter and the CPU flip-flops of `t` are
those of `s`. -/
def SameCPU (s t : Machine) : Prop :=
  t.AF = s.AF ∧ t.BC = s.BC ∧ t.DE = s.DE ∧ t.HL = s.HL ∧ t.SP = s.SP ∧ t.PC = s.PC ∧ t.cpu = s.cpu

/-- A byte-sized register pair. -/
def Register.WF (r : Register) : Prop := r.lo < 256 ∧ r.hi < 256

/-! ## Concrete machines -/

/-- F is 0, the stack at 0xC000 holds the word 0x120F, and PC points at the
opcode 0xF1 (POP AF). -/
def popAFMachine : Machine :=
  { SP := Register.ofWord 0xC000, PC := 0xC100,
    mmu := { inBIOS := false,
             memory := fun a => if a = 0xC000 then 0x0F else if a = 0xC001 then 0x12
                                else if a = 0xC100 then 0xF1 else 0 } }

/-- A = 0xFF, F = 0. -/
def addMachine : Machine := { AF := { hi := 0xFF, lo := 0 } }

/-- A = 0x00, F = 0. -/
def subMachine : Machine := { AF := { hi := 0x00, lo := 0 } }

/-! ## Stack instructions: notions and concrete machines -/

/-- The registers hold bytes and the program counter a 16-bit word. -/
def Machine.WF (s : Machine) : Prop :=
  s.AF.WF ∧ s.BC.WF ∧ s.DE.WF ∧ s.HL.WF ∧ s.SP.WF ∧ s.PC < 65536

/-- The opcode of PUSH rr. -/
def pushOpcode : Reg16 → Nat
  | .BC => 0xC5
  | .DE => 0xD5
  | .HL => 0xE5
  | _ => 0xF5

/-- The opcode of POP rr. -/
def popOpcode : Reg16 → Nat
  | .BC => 0xC1
  | .DE => 0xD1
  | .HL => 0xE1
  | _ => 0xF1

/-- The register pairs that PUSH and POP name. -/
def Reg16.isPair : Reg16 → Bool
  | .AF => true
  | .BC => true
  | .DE => true
  | .HL => true
  | _ => false

/-- BC = 0x1234, SP = 0xD000, everything else as constructed. -/
def pushPopMachine : Machine :=
  { BC := { hi := 0x12, lo := 0x34 }, SP := Register.ofWord 0xD000 }

/-! ## Interrupt dispatch: notions and concrete machines -/

/-- The byte `interrupts` computed by `handleInterrupts`. -/
def pendingInterrupts (s : Machine) : Nat := (s.ifRegister &&& s.ieRegister &&& 0x1F) % 256

/-- The machine after the wake-up test at the head of `handleInterrupts`. -/
def wakeUp (s : Machine) : Machine :=
  if s.cpu.halt && decide (pendingInterrupts s ≠ 0) then
    { pcInc s with cpu := { (pcInc s).cpu with halt := false } }
  else s

/-- The two assignments `IME = false; ifRegister &= mask` of a dispatch. -/
def acknowledge (s : Machine) (mask : Nat) : Machine :=
  { s with cpu := { s.cpu with IME := false }, ifRegister := s.ifRegister &&& mask }

/-- IME set, only the Serial interrupt (bit 3) requested and enabled. -/
def serialMachine : Machine :=
  { ifRegister := 0x08, ieRegister := 0x08, PC := 0x1234, SP := Register.ofWord 0xD000,
    cpu := { IME := true } }

/-- IME set, IE = 0x01, IF = 0x01, PC = 0x1234, SP = 0xD000. -/
def vblankMachine : Machine :=
  { ifRegister := 0x01, ieRegister := 0x01, PC := 0x1234, SP := Register.ofWord 0xD000,
    cpu := { IME := true } }

/-! ## Sixteen-bit additions: notions and concrete machines -/

/-- The opcode of ADD HL,rr. -/
def addHLOpcode : Reg16 → Nat
  | .BC => 0x09
  | .DE => 0x19
  | .HL => 0x29
  | _ => 0x39

/-- The register pairs that ADD HL,rr names. -/
def Reg16.isAddend : Reg16 → Bool
  | .BC => true
  | .DE => true
  | .HL => true
  | .SP => true
  | _ => false

/-- The F register after the three flag updates of `CPU_ADD_16BIT`, from the
old F and the outcome of its two tests. -/
def add16Flags (lo : Nat) (h c : Bool) : Nat :=
  let f1 := if h then ((lo ||| FLAG_HC) % 256) &&& 0xF0 else (lo &&& (0xFF ^^^ FLAG_HC)) &&& 0xF0
  let f2 := if c then ((f1 ||| FLAG_C) % 256) &&& 0xF0 else (f1 &&& (0xFF ^^^ FLAG_C)) &&& 0xF0
  (f2 &&& (0xFF ^^^ FLAG_N)) &&& 0xF0

/-- HL = 0x0800, everything else as constructed. -/
def addHLMachine : Machine := { HL := Register.ofWord 0x0800 }

/-- SP = 0x00FF, everything else as constructed. -/
def spMachine : Machine := { SP := Register.ofWord 0x00FF }

/-! ## Decimal adjustment: notions and concrete machines -/

/-- The packed-BCD byte of a number below 100. -/
def toBCD (n : Nat) : Nat := 16 * (n / 10) + n % 10

/-- F after `CPU_ADD` without carry-in, in closed form. -/
def addFlags (a b : Nat) : Nat :=
  (if (a + b) % 256 = 0 then 0x80 else 0) + (if (a &&& 0xF) + (b &&& 0xF) > 0xF then 0x20 else 0)
    + (if ((a + b) &&& 0x100) ≠ 0 then 0x10 else 0)

/-- The accumulator after DAA following an addition, in closed form: 0x60 is
added if C or A > 0x99, then 0x06 if H or the low nibble is above 9. -/
def daaRuleA (a : Nat) (h c : Bool) : Nat :=
  let a1 := if c || decide (a > 0x99) then (a + 0x60) % 256 else a
  if h || decide (a1 % 16 > 9) then (a1 + 0x06) % 256 else a1

/-- The carry after DAA following an addition, in closed form. -/
def daaRuleC (a : Nat) (c : Bool) : Bool := c || decide (a > 0x99)

/-- One line of the table `daa_after_add_table`. -/
def daaLine (a k : Nat) : Bool :=
  let z := decide (k / 4 % 2 = 1)
  let h := decide (k / 2 % 2 = 1)
  let c := decide (k % 2 = 1)
  let f := (if z then 0x80 else 0) + (if h then 0x20 else 0) + (if c then 0x10 else 0)
  let r := (CPU_DAA { AF := { hi := a, lo := f } }).AF
  r.hi == daaRuleA a h c
    && r.lo == (if daaRuleA a h c = 0 then 0x80 else 0) + (if daaRuleC a c then 0x10 else 0)

/-- One line of the table `bcd_sum_table`. -/
def bcdLine (da db : Nat) : Bool :=
  let a := toBCD da
  let b := toBCD db
  let h := decide (a % 16 + b % 16 > 0xF)
  let c := decide (a + b > 0xFF)
  daaRuleA ((a + b) % 256) h c == toBCD ((da + db) % 100)
    && daaRuleC ((a + b) % 256) c == decide (da + db ≥ 100)

/-- A = 0x45 (the packed-BCD byte of 45), F = 0. -/
def bcdMachine : Machine := { AF := { hi := 0x45, lo := 0 } }

/-! ## Cycle counts and conditional branches: notions and concrete machines -/

/-- The eleven opcode bytes without a `case` in `executeOpcode`. -/
def undefinedOpcodes : List Nat :=
  [0xD3, 0xDB, 0xDD, 0xE3, 0xE4, 0xEB, 0xEC, 0xED, 0xF4, 0xFC, 0xFD]

/-- A byte that `executeOpcode` has a `case` for. -/
def Implemented (op : Nat) : Prop := op < 256 ∧ op ∉ undefinedOpcodes

/-- The test of `CPU_HALT` under which HALT is not entered. -/
def HaltSkipped (s : Machine) : Prop :=
  s.cpu.IME = false ∧ (s.ifRegister &&& s.ieRegister &&& 0x1F) ≠ 0

/-- IME clear, HALT at 0xC000 followed by CALL 0xC000, the VBlank interrupt
requested and enabled, SP = 0xD000. -/
def haltCallMachine : Machine :=
  { PC := 0xC000, SP := Register.ofWord 0xD000, ifRegister := 0x01, ieRegister := 0x01,
    mmu := { inBIOS := false,
             memory := fun a => if a = 0xC000 then 0x76 else if a = 0xC001 then 0xCD
                                else if a = 0xC002 then 0x00 else if a = 0xC003 then 0xC0 else 0 } }

/-- The condition NZ, Z, NC, C (numbered 0 to 3) on a flag byte. -/
def condHolds (k f : Nat) : Bool :=
  match k with
  | 0 => !isFlagged f FLAG_Z
  | 1 => isFlagged f FLAG_Z
  | 2 => !isFlagged f FLAG_C
  | _ => isFlagged f FLAG_C

/-- F = 0x80 (Z set, C clear), everything else as constructed. -/
def zFlagMachine : Machine := { AF := { hi := 0, lo := 0x80 } }

/-! ## HALT -/

/-- HALT at 0xC000 with IME set and nothing requested. -/
def haltMachine : Machine :=
  { PC := 0xC000, SP := Register.ofWord 0xD000, cpu := { IME := true },
    mmu := { inBIOS := false, memory := fun a => if a = 0xC000 then 0x76 else 0 } }

/-! ## The memory unit: notions of the statements -/

/-- What no `writeByte` changes in the memory unit: the cartridge, the boot
ROM and the mapper kind are kept, and the boot overlay is not armed again. -/
def KeptAlways (s t : Machine) : Prop :=
  t.mmu.cartridgeMemory = s.mmu.cartridgeMemory ∧ t.mmu.bootROM = s.mmu.bootROM
  ∧ t.mmu.mbc1 = s.mmu.mbc1 ∧ (t.mmu.inBIOS = true → s.mmu.inBIOS = true)

/-- The mapper registers of `t` are those of `s`. -/
def SameBanks (s t : Machine) : Prop :=
  t.mmu.romBankNumber = s.mmu.romBankNumber ∧ t.mmu.ramBankNumber = s.mmu.ramBankNumber
  ∧ t.mmu.romMode = s.mmu.romMode

/-- The tile cache and the tile data area 0x8000-0x97FF of `t` are those of `s`. -/
def SameTiles (s t : Machine) : Prop :=
  t.mmu.tileSet = s.mmu.tileSet
  ∧ ∀ b, 0x8000 ≤ b → b ≤ 0x97FF → t.mmu.memory b = s.mmu.memory b

/-- What `writeByte` at address `a` keeps of the memory unit. -/
def Kept (a : Nat) (s t : Machine) : Prop :=
  KeptAlways s t
  ∧ (0x8000 ≤ a → SameBanks s t)
  ∧ (0x2000 ≤ a → t.mmu.ramEnabled = s.mmu.ramEnabled)
  ∧ (¬ (0xA000 ≤ a ∧ a < 0xC000) → t.mmu.ramMemory = s.mmu.ramMemory)
  ∧ (¬ (0x8000 ≤ a ∧ a ≤ 0x97FF) → SameTiles s t)

/-- A write that keeps all of the above. -/
def KeptAll (s t : Machine) : Prop :=
  KeptAlways s t ∧ SameBanks s t ∧ t.mmu.ramEnabled = s.mmu.ramEnabled
  ∧ t.mmu.ramMemory = s.mmu.ramMemory ∧ SameTiles s t

/-- A finite sequence of `writeByte` calls, each an address and a value. -/
def MMU.writes (s : Machine) (ws : List (Nat × Nat)) : Machine :=
  ws.foldl (fun acc w => MMU.writeByte acc w.1 w.2) s

/-- An MBC1 cartridge in the initial mapper state; the write sequence of the
witnesses selects bank 0x20 through both bank registers. -/
def mbc1Machine : Machine := { mmu := { mbc1 := true, inBIOS := false } }

/-! ## The tile cache -/

/-- Tile-cache coherence: every cached pixel is bit 7-x of the first byte of
its row plus twice bit 7-x of the second byte. -/
def TileCoherent (s : Machine) : Prop :=
  ∀ t r x, t < 384 → r < 8 → x < 8 →
    s.mmu.tileSet t r x
      = MMU.readByte s (0x8000 + 16 * t + 2 * r) / 2 ^ (7 - x) % 2
        + 2 * (MMU.readByte s (0x8000 + 16 * t + 2 * r + 1) / 2 ^ (7 - x) % 2)

/-- VRAM holds 0x3C at 0x8010 and 0x7E at 0x8011 (row 0 of tile 1), the tile
cache holds the pixels of that row and zeros elsewhere. -/
def tileMachine : Machine :=
  { mmu := { inBIOS := false,
             memory := fun a => if a = 0x8010 then 0x3C else if a = 0x8011 then 0x7E else 0,
             tileSet := fun t r x =>
               if t = 1 ∧ r = 0 then 0x3C / 2 ^ (7 - x) % 2 + 2 * (0x7E / 2 ^ (7 - x) % 2) else 0 } }

/-! ## The sprite table and the DMA transfer -/

/-- The sprite entry `old` after the first `n` of the four bytes `b0..b3` of
its table row went through `updateSpriteSet`. -/
def spriteAfter (old : SPRITE) (n b0 b1 b2 b3 : Nat) : SPRITE :=
  { posY := if 0 < n then (b0 : Int) - 16 else old.posY,
    posX := if 1 < n then (b1 : Int) - 8 else old.posX,
    tileNumber := if 2 < n then b2 else old.tileNumber,
    prioritized := if 3 < n then (if (b3 &&& 0x80) ≠ 0 then false else true) else old.prioritized,
    flippedY := if 3 < n then (if (b3 &&& 0x40) ≠ 0 then true else false) else old.flippedY,
    flippedX := if 3 < n then (if (b3 &&& 0x20) ≠ 0 then true else false) else old.flippedX,
    zeroPalette := if 3 < n then (if (b3 &&& 0x10) ≠ 0 then false else true) else old.zeroPalette }

/-- Work RAM holds the sprite row 0x20, 0x18, 0x05, 0x80 at 0xC000. -/
def dmaMachine : Machine :=
  { mmu := { inBIOS := false,
             memory := fun a => if a = 0xC000 then 0x20 else if a = 0xC001 then 0x18
                                else if a = 0xC002 then 0x05 else if a = 0xC003 then 0x80 else 0 } }

/-! ## Loads and stores -/

/-- The seven 8-bit registers A, B, C, D, E, H, L (F is not one of them). -/
def Reg8.isGeneral : Reg8 → Bool
  | .AFlo => false
  | _ => true

/-- The opcode of LD r,n. -/
def ldImmOpcode : Reg8 → Nat
  | .BChi => 0x06
  | .BClo => 0x0E
  | .DEhi => 0x16
  | .DElo => 0x1E
  | .HLhi => 0x26
  | .HLlo => 0x2E
  | _ => 0x3E

/-- The opcode of LD (HL),r. -/
def stHLOpcode : Reg8 → Nat
  | .BChi => 0x70
  | .BClo => 0x71
  | .DEhi => 0x72
  | .DElo => 0x73
  | .HLhi => 0x74
  | .HLlo => 0x75
  | _ => 0x77

/-- The opcode of LD r,(HL). -/
def ldHLOpcode : Reg8 → Nat
  | .BChi => 0x46
  | .BClo => 0x4E
  | .DEhi => 0x56
  | .DElo => 0x5E
  | .HLhi => 0x66
  | .HLlo => 0x6E
  | _ => 0x7E

/-- HL = 0xC123, PC = 0xC000, where the byte 0x5A is the operand of LD r,n. -/
def loadMachine : Machine :=
  { HL := Register.ofWord 0xC123, PC := 0xC000,
    mmu := { inBIOS := false, memory := fun a => if a = 0xC000 then 0x5A else 0 } }

/-! ## Echo RAM and the boot overlay -/

/-- Work RAM and its echo hold zeros, the boot overlay is off. -/
def echoMachine : Machine := { mmu := { inBIOS := false } }

/-- The boot overlay armed, with distinct bytes at address 0 of the boot ROM
(0x31) and of the cartridge (0xC3). -/
def bootMachine : Machine :=
  { mmu := { inBIOS := true, bootROM := fun a => if a = 0 then 0x31 else 0,
             cartridgeMemory := fun a => if a = 0 then 0xC3 else 0 } }

/-! ## ppu.cpp

The rendering methods write the frame buffer and the local array `scanRow`
only, so they are functions of the pair of the two; the rest of the machine is
read.  `renderScan` declares `scanRow` without initialising it: its first
contents are an argument of `PPU.renderScan` and of `PPU.step`.  The member
`clock` is an `int`, here an integer without a bound. -/

/-- The four assignments `frameBuffer[screenOffset + i] = colour[i]`. -/
def PPU.putPixel (frameBuffer : Nat → Nat) (screenOffset : Nat) (colour : Nat → Nat) : Nat → Nat :=
  fun i =>
    if i = screenOffset + 3 then colour 3
    else if i = screenOffset + 2 then colour 2
    else if i = screenOffset + 1 then colour 1
    else if i = screenOffset then colour 0
    else frameBuffer i

/-- The entry `mmu.tileSet[tile][row][x]` by its place in the array, entry
`64 * tile + 8 * row + x`: a row index from 8 to 15 lands in the following tile. -/
def MMU.tileSetAt (s : Machine) (tile row x : Nat) : Nat :=
  s.mmu.tileSet ((64 * tile + 8 * row + x) / 64) ((64 * tile + 8 * row + x) / 8 % 8)
    ((64 * tile + 8 * row + x) % 8)

/-- The method `PPU::renderImage`: it draws the frame buffer with SDL and
changes no member. -/
def PPU.renderImage (s : Machine) : Machine := s

/-- The method `PPU::renderBackground`, on the pair of the frame buffer and
`scanRow`.  At column `column` the local `screenOffset` is
`line * 160 * 4 + 4 * column`. -/
def PPU.renderBackground (s : Machine) (r : (Nat → Nat) × (Nat → Nat)) :
    (Nat → Nat) × (Nat → Nat) :=
  let mapOffset := if s.mmu.bgMap then 0x9C00 else 0x9800
  (List.range 160).foldl (fun (acc : (Nat → Nat) × (Nat → Nat)) (column : Nat) =>
    let screenOffset := s.mmu.line * 160 * 4 + 4 * column
    let lineOffset := (s.mmu.scrollX + column) % 256
    let rowOffset := (s.mmu.scrollY + s.mmu.line) % 256
    let tileX := lineOffset / 8
    let tileY := rowOffset / 8
    let tileIndex := (tileY * 32 + tileX) % 65536
    let tileIDAddress := (mapOffset + tileIndex) % 65536
    let y := rowOffset % 8
    let x := lineOffset % 8
    let tile := MMU.readByte s tileIDAddress
    let tile := if ¬ s.mmu.bgTile ∧ tile < 128 then tile + 256 else tile
    let colour := fun i => s.mmu.palette (s.mmu.tileSet tile y x) i
    (PPU.putPixel acc.1 screenOffset colour,
      fun j => if j = column then s.mmu.tileSet tile y x else acc.2 j)) r

/-- The method `PPU::renderWindow`, on the pair of the frame buffer and
`scanRow`; `lineOffset` and `rowOffset` are of type `WORD`. -/
def PPU.renderWindow (s : Machine) (r : (Nat → Nat) × (Nat → Nat)) :
    (Nat → Nat) × (Nat → Nat) :=
  if s.mmu.line < s.mmu.windowY then r
  else
    let mapOffset := if s.mmu.windowTile then 0x9C00 else 0x9800
    (List.range 160).foldl (fun (acc : (Nat → Nat) × (Nat → Nat)) (column : Nat) =>
      let screenOffset := s.mmu.line * 160 * 4 + 4 * column
      let lineOffset := (((s.mmu.windowX : Int) + (column : Int) - 7) % 65536).toNat
      let rowOffset := (s.mmu.line - s.mmu.windowY) % 65536
      let tileX := lineOffset / 8
      let tileY := rowOffset / 8
      let tileIndex := (tileY * 32 + tileX) % 65536
      let tileIDAddress := (mapOffset + tileIndex) % 65536
      let x := lineOffset % 8
      let y := rowOffset % 8
      let tile := MMU.readByte s tileIDAddress
      let tile := if ¬ s.mmu.bgTile ∧ tile < 128 then tile + 256 else tile
      let colour := fun i => s.mmu.palette (s.mmu.tileSet tile y x) i
      (PPU.putPixel acc.1 screenOffset colour,
        fun j => if j = column then s.mmu.tileSet tile y x else acc.2 j)) r

/-- The method `PPU::renderSprites`, on the pair of the frame buffer and
`scanRow`.  At pixel `x` of a sprite the local `screenOffset` is
`(line * 160 + posX) * 4 + 4 * x`, which is not negative where a pixel is
written. -/
def PPU.renderSprites (s : Machine) (r : (Nat → Nat) × (Nat → Nat)) :
    (Nat → Nat) × (Nat → Nat) :=
  ((List.range 40).foldl (fun (frameBuffer : Nat → Nat) (i : Nat) =>
    let sprite := s.mmu.spriteSet i
    let height : Int := if s.mmu.spriteDoubled then 16 else 8
    let line : Int := s.mmu.line
    if sprite.posY ≤ line ∧ sprite.posY + height > line then
      let row : Int :=
        if sprite.flippedY then (height - 1) - (line - sprite.posY) else line - sprite.posY
      let tileRow := fun j => MMU.tileSetAt s sprite.tileNumber row.toNat j
      let palette := fun j k =>
        if sprite.zeroPalette then s.mmu.obj0Palette j k else s.mmu.obj1Palette j k
      (List.range 8).foldl (fun (frameBuffer : Nat → Nat) (x : Nat) =>
        let screenOffset : Int := (line * 160 + sprite.posX) * 4 + 4 * (x : Int)
        let p := tileRow (if sprite.flippedX then 7 - x else x)
        if sprite.posX + (x : Int) ≥ 0 ∧ sprite.posX + (x : Int) < 160 ∧ p ≠ 0
            ∧ (sprite.prioritized = true ∨ r.2 (sprite.posX + (x : Int)).toNat = 0) then
          PPU.putPixel frameBuffer screenOffset.toNat (fun j => palette p j)
        else frameBuffer) frameBuffer
    else frameBuffer) r.1, r.2)

/-- The method `PPU::renderScan`; `scanRow` is what the local array holds at
its declaration. -/
def PPU.renderScan (s : Machine) (scanRow : Nat → Nat) : Machine :=
  if ¬ s.mmu.switchLCD then s
  else
    let r := (s.ppu.frameBuffer, scanRow)
    let r := if s.mmu.switchBG then PPU.renderBackground s r else r
    let r := if s.mmu.switchWindow then PPU.renderWindow s r else r
    let r := if s.mmu.switchOBJ then PPU.renderSprites s r else r
    { s with ppu := { s.ppu with frameBuffer := r.1 } }

/-- The method `PPU::setLCDStatus`. -/
def PPU.setLCDStatus (s : Machine) : Machine :=
  let currentMode := s.mmu.lcdStatRegister &&& 0x3
  let mode2Bounds : Int := 456 - 80
  let mode3Bounds : Int := (mode2Bounds - 172) * 4
  let mode2Bounds : Int := mode2Bounds * 4
  -- the mode shown, the register, and whether to interrupt
  let r : Nat × Nat × Bool :=
    if s.mmu.line ≥ 144 then
      let stat := (s.mmu.lcdStatRegister &&& 0xFC) ||| 0x01
      (1, stat, decide (stat &&& 0x10 ≠ 0))
    else if s.ppu.clock ≥ mode2Bounds then
      let stat := (s.mmu.lcdStatRegister &&& 0xFC) ||| 0x01
      (2, stat, decide (stat &&& 0x20 ≠ 0))
    else if s.ppu.clock ≥ mode3Bounds then
      (3, s.mmu.lcdStatRegister ||| 0x03, false)
    else
      let stat := s.mmu.lcdStatRegister &&& 0xFC
      (0, stat, decide (stat &&& 0x08 ≠ 0))
  let s1 : Machine := { s with mmu := { s.mmu with lcdStatRegister := r.2.1 } }
  let s2 : Machine :=
    if r.2.2 = true ∧ r.1 ≠ currentMode then { s1 with ifRegister := s1.ifRegister ||| 0x2 }
    else s1
  -- LY = LYC
  if s2.mmu.line = MMU.readByte s2 0xFF45 then
    let s3 : Machine := { s2 with mmu := { s2.mmu with lcdStatRegister := s2.mmu.lcdStatRegister ||| 0x4 } }
    if s3.mmu.lcdStatRegister &&& 0x40 ≠ 0 then { s3 with ifRegister := s3.ifRegister ||| 0x2 }
    else s3
  else { s2 with mmu := { s2.mmu with lcdStatRegister := s2.mmu.lcdStatRegister &&& 0xFB } }

/-- The method `PPU::step`; `scanRow` is what the local array of `renderScan`
holds at its declaration.  The remainders are taken of a clock that is not
negative. -/
def PPU.step (s : Machine) (scanRow : Nat → Nat) : Machine :=
  let s := PPU.setLCDStatus s
  -- OAM
  if s.ppu.mode = 2 then
    if s.ppu.clock ≥ 320 then
      { s with ppu := { s.ppu with clock := s.ppu.clock % 320, mode := 3 } }
    else s
  -- VRAM
  else if s.ppu.mode = 3 then
    if s.ppu.clock ≥ 688 then
      { s with ppu := { s.ppu with clock := s.ppu.clock % 688, mode := 0 } }
    else s
  -- HBLANK
  else if s.ppu.mode = 0 then
    if s.ppu.clock ≥ 816 then
      let s := PPU.renderScan s scanRow
      let s : Machine := { s with ppu := { s.ppu with clock := s.ppu.clock % 816 },
                                  mmu := { s.mmu with line := s.mmu.line + 1 } }
      if s.mmu.line = 144 then
        { s with ppu := { s.ppu with mode := 1 }, ifRegister := s.ifRegister ||| 0x1 }
      else { s with ppu := { s.ppu with mode := 2 } }
    else s
  -- VBLANK
  else if s.ppu.mode = 1 then
    if s.ppu.clock ≥ 1824 then
      let s : Machine := { s with ppu := { s.ppu with clock := s.ppu.clock % 1824 },
                                  mmu := { s.mmu with line := s.mmu.line + 1 } }
      if s.mmu.line = 154 then
        let s := PPU.renderImage s
        { s with ppu := { s.ppu with mode := 2 }, mmu := { s.mmu with line := 0 } }
      else s
    else s
  else s

/-- The method `PPU::addToClock`. -/
def PPU.addToClock (s : Machine) (clockCycles : Int) : Machine :=
  { s with ppu := { s.ppu with clock := s.ppu.clock + clockCycles } }

/-! ## The picture unit: notions of the statements -/

/-- What the sequences of the scanline statement are made of: a call of
`addToClock`, a call of `step` (with the first contents of `scanRow`), and a
write of the processor to 0xFF44. -/
inductive PPUEvent where
  | addToClock (clockCycles : Nat)
  | step (scanRow : Nat → Nat)
  | writeLY (val : Nat)

/-- One event on the machine. -/
def PPUEvent.apply (s : Machine) : PPUEvent → Machine
  | .addToClock c => PPU.addToClock s (c : Int)
  | .step scanRow => PPU.step s scanRow
  | .writeLY v => MMU.writeByte s 0xFF44 v

/-- A finite sequence of events, from the left. -/
def PPU.run (s : Machine) (es : List PPUEvent) : Machine := es.foldl PPUEvent.apply s

/-- The scanline is where the mode says: below 144 in the modes 0, 2 and 3, and
from 144 to 153 in mode 1. -/
def LineInRange (s : Machine) : Prop :=
  ((s.ppu.mode = 0 ∨ s.ppu.mode = 2 ∨ s.ppu.mode = 3) ∧ s.mmu.line ≤ 143)
  ∨ (s.ppu.mode = 1 ∧ 144 ≤ s.mmu.line ∧ s.mmu.line ≤ 153)

/-- The events of one visible scanline when each mode lasts exactly its
length: 320, 688 and 816 clock cycles. -/
def scanlineEvents : List PPUEvent :=
  [.addToClock 320, .step (fun _ => 0), .addToClock 688, .step (fun _ => 0),
   .addToClock 816, .step (fun _ => 0)]

/-- The events of one line of the vertical blank: 1824 clock cycles. -/
def vblankLineEvents : List PPUEvent := [.addToClock 1824, .step (fun _ => 0)]

/-- A sequence of events `n` times over. -/
def PPUEvent.repeated (es : List PPUEvent) : Nat → List PPUEvent
  | 0 => []
  | n + 1 => PPUEvent.repeated es n ++ es

/-- The events of `n` visible scanlines followed by `m` lines of the vertical blank. -/
def frameEvents (n m : Nat) : List PPUEvent :=
  PPUEvent.repeated scanlineEvents n ++ PPUEvent.repeated vblankLineEvents m

/-! ## The STAT register: notions of the statements -/

/-- The two low bits that `PPU::setLCDStatus` leaves in the STAT register, from
the line and the clock it is called with. -/
def statModeBits (line : Nat) (clock : Int) : Nat :=
  if line ≥ 144 then 1 else if clock ≥ 1504 then 1 else if clock ≥ 816 then 3 else 0

/-! ## The frame loop as the picture unit sees it

Each pass of the loop of `main` calls `ppu.addToClock(clockCycles)` with the
cycles of the instruction and then `ppu.step()`; nothing else in the loop
writes the mode, the clock or the line. -/

/-- One pass: the cycles of the instruction and the first contents of `scanRow`. -/
def PPU.pass (s : Machine) (p : Nat × (Nat → Nat)) : Machine :=
  PPU.step (PPU.addToClock s (p.1 : Int)) p.2

/-- A finite sequence of passes, from the left. -/
def PPU.passes (s : Machine) (ps : List (Nat × (Nat → Nat))) : Machine := ps.foldl PPU.pass s

/-- The cycles of a sequence of passes. -/
def PPU.cyclesOf (ps : List (Nat × (Nat → Nat))) : Nat := (ps.map Prod.fst).sum

/-- Whether the pass takes the line from 153 to 0. -/
def PPU.wraps (s : Machine) (p : Nat × (Nat → Nat)) : Bool :=
  decide (s.mmu.line = 153 ∧ (PPU.pass s p).mmu.line = 0)

/-- How many passes of the sequence take the line from 153 to 0. -/
def PPU.wrapCount (s : Machine) : List (Nat × (Nat → Nat)) → Nat
  | [] => 0
  | p :: ps => (if PPU.wraps s p then 1 else 0) + PPU.wrapCount (PPU.pass s p) ps

/-- The clock cycles counted since the line was last set to 0: 1824 for each
line passed, 320 and 688 for the modes 2 and 3 passed on the current line, and
the clock. -/
def PPU.framePosition (s : Machine) : Int :=
  (s.mmu.line : Int) * 1824
    + (if s.ppu.mode = 3 then 320 else if s.ppu.mode = 0 then 1008 else 0) + s.ppu.clock

/-- The clock is not negative and below the length of the current mode, and
the line is where the mode says. -/
def PPU.WellTimed (s : Machine) : Prop :=
  LineInRange s ∧ 0 ≤ s.ppu.clock
  ∧ s.ppu.clock < (if s.ppu.mode = 2 then 320 else if s.ppu.mode = 3 then 688
                    else if s.ppu.mode = 0 then 816 else 1824)

/-! ## A white background: notions of the statements -/

/-- The part of LCDC = 0x91 and BGP = 0xE4 that rendering looks at, over a
video RAM and a tile cache of zeros: the display and the background are on,
the window and the sprites are off, colour 0 of the background palette is
(255, 255, 255, 255). -/
def WhiteSetup (s : Machine) : Prop :=
  s.mmu.switchLCD = true ∧ s.mmu.switchBG = true ∧ s.mmu.switchWindow = false
  ∧ s.mmu.switchOBJ = false
  ∧ (∀ k, k < 4 → s.mmu.palette 0 k = 255)
  ∧ (∀ a, 0x8000 ≤ a → a ≤ 0x9FFF → s.mmu.memory a = 0)
  ∧ (∀ t y x, t < 384 → y < 8 → x < 8 → s.mmu.tileSet t y x = 0)

/-- The rows of the frame buffer above the current line are white. -/
def WhiteAbove (s : Machine) : Prop :=
  ∀ i, i < 640 * s.mmu.line → i < 92160 → s.ppu.frameBuffer i = 255

/-- The machine at reset after LCDC = 0x91 and BGP = 0xE4 were written. -/
def whiteMachine : Machine := MMU.writes {} [(0xFF40, 0x91), (0xFF47, 0xE4)]

/-! ## timer.cpp: the clock of the timer -/

/-- The method `Timer::addToClock`; the interrupt request goes to the global
`ifRegister`.  The remainder is taken of a divider clock of 256 or more. -/
def Timer.addToClock (s : Machine) (clockCycles : Int) : Machine :=
  -- handle dividers
  let t : Timer := { s.timer with dividerClock := s.timer.dividerClock + clockCycles }
  let t : Timer :=
    if t.dividerClock ≥ 256 then
      { t with dividerClock := t.dividerClock % 256, divider := (t.divider + 1) % 256 }
    else t
  if t.isClockEnabled then
    let t : Timer := { t with controlClock := t.controlClock - clockCycles }
    if t.controlClock ≤ 0 then
      let t := t.setControlRate
      if t.counter = 0xFF then
        -- Request Timer Interrupt by setting bit 2 in IF Register
        { s with timer := { t with counter := t.modulo }, ifRegister := s.ifRegister ||| 0x4 }
      else { s with timer := { t with counter := (t.counter + 1) % 256 } }
    else { s with timer := t }
  else { s with timer := t }

/-- The method `Timer::addToClock` called `n` times with the same cycles. -/
def Timer.addToClockTimes (s : Machine) (clockCycles : Int) : Nat → Machine
  | 0 => s
  | n + 1 => Timer.addToClock (Timer.addToClockTimes s clockCycles n) clockCycles

/-! ## The timer: notions of the statements -/

/-- The three register writes of the timer scenario: TAC = 0x05, TIMA = 0xFD,
TMA = 0x80. -/
def timerWrites : List (Nat × Nat) := [(0xFF07, 0x05), (0xFF05, 0xFD), (0xFF06, 0x80)]

/-- TIMA after `n` calls of `addToClock(4)` in the timer scenario: one more
every fourth call, reloaded with 0x80 at the twelfth. -/
def timaAfter (n : Nat) : Nat := if n < 12 then 0xFD + n / 4 else 0x80 + (n - 12) / 4

/-! ## The STAT register: a machine of the statements -/

/-- STAT at 0x05 (mode 1 with the coincidence flag) over a memory of zeros. -/
def statMachine : Machine := { mmu := { lcdStatRegister := 0x05 } }

/-! ## joypad.cpp: the keys -/

/-- The key codes that `JOYPAD::keyDown` and `JOYPAD::keyUp` tell apart;
`other` stands for every other code. -/
inductive SDL_Keycode where
  | SDLK_w | SDLK_a | SDLK_s | SDLK_d | SDLK_z | SDLK_x | SDLK_LSHIFT | SDLK_SPACE | other
deriving DecidableEq

/-- The method `JOYPAD::keyDown`; the interrupt request goes to the global
`ifRegister`. -/
def JOYPAD.keyDown (s : Machine) (key : SDL_Keycode) : Machine :=
  let j : JOYPAD :=
    match key with
    | .SDLK_w => { s.joypad with controls0 := s.joypad.controls0 &&& 0x0B }
    | .SDLK_a => { s.joypad with controls0 := s.joypad.controls0 &&& 0x0D }
    | .SDLK_s => { s.joypad with controls0 := s.joypad.controls0 &&& 0x07 }
    | .SDLK_d => { s.joypad with controls0 := s.joypad.controls0 &&& 0x0E }
    | .SDLK_z => { s.joypad with controls1 := s.joypad.controls1 &&& 0x0E }
    | .SDLK_x => { s.joypad with controls1 := s.joypad.controls1 &&& 0x0D }
    | .SDLK_LSHIFT => { s.joypad with controls1 := s.joypad.controls1 &&& 0x07 }
    | .SDLK_SPACE => { s.joypad with controls1 := s.joypad.controls1 &&& 0x0B }
    | .other => s.joypad
  -- Joypad Interrupt occurrs if key is pressed and column bit is enabled
  if ((j.column &&& 0x10) ≠ 0 ∧ j.controls1 ≠ 0x0F) ∨ ((j.column &&& 0x20) ≠ 0 ∧ j.controls0 ≠ 0x0F) then
    { s with joypad := j, ifRegister := s.ifRegister ||| 0x10 }
  else { s with joypad := j }

/-- The method `JOYPAD::keyUp`. -/
def JOYPAD.keyUp (s : Machine) (key : SDL_Keycode) : Machine :=
  { s with joypad :=
      match key with
      | .SDLK_w => { s.joypad with controls0 := s.joypad.controls0 ||| 0x04 }
      | .SDLK_a => { s.joypad with controls0 := s.joypad.controls0 ||| 0x02 }
      | .SDLK_s => { s.joypad with controls0 := s.joypad.controls0 ||| 0x08 }
      | .SDLK_d => { s.joypad with controls0 := s.joypad.controls0 ||| 0x01 }
      | .SDLK_z => { s.joypad with controls1 := s.joypad.controls1 ||| 0x01 }
      | .SDLK_x => { s.joypad with controls1 := s.joypad.controls1 ||| 0x02 }
      | .SDLK_LSHIFT => { s.joypad with controls1 := s.joypad.controls1 ||| 0x08 }
      | .SDLK_SPACE => { s.joypad with controls1 := s.joypad.controls1 ||| 0x04 }
      | .other => s.joypad }

/-! ## The joypad: notions of the statements -/

/-- A key event of the loop of `main`: `true` with the key for SDL_KEYDOWN,
`false` with the key for SDL_KEYUP. -/
def JOYPAD.event (s : Machine) (e : Bool × SDL_Keycode) : Machine :=
  if e.1 then JOYPAD.keyDown s e.2 else JOYPAD.keyUp s e.2

/-- A finite sequence of key events, from the left. -/
def JOYPAD.events (s : Machine) (es : List (Bool × SDL_Keycode)) : Machine :=
  es.foldl JOYPAD.event s

/-- The keys held after the events: those whose last event is a key-down, and
those held before that have no event. -/
def heldAfter (held : SDL_Keycode → Bool) (es : List (Bool × SDL_Keycode)) : SDL_Keycode → Bool :=
  es.foldl (fun h e => fun k => if k = e.2 then e.1 else h k) held

/-- The nibble of four keys, bit 0 first, with 0 for a key that is held. -/
def activeLow (b0 b1 b2 b3 : Bool) : Nat :=
  (if b0 then 0 else 1) + (if b1 then 0 else 2) + (if b2 then 0 else 4) + (if b3 then 0 else 8)

/-- The two bytes of the joypad show the keys `held`: Right, Left, Up, Down
(d, a, w, s) in `controls[0]` and A, B, Select, Start (z, x, space, left
shift) in `controls[1]`. -/
def JoypadShows (s : Machine) (held : SDL_Keycode → Bool) : Prop :=
  s.joypad.controls0 = activeLow (held .SDLK_d) (held .SDLK_a) (held .SDLK_w) (held .SDLK_s)
  ∧ s.joypad.controls1
      = activeLow (held .SDLK_z) (held .SDLK_x) (held .SDLK_SPACE) (held .SDLK_LSHIFT)

/-! ## tone.cpp and apu.cpp: the frame sequencer

The mixing of the samples into `mainBuffer` and the SDL queue are not part of
this model; of the down-sampling only the two counters are. -/

/-- The method `Tone::adjustLength`. -/
def Tone.adjustLength (t : Tone) : Tone :=
  if t.soundLength > 0 ∧ t.counterConsecutiveSelection = true then
    if t.soundLength - 1 = 0 then { t with soundLength := t.soundLength - 1, enabled := false }
    else { t with soundLength := t.soundLength - 1 }
  else t

/-- The method `Tone::adjustSweep`. -/
def Tone.adjustSweep (t : Tone) : Tone :=
  if t.sweepPeriod - 1 ≤ 0 then
    let t : Tone := { t with sweepPeriod := if (t.sweepTime : Int) = 0 then 8 else (t.sweepTime : Int) }
    if t.sweepEnable = true ∧ t.sweepTime > 0 then
      let r := Tone.sweepCalculation t
      let t1 : Tone :=
        if r.1 ≤ 2047 ∧ r.2.sweepShift > 0 then
          (Tone.sweepCalculation { r.2 with sweepFrequency := r.1, frequencyRegister := r.1 }).2
        else r.2
      (Tone.sweepCalculation t1).2
    else t
  else { t with sweepPeriod := t.sweepPeriod - 1 }

/-- The method `Tone::adjustEnvelope`. -/
def Tone.adjustEnvelope (t : Tone) : Tone :=
  if t.stepLength - 1 ≤ 0 then
    let t : Tone :=
      { t with stepLength := if (t.numEnvelopeSweep : Int) = 0 then 8 else (t.numEnvelopeSweep : Int) }
    let t : Tone :=
      if t.envelopeRunning = true ∧ t.numEnvelopeSweep > 0 then
        if t.increaseEnvelope = true ∧ t.volume < 15 then { t with volume := t.volume + 1 }
        else if t.increaseEnvelope = false ∧ t.volume > 0 then { t with volume := t.volume - 1 }
        else t
      else t
    if t.volume = 0 ∨ t.volume = 15 then { t with envelopeRunning := false } else t
  else { t with stepLength := t.stepLength - 1 }

/-- The method `Tone::step`. -/
def Tone.step (t : Tone) : Tone :=
  let t : Tone :=
    if t.frequency - 1 ≤ 0 then
      { t with frequency := (2048 - (t.frequencyRegister : Int)) * 4,
               waveDutyPointer := (t.waveDutyPointer + 1) &&& 0x7 }
    else { t with frequency := t.frequency - 1 }
  let t : Tone :=
    if t.enabled = true ∧ t.digitalToAnalog = true then { t with outputVolume := t.volume }
    else { t with outputVolume := 0 }
  if Tone.waveDuty t.duty t.waveDutyPointer = false then { t with outputVolume := 0 } else t

/-- The frame sequencer: the `switch` on `clockStep` of `APU::step` and the
advance of `clockStep`, as run each time the clock counter has run out. -/
def APU.clockSequencer (a : APU) : APU :=
  let a : APU :=
    match a.clockStep with
    | 0 => { a with tone1 := a.tone1.adjustLength, tone2 := a.tone2.adjustLength }
    | 2 => { a with tone1 := a.tone1.adjustSweep.adjustLength, tone2 := a.tone2.adjustLength }
    | 4 => { a with tone1 := a.tone1.adjustLength, tone2 := a.tone2.adjustLength }
    | 6 => { a with tone1 := a.tone1.adjustSweep.adjustLength, tone2 := a.tone2.adjustLength }
    | 7 => { a with tone1 := a.tone1.adjustEnvelope, tone2 := a.tone2.adjustEnvelope }
    | _ => a
  if (a.clockStep + 1) % 256 ≥ 8 then { a with clockStep := 0 }
  else { a with clockStep := (a.clockStep + 1) % 256 }

/-- One pass of the `while` loop of `APU::step`. -/
def APU.cycle (a : APU) : APU :=
  let a : APU :=
    if a.clockCounter - 1 ≤ 0 then APU.clockSequencer { a with clockCounter := 8192 }
    else { a with clockCounter := a.clockCounter - 1 }
  let a : APU := { a with tone1 := a.tone1.step, tone2 := a.tone2.step }
  let a : APU :=
    if a.downSampleCount - 1 ≤ 0 then
      { a with downSampleCount := 95, bufferFillAmount := a.bufferFillAmount + 2 }
    else { a with downSampleCount := a.downSampleCount - 1 }
  if a.bufferFillAmount ≥ 4096 then { a with bufferFillAmount := 0 } else a

/-- The passes of the `while` loop of `APU::step` for `cycles` cycles. -/
def APU.cycles (a : APU) : Nat → APU
  | 0 => a
  | n + 1 => APU.cycles (APU.cycle a) n

/-- The method `APU::step`, for a count of cycles that is not negative. -/
def APU.step (a : APU) (cycles : Nat) : APU :=
  if !a.soundControl then a else APU.cycles a cycles

/-! ## The length counter: notions of the statements -/

/-- What the frame sequencer and the sample loop call on a pulse channel. -/
inductive ToneEvent where
  | adjustLength | adjustSweep | adjustEnvelope | step
deriving DecidableEq

/-- One event on the channel. -/
def Tone.apply (t : Tone) : ToneEvent → Tone
  | .adjustLength => t.adjustLength
  | .adjustSweep => t.adjustSweep
  | .adjustEnvelope => t.adjustEnvelope
  | .step => t.step

/-- A finite sequence of events, from the left. -/
def Tone.run (t : Tone) (es : List ToneEvent) : Tone := es.foldl Tone.apply t

/-- What the frame sequencer calls on channel 1 (`withSweep`) or on channel 2 at
step `clockStep`. -/
def sequencerEvents (withSweep : Bool) (clockStep : Nat) : List ToneEvent :=
  match clockStep with
  | 0 => [.adjustLength]
  | 2 => if withSweep then [.adjustSweep, .adjustLength] else [.adjustLength]
  | 4 => [.adjustLength]
  | 6 => if withSweep then [.adjustSweep, .adjustLength] else [.adjustLength]
  | 7 => [.adjustEnvelope]
  | _ => []

/-- The machine at reset after NR52 = 0x80, NR12 = 0xF0, NR50 = 0x77 and
NR51 = 0xFF were written. -/
def apuMachine : Machine :=
  MMU.writes {} [(0xFF26, 0x80), (0xFF12, 0xF0), (0xFF24, 0x77), (0xFF25, 0xFF)]

/-! ## The frame sequencer in master cycles: notions and a machine of the statements -/

/-- What one period of 8,192 cycles of `APU::step` calls on channel 1
(`withSweep`) or on channel 2 when it starts with a full clock counter at
sequencer step `clockStep`: 8,191 sample steps, then the clocks of the
sequencer step and the sample step of the last cycle. -/
def periodEvents (withSweep : Bool) (clockStep : Nat) : List ToneEvent :=
  List.replicate 8191 ToneEvent.step ++ (sequencerEvents withSweep clockStep ++ [ToneEvent.step])

/-- What `m` such periods call on a channel, from sequencer step `clockStep`. -/
def periodsEvents (withSweep : Bool) (clockStep : Nat) : Nat → List ToneEvent
  | 0 => []
  | m + 1 => periodEvents withSweep clockStep
              ++ periodsEvents withSweep (if clockStep + 1 ≥ 8 then 0 else clockStep + 1) m

/-- The audio unit at reset with the master enable set. -/
def soundOnAPU : APU := { soundControl := true }

/-- The audio unit at reset: the master enable is clear. -/
def soundOffAPU : APU := {}

/-! ## Compare: notions and a machine of the statements -/

/-- F after a subtraction without borrow-in, in closed form. -/
def subFlags (a b : Nat) : Nat :=
  0x40 + (if toByte ((a : Int) - (b : Int)) = 0 then 0x80 else 0)
    + (if ((a &&& 0xF : Nat) : Int) - ((b &&& 0xF : Nat) : Int) < 0 then 0x20 else 0)
    + (if a < b then 0x10 else 0)

/-- A = 0x3C, F = 0x1F, everything else as constructed. -/
def cpMachine : Machine := { AF := { hi := 0x3C, lo := 0x1F } }

/-! ## Rotates and shifts: notions and machines of the statements -/

/-- A machine whose accumulator is `v` and whose F is `f`, everything else as
constructed. -/
def regMachine (v f : Nat) : Machine := { AF := { hi := v, lo := f } }

/-- The flag byte that holds only the carry `c`. -/
def carryByte (c : Bool) : Nat := if c then 0x10 else 0

/-- The carry `c` as the number 0 or 1. -/
def carryIn (c : Bool) : Nat := if c then 1 else 0

/-- Rotate left by one within 8 bits. -/
def rlcByte (v : Nat) : Nat := ((v <<< 1) ||| (v >>> 7)) % 256

/-- Rotate left by one through the carry: `(v << 1 | c) mod 256`. -/
def rlByte (v c : Nat) : Nat := ((v <<< 1) ||| c) % 256

/-- Rotate right by one within 8 bits. -/
def rrcByte (v : Nat) : Nat := ((v >>> 1) ||| (v <<< 7)) % 256

/-- Rotate right by one through the carry: `c << 7 | v >> 1`. -/
def rrByte (v c : Nat) : Nat := (c <<< 7) ||| (v >>> 1)

/-- Shift left: `(v << 1) mod 256`. -/
def slaByte (v : Nat) : Nat := (v <<< 1) % 256

/-- Arithmetic shift right: `(v >> 1) | (v & 0x80)`. -/
def sraByte (v : Nat) : Nat := (v >>> 1) ||| (v &&& 0x80)

/-- Logical shift right: `v >> 1`. -/
def srlByte (v : Nat) : Nat := v >>> 1

/-- Exchange of the two nibbles. -/
def swapByte (v : Nat) : Nat := ((v >>> 4) ||| (v <<< 4)) % 256

/-- F after a rotate or shift, in closed form: Z iff the result is 0, N and H
clear, C as given. -/
def shiftFlags (result : Nat) (carry : Bool) : Nat :=
  (if result = 0 then 0x80 else 0) + (if carry then 0x10 else 0)

/-- B = 0x85, F = 0x10 (C set), everything else as constructed. -/
def rotMachine : Machine := { BC := { hi := 0x85, lo := 0 }, AF := { hi := 0, lo := 0x10 } }

/-! ## Increment and decrement: notions and a machine of the statements -/

/-- F after INC, in closed form: C is kept, N is clear, Z and H follow the result. -/
def incFlags (f result : Nat) : Nat :=
  (f &&& 0x10) + (if result = 0 then 0x80 else 0) + (if result &&& 0x0F = 0 then 0x20 else 0)

/-- F after DEC, in closed form: C is kept, N is set, Z and H follow the result. -/
def decFlags (f result : Nat) : Nat :=
  (f &&& 0x10) + 0x40 + (if result = 0 then 0x80 else 0)
    + (if result &&& 0x0F = 0x0F then 0x20 else 0)

/-- B = 0x0F, F = 0x10 (C set), everything else as constructed. -/
def incMachine : Machine := { BC := { hi := 0x0F, lo := 0 }, AF := { hi := 0, lo := 0x10 } }

/-! ## Decimal adjustment after a subtraction: notions and a machine of the statements -/

/-- The accumulator after DAA following a subtraction, in closed form: 0x60 is
subtracted if C, then 0x06 if H. -/
def daaSubRuleA (a : Nat) (h c : Bool) : Nat :=
  let a1 := if c then (a + 256 - 0x60) % 256 else a
  if h then (a1 + 256 - 0x06) % 256 else a1

/-- One line of the table `daa_after_sub_table`. -/
def daaSubLine (a k : Nat) : Bool :=
  let z := decide (k / 4 % 2 = 1)
  let h := decide (k / 2 % 2 = 1)
  let c := decide (k % 2 = 1)
  let f := 0x40 + (if z then 0x80 else 0) + (if h then 0x20 else 0) + (if c then 0x10 else 0)
  let r := (CPU_DAA { AF := { hi := a, lo := f } }).AF
  r.hi == daaSubRuleA a h c
    && r.lo == 0x40 + (if daaSubRuleA a h c = 0 then 0x80 else 0) + (if c then 0x10 else 0)

/-- One line of the table `bcd_difference_table`. -/
def bcdSubLine (da db : Nat) : Bool :=
  let a := toBCD da
  let b := toBCD db
  let h := decide (a % 16 < b % 16)
  let c := decide (a < b)
  daaSubRuleA ((a + 256 - b) % 256) h c == toBCD ((da + 100 - db) % 100)
    && c == decide (da < db)

/-- A = 0x42 (the packed-BCD byte of 42), F = 0. -/
def bcdSubMachine : Machine := { AF := { hi := 0x42, lo := 0 } }

/-! ## The sprite loop: its parts by name, and a machine of the statements -/

/-- The local `height` of `renderSprites`. -/
def PPU.spriteHeight (s : Machine) : Int := if s.mmu.spriteDoubled then 16 else 8

/-- The test `sprite.posY <= mmu.line && (sprite.posY + height) > mmu.line`. -/
def PPU.spriteOnLine (s : Machine) (sprite : SPRITE) : Prop :=
  sprite.posY ≤ (s.mmu.line : Int) ∧ sprite.posY + PPU.spriteHeight s > (s.mmu.line : Int)

/-- The middle index of `mmu.tileSet[sprite.tileNumber][...][j]`:
`(height - 1) - (mmu.line - sprite.posY)` for a flipped sprite, else
`mmu.line - sprite.posY`. -/
def PPU.spriteRow (s : Machine) (sprite : SPRITE) : Int :=
  if sprite.flippedY then (PPU.spriteHeight s - 1) - ((s.mmu.line : Int) - sprite.posY)
  else (s.mmu.line : Int) - sprite.posY

/-- The local array `tileRow` of `renderSprites`. -/
def PPU.spriteTileRow (s : Machine) (sprite : SPRITE) (j : Nat) : Nat :=
  MMU.tileSetAt s sprite.tileNumber (PPU.spriteRow s sprite).toNat j

/-- One pass of the outer loop of `renderSprites`, on the frame buffer. -/
def PPU.renderSprite (s : Machine) (scanRow : Nat → Nat) (frameBuffer : Nat → Nat) (i : Nat) :
    Nat → Nat :=
  let sprite := s.mmu.spriteSet i
  let line : Int := s.mmu.line
  if sprite.posY ≤ line ∧ sprite.posY + PPU.spriteHeight s > line then
    let palette := fun j k =>
      if sprite.zeroPalette then s.mmu.obj0Palette j k else s.mmu.obj1Palette j k
    (List.range 8).foldl (fun (frameBuffer : Nat → Nat) (x : Nat) =>
      let screenOffset : Int := (line * 160 + sprite.posX) * 4 + 4 * (x : Int)
      let p := PPU.spriteTileRow s sprite (if sprite.flippedX then 7 - x else x)
      if sprite.posX + (x : Int) ≥ 0 ∧ sprite.posX + (x : Int) < 160 ∧ p ≠ 0
          ∧ (sprite.prioritized = true ∨ scanRow (sprite.posX + (x : Int)).toNat = 0) then
        PPU.putPixel frameBuffer screenOffset.toNat (fun j => palette p j)
      else frameBuffer) frameBuffer
  else frameBuffer

/-- Sprites of 8x16 pixels, line 0; sprite 0 at the top left corner with tile
number 1, in front of the background, with the palette OBP0 that maps pixel
value 3 to black; every pixel of row 0 of tile 1 is 3 and tile 0 is empty. -/
def spriteMachine : Machine :=
  { mmu := { spriteDoubled := true, line := 0,
             spriteSet := fun i =>
               if i = 0 then { posY := 0, posX := 0, tileNumber := 1, prioritized := true,
                               zeroPalette := true }
               else { posY := -16, posX := -8 },
             tileSet := fun t r _ => if t = 1 ∧ r = 0 then 3 else 0,
             obj0Palette := fun j k => if k = 3 then 255 else if j = 3 then 0 else 255 } }

/-! ## HALT followed by HALT: a machine of the statements -/

/-- IME clear, HALT at 0xC000 followed by another HALT at 0xC001, the VBlank
interrupt requested and enabled. -/
def haltHaltMachine : Machine :=
  { PC := 0xC000, SP := Register.ofWord 0xD000, ifRegister := 0x01, ieRegister := 0x01,
    mmu := { inBIOS := false,
             memory := fun a => if a = 0xC000 then 0x76 else if a = 0xC001 then 0x76 else 0 } }

/-! ## Banked accesses: notions of the statements -/

/-- The macro `MAX_MEMORY`: the number of bytes of the cartridge array. -/
def MAX_MEMORY : Nat := 0x200000

/-- The number of bytes of the array `ramMemory`. -/
def RAM_MEMORY_LENGTH : Nat := 0x8000

/-- The index `(address - 0x4000) + (romBankNumber * 0x4000)` of `readByte`. -/
def MMU.romIndex (s : Machine) (a : Nat) : Nat := (a - 0x4000) + (s.mmu.romBankNumber * 0x4000)

/-- The index `(address - 0xA000) + (ramBankNumber * 0x2000)` of `readByte` and
`writeByte`. -/
def MMU.ramIndex (s : Machine) (a : Nat) : Nat := (a - 0xA000) + (s.mmu.ramBankNumber * 0x2000)

/-- The assignment `ramMemory[i] = v`. -/
def MMU.storeRam (s : Machine) (i v : Nat) : Machine :=
  { s with mmu := { s.mmu with ramMemory := fun b => if b = i then v else s.mmu.ramMemory b } }

/-- The writes that select ROM bank 0x7F and RAM bank 3 on an MBC1 cartridge. -/
def bankWrites : List (Nat × Nat) :=
  [(0x2000, 0x1F), (0x4000, 0x03), (0x6000, 0x01), (0x4000, 0x03)]

/-! ## Read-modify-write on (HL): notions and a machine of the statements -/

/-- The outcome `w` of an (HL) variant run from `s` matches the outcome `t` of
the register variant on register `r`: the byte at address HL of `w` is what `t`
holds in `r`, F of `w` is F of `t`, and A, BC, DE, HL, SP and PC of `w` are
those of `s`. -/
def MatchesRegister (s w t : Machine) (r : Reg8) : Prop :=
  MMU.readByte w s.HL.reg = t.get8 r ∧ w.AF.lo = t.AF.lo
  ∧ w.AF.hi = s.AF.hi ∧ w.BC = s.BC ∧ w.DE = s.DE ∧ w.HL = s.HL ∧ w.SP = s.SP ∧ w.PC = s.PC

/-- HL = 0xC000, the byte 0x85 at 0xC000, F = 0x10 (C set). -/
def hlMachine : Machine :=
  { HL := Register.ofWord 0xC000, AF := { hi := 0, lo := 0x10 },
    mmu := { inBIOS := false, memory := fun a => if a = 0xC000 then 0x85 else 0 } }

/-! ## The background loop: its parts by name, and notions of the statements -/

/-- The macro `MAX_TILES`: the number of tiles of `tileSet`. -/
def MAX_TILES : Nat := 384

/-- The macro `FRAME_BUFFER_LENGTH`: 160 * 144 * 4. -/
def FRAME_BUFFER_LENGTH : Nat := 92160

/-- The local `tileIDAddress` of `renderBackground` at column `column`. -/
def PPU.bgTileAddress (s : Machine) (column : Nat) : Nat :=
  let mapOffset := if s.mmu.bgMap then 0x9C00 else 0x9800
  let lineOffset := (s.mmu.scrollX + column) % 256
  let rowOffset := (s.mmu.scrollY + s.mmu.line) % 256
  let tileX := lineOffset / 8
  let tileY := rowOffset / 8
  let tileIndex := (tileY * 32 + tileX) % 65536
  (mapOffset + tileIndex) % 65536

/-- The local `tile` of `renderBackground` at column `column`, after the
adjustment for signed tile numbers. -/
def PPU.bgTileIndex (s : Machine) (column : Nat) : Nat :=
  let tile := MMU.readByte s (PPU.bgTileAddress s column)
  if ¬ s.mmu.bgTile ∧ tile < 128 then tile + 256 else tile

/-- The local `y` of `renderBackground`. -/
def PPU.bgRow (s : Machine) : Nat := (s.mmu.scrollY + s.mmu.line) % 256 % 8

/-- The local `x` of `renderBackground` at column `column`. -/
def PPU.bgColumn (s : Machine) (column : Nat) : Nat := (s.mmu.scrollX + column) % 256 % 8

/-- The entry `mmu.tileSet[tile][y][x]` of `renderBackground` at column
`column`: the first index of `mmu.palette`. -/
def PPU.bgPixel (s : Machine) (column : Nat) : Nat :=
  s.mmu.tileSet (PPU.bgTileIndex s column) (PPU.bgRow s) (PPU.bgColumn s column)

/-- One pass of the loop of `renderBackground`. -/
def PPU.renderBackgroundColumn (s : Machine) (acc : (Nat → Nat) × (Nat → Nat)) (column : Nat) :
    (Nat → Nat) × (Nat → Nat) :=
  (PPU.putPixel acc.1 (s.mmu.line * 160 * 4 + 4 * column)
      (fun i => s.mmu.palette (PPU.bgPixel s column) i),
    fun j => if j = column then PPU.bgPixel s column else acc.2 j)

/-- Every entry of the tile cache is a pixel value 0..3. -/
def TileBounded (s : Machine) : Prop := ∀ t r x, s.mmu.tileSet t r x ≤ 3

/-- The tile maps 0x9800-0x9FFF hold bytes. -/
def MapBytes (s : Machine) : Prop := ∀ a, 0x9800 ≤ a → a ≤ 0x9FFF → s.mmu.memory a < 256

/-- Line 143, scroll (3, 5), signed tile numbers; the byte 0x7F at 0x9A40 (the
map entry of the top left pixel) and 0x80 elsewhere; pixel value 2 all over
tile 0x17F. -/
def backgroundMachine : Machine :=
  { mmu := { line := 143, scrollX := 3, scrollY := 5, bgTile := false,
             memory := fun a => if a = 0x9A40 then 0x7F else 0x80,
             tileSet := fun t _ _ => if t = 0x17F then 2 else 0 } }

/-! ## The trigger of a pulse channel and its sweep calculation -/

/-- Z is set, PC = 0xC000 points at the operand bytes 0x05 0xC1, and the stack
at SP = 0xD000 holds the word 0x1234. -/
def branchMachine : Machine :=
  { AF := { hi := 0, lo := 0x80 }, SP := Register.ofWord 0xD000, PC := 0xC000,
    mmu := { inBIOS := false,
             memory := fun a => if a = 0xC000 then 0x05 else if a = 0xC001 then 0xC1
                                else if a = 0xD000 then 0x34 else if a = 0xD001 then 0x12
                                else 0 } }

/-! ## Lemmas on flags and bytes -/

theorem flagBit_AFlo (s : Machine) (b : Nat) :
    flagBit s .AFlo b = { s with AF := { s.AF with lo := ((s.AF.lo ||| b) % 256) &&& 0xF0 } } := by
  simp [flagBit, Machine.set8, Machine.get8]

theorem unflagBit_AFlo (s : Machine) (b : Nat) :
    unflagBit s .AFlo b = { s with AF := { s.AF with lo := (s.AF.lo &&& (0xFF ^^^ b)) &&& 0xF0 } } := by
  simp [unflagBit, Machine.set8, Machine.get8]

set_option maxRecDepth 10000 in
theorem and_0x100_eq_zero : ∀ n < 512, ((n &&& 0x100) = 0 ↔ n ≤ 0xFF) := by decide

/-! ## C1 -/

/-- C1 (the code departs from the claim at POP AF): from a machine whose F
register is 0, one `step` on opcode 0xF1 with the word 0x120F on the stack
returns 12 cycles and leaves the low nibble of F equal to 0xF: the mask
`AF.reg &= 0xFFF0` is applied before the pop and not after it. -/
theorem pop_af_loads_low_nibble_of_F :
    popAFMachine.AF.lo &&& 0x0F = 0
    ∧ MMU.readByte popAFMachine popAFMachine.PC = 0xF1
    ∧ (step 1 popAFMachine).cycles = some 12
    ∧ (step 1 popAFMachine).read (fun s => s.AF.lo &&& 0x0F) = some 0x0F := by
  decide

/-! ## C2 -/

set_option maxRecDepth 100000 in
/-- C2: `CPU_ADD` on accumulator `a`, operand `b` and carry-in `c` (the old C
flag for ADC, 0 for ADD) leaves A = (a + b + c) mod 256, Z iff that is 0, N
clear, H iff the low nibbles and `c` add up to more than 0xF, C iff
a + b + c > 0xFF, and the low nibble of F zero; opcodes 0x87 and 0x8F (ADD A,A
and ADC A,A) run it with the old accumulator as operand. -/
theorem CPU_ADD_result_and_flags (s : Machine) (b : Nat) (carry : Bool) (fuel : Nat)
    (ha : s.AF.hi < 256) (hb : b < 256) :
    (CPU_ADD s b carry).AF.hi
        = (s.AF.hi + b + (if carry && isFlagged s.AF.lo FLAG_C then 1 else 0)) % 256
    ∧ (isFlagged (CPU_ADD s b carry).AF.lo FLAG_Z = true ↔
        (s.AF.hi + b + (if carry && isFlagged s.AF.lo FLAG_C then 1 else 0)) % 256 = 0)
    ∧ isFlagged (CPU_ADD s b carry).AF.lo FLAG_N = false
    ∧ (isFlagged (CPU_ADD s b carry).AF.lo FLAG_HC = true ↔
        (s.AF.hi &&& 0xF) + (b &&& 0xF) + (if carry && isFlagged s.AF.lo FLAG_C then 1 else 0) > 0xF)
    ∧ (isFlagged (CPU_ADD s b carry).AF.lo FLAG_C = true ↔
        s.AF.hi + b + (if carry && isFlagged s.AF.lo FLAG_C then 1 else 0) > 0xFF)
    ∧ (CPU_ADD s b carry).AF.lo &&& 0x0F = 0
    ∧ executeOpcode (fuel + 1) s 0x87 = .done (CPU_ADD s s.AF.hi false) 4
    ∧ executeOpcode (fuel + 1) s 0x8F = .done (CPU_ADD s s.AF.hi true) 4 := by
  have h0 := and_0x100_eq_zero (s.AF.hi + b + 0) (by omega)
  have h1 := and_0x100_eq_zero (s.AF.hi + b + 1) (by omega)
  refine ⟨?_, ?_, ?_, ?_, ?_, ?_, rfl, rfl⟩ <;>
  unfold CPU_ADD <;>
  cases hcf : (carry && isFlagged s.AF.lo FLAG_C) <;>
  simp only [flagBit_AFlo, clearF, Machine.set8, Bool.false_eq_true, if_false, if_true] <;>
  (try split_ifs) <;>
  simp +decide [FLAG_Z, FLAG_HC, FLAG_C, FLAG_N, isFlagged] <;> omega

/-- C2, witness: 0xFF + 0x01 gives A = 0x00 with Z = 1, N = 0, H = 1, C = 1. -/
theorem CPU_ADD_result_and_flags_witness :
    addMachine.AF.hi < 256 ∧ 1 < 256
    ∧ (CPU_ADD addMachine 1 false).AF.hi = 0
    ∧ isFlagged (CPU_ADD addMachine 1 false).AF.lo FLAG_Z = true
    ∧ isFlagged (CPU_ADD addMachine 1 false).AF.lo FLAG_N = false
    ∧ isFlagged (CPU_ADD addMachine 1 false).AF.lo FLAG_HC = true
    ∧ isFlagged (CPU_ADD addMachine 1 false).AF.lo FLAG_C = true :=
  have h := CPU_ADD_result_and_flags addMachine 1 false 0 (by decide) (by decide)
  ⟨by decide, by decide, h.1.trans (by decide), h.2.1.mpr (by decide), h.2.2.1,
    h.2.2.2.1.mpr (by decide), h.2.2.2.2.1.mpr (by decide)⟩

/-! ## C3 -/

set_option maxRecDepth 100000 in
/-- C3: `CPU_SUB` on accumulator `a`, operand `b` and carry-in `c` (the old C
flag for SBC, 0 for SUB) leaves A = (a - b - c) mod 256, Z iff that is 0, N
set, H iff (a & 0xF) < (b & 0xF) + c, C iff a < b + c, and the low nibble of F
zero; opcodes 0x97 and 0x9F (SUB A,A and SBC A,A) run it with the old
accumulator as operand. -/
theorem CPU_SUB_result_and_flags (s : Machine) (b : Nat) (carry : Bool) (fuel : Nat)
    (ha : s.AF.hi < 256) (hb : b < 256) :
    ((CPU_SUB s b carry).AF.hi : Int)
        = ((s.AF.hi : Int) - b - (if carry && isFlagged s.AF.lo FLAG_C then 1 else 0)) % 256
    ∧ (isFlagged (CPU_SUB s b carry).AF.lo FLAG_Z = true ↔
        ((s.AF.hi : Int) - b - (if carry && isFlagged s.AF.lo FLAG_C then 1 else 0)) % 256 = 0)
    ∧ isFlagged (CPU_SUB s b carry).AF.lo FLAG_N = true
    ∧ (isFlagged (CPU_SUB s b carry).AF.lo FLAG_HC = true ↔
        (s.AF.hi &&& 0xF) < (b &&& 0xF) + (if carry && isFlagged s.AF.lo FLAG_C then 1 else 0))
    ∧ (isFlagged (CPU_SUB s b carry).AF.lo FLAG_C = true ↔
        s.AF.hi < b + (if carry && isFlagged s.AF.lo FLAG_C then 1 else 0))
    ∧ (CPU_SUB s b carry).AF.lo &&& 0x0F = 0
    ∧ executeOpcode (fuel + 1) s 0x97 = .done (CPU_SUB s s.AF.hi false) 4
    ∧ executeOpcode (fuel + 1) s 0x9F = .done (CPU_SUB s s.AF.hi true) 4 := by
  refine ⟨?_, ?_, ?_, ?_, ?_, ?_, rfl, rfl⟩ <;>
  unfold CPU_SUB <;>
  cases hcf : (carry && isFlagged s.AF.lo FLAG_C) <;>
  simp only [flagBit_AFlo, clearF, Machine.set8, toByte, Bool.false_eq_true, if_false, if_true] <;>
  (try split_ifs) <;>
  simp +decide [FLAG_Z, FLAG_HC, FLAG_C, FLAG_N, isFlagged] <;> omega

/-- C3, witness: 0x00 - 0x01 gives A = 0xFF with Z = 0, N = 1, H = 1, C = 1. -/
theorem CPU_SUB_result_and_flags_witness :
    subMachine.AF.hi < 256 ∧ 1 < 256
    ∧ ((CPU_SUB subMachine 1 false).AF.hi : Int) = 0xFF
    ∧ isFlagged (CPU_SUB subMachine 1 false).AF.lo FLAG_Z = false
    ∧ isFlagged (CPU_SUB subMachine 1 false).AF.lo FLAG_N = true
    ∧ isFlagged (CPU_SUB subMachine 1 false).AF.lo FLAG_HC = true
    ∧ isFlagged (CPU_SUB subMachine 1 false).AF.lo FLAG_C = true :=
  have h := CPU_SUB_result_and_flags subMachine 1 false 0 (by decide) (by decide)
  ⟨by decide, by decide, h.1.trans (by decide), by
      have hz := h.2.1
      cases hf : isFlagged (CPU_SUB subMachine 1 false).AF.lo FLAG_Z
      · rfl
      · exact absurd (hz.mp hf) (by decide),
    h.2.2.1, h.2.2.2.1.mpr (by decide), h.2.2.2.2.1.mpr (by decide)⟩

/-! ## Lemmas on memory and the stack -/

theorem writeByte_ram (s : Machine) (a v : Nat) (h : InRam a) :
    MMU.writeByte s a v = MMU.storeMemory s a v := by
  unfold InRam at h
  unfold MMU.writeByte MMU.writeByteFuel
  simp (disch := omega) only [if_neg, if_pos]

theorem readByte_ram (s : Machine) (a : Nat) (h : InRam a) :
    MMU.readByte s a = s.mmu.memory a := by
  unfold InRam at h
  unfold MMU.readByte
  have h1 : ¬ (s.mmu.inBIOS = true ∧ a < 0x100) := by omega
  simp (disch := omega) only [if_neg, if_pos, h1]
  rfl

theorem Register.reg_ofWord (w : Nat) : (Register.ofWord w).reg = w % 65536 := by
  simp only [Register.reg, Register.ofWord]; omega

theorem Register.ofWord_reg (r : Register) (h : r.WF) : Register.ofWord r.reg = r := by
  obtain ⟨h1, h2⟩ := h
  cases r with
  | mk lo hi =>
    simp only [Register.reg, Register.ofWord] at *
    congr 1 <;> omega

theorem Register.reg_lt (r : Register) (h : r.WF) : r.reg < 65536 := by
  obtain ⟨h1, h2⟩ := h
  simp only [Register.reg]; omega

theorem or_shiftLeft_8 (lo hi : Nat) (h : lo < 256) : lo ||| (hi <<< 8) = hi * 256 + lo := by
  have h2 := Nat.mul_add_lt_is_or (show lo < 2 ^ 8 by omega) hi
  rw [Nat.shiftLeft_eq, Nat.lor_comm, Nat.mul_comm, ← h2]

/-- Reading back a word written to RAM. -/
theorem readWord_writeWord_ram (s : Machine) (a w : Nat)
    (h0 : InRam a) (h1 : InRam ((a + 1) % 65536)) (hw : w < 65536) :
    MMU.readWord (MMU.writeWord s a w) a = w := by
  have hne : (a + 1) % 65536 ≠ a := by unfold InRam at h0 h1; omega
  unfold MMU.readWord MMU.writeWord
  simp only [writeByte_ram _ _ _ h0, writeByte_ram _ _ _ h1, readByte_ram _ _ h0, readByte_ram _ _ h1]
  simp only [MMU.storeMemory, if_true, if_neg hne.symm]
  rw [or_shiftLeft_8 _ _ (Nat.mod_lt _ (by decide)), Nat.shiftRight_eq_div_pow]
  omega

theorem writeWord_ram_bytes (s : Machine) (a w : Nat)
    (h0 : InRam a) (h1 : InRam ((a + 1) % 65536)) :
    MMU.readByte (MMU.writeWord s a w) a = w % 256
    ∧ MMU.readByte (MMU.writeWord s a w) ((a + 1) % 65536) = (w >>> 8) % 256 := by
  have hne : (a + 1) % 65536 ≠ a := by unfold InRam at h0 h1; omega
  unfold MMU.writeWord
  simp only [writeByte_ram _ _ _ h0, writeByte_ram _ _ _ h1, readByte_ram _ _ h0, readByte_ram _ _ h1]
  simp only [MMU.storeMemory, if_true, if_neg hne.symm]
  exact ⟨trivial, trivial⟩

theorem SameCPU.refl (s : Machine) : SameCPU s s := ⟨rfl, rfl, rfl, rfl, rfl, rfl, rfl⟩

theorem SameCPU.trans {s t u : Machine} (h1 : SameCPU s t) (h2 : SameCPU t u) : SameCPU s u := by
  obtain ⟨a1, a2, a3, a4, a5, a6, a7⟩ := h1
  obtain ⟨b1, b2, b3, b4, b5, b6, b7⟩ := h2
  exact ⟨b1.trans a1, b2.trans a2, b3.trans a3, b4.trans a4, b5.trans a5, b6.trans a6, b7.trans a7⟩

theorem foldl_sameCPU {α : Type} (f : Machine → α → Machine) (hf : ∀ s x, SameCPU s (f s x)) :
    ∀ (l : List α) (s : Machine), SameCPU s (l.foldl f s) := by
  intro l
  induction l with
  | nil => intro s; exact SameCPU.refl s
  | cons x xs ih => intro s; exact (hf s x).trans (ih (f s x))

theorem updateTileSet_sameCPU (s : Machine) (a : Nat) : SameCPU s (MMU.updateTileSet s a) := by
  unfold MMU.updateTileSet
  apply foldl_sameCPU
  intro s x
  exact ⟨rfl, rfl, rfl, rfl, rfl, rfl, rfl⟩

theorem storeMemory_sameCPU (s : Machine) (a v : Nat) : SameCPU s (MMU.storeMemory s a v) :=
  ⟨rfl, rfl, rfl, rfl, rfl, rfl, rfl⟩

theorem SameCPU.ite {c : Prop} [Decidable c] {s x y : Machine} (hx : SameCPU s x) (hy : SameCPU s y) :
    SameCPU s (if c then x else y) := by
  split <;> assumption

theorem writeByteFuel_sameCPU : ∀ (fuel : Nat) (s : Machine) (a v : Nat),
    SameCPU s (MMU.writeByteFuel fuel s a v) := by
  intro fuel
  induction fuel with
  | zero => intro s a v; exact SameCPU.refl s
  | succ n ih =>
    intro s a v
    unfold MMU.writeByteFuel
    repeat' apply SameCPU.ite
    all_goals first
      | exact SameCPU.refl s
      | exact storeMemory_sameCPU _ _ _
      | skip
    · exact (ih s _ _).trans (storeMemory_sameCPU _ _ _)
    · refine SameCPU.trans ?_ (storeMemory_sameCPU _ _ _)
      apply foldl_sameCPU
      intro t x
      exact ih t _ _

theorem writeByte_sameCPU (s : Machine) (a v : Nat) : SameCPU s (MMU.writeByte s a v) :=
  writeByteFuel_sameCPU 2 s a v

theorem writeWord_sameCPU (s : Machine) (a v : Nat) : SameCPU s (MMU.writeWord s a v) :=
  (writeByte_sameCPU s _ _).trans (writeByte_sameCPU _ _ _)

set_option maxRecDepth 10000 in
theorem and_0xF0_of_low_nibble : ∀ lo < 256, lo &&& 0x0F = 0 → lo &&& 0xFFF0 = lo := by decide

set_option maxRecDepth 100000 in
theorem mul_256_and_0xFFF0 : ∀ hi < 256, (256 * hi) &&& 0xFFF0 = 256 * hi := by decide

theorem reg_and_0xFFF0 (r : Register) (h : r.WF) (hF : r.lo &&& 0x0F = 0) :
    r.reg &&& 0xFFF0 = r.reg := by
  obtain ⟨h1, h2⟩ := h
  have e : r.reg = 2 ^ 8 * r.hi ||| r.lo := by
    rw [← Nat.mul_add_lt_is_or (show r.lo < 2 ^ 8 by omega)]; simp only [Register.reg]; omega
  rw [e, Nat.and_distrib_right, and_0xF0_of_low_nibble _ h1 hF]
  have h3 := mul_256_and_0xFFF0 _ h2
  simp only [Nat.reducePow] at h3 ⊢
  rw [h3]

theorem set16_SP_reg (t : Machine) (v : Nat) : (t.set16 .SP v).SP.reg = v % 65536 := by
  simp only [Machine.set16, Register.reg_ofWord]

theorem get16_set16_SP_ne (s : Machine) (x : Nat) (r : Reg16) (hr : r ≠ .SP) :
    (s.set16 .SP x).get16 r = s.get16 r := by
  cases r <;> first | exact (hr rfl).elim | rfl

theorem CPU_PUSH_eq (s : Machine) (r : Reg16) (hr : r ≠ .SP) :
    CPU_PUSH s r = MMU.writeWord (s.set16 .SP ((s.SP.reg + 65536 - 2) % 65536))
      ((s.SP.reg + 65536 - 2) % 65536) (s.get16 r) := by
  have h : CPU_PUSH s r = MMU.writeWord (s.set16 .SP ((s.SP.reg + 65536 - 2) % 65536))
      (s.set16 .SP ((s.SP.reg + 65536 - 2) % 65536)).SP.reg
      ((s.set16 .SP ((s.SP.reg + 65536 - 2) % 65536)).get16 r) := rfl
  rw [h, set16_SP_reg, get16_set16_SP_ne _ _ _ hr, Nat.mod_mod]

set_option maxRecDepth 100000 in
theorem executeOpcode_push (s : Machine) (r : Reg16) (fuel : Nat) (hr : r.isPair = true)
    (hwf : s.WF) (hF : s.AF.lo &&& 0x0F = 0) :
    executeOpcode (fuel + 1) s (pushOpcode r) = .done (CPU_PUSH s r) 16 := by
  cases r with
  | AF =>
    show Outcome.done (CPU_PUSH (s.set16 .AF (s.AF.reg &&& 0xFFF0)) .AF) 16 = _
    rw [reg_and_0xFFF0 _ hwf.1 hF]
    simp only [Machine.set16, Register.ofWord_reg _ hwf.1]
  | BC => rfl
  | DE => rfl
  | HL => rfl
  | SP => exact absurd hr (by decide)
  | PC => exact absurd hr (by decide)

set_option maxRecDepth 100000 in
theorem executeOpcode_pop (s : Machine) (r : Reg16) (fuel : Nat) (hr : r.isPair = true) :
    executeOpcode (fuel + 1) s (popOpcode r)
      = .done (CPU_POP (if r = .AF then s.set16 .AF (s.AF.reg &&& 0xFFF0) else s) r) 12 := by
  cases r with
  | AF => rfl
  | BC => rfl
  | DE => rfl
  | HL => rfl
  | SP => exact absurd hr (by decide)
  | PC => exact absurd hr (by decide)

theorem readWord_set16_AF (s : Machine) (v a : Nat) :
    MMU.readWord (s.set16 .AF v) a = MMU.readWord s a := by
  simp only [MMU.readWord, MMU.readByte, Machine.set16]

theorem get16_lt (s : Machine) (r : Reg16) (hwf : s.WF) : s.get16 r < 65536 := by
  obtain ⟨h1, h2, h3, h4, h5, h6⟩ := hwf
  cases r <;> simp only [Machine.get16] <;> first | exact Register.reg_lt _ ‹_› | exact h6

theorem get16_set16_SP (s : Machine) (r : Reg16) (w v : Nat) (hr : r.isPair = true) :
    ((s.set16 r w).set16 .SP v).get16 r = w % 65536 := by
  cases r <;> first | exact absurd hr (by decide) | simp only [Machine.get16, Machine.set16, Register.reg_ofWord]

theorem CPU_POP_eq (t : Machine) (r : Reg16) (hr : r.isPair = true) :
    CPU_POP t r = (t.set16 r (MMU.readWord t t.SP.reg)).set16 .SP ((t.SP.reg + 2) % 65536) := by
  cases r <;> first | exact absurd hr (by decide) | simp only [CPU_POP, Machine.set16]

theorem set16_AF_SP (x : Machine) (v : Nat) : (x.set16 .AF v).SP = x.SP := rfl

/-! ## C4 -/

theorem ifRegister_ite {c : Prop} [Decidable c] {s x y : Machine}
    (hx : c → x.ifRegister = s.ifRegister) (hy : ¬c → y.ifRegister = s.ifRegister) :
    (if c then x else y).ifRegister = s.ifRegister := by
  split
  · exact hx ‹_›
  · exact hy ‹_›

theorem foldl_mem_inv {α : Type} (P : Machine → Prop) (f : Machine → α → Machine) :
    ∀ (l : List α), (∀ s x, x ∈ l → P s → P (f s x)) → ∀ s, P s → P (l.foldl f s) := by
  intro l
  induction l with
  | nil => intro _ s hs; exact hs
  | cons x xs ih =>
    intro hf s hs
    exact ih (fun s y hy => hf s y (List.mem_cons_of_mem _ hy)) _ (hf s x (List.mem_cons_self _ _) hs)

theorem writeByteFuel_ifRegister : ∀ (fuel : Nat) (s : Machine) (a v : Nat), a ≠ 0xFF0F →
    (MMU.writeByteFuel fuel s a v).ifRegister = s.ifRegister := by
  intro fuel
  induction fuel with
  | zero => intro s a v _; rfl
  | succ n ih =>
    intro s a v ha
    unfold MMU.writeByteFuel
    repeat' (apply ifRegister_ite <;> intro _)
    all_goals first
      | rfl
      | exact absurd ‹a = 0xFF0F› ha
      | skip
    · show (MMU.writeByteFuel n s (a - 0x2000) v).ifRegister = s.ifRegister
      exact ih s _ _ (by omega)
    · show (List.foldl _ s (List.range 0xA0)).ifRegister = s.ifRegister
      refine foldl_mem_inv (fun t => t.ifRegister = s.ifRegister) _ _ ?_ s rfl
      intro t x hx ht
      rw [ih t _ _ (by have := List.mem_range.mp hx; omega)]
      exact ht

theorem writeWord_ifRegister (s : Machine) (a v : Nat) (h0 : a ≠ 0xFF0F) (h1 : (a + 1) % 65536 ≠ 0xFF0F) :
    (MMU.writeWord s a v).ifRegister = s.ifRegister := by
  unfold MMU.writeWord MMU.writeByte
  rw [writeByteFuel_ifRegister _ _ _ _ h1, writeByteFuel_ifRegister _ _ _ _ h0]

theorem CPU_RST_eq (s : Machine) (addr : Nat) :
    CPU_RST s addr =
      (MMU.writeWord (s.set16 .SP ((s.SP.reg + 65536 - 2) % 65536))
          ((s.SP.reg + 65536 - 2) % 65536) s.PC).set16 .PC addr := by
  have e := CPU_PUSH_eq s .PC (by decide)
  simp only [CPU_RST, CPU_CALL, Bool.not_false, Bool.true_or, if_true, e, Machine.get16, Machine.set16]

/-- A read depends on the memory unit, the peripherals and IF and IE only. -/
theorem readByte_congr (s t : Machine) (a : Nat) (h1 : t.mmu = s.mmu) (h2 : t.joypad = s.joypad)
    (h3 : t.timer = s.timer) (h4 : t.apu = s.apu) (h5 : t.ifRegister = s.ifRegister)
    (h6 : t.ieRegister = s.ieRegister) : MMU.readByte t a = MMU.readByte s a := by
  unfold MMU.readByte
  rw [h1, h2, h3, h4, h5, h6]

theorem readByte_set16_PC (x : Machine) (v a : Nat) :
    MMU.readByte (x.set16 .PC v) a = MMU.readByte x a :=
  readByte_congr _ _ a rfl rfl rfl rfl rfl rfl

theorem set16_PC_fields (x : Machine) (v : Nat) :
    (x.set16 .PC v).cpu = x.cpu ∧ (x.set16 .PC v).PC = v % 65536 ∧ (x.set16 .PC v).SP = x.SP
    ∧ (x.set16 .PC v).ifRegister = x.ifRegister :=
  ⟨rfl, rfl, rfl, rfl⟩

theorem set16_SP_fields (x : Machine) (v : Nat) :
    (x.set16 .SP v).cpu = x.cpu ∧ (x.set16 .SP v).ifRegister = x.ifRegister
    ∧ (x.set16 .SP v).PC = x.PC ∧ (x.set16 .SP v).AF = x.AF :=
  ⟨rfl, rfl, rfl, rfl⟩

/-- What `CPU_RST` leaves: the registers and flip-flops other than PC and SP
are kept, the return address is written below the old SP. -/
theorem CPU_RST_facts (s2 : Machine) (addr : Nat) (haddr : addr < 65536) :
    (CPU_RST s2 addr).cpu = s2.cpu
    ∧ (CPU_RST s2 addr).PC = addr
    ∧ (CPU_RST s2 addr).SP.reg = (s2.SP.reg + 65536 - 2) % 65536
    ∧ ((s2.SP.reg + 65536 - 2) % 65536 ≠ 0xFF0F ∧ (s2.SP.reg + 65536 - 1) % 65536 ≠ 0xFF0F →
        (CPU_RST s2 addr).ifRegister = s2.ifRegister)
    ∧ (InRam ((s2.SP.reg + 65536 - 2) % 65536) ∧ InRam ((s2.SP.reg + 65536 - 1) % 65536) →
        MMU.readByte (CPU_RST s2 addr) ((s2.SP.reg + 65536 - 2) % 65536) = s2.PC % 256
        ∧ MMU.readByte (CPU_RST s2 addr) ((s2.SP.reg + 65536 - 1) % 65536) = s2.PC / 256 % 256) := by
  rw [CPU_RST_eq]
  have ea : ((s2.SP.reg + 65536 - 2) % 65536 + 1) % 65536 = (s2.SP.reg + 65536 - 1) % 65536 := by omega
  have hs := writeWord_sameCPU (s2.set16 .SP ((s2.SP.reg + 65536 - 2) % 65536))
      ((s2.SP.reg + 65536 - 2) % 65536) s2.PC
  refine ⟨?_, ?_, ?_, ?_, ?_⟩
  · rw [(set16_PC_fields _ _).1, hs.2.2.2.2.2.2]; exact (set16_SP_fields _ _).1
  · rw [(set16_PC_fields _ _).2.1]
    omega
  · rw [(set16_PC_fields _ _).2.2.1, hs.2.2.2.2.1, set16_SP_reg]; omega
  · intro h
    rw [(set16_PC_fields _ _).2.2.2, writeWord_ifRegister _ _ _ h.1 (by rw [ea]; exact h.2)]
    exact (set16_SP_fields _ _).2.1
  · intro h
    have hb := writeWord_ram_bytes (s2.set16 .SP ((s2.SP.reg + 65536 - 2) % 65536))
      ((s2.SP.reg + 65536 - 2) % 65536) s2.PC h.1 (by rw [ea]; exact h.2)
    rw [ea, Nat.shiftRight_eq_div_pow, show (2 : Nat) ^ 8 = 256 from rfl] at hb
    rw [readByte_set16_PC, readByte_set16_PC]
    exact ⟨hb.1, hb.2⟩

theorem handleInterrupts_unfold (s : Machine) :
    handleInterrupts s =
      if !(wakeUp s).cpu.IME then wakeUp s
      else if (pendingInterrupts s &&& 0x1) ≠ 0 then CPU_RST (acknowledge (wakeUp s) 0xFE) 0x0040
      else if (pendingInterrupts s &&& 0x2) ≠ 0 then CPU_RST (acknowledge (wakeUp s) 0xFD) 0x0048
      else if (pendingInterrupts s &&& 0x4) ≠ 0 then CPU_RST (acknowledge (wakeUp s) 0xFB) 0x0050
      else if (pendingInterrupts s &&& 0x10) ≠ 0 then CPU_RST (acknowledge (wakeUp s) 0xEF) 0x0060
      else wakeUp s := rfl

theorem wakeUp_fields (s : Machine) :
    (wakeUp s).cpu.IME = s.cpu.IME ∧ (wakeUp s).ifRegister = s.ifRegister ∧ (wakeUp s).SP = s.SP
    ∧ (wakeUp s).mmu = s.mmu
    ∧ (pendingInterrupts s ≠ 0 → (wakeUp s).cpu.halt = false
        ∧ (wakeUp s).PC = if s.cpu.halt then (s.PC + 1) % 65536 else s.PC) := by
  unfold wakeUp
  by_cases hp : pendingInterrupts s ≠ 0 <;> cases hh : s.cpu.halt <;>
    simp [hp, hh, pcInc]

theorem acknowledge_fields (w : Machine) (mask : Nat) :
    (acknowledge w mask).cpu.IME = false ∧ (acknowledge w mask).cpu.halt = w.cpu.halt
    ∧ (acknowledge w mask).ifRegister = w.ifRegister &&& mask ∧ (acknowledge w mask).SP = w.SP
    ∧ (acknowledge w mask).PC = w.PC :=
  ⟨rfl, rfl, rfl, rfl, rfl⟩

set_option maxRecDepth 10000 in
theorem and_0x17_eq_zero : ∀ p < 256, p &&& 0x17 = 0 →
    p &&& 0x1 = 0 ∧ p &&& 0x2 = 0 ∧ p &&& 0x4 = 0 ∧ p &&& 0x10 = 0 := by decide

theorem dispatched_facts (s : Machine) (mask addr : Nat) (haddr : addr < 65536)
    (hpend : pendingInterrupts s ≠ 0)
    (heq : handleInterrupts s = CPU_RST (acknowledge (wakeUp s) mask) addr) :
    (handleInterrupts s).cpu.IME = false
    ∧ (handleInterrupts s).cpu.halt = false
    ∧ (handleInterrupts s).PC = addr
    ∧ (handleInterrupts s).SP.reg = (s.SP.reg + 65536 - 2) % 65536
    ∧ ((s.SP.reg + 65536 - 2) % 65536 ≠ 0xFF0F ∧ (s.SP.reg + 65536 - 1) % 65536 ≠ 0xFF0F →
        (handleInterrupts s).ifRegister = s.ifRegister &&& mask)
    ∧ (InRam ((s.SP.reg + 65536 - 2) % 65536) ∧ InRam ((s.SP.reg + 65536 - 1) % 65536) →
        MMU.readByte (handleInterrupts s) ((s.SP.reg + 65536 - 2) % 65536)
          = (if s.cpu.halt then (s.PC + 1) % 65536 else s.PC) % 256
        ∧ MMU.readByte (handleInterrupts s) ((s.SP.reg + 65536 - 1) % 65536)
          = (if s.cpu.halt then (s.PC + 1) % 65536 else s.PC) / 256 % 256) := by
  obtain ⟨w1, w2, w3, w4, w5⟩ := wakeUp_fields s
  obtain ⟨w5, w6⟩ := w5 hpend
  obtain ⟨a1, a2, a3, a4, a5⟩ := acknowledge_fields (wakeUp s) mask
  obtain ⟨f1, f2, f3, f4, f5⟩ := CPU_RST_facts (acknowledge (wakeUp s) mask) addr haddr
  rw [a4, w3] at f3 f4 f5
  rw [a5, w6] at f5
  rw [a3, w2] at f4
  rw [heq]
  refine ⟨by rw [f1]; exact a1, by rw [f1, a2]; exact w5, f2, f3, f4, f5⟩

/-- C4 as amended: with IME set, `handleInterrupts` services the lowest-numbered
pending bit i among 0 (VBlank), 1 (LCD-STAT), 2 (Timer) and 4 (Joypad): it
clears IME (and HALT), sets PC to 0x40 + 8*i, lowers SP by 2, clears bit i of
IF and keeps its other bits (when the two stack bytes are not the IF register
itself), and stores the low and high byte of the interrupted PC (the PC after
the HALT wake-up increment, when the CPU was halted) at the new SP and SP+1
(when these are in work RAM or high RAM).  The Serial bit 3 is never serviced:
when none of the bits 0, 1, 2, 4 is pending, IME, IF, SP and memory are left
as they were. -/
theorem handleInterrupts_services_lowest (s : Machine) (hIME : s.cpu.IME = true) :
    (∀ i, (i = 0 ∨ i = 1 ∨ i = 2 ∨ i = 4) → pendingInterrupts s &&& 2 ^ i ≠ 0 →
      (∀ j, (j = 0 ∨ j = 1 ∨ j = 2) → j < i → pendingInterrupts s &&& 2 ^ j = 0) →
      (handleInterrupts s).cpu.IME = false
      ∧ (handleInterrupts s).cpu.halt = false
      ∧ (handleInterrupts s).PC = 0x40 + 8 * i
      ∧ (handleInterrupts s).SP.reg = (s.SP.reg + 65536 - 2) % 65536
      ∧ ((s.SP.reg + 65536 - 2) % 65536 ≠ 0xFF0F ∧ (s.SP.reg + 65536 - 1) % 65536 ≠ 0xFF0F →
          (handleInterrupts s).ifRegister = s.ifRegister &&& (0xFF ^^^ 2 ^ i))
      ∧ (InRam ((s.SP.reg + 65536 - 2) % 65536) ∧ InRam ((s.SP.reg + 65536 - 1) % 65536) →
          MMU.readByte (handleInterrupts s) ((s.SP.reg + 65536 - 2) % 65536)
            = (if s.cpu.halt then (s.PC + 1) % 65536 else s.PC) % 256
          ∧ MMU.readByte (handleInterrupts s) ((s.SP.reg + 65536 - 1) % 65536)
            = (if s.cpu.halt then (s.PC + 1) % 65536 else s.PC) / 256 % 256))
    ∧ (pendingInterrupts s &&& 0x17 = 0 →
        (handleInterrupts s).cpu.IME = true ∧ (handleInterrupts s).ifRegister = s.ifRegister
        ∧ (handleInterrupts s).SP = s.SP ∧ (handleInterrupts s).mmu = s.mmu) := by
  obtain ⟨w1, w2, w3, w4, -⟩ := wakeUp_fields s
  have hI : ¬ ((!(wakeUp s).cpu.IME) = true) := by rw [w1, hIME]; decide
  have hne : ∀ k, pendingInterrupts s &&& k ≠ 0 → pendingInterrupts s ≠ 0 := by
    intro k hk h0; rw [h0] at hk; exact hk (Nat.zero_and k)
  constructor
  · intro i hi hbit hlow
    rcases hi with rfl | rfl | rfl | rfl
    · have c0 : pendingInterrupts s &&& 0x1 ≠ 0 := hbit
      exact dispatched_facts s 0xFE 0x40 (by decide) (hne _ hbit)
        (by rw [handleInterrupts_unfold, if_neg hI, if_pos c0])
    · have c0 : pendingInterrupts s &&& 0x1 = 0 := hlow 0 (Or.inl rfl) (by decide)
      have c1 : pendingInterrupts s &&& 0x2 ≠ 0 := hbit
      exact dispatched_facts s 0xFD 0x48 (by decide) (hne _ hbit)
        (by rw [handleInterrupts_unfold, if_neg hI, if_neg (not_not.mpr c0), if_pos c1])
    · have c0 : pendingInterrupts s &&& 0x1 = 0 := hlow 0 (Or.inl rfl) (by decide)
      have c1 : pendingInterrupts s &&& 0x2 = 0 := hlow 1 (Or.inr (Or.inl rfl)) (by decide)
      have c2 : pendingInterrupts s &&& 0x4 ≠ 0 := hbit
      exact dispatched_facts s 0xFB 0x50 (by decide) (hne _ hbit)
        (by rw [handleInterrupts_unfold, if_neg hI, if_neg (not_not.mpr c0), if_neg (not_not.mpr c1),
          if_pos c2])
    · have c0 : pendingInterrupts s &&& 0x1 = 0 := hlow 0 (Or.inl rfl) (by decide)
      have c1 : pendingInterrupts s &&& 0x2 = 0 := hlow 1 (Or.inr (Or.inl rfl)) (by decide)
      have c2 : pendingInterrupts s &&& 0x4 = 0 := hlow 2 (Or.inr (Or.inr rfl)) (by decide)
      have c4 : pendingInterrupts s &&& 0x10 ≠ 0 := hbit
      exact dispatched_facts s 0xEF 0x60 (by decide) (hne _ hbit)
        (by rw [handleInterrupts_unfold, if_neg hI, if_neg (not_not.mpr c0), if_neg (not_not.mpr c1),
          if_neg (not_not.mpr c2), if_pos c4])
  · intro h17
    have hz := and_0x17_eq_zero (pendingInterrupts s)
      (by unfold pendingInterrupts; exact Nat.lt_of_lt_of_le (Nat.mod_lt _ (by decide)) (by decide)) h17
    rw [handleInterrupts_unfold, if_neg hI, if_neg (not_not.mpr hz.1), if_neg (not_not.mpr hz.2.1),
      if_neg (not_not.mpr hz.2.2.1), if_neg (not_not.mpr hz.2.2.2)]
    exact ⟨w1.trans hIME, w2, w3, w4⟩

set_option maxRecDepth 100000 in
/-- C4 fails as stated: with IME set and only the Serial bit 3 pending,
`handleInterrupts` does not service it: PC is not 0x58, IME stays set, bit 3
of IF stays set and SP is not lowered. -/
theorem handleInterrupts_serial_not_serviced :
    serialMachine.cpu.IME = true
    ∧ serialMachine.ifRegister &&& serialMachine.ieRegister &&& 0x1F = 0x08
    ∧ (handleInterrupts serialMachine).PC = 0x1234
    ∧ (handleInterrupts serialMachine).cpu.IME = true
    ∧ (handleInterrupts serialMachine).ifRegister = 0x08
    ∧ (handleInterrupts serialMachine).SP.reg = 0xD000 := by
  decide

set_option maxRecDepth 100000 in
/-- C4, witness: IE = 0x01, IF = 0x01, IME = 1 gives PC = 0x0040, IME = 0, bit 0
of IF clear and SP lowered by 2. -/
theorem handleInterrupts_services_lowest_witness :
    vblankMachine.cpu.IME = true
    ∧ pendingInterrupts vblankMachine &&& 2 ^ 0 ≠ 0
    ∧ (handleInterrupts vblankMachine).cpu.IME = false
    ∧ (handleInterrupts vblankMachine).PC = 0x40 + 8 * 0
    ∧ (handleInterrupts vblankMachine).SP.reg = (vblankMachine.SP.reg + 65536 - 2) % 65536
    ∧ (handleInterrupts vblankMachine).ifRegister = vblankMachine.ifRegister &&& (0xFF ^^^ 2 ^ 0)
    ∧ vblankMachine.ifRegister &&& (0xFF ^^^ 2 ^ 0) = 0 :=
  have h := (handleInterrupts_services_lowest vblankMachine rfl).1 0 (Or.inl rfl) (by decide)
    (fun j _ hlt => absurd hlt (Nat.not_lt_zero j))
  ⟨rfl, by decide, h.1, h.2.2.1, h.2.2.2.1, h.2.2.2.2.1 (by decide), by decide⟩

/-! ## C5 -/

/-- C5: for register pairs r1 and r2 among AF, BC, DE, HL (F with a zero low
nibble) and SP with SP-2 and SP-1 in work RAM or high RAM, PUSH r1 (16
cycles) followed by POP r2 (12 cycles) leaves r2 equal to the old r1 and SP
equal to the old SP; after the PUSH, SP is lowered by 2, the byte at SP-1 is
the high byte and the byte at SP-2 the low byte of r1. -/
theorem push_pop_round_trip (s : Machine) (r1 r2 : Reg16) (fuel1 fuel2 : Nat)
    (hr1 : r1.isPair = true) (hr2 : r2.isPair = true) (hwf : s.WF) (hF : s.AF.lo &&& 0x0F = 0)
    (h2 : InRam ((s.SP.reg + 65536 - 2) % 65536)) (h1 : InRam ((s.SP.reg + 65536 - 1) % 65536)) :
    ∃ s1 s2, executeOpcode (fuel1 + 1) s (pushOpcode r1) = .done s1 16
      ∧ executeOpcode (fuel2 + 1) s1 (popOpcode r2) = .done s2 12
      ∧ s2.get16 r2 = s.get16 r1
      ∧ s2.SP.reg = s.SP.reg
      ∧ s1.SP.reg = (s.SP.reg + 65536 - 2) % 65536
      ∧ MMU.readByte s1 ((s.SP.reg + 65536 - 1) % 65536) = s.get16 r1 / 256
      ∧ MMU.readByte s1 ((s.SP.reg + 65536 - 2) % 65536) = s.get16 r1 % 256 := by
  have hsp : s.SP.reg < 65536 := Register.reg_lt _ hwf.2.2.2.2.1
  have hw : s.get16 r1 < 65536 := get16_lt s r1 hwf
  have hne : r1 ≠ .SP := by intro h; rw [h] at hr1; exact absurd hr1 (by decide)
  have ea : ((s.SP.reg + 65536 - 2) % 65536 + 1) % 65536 = (s.SP.reg + 65536 - 1) % 65536 := by omega
  have h1a : InRam (((s.SP.reg + 65536 - 2) % 65536 + 1) % 65536) := by rw [ea]; exact h1
  refine ⟨CPU_PUSH s r1, _, executeOpcode_push s r1 fuel1 hr1 hwf hF,
    executeOpcode_pop _ r2 fuel2 hr2, ?_, ?_, ?_, ?_, ?_⟩
  all_goals rw [CPU_PUSH_eq s r1 hne]
  all_goals
    have hs := writeWord_sameCPU (s.set16 .SP ((s.SP.reg + 65536 - 2) % 65536))
      ((s.SP.reg + 65536 - 2) % 65536) (s.get16 r1)
  · rw [CPU_POP_eq _ _ hr2, get16_set16_SP _ _ _ _ hr2]
    have e : ∀ t : Machine, t.SP = Register.ofWord ((s.SP.reg + 65536 - 2) % 65536) →
        MMU.readWord t t.SP.reg = MMU.readWord t ((s.SP.reg + 65536 - 2) % 65536) := by
      intro t ht
      have hm : (s.SP.reg + 65536 - 2) % 65536 % 65536 = (s.SP.reg + 65536 - 2) % 65536 := by omega
      rw [ht, Register.reg_ofWord, hm]
    split
    · rw [e _ ((set16_AF_SP _ _).trans hs.2.2.2.2.1), readWord_set16_AF,
        readWord_writeWord_ram _ _ _ h2 h1a hw]
      omega
    · rw [e _ hs.2.2.2.2.1, readWord_writeWord_ram _ _ _ h2 h1a hw]
      omega
  · rw [CPU_POP_eq _ _ hr2, set16_SP_reg]
    have e : ∀ t : Machine, t.SP = Register.ofWord ((s.SP.reg + 65536 - 2) % 65536) →
        (t.SP.reg + 2) % 65536 % 65536 = s.SP.reg := by
      intro t ht; rw [ht, Register.reg_ofWord]; omega
    split
    · exact e _ ((set16_AF_SP _ _).trans hs.2.2.2.2.1)
    · exact e _ hs.2.2.2.2.1
  · rw [hs.2.2.2.2.1, set16_SP_reg]; omega
  · have hb := (writeWord_ram_bytes (s.set16 .SP ((s.SP.reg + 65536 - 2) % 65536))
      ((s.SP.reg + 65536 - 2) % 65536) (s.get16 r1) h2 h1a).2
    rw [ea, Nat.shiftRight_eq_div_pow] at hb
    rw [hb]; omega
  · exact (writeWord_ram_bytes _ _ _ h2 h1a).1

set_option maxRecDepth 100000 in
/-- C5, witness: PUSH BC then POP DE with BC = 0x1234 and SP = 0xD000. -/
theorem push_pop_round_trip_witness :
    Reg16.isPair .BC = true ∧ Reg16.isPair .DE = true ∧ pushPopMachine.WF
    ∧ pushPopMachine.AF.lo &&& 0x0F = 0
    ∧ InRam ((pushPopMachine.SP.reg + 65536 - 2) % 65536)
    ∧ InRam ((pushPopMachine.SP.reg + 65536 - 1) % 65536)
    ∧ ∃ s1 s2, executeOpcode 1 pushPopMachine (pushOpcode .BC) = .done s1 16
      ∧ executeOpcode 1 s1 (popOpcode .DE) = .done s2 12
      ∧ s2.get16 .DE = pushPopMachine.get16 .BC
      ∧ s2.SP.reg = pushPopMachine.SP.reg
      ∧ s1.SP.reg = (pushPopMachine.SP.reg + 65536 - 2) % 65536
      ∧ MMU.readByte s1 ((pushPopMachine.SP.reg + 65536 - 1) % 65536) = pushPopMachine.get16 .BC / 256
      ∧ MMU.readByte s1 ((pushPopMachine.SP.reg + 65536 - 2) % 65536)
          = pushPopMachine.get16 .BC % 256 :=
  ⟨rfl, rfl, by unfold Machine.WF Register.WF; decide, by decide, by unfold InRam; decide,
    by unfold InRam; decide,
    push_pop_round_trip pushPopMachine .BC .DE 0 0 rfl rfl (by unfold Machine.WF Register.WF; decide)
      (by decide) (by unfold InRam; decide) (by unfold InRam; decide)⟩

/-! ## C6 -/

theorem and_0x10000_ne_zero (n : Nat) (h : n < 131072) : (n &&& 0x10000) ≠ 0 ↔ n > 0xFFFF := by
  have e : n &&& 0x10000 = n &&& 2 ^ 16 := rfl
  rw [e, Nat.and_two_pow, Nat.testBit_to_div_mod]
  by_cases c : n / 2 ^ 16 % 2 = 1
  · simp only [c, decide_True, Bool.toNat_true]; omega
  · simp only [c, decide_False, Bool.toNat_false]; omega

set_option maxRecDepth 100000 in
theorem add16Flags_table : ∀ lo < 256, ∀ h c : Bool,
    isFlagged (add16Flags lo h c) FLAG_Z = isFlagged lo FLAG_Z
    ∧ isFlagged (add16Flags lo h c) FLAG_N = false
    ∧ isFlagged (add16Flags lo h c) FLAG_HC = h
    ∧ isFlagged (add16Flags lo h c) FLAG_C = c := by
  decide

theorem CPU_ADD_16BIT_HL (s : Machine) (val : Reg16) :
    (CPU_ADD_16BIT s .HL val).AF.lo
      = add16Flags (s.set16 .HL (s.get16 .HL + s.get16 val)).AF.lo
          (decide ((s.get16 .HL &&& 0xFFF)
            + ((s.set16 .HL (s.get16 .HL + s.get16 val)).get16 val &&& 0xFFF) > 0xFFF))
          (decide ((s.get16 .HL + s.get16 val) &&& 0x10000 ≠ 0))
    ∧ (CPU_ADD_16BIT s .HL val).HL = (s.set16 .HL (s.get16 .HL + s.get16 val)).HL := by
  by_cases h1 : (s.get16 .HL &&& 0xFFF)
      + ((s.set16 .HL (s.get16 .HL + s.get16 val)).get16 val &&& 0xFFF) > 0xFFF <;>
  by_cases h2 : ((s.get16 .HL + s.get16 val) &&& 0x10000 = 0) <;>
  simp only [CPU_ADD_16BIT, add16Flags, flagBit_AFlo, unflagBit_AFlo, ne_eq, h1, h2, if_true, if_false,
    decide_True, decide_False, not_true_eq_false, not_false_eq_true] <;>
  trivial

set_option maxRecDepth 100000 in
/-- C6 (the code departs from the claim at ADD HL,HL): for rr among BC, DE, HL,
SP, ADD HL,rr returns 8 cycles, sets HL to (HL + rr) mod 65536, leaves Z, clears
N and sets C iff HL + rr > 0xFFFF.  For rr among BC, DE, SP, H is set iff
(HL & 0xFFF) + (rr & 0xFFF) > 0xFFF.  For rr = HL the second operand of the H
test is read after HL was doubled: H is set iff
(HL & 0xFFF) + ((HL + HL) mod 65536 & 0xFFF) > 0xFFF. -/
theorem add_hl_rr_result_and_flags (s : Machine) (rr : Reg16) (fuel : Nat)
    (hrr : rr.isAddend = true) (hwf : s.WF) :
    ∃ t, executeOpcode (fuel + 1) s (addHLOpcode rr) = .done t 8
      ∧ t.HL.reg = (s.HL.reg + s.get16 rr) % 65536
      ∧ isFlagged t.AF.lo FLAG_Z = isFlagged s.AF.lo FLAG_Z
      ∧ isFlagged t.AF.lo FLAG_N = false
      ∧ (isFlagged t.AF.lo FLAG_C = true ↔ s.HL.reg + s.get16 rr > 0xFFFF)
      ∧ (rr ≠ .HL → (isFlagged t.AF.lo FLAG_HC = true
            ↔ (s.HL.reg &&& 0xFFF) + (s.get16 rr &&& 0xFFF) > 0xFFF))
      ∧ (rr = .HL → (isFlagged t.AF.lo FLAG_HC = true
            ↔ (s.HL.reg &&& 0xFFF) + ((s.HL.reg + s.HL.reg) % 65536 &&& 0xFFF) > 0xFFF)) := by
  have hd : executeOpcode (fuel + 1) s (addHLOpcode rr) = .done (CPU_ADD_16BIT s .HL rr) 8 := by
    cases rr <;> first | exact absurd hrr (by decide) | rfl
  obtain ⟨hf, hh⟩ := CPU_ADD_16BIT_HL s rr
  have hlo : (s.set16 .HL (s.get16 .HL + s.get16 rr)).AF.lo = s.AF.lo := rfl
  have hg : s.get16 .HL = s.HL.reg := rfl
  have hH : s.HL.reg < 65536 := Register.reg_lt _ hwf.2.2.2.1
  have hR : s.get16 rr < 65536 := get16_lt s rr hwf
  rw [hlo, hg] at hf
  rw [hg] at hh
  obtain ⟨tz, tn, th, tc⟩ := add16Flags_table s.AF.lo hwf.1.1
    (decide ((s.HL.reg &&& 0xFFF)
      + ((s.set16 .HL (s.HL.reg + s.get16 rr)).get16 rr &&& 0xFFF) > 0xFFF))
    (decide ((s.HL.reg + s.get16 rr) &&& 0x10000 ≠ 0))
  refine ⟨_, hd, ?_, ?_, ?_, ?_, ?_, ?_⟩
  · rw [hh]; simp only [Machine.set16, Register.reg_ofWord]
  · rw [hf]; exact tz
  · rw [hf]; exact tn
  · rw [hf, tc, decide_eq_true_eq]
    exact and_0x10000_ne_zero _ (by omega)
  · intro hne
    rw [hf, th, decide_eq_true_eq]
    have e : (s.set16 .HL (s.HL.reg + s.get16 rr)).get16 rr = s.get16 rr := by
      cases rr <;> first | exact absurd rfl hne | rfl
    rw [e]
  · intro he
    subst he
    rw [hf, th, decide_eq_true_eq]
    have e : (s.set16 .HL (s.HL.reg + s.get16 .HL)).get16 .HL = (s.HL.reg + s.HL.reg) % 65536 := by
      simp only [Machine.set16, Machine.get16, Register.reg_ofWord]
    rw [e]

set_option maxRecDepth 100000 in
/-- C6, the failing input: with HL = 0x0800, ADD HL,HL gives HL = 0x1000 with H
clear, although (0x0800 & 0xFFF) + (0x0800 & 0xFFF) = 0x1000 exceeds 0xFFF. -/
theorem add_hl_rr_result_and_flags_witness :
    Reg16.isAddend .HL = true ∧ addHLMachine.WF
    ∧ (0x0800 &&& 0xFFF) + (0x0800 &&& 0xFFF) > 0xFFF
    ∧ (executeOpcode 1 addHLMachine 0x29).read (fun t => (t.HL.reg, isFlagged t.AF.lo FLAG_HC))
        = some (0x1000, false)
    ∧ ∃ t, executeOpcode 1 addHLMachine (addHLOpcode .HL) = .done t 8
      ∧ t.HL.reg = (addHLMachine.HL.reg + addHLMachine.get16 .HL) % 65536
      ∧ isFlagged t.AF.lo FLAG_Z = isFlagged addHLMachine.AF.lo FLAG_Z
      ∧ isFlagged t.AF.lo FLAG_N = false
      ∧ (isFlagged t.AF.lo FLAG_C = true ↔ addHLMachine.HL.reg + addHLMachine.get16 .HL > 0xFFFF)
      ∧ (Reg16.HL ≠ .HL → (isFlagged t.AF.lo FLAG_HC = true
            ↔ (addHLMachine.HL.reg &&& 0xFFF) + (addHLMachine.get16 .HL &&& 0xFFF) > 0xFFF))
      ∧ (Reg16.HL = .HL → (isFlagged t.AF.lo FLAG_HC = true
            ↔ (addHLMachine.HL.reg &&& 0xFFF)
              + ((addHLMachine.HL.reg + addHLMachine.HL.reg) % 65536 &&& 0xFFF) > 0xFFF)) :=
  ⟨rfl, by unfold Machine.WF Register.WF; decide, by decide, by decide,
    add_hl_rr_result_and_flags addHLMachine .HL 0 rfl (by unfold Machine.WF Register.WF; decide)⟩

/-! ## C7 -/

theorem and_two_pow_eq_iff (x k : Nat) : x &&& 2 ^ k = 2 ^ k ↔ x.testBit k = true := by
  constructor
  · intro h
    have h2 := congrArg (fun y => Nat.testBit y k) h
    simpa [Nat.testBit_and, Nat.testBit_two_pow_self] using h2
  · intro h
    apply Nat.eq_of_testBit_eq
    intro j
    rw [Nat.testBit_and, Nat.testBit_two_pow]
    by_cases hj : k = j
    · subst hj; simp [h]
    · simp [hj]

/-- Bits 4 and 8 of `a ^ b ^ r`, from quotients. -/
theorem xor3_bits (a b r : Nat) :
    ((a ^^^ b ^^^ r).testBit 4 = true ↔ (a / 16 + b / 16 + r / 16) % 2 = 1)
    ∧ ((a ^^^ b ^^^ r).testBit 8 = true ↔ (a / 256 + b / 256 + r / 256) % 2 = 1) := by
  have d1 := @Nat.testBit_to_div_mod 4 a
  have d2 := @Nat.testBit_to_div_mod 4 b
  have d3 := @Nat.testBit_to_div_mod 4 r
  have d4 := @Nat.testBit_to_div_mod 8 a
  have d5 := @Nat.testBit_to_div_mod 8 b
  have d6 := @Nat.testBit_to_div_mod 8 r
  simp only [Nat.reducePow] at d1 d2 d3 d4 d5 d6
  simp only [Nat.testBit_xor]
  constructor
  · cases h1 : a.testBit 4 <;> cases h2 : b.testBit 4 <;> cases h3 : r.testBit 4 <;>
      rw [h1] at d1 <;> rw [h2] at d2 <;> rw [h3] at d3 <;>
      simp only [Bool.false_eq, Bool.true_eq, decide_eq_false_iff_not, decide_eq_true_eq] at d1 d2 d3 <;>
      simp only [Bool.xor_false, Bool.xor_true, Bool.not_false, Bool.not_true, Bool.false_eq_true,
        false_iff, true_iff] <;>
      omega
  · cases h1 : a.testBit 8 <;> cases h2 : b.testBit 8 <;> cases h3 : r.testBit 8 <;>
      rw [h1] at d4 <;> rw [h2] at d5 <;> rw [h3] at d6 <;>
      simp only [Bool.false_eq, Bool.true_eq, decide_eq_false_iff_not, decide_eq_true_eq] at d4 d5 d6 <;>
      simp only [Bool.xor_false, Bool.xor_true, Bool.not_false, Bool.not_true, Bool.false_eq_true,
        false_iff, true_iff] <;>
      omega

theorem and_0xFFFF_bits (r : Nat) :
    (r &&& 0xFFFF) / 16 % 2 = r / 16 % 2 ∧ (r &&& 0xFFFF) / 256 % 2 = r / 256 % 2 := by
  have h := Nat.and_pow_two_sub_one_eq_mod r 16
  simp only [Nat.reducePow, Nat.reduceSub] at h
  rw [h]; omega

/-- Bit 4 and bit 8 of `prev ^ val ^ (result & 0xFFFF)` are the carries out of
bit 3 and bit 7 of the sum of the low bytes. -/
theorem signed_add_carries (sp e : Nat) (hsp : sp < 65536) (he : e < 256) :
    (((sp ^^^ toU32 (toSigned e) ^^^ (toU32 ((sp : Int) + toSigned e) &&& 0xFFFF)) &&& 0x10) = 0x10
        ↔ (sp &&& 0xF) + (e &&& 0xF) > 0xF)
    ∧ (((sp ^^^ toU32 (toSigned e) ^^^ (toU32 ((sp : Int) + toSigned e) &&& 0xFFFF)) &&& 0x100) = 0x100
        ↔ (sp &&& 0xFF) + e > 0xFF) := by
  have m4 : sp &&& 0xF = sp % 16 := Nat.and_pow_two_sub_one_eq_mod sp 4
  have m4e : e &&& 0xF = e % 16 := Nat.and_pow_two_sub_one_eq_mod e 4
  have m8 : sp &&& 0xFF = sp % 256 := Nat.and_pow_two_sub_one_eq_mod sp 8
  have b4 := and_two_pow_eq_iff (sp ^^^ toU32 (toSigned e) ^^^ (toU32 ((sp : Int) + toSigned e) &&& 0xFFFF)) 4
  have b8 := and_two_pow_eq_iff (sp ^^^ toU32 (toSigned e) ^^^ (toU32 ((sp : Int) + toSigned e) &&& 0xFFFF)) 8
  simp only [Nat.reducePow] at b4 b8
  obtain ⟨x4, x8⟩ := xor3_bits sp (toU32 (toSigned e)) (toU32 ((sp : Int) + toSigned e) &&& 0xFFFF)
  obtain ⟨r4, r8⟩ := and_0xFFFF_bits (toU32 ((sp : Int) + toSigned e))
  rw [b4, b8, m4, m4e, m8, x4, x8]
  have u1 : toU32 (toSigned e) = if e < 128 then e else e + 4294967040 := by
    unfold toU32 toSigned
    by_cases h : e < 128
    · rw [if_pos h, if_pos (by omega)]; omega
    · rw [if_neg h, if_neg (by omega)]; omega
  have u2 : toU32 ((sp : Int) + toSigned e)
      = if e < 128 then sp + e else (sp + e + 4294967040) % 4294967296 := by
    unfold toU32 toSigned
    by_cases h : e < 128
    · rw [if_pos h, if_pos (by omega)]; omega
    · rw [if_neg h, if_neg (by omega)]; omega
  clear b4 b8 x4 x8 m4 m4e m8
  generalize toU32 ((sp : Int) + toSigned e) &&& 0xFFFF = rm at r4 r8 ⊢
  generalize toU32 ((sp : Int) + toSigned e) = r at u2 r4 r8
  generalize toU32 (toSigned e) = b at u1 ⊢
  by_cases h : e < 128
  · rw [if_pos h] at u1 u2
    constructor <;> omega
  · rw [if_neg h] at u1 u2
    constructor <;> omega

set_option maxRecDepth 100000 in
/-- C7: for every SP value and every immediate byte e, ADD SP,e8 (0xE8, 16
cycles, result in SP) and LD HL,SP+e8 (0xF8, 12 cycles, result in HL, SP
unchanged) give the 16-bit result (SP + signed e) mod 65536 and the same F:
Z = 0, N = 0, H iff (SP & 0xF) + (e & 0xF) > 0xF, C iff (SP & 0xFF) + e > 0xFF,
low nibble 0. -/
theorem add_sp_e8_and_ld_hl_sp_e8 (s : Machine) (e fuel : Nat) (he : e < 256)
    (hsp : s.SP.WF) (hF : s.AF.lo < 256) :
    ((CPU_ADD_16BIT_SIGNED s .SP (toSigned e)).SP.reg : Int) = ((s.SP.reg : Int) + toSigned e) % 65536
    ∧ ((CPU_LOAD_16BIT s .HL s.SP.reg (toSigned e) true).HL.reg : Int)
        = ((s.SP.reg : Int) + toSigned e) % 65536
    ∧ (CPU_LOAD_16BIT s .HL s.SP.reg (toSigned e) true).SP = s.SP
    ∧ (CPU_ADD_16BIT_SIGNED s .SP (toSigned e)).AF.lo
        = (CPU_LOAD_16BIT s .HL s.SP.reg (toSigned e) true).AF.lo
    ∧ isFlagged (CPU_ADD_16BIT_SIGNED s .SP (toSigned e)).AF.lo FLAG_Z = false
    ∧ isFlagged (CPU_ADD_16BIT_SIGNED s .SP (toSigned e)).AF.lo FLAG_N = false
    ∧ (isFlagged (CPU_ADD_16BIT_SIGNED s .SP (toSigned e)).AF.lo FLAG_HC = true
        ↔ (s.SP.reg &&& 0xF) + (e &&& 0xF) > 0xF)
    ∧ (isFlagged (CPU_ADD_16BIT_SIGNED s .SP (toSigned e)).AF.lo FLAG_C = true
        ↔ (s.SP.reg &&& 0xFF) + e > 0xFF)
    ∧ (CPU_ADD_16BIT_SIGNED s .SP (toSigned e)).AF.lo &&& 0x0F = 0
    ∧ executeOpcode (fuel + 1) s 0xE8
        = .done (CPU_ADD_16BIT_SIGNED (pcInc s) .SP (toSigned (MMU.readByte s s.PC))) 16
    ∧ executeOpcode (fuel + 1) s 0xF8
        = .done (CPU_LOAD_16BIT (pcInc s) .HL (pcInc s).SP.reg (toSigned (MMU.readByte s s.PC)) true) 12 := by
  have hspw : s.SP.reg < 65536 := Register.reg_lt _ hsp
  obtain ⟨c4, c8⟩ := signed_add_carries s.SP.reg e hspw he
  have hw : ∀ i : Int, ((toWord i % 65536 : Nat) : Int) = i % 65536 := by
    intro i; unfold toWord; omega
  refine ⟨?_, ?_, ?_, ?_, ?_, ?_, ?_, ?_, ?_, rfl, rfl⟩
  all_goals
    simp only [CPU_ADD_16BIT_SIGNED, CPU_LOAD_16BIT, flagBit_AFlo, unflagBit_AFlo, clearF,
      Machine.set16, Machine.set8, Machine.get16, if_true, Register.reg_ofWord, hw]
  all_goals
    by_cases h4 : (s.SP.reg ^^^ toU32 (toSigned e) ^^^ toU32 (↑s.SP.reg + toSigned e) &&& 65535) &&& 16 = 16 <;>
    by_cases h8 : (s.SP.reg ^^^ toU32 (toSigned e) ^^^ toU32 (↑s.SP.reg + toSigned e) &&& 65535) &&& 256 = 256 <;>
    simp only [h4, h8, if_true, if_false, ← c4, ← c8, FLAG_Z, FLAG_N, FLAG_HC, FLAG_C, isFlagged]
  all_goals first
    | rfl
    | (generalize s.AF.lo = f at hF ⊢; revert f; decide)

set_option maxRecDepth 100000 in
/-- C7, witness: SP = 0x00FF and e = 0x01 give 0x0100 with H and C set. -/
theorem add_sp_e8_and_ld_hl_sp_e8_witness :
    1 < 256 ∧ spMachine.SP.WF ∧ spMachine.AF.lo < 256
    ∧ ((CPU_ADD_16BIT_SIGNED spMachine .SP (toSigned 1)).SP.reg : Int)
        = ((spMachine.SP.reg : Int) + toSigned 1) % 65536
    ∧ ((CPU_LOAD_16BIT spMachine .HL spMachine.SP.reg (toSigned 1) true).HL.reg : Int)
        = ((spMachine.SP.reg : Int) + toSigned 1) % 65536
    ∧ (isFlagged (CPU_ADD_16BIT_SIGNED spMachine .SP (toSigned 1)).AF.lo FLAG_HC = true
        ↔ (spMachine.SP.reg &&& 0xF) + (1 &&& 0xF) > 0xF)
    ∧ (isFlagged (CPU_ADD_16BIT_SIGNED spMachine .SP (toSigned 1)).AF.lo FLAG_C = true
        ↔ (spMachine.SP.reg &&& 0xFF) + 1 > 0xFF)
    ∧ (CPU_ADD_16BIT_SIGNED spMachine .SP (toSigned 1)).SP.reg = 0x0100 :=
  have h := add_sp_e8_and_ld_hl_sp_e8 spMachine 1 0 (by decide)
    (by unfold Register.WF; decide) (by decide)
  ⟨by decide, by unfold Register.WF; decide, by decide, h.1, h.2.1, h.2.2.2.2.2.2.1,
    h.2.2.2.2.2.2.2.1, by decide⟩

/-! ## C8 -/

set_option maxRecDepth 1000000 in
set_option maxHeartbeats 4000000 in
theorem daa_after_add_table : ∀ a < 256, ∀ k < 8, daaLine a k = true := by
  decide!

set_option maxRecDepth 1000000 in
set_option maxHeartbeats 4000000 in
theorem bcd_sum_table : ∀ da < 100, ∀ db < 100, bcdLine da db = true := by
  decide!

theorem CPU_ADD_AF_eq (s : Machine) (b : Nat) :
    (CPU_ADD s b false).AF = { hi := (s.AF.hi + b) % 256, lo := addFlags s.AF.hi b } := by
  unfold CPU_ADD addFlags
  simp only [flagBit_AFlo, clearF, Machine.set8, Bool.false_and, Bool.false_eq_true, if_false,
    Nat.add_zero]
  split_ifs <;> simp +decide [FLAG_Z, FLAG_HC, FLAG_C]

theorem CPU_DAA_AF_local (s : Machine) :
    (CPU_DAA s).AF = (CPU_DAA { AF := s.AF }).AF := by
  unfold CPU_DAA
  simp only [flagBit_AFlo, unflagBit_AFlo, Machine.set8]
  split_ifs <;> rfl

theorem CPU_DAA_after_add (a : Nat) (z h c : Bool) (ha : a < 256) :
    (CPU_DAA { AF := { hi := a, lo := (if z then 0x80 else 0) + (if h then 0x20 else 0)
        + (if c then 0x10 else 0) } }).AF
      = { hi := daaRuleA a h c,
          lo := (if daaRuleA a h c = 0 then 0x80 else 0) + (if daaRuleC a c then 0x10 else 0) } := by
  have e : ∀ r : Register, ∀ x y : Nat, (r.hi == x && r.lo == y) = true → r = { hi := x, lo := y } := by
    intro r x y hxy
    cases r
    simp only [Bool.and_eq_true, beq_iff_eq] at hxy
    simp only [hxy.1, hxy.2]
  cases z <;> cases h <;> cases c
  · exact e _ _ _ (daa_after_add_table a ha 0 (by decide))
  · exact e _ _ _ (daa_after_add_table a ha 1 (by decide))
  · exact e _ _ _ (daa_after_add_table a ha 2 (by decide))
  · exact e _ _ _ (daa_after_add_table a ha 3 (by decide))
  · exact e _ _ _ (daa_after_add_table a ha 4 (by decide))
  · exact e _ _ _ (daa_after_add_table a ha 5 (by decide))
  · exact e _ _ _ (daa_after_add_table a ha 6 (by decide))
  · exact e _ _ _ (daa_after_add_table a ha 7 (by decide))

theorem toBCD_lt (d : Nat) (h : d < 100) : toBCD d < 256 := by
  unfold toBCD; omega

set_option maxRecDepth 100000 in
/-- C8: for packed-BCD bytes a and b with decimal values da and db below 100,
ADD A,b on A = a followed by DAA (opcode 0x27, 4 cycles) leaves A equal to the
packed-BCD byte of (da + db) mod 100, C set iff da + db >= 100, Z set iff A
is 0, and H and N clear. -/
theorem daa_after_add_bcd (s : Machine) (da db fuel : Nat) (hda : da < 100) (hdb : db < 100)
    (ha : s.AF.hi = toBCD da) :
    (CPU_DAA (CPU_ADD s (toBCD db) false)).AF.hi = toBCD ((da + db) % 100)
    ∧ (isFlagged (CPU_DAA (CPU_ADD s (toBCD db) false)).AF.lo FLAG_C = true ↔ da + db ≥ 100)
    ∧ (isFlagged (CPU_DAA (CPU_ADD s (toBCD db) false)).AF.lo FLAG_Z = true
        ↔ (CPU_DAA (CPU_ADD s (toBCD db) false)).AF.hi = 0)
    ∧ isFlagged (CPU_DAA (CPU_ADD s (toBCD db) false)).AF.lo FLAG_HC = false
    ∧ isFlagged (CPU_DAA (CPU_ADD s (toBCD db) false)).AF.lo FLAG_N = false
    ∧ executeOpcode (fuel + 1) s 0x27 = .done (CPU_DAA s) 4 := by
  have hA := toBCD_lt da hda
  have hB := toBCD_lt db hdb
  have hT := bcd_sum_table da hda db hdb
  have m1 : toBCD da &&& 0xF = toBCD da % 16 := Nat.and_pow_two_sub_one_eq_mod _ 4
  have m2 : toBCD db &&& 0xF = toBCD db % 16 := Nat.and_pow_two_sub_one_eq_mod _ 4
  have m3 := and_0x100_eq_zero (toBCD da + toBCD db) (by omega)
  have hc : decide (((toBCD da + toBCD db) &&& 0x100) ≠ 0) = decide (toBCD da + toBCD db > 0xFF) := by
    rw [decide_eq_decide]; rw [Ne, m3]; omega
  have hf : addFlags (toBCD da) (toBCD db)
      = (if decide ((toBCD da + toBCD db) % 256 = 0) then 0x80 else 0)
        + (if decide (toBCD da % 16 + toBCD db % 16 > 0xF) then 0x20 else 0)
        + (if decide (toBCD da + toBCD db > 0xFF) then 0x10 else 0) := by
    rw [← hc]
    simp only [addFlags, m1, m2, decide_eq_true_eq]
  have hAF : (CPU_DAA (CPU_ADD s (toBCD db) false)).AF
      = { hi := toBCD ((da + db) % 100),
          lo := (if toBCD ((da + db) % 100) = 0 then 0x80 else 0)
            + (if decide (da + db ≥ 100) then 0x10 else 0) } := by
    rw [CPU_DAA_AF_local, CPU_ADD_AF_eq, ha, hf,
      CPU_DAA_after_add _ _ _ _ (Nat.mod_lt _ (by decide))]
    simp only [bcdLine, Bool.and_eq_true, beq_iff_eq] at hT
    rw [hT.1, hT.2]
  refine ⟨?_, ?_, ?_, ?_, ?_, rfl⟩
  all_goals rw [hAF]
  all_goals
    by_cases h1 : toBCD ((da + db) % 100) = 0 <;> by_cases h2 : da + db ≥ 100 <;>
      simp +decide [h1, h2, isFlagged, FLAG_C, FLAG_Z, FLAG_HC, FLAG_N]

set_option maxRecDepth 100000 in
/-- C8, witness: 0x45 + 0x38 gives 0x7D after ADD and 0x83 after DAA, C clear. -/
theorem daa_after_add_bcd_witness :
    45 < 100 ∧ 38 < 100 ∧ bcdMachine.AF.hi = toBCD 45 ∧ toBCD 38 = 0x38
    ∧ (CPU_ADD bcdMachine 0x38 false).AF.hi = 0x7D
    ∧ (CPU_DAA (CPU_ADD bcdMachine (toBCD 38) false)).AF.hi = toBCD ((45 + 38) % 100)
    ∧ toBCD ((45 + 38) % 100) = 0x83
    ∧ (isFlagged (CPU_DAA (CPU_ADD bcdMachine (toBCD 38) false)).AF.lo FLAG_C = true ↔ 45 + 38 ≥ 100) :=
  have h := daa_after_add_bcd bcdMachine 45 38 0 (by decide) (by decide) (by decide)
  ⟨by decide, by decide, by decide, by decide, by decide, h.1, by decide, h.2.1⟩

/-! ## C9 -/

set_option maxRecDepth 100000 in
theorem executeExtendedOpcode_cycles (s : Machine) (op : Nat) (h : op < 256) :
    ∃ t c, executeExtendedOpcode s op = .done t c ∧ (c = 8 ∨ c = 16) := by
  interval_cases op <;> exact ⟨_, _, rfl, by decide⟩

set_option maxRecDepth 100000 in
set_option maxHeartbeats 4000000 in
theorem executeOpcode_cycles (s : Machine) (op fuel : Nat) (h : Implemented op)
    (h76 : op ≠ 0x76) (hcb : op ≠ 0xCB) :
    ∃ t c, executeOpcode (fuel + 1) s op = .done t c ∧ c % 4 = 0 ∧ 4 ≤ c ∧ c ≤ 24 := by
  obtain ⟨hlt, hu⟩ := h
  interval_cases op
  all_goals first
    | exact ⟨_, _, rfl, by decide⟩
    | exact absurd rfl h76
    | exact absurd rfl hcb
    | exact absurd (by decide) hu
    | (refine ⟨_, _, rfl, ?_⟩; split <;> decide)

theorem CPU_HALT_entered (s : Machine) (h : ¬ HaltSkipped s) : (CPU_HALT s).cpu.halt = true := by
  unfold HaltSkipped at h
  unfold CPU_HALT
  split
  · rename_i hc
    exfalso
    apply h
    simp only [Bool.and_eq_true, Bool.not_eq_true', decide_eq_true_eq] at hc
    exact hc
  · rfl

theorem CPU_HALT_skipped (s : Machine) (h : HaltSkipped s) :
    (CPU_HALT s).cpu.halt = false ∧ (CPU_HALT s).PC = s.PC
    ∧ ∀ a, MMU.readByte (CPU_HALT s) a = MMU.readByte s a := by
  unfold HaltSkipped at h
  have hc : (!s.cpu.IME && decide ((s.ifRegister &&& s.ieRegister &&& 0x1F) ≠ 0)) = true := by
    simp only [Bool.and_eq_true, Bool.not_eq_true', decide_eq_true_eq]
    exact h
  unfold CPU_HALT
  rw [if_pos hc]
  exact ⟨rfl, rfl, fun a => readByte_congr _ _ a rfl rfl rfl rfl rfl rfl⟩

set_option maxRecDepth 100000 in
theorem executeOpcode_halt (s : Machine) (fuel : Nat) :
    executeOpcode (fuel + 1) s 0x76
      = if !(CPU_HALT s).cpu.halt then
          match executeOpcode fuel (CPU_HALT s) (MMU.readByte (CPU_HALT s) (CPU_HALT s).PC) with
          | .done s1 cycles => .done s1 (4 + cycles)
          | o => o
        else .done (CPU_HALT s) 4 := rfl

set_option maxRecDepth 100000 in
theorem executeOpcode_cb (s : Machine) (fuel : Nat) :
    executeOpcode (fuel + 1) s 0xCB = executeExtendedOpcode (pcInc s) (MMU.readByte s s.PC) := rfl

/-- Cycle count of an opcode other than HALT, CB escape included. -/
theorem executeOpcode_cycles_cb (s : Machine) (op fuel : Nat) (h : Implemented op) (h76 : op ≠ 0x76)
    (hcb : op = 0xCB → MMU.readByte s s.PC < 256) :
    ∃ t c, executeOpcode (fuel + 1) s op = .done t c ∧ c % 4 = 0 ∧ 4 ≤ c ∧ c ≤ 24 := by
  by_cases hc : op = 0xCB
  · subst hc
    rw [executeOpcode_cb]
    obtain ⟨t, c, e, hc8⟩ := executeExtendedOpcode_cycles (pcInc s) _ (hcb rfl)
    exact ⟨t, c, e, by omega⟩
  · exact executeOpcode_cycles s op fuel h h76 hc

/-- C9 as amended: when the byte at PC is an implemented opcode, `step`
returns a multiple of 4 between 4 and 24, except for a HALT executed with IME
clear and an interrupt pending: that one returns 4 plus the count of the
instruction decoded from the byte that follows it (which is run without PC
moving past its opcode), hence a multiple of 4 between 8 and 28, when that
byte is an implemented opcode other than HALT. -/
theorem step_cycle_count (s : Machine) (fuel : Nat) (hop : Implemented (MMU.readByte s s.PC))
    (hcb : MMU.readByte s s.PC = 0xCB → MMU.readByte s ((s.PC + 1) % 65536) < 256) :
    (¬ (MMU.readByte s s.PC = 0x76 ∧ HaltSkipped s) →
      ∃ t c, step (fuel + 1) s = .done t c ∧ c % 4 = 0 ∧ 4 ≤ c ∧ c ≤ 24)
    ∧ (MMU.readByte s s.PC = 0x76 → HaltSkipped s →
        Implemented (MMU.readByte s ((s.PC + 1) % 65536)) →
        MMU.readByte s ((s.PC + 1) % 65536) ≠ 0x76 →
        ∃ t c, step (fuel + 2) s = .done t (4 + c) ∧ c % 4 = 0 ∧ 4 ≤ c ∧ c ≤ 24) := by
  have hr : ∀ a, MMU.readByte (pcInc s) a = MMU.readByte s a :=
    fun a => readByte_congr _ _ a rfl rfl rfl rfl rfl rfl
  have hpc : (pcInc s).PC = (s.PC + 1) % 65536 := rfl
  constructor
  · intro hn
    unfold step
    by_cases h76 : MMU.readByte s s.PC = 0x76
    · have hs : ¬ HaltSkipped (pcInc s) := fun h => hn ⟨h76, h⟩
      simp only [h76]
      rw [executeOpcode_halt, if_neg (by rw [CPU_HALT_entered _ hs]; decide)]
      exact ⟨_, _, rfl, by decide⟩
    · exact executeOpcode_cycles_cb _ _ _ hop h76 (fun h => by rw [hr, hpc]; exact hcb h)
  · intro h76 hs hnext hne
    have hs1 : HaltSkipped (pcInc s) := hs
    obtain ⟨k1, k2, k3⟩ := CPU_HALT_skipped _ hs1
    unfold step
    simp only [h76]
    rw [executeOpcode_halt, if_pos (by rw [k1]; decide), k3, k2, hr, hpc]
    obtain ⟨t, c, e, hc⟩ := executeOpcode_cycles_cb (CPU_HALT (pcInc s))
      (MMU.readByte s ((s.PC + 1) % 65536)) fuel hnext hne
      (fun h => by rw [k3, k2, hr, hpc, h]; decide)
    rw [e]
    exact ⟨t, c, rfl, hc⟩

set_option maxRecDepth 100000 in
/-- C9 fails as stated: HALT (an implemented opcode) at PC with IME clear and
an interrupt pending is not entered, the CALL that follows is executed in the
same `step`, and the step returns 4 + 24 = 28 cycles. -/
theorem step_halt_then_call_returns_28 :
    MMU.readByte haltCallMachine haltCallMachine.PC = 0x76
    ∧ 0x76 < 256 ∧ 0x76 ∉ undefinedOpcodes
    ∧ (step 2 haltCallMachine).cycles = some 28
    ∧ ¬ (28 ≤ 24) := by
  decide

set_option maxRecDepth 100000 in
/-- C9, witness: the skipped HALT followed by CALL returns 4 plus a count
between 4 and 24. -/
theorem step_cycle_count_witness :
    Implemented (MMU.readByte haltCallMachine haltCallMachine.PC)
    ∧ (MMU.readByte haltCallMachine haltCallMachine.PC = 0xCB →
        MMU.readByte haltCallMachine ((haltCallMachine.PC + 1) % 65536) < 256)
    ∧ HaltSkipped haltCallMachine
    ∧ ∃ t c, step (0 + 2) haltCallMachine = .done t (4 + c) ∧ c % 4 = 0 ∧ 4 ≤ c ∧ c ≤ 24 :=
  ⟨by unfold Implemented; decide, by decide, by unfold HaltSkipped; decide,
    (step_cycle_count haltCallMachine 0 (by unfold Implemented; decide) (by decide)).2
      (by decide) (by unfold HaltSkipped; decide) (by unfold Implemented; decide) (by decide)⟩

/-! ## C10 -/

theorem CPU_JR_AF (s : Machine) (u : Bool) (a : Int) (f : Nat) (b : Bool) :
    (CPU_JR s u a f b).AF = s.AF := by
  unfold CPU_JR; split_ifs <;> rfl

theorem CPU_JP_AF (s : Machine) (u : Bool) (a f : Nat) (b : Bool) :
    (CPU_JP s u a f b).AF = s.AF := by
  unfold CPU_JP; split_ifs <;> rfl

theorem with_PC_AF (x : Machine) (v : Nat) : ({ x with PC := v } : Machine).AF = x.AF := rfl

theorem CPU_PUSH_AF (s : Machine) (r : Reg16) (hr : r ≠ .SP) : (CPU_PUSH s r).AF = s.AF := by
  rw [CPU_PUSH_eq _ _ hr, (writeWord_sameCPU _ _ _).1]
  exact (set16_SP_fields _ _).2.2.2

theorem CPU_CALL_AF (s : Machine) (u : Bool) (a f : Nat) (b : Bool) :
    (CPU_CALL s u a f b).AF = s.AF := by
  unfold CPU_CALL
  split_ifs
  · exact (with_PC_AF _ _).trans (CPU_PUSH_AF s .PC (by decide))
  · rfl

theorem CPU_RET_AF (s : Machine) (u : Bool) (f : Nat) (b : Bool) :
    (CPU_RET s u f b).AF = s.AF := by
  unfold CPU_RET; split_ifs <;> rfl

set_option maxRecDepth 100000 in
theorem jr_cond_0 (s : Machine) (fuel : Nat) :
    (condHolds 0 s.AF.lo = true →
      ∃ t, executeOpcode (fuel + 1) s 0x18 = .done t 12
        ∧ executeOpcode (fuel + 1) s 0x20 = .done t 12)
    ∧ (condHolds 0 s.AF.lo = false → executeOpcode (fuel + 1) s 0x20 = .done (pcInc s) 8) := by
  have d1 : executeOpcode (fuel + 1) s 0x20
      = .done (CPU_JR (pcInc s) true (toSigned (MMU.readByte s s.PC)) FLAG_Z false)
          (if !isFlagged (CPU_JR (pcInc s) true (toSigned (MMU.readByte s s.PC)) FLAG_Z false).AF.lo FLAG_Z then 12 else 8) := rfl
  have d2 : executeOpcode (fuel + 1) s 0x18 = .done (CPU_JR (pcInc s) false (toSigned (MMU.readByte s s.PC)) 0 false) 12 := rfl
  have e1 : (pcInc s).AF = s.AF := rfl
  have e2 : (pcAdd2 s).AF = s.AF := rfl
  rw [d1, d2, CPU_JR_AF]
  simp only [e1, e2, condHolds]
  constructor
  · intro h
    refine ⟨_, rfl, ?_⟩
    simp [CPU_JR, h, e1, e2]
  · intro h
    simp [CPU_JR, h, e1, e2]

set_option maxRecDepth 100000 in
theorem jr_cond_1 (s : Machine) (fuel : Nat) :
    (condHolds 1 s.AF.lo = true →
      ∃ t, executeOpcode (fuel + 1) s 0x18 = .done t 12
        ∧ executeOpcode (fuel + 1) s 0x28 = .done t 12)
    ∧ (condHolds 1 s.AF.lo = false → executeOpcode (fuel + 1) s 0x28 = .done (pcInc s) 8) := by
  have d1 : executeOpcode (fuel + 1) s 0x28
      = .done (CPU_JR (pcInc s) true (toSigned (MMU.readByte s s.PC)) FLAG_Z true)
          (if isFlagged (CPU_JR (pcInc s) true (toSigned (MMU.readByte s s.PC)) FLAG_Z true).AF.lo FLAG_Z then 12 else 8) := rfl
  have d2 : executeOpcode (fuel + 1) s 0x18 = .done (CPU_JR (pcInc s) false (toSigned (MMU.readByte s s.PC)) 0 false) 12 := rfl
  have e1 : (pcInc s).AF = s.AF := rfl
  have e2 : (pcAdd2 s).AF = s.AF := rfl
  rw [d1, d2, CPU_JR_AF]
  simp only [e1, e2, condHolds]
  constructor
  · intro h
    refine ⟨_, rfl, ?_⟩
    simp [CPU_JR, h, e1, e2]
  · intro h
    simp [CPU_JR, h, e1, e2]

set_option maxRecDepth 100000 in
theorem jr_cond_2 (s : Machine) (fuel : Nat) :
    (condHolds 2 s.AF.lo = true →
      ∃ t, executeOpcode (fuel + 1) s 0x18 = .done t 12
        ∧ executeOpcode (fuel + 1) s 0x30 = .done t 12)
    ∧ (condHolds 2 s.AF.lo = false → executeOpcode (fuel + 1) s 0x30 = .done (pcInc s) 8) := by
  have d1 : executeOpcode (fuel + 1) s 0x30
      = .done (CPU_JR (pcInc s) true (toSigned (MMU.readByte s s.PC)) FLAG_C false)
          (if !isFlagged (CPU_JR (pcInc s) true (toSigned (MMU.readByte s s.PC)) FLAG_C false).AF.lo FLAG_C then 12 else 8) := rfl
  have d2 : executeOpcode (fuel + 1) s 0x18 = .done (CPU_JR (pcInc s) false (toSigned (MMU.readByte s s.PC)) 0 false) 12 := rfl
  have e1 : (pcInc s).AF = s.AF := rfl
  have e2 : (pcAdd2 s).AF = s.AF := rfl
  rw [d1, d2, CPU_JR_AF]
  simp only [e1, e2, condHolds]
  constructor
  · intro h
    refine ⟨_, rfl, ?_⟩
    simp [CPU_JR, h, e1, e2]
  · intro h
    simp [CPU_JR, h, e1, e2]

set_option maxRecDepth 100000 in
theorem jr_cond_3 (s : Machine) (fuel : Nat) :
    (condHolds 3 s.AF.lo = true →
      ∃ t, executeOpcode (fuel + 1) s 0x18 = .done t 12
        ∧ executeOpcode (fuel + 1) s 0x38 = .done t 12)
    ∧ (condHolds 3 s.AF.lo = false → executeOpcode (fuel + 1) s 0x38 = .done (pcInc s) 8) := by
  have d1 : executeOpcode (fuel + 1) s 0x38
      = .done (CPU_JR (pcInc s) true (toSigned (MMU.readByte s s.PC)) FLAG_C true)
          (if isFlagged (CPU_JR (pcInc s) true (toSigned (MMU.readByte s s.PC)) FLAG_C true).AF.lo FLAG_C then 12 else 8) := rfl
  have d2 : executeOpcode (fuel + 1) s 0x18 = .done (CPU_JR (pcInc s) false (toSigned (MMU.readByte s s.PC)) 0 false) 12 := rfl
  have e1 : (pcInc s).AF = s.AF := rfl
  have e2 : (pcAdd2 s).AF = s.AF := rfl
  rw [d1, d2, CPU_JR_AF]
  simp only [e1, e2, condHolds]
  constructor
  · intro h
    refine ⟨_, rfl, ?_⟩
    simp [CPU_JR, h, e1, e2]
  · intro h
    simp [CPU_JR, h, e1, e2]

set_option maxRecDepth 100000 in
theorem jp_cond_0 (s : Machine) (fuel : Nat) :
    (condHolds 0 s.AF.lo = true →
      ∃ t, executeOpcode (fuel + 1) s 0xC3 = .done t 16
        ∧ executeOpcode (fuel + 1) s 0xC2 = .done t 16)
    ∧ (condHolds 0 s.AF.lo = false → executeOpcode (fuel + 1) s 0xC2 = .done (pcAdd2 s) 12) := by
  have d1 : executeOpcode (fuel + 1) s 0xC2
      = .done (CPU_JP (pcAdd2 s) true (readWordBehindPC (pcAdd2 s)) FLAG_Z false)
          (if !isFlagged (CPU_JP (pcAdd2 s) true (readWordBehindPC (pcAdd2 s)) FLAG_Z false).AF.lo FLAG_Z then 16 else 12) := rfl
  have d2 : executeOpcode (fuel + 1) s 0xC3 = .done (CPU_JP (pcAdd2 s) false (readWordBehindPC (pcAdd2 s)) 0 false) 16 := rfl
  have e1 : (pcInc s).AF = s.AF := rfl
  have e2 : (pcAdd2 s).AF = s.AF := rfl
  rw [d1, d2, CPU_JP_AF]
  simp only [e1, e2, condHolds]
  constructor
  · intro h
    refine ⟨_, rfl, ?_⟩
    simp [CPU_JP, h, e1, e2]
  · intro h
    simp [CPU_JP, h, e1, e2]

set_option maxRecDepth 100000 in
theorem jp_cond_1 (s : Machine) (fuel : Nat) :
    (condHolds 1 s.AF.lo = true →
      ∃ t, executeOpcode (fuel + 1) s 0xC3 = .done t 16
        ∧ executeOpcode (fuel + 1) s 0xCA = .done t 16)
    ∧ (condHolds 1 s.AF.lo = false → executeOpcode (fuel + 1) s 0xCA = .done (pcAdd2 s) 12) := by
  have d1 : executeOpcode (fuel + 1) s 0xCA
      = .done (CPU_JP (pcAdd2 s) true (readWordBehindPC (pcAdd2 s)) FLAG_Z true)
          (if isFlagged (CPU_JP (pcAdd2 s) true (readWordBehindPC (pcAdd2 s)) FLAG_Z true).AF.lo FLAG_Z then 16 else 12) := rfl
  have d2 : executeOpcode (fuel + 1) s 0xC3 = .done (CPU_JP (pcAdd2 s) false (readWordBehindPC (pcAdd2 s)) 0 false) 16 := rfl
  have e1 : (pcInc s).AF = s.AF := rfl
  have e2 : (pcAdd2 s).AF = s.AF := rfl
  rw [d1, d2, CPU_JP_AF]
  simp only [e1, e2, condHolds]
  constructor
  · intro h
    refine ⟨_, rfl, ?_⟩
    simp [CPU_JP, h, e1, e2]
  · intro h
    simp [CPU_JP, h, e1, e2]

set_option maxRecDepth 100000 in
theorem jp_cond_2 (s : Machine) (fuel : Nat) :
    (condHolds 2 s.AF.lo = true →
      ∃ t, executeOpcode (fuel + 1) s 0xC3 = .done t 16
        ∧ executeOpcode (fuel + 1) s 0xD2 = .done t 16)
    ∧ (condHolds 2 s.AF.lo = false → executeOpcode (fuel + 1) s 0xD2 = .done (pcAdd2 s) 12) := by
  have d1 : executeOpcode (fuel + 1) s 0xD2
      = .done (CPU_JP (pcAdd2 s) true (readWordBehindPC (pcAdd2 s)) FLAG_C false)
          (if !isFlagged (CPU_JP (pcAdd2 s) true (readWordBehindPC (pcAdd2 s)) FLAG_C false).AF.lo FLAG_C then 16 else 12) := rfl
  have d2 : executeOpcode (fuel + 1) s 0xC3 = .done (CPU_JP (pcAdd2 s) false (readWordBehindPC (pcAdd2 s)) 0 false) 16 := rfl
  have e1 : (pcInc s).AF = s.AF := rfl
  have e2 : (pcAdd2 s).AF = s.AF := rfl
  rw [d1, d2, CPU_JP_AF]
  simp only [e1, e2, condHolds]
  constructor
  · intro h
    refine ⟨_, rfl, ?_⟩
    simp [CPU_JP, h, e1, e2]
  · intro h
    simp [CPU_JP, h, e1, e2]

set_option maxRecDepth 100000 in
theorem jp_cond_3 (s : Machine) (fuel : Nat) :
    (condHolds 3 s.AF.lo = true →
      ∃ t, executeOpcode (fuel + 1) s 0xC3 = .done t 16
        ∧ executeOpcode (fuel + 1) s 0xDA = .done t 16)
    ∧ (condHolds 3 s.AF.lo = false → executeOpcode (fuel + 1) s 0xDA = .done (pcAdd2 s) 12) := by
  have d1 : executeOpcode (fuel + 1) s 0xDA
      = .done (CPU_JP (pcAdd2 s) true (readWordBehindPC (pcAdd2 s)) FLAG_C true)
          (if isFlagged (CPU_JP (pcAdd2 s) true (readWordBehindPC (pcAdd2 s)) FLAG_C true).AF.lo FLAG_C then 16 else 12) := rfl
  have d2 : executeOpcode (fuel + 1) s 0xC3 = .done (CPU_JP (pcAdd2 s) false (readWordBehindPC (pcAdd2 s)) 0 false) 16 := rfl
  have e1 : (pcInc s).AF = s.AF := rfl
  have e2 : (pcAdd2 s).AF = s.AF := rfl
  rw [d1, d2, CPU_JP_AF]
  simp only [e1, e2, condHolds]
  constructor
  · intro h
    refine ⟨_, rfl, ?_⟩
    simp [CPU_JP, h, e1, e2]
  · intro h
    simp [CPU_JP, h, e1, e2]

set_option maxRecDepth 100000 in
theorem call_cond_0 (s : Machine) (fuel : Nat) :
    (condHolds 0 s.AF.lo = true →
      ∃ t, executeOpcode (fuel + 1) s 0xCD = .done t 24
        ∧ executeOpcode (fuel + 1) s 0xC4 = .done t 24)
    ∧ (condHolds 0 s.AF.lo = false → executeOpcode (fuel + 1) s 0xC4 = .done (pcAdd2 s) 12) := by
  have d1 : executeOpcode (fuel + 1) s 0xC4
      = .done (CPU_CALL (pcAdd2 s) true (readWordBehindPC (pcAdd2 s)) FLAG_Z false)
          (if !isFlagged (CPU_CALL (pcAdd2 s) true (readWordBehindPC (pcAdd2 s)) FLAG_Z false).AF.lo FLAG_Z then 24 else 12) := rfl
  have d2 : executeOpcode (fuel + 1) s 0xCD = .done (CPU_CALL (pcAdd2 s) false (readWordBehindPC (pcAdd2 s)) 0 false) 24 := rfl
  have e1 : (pcInc s).AF = s.AF := rfl
  have e2 : (pcAdd2 s).AF = s.AF := rfl
  rw [d1, d2, CPU_CALL_AF]
  simp only [e1, e2, condHolds]
  constructor
  · intro h
    refine ⟨_, rfl, ?_⟩
    simp [CPU_CALL, h, e1, e2]
  · intro h
    simp [CPU_CALL, h, e1, e2]

set_option maxRecDepth 100000 in
theorem call_cond_1 (s : Machine) (fuel : Nat) :
    (condHolds 1 s.AF.lo = true →
      ∃ t, executeOpcode (fuel + 1) s 0xCD = .done t 24
        ∧ executeOpcode (fuel + 1) s 0xCC = .done t 24)
    ∧ (condHolds 1 s.AF.lo = false → executeOpcode (fuel + 1) s 0xCC = .done (pcAdd2 s) 12) := by
  have d1 : executeOpcode (fuel + 1) s 0xCC
      = .done (CPU_CALL (pcAdd2 s) true (readWordBehindPC (pcAdd2 s)) FLAG_Z true)
          (if isFlagged (CPU_CALL (pcAdd2 s) true (readWordBehindPC (pcAdd2 s)) FLAG_Z true).AF.lo FLAG_Z then 24 else 12) := rfl
  have d2 : executeOpcode (fuel + 1) s 0xCD = .done (CPU_CALL (pcAdd2 s) false (readWordBehindPC (pcAdd2 s)) 0 false) 24 := rfl
  have e1 : (pcInc s).AF = s.AF := rfl
  have e2 : (pcAdd2 s).AF = s.AF := rfl
  rw [d1, d2, CPU_CALL_AF]
  simp only [e1, e2, condHolds]
  constructor
  · intro h
    refine ⟨_, rfl, ?_⟩
    simp [CPU_CALL, h, e1, e2]
  · intro h
    simp [CPU_CALL, h, e1, e2]

set_option maxRecDepth 100000 in
theorem call_cond_2 (s : Machine) (fuel : Nat) :
    (condHolds 2 s.AF.lo = true →
      ∃ t, executeOpcode (fuel + 1) s 0xCD = .done t 24
        ∧ executeOpcode (fuel + 1) s 0xD4 = .done t 24)
    ∧ (condHolds 2 s.AF.lo = false → executeOpcode (fuel + 1) s 0xD4 = .done (pcAdd2 s) 12) := by
  have d1 : executeOpcode (fuel + 1) s 0xD4
      = .done (CPU_CALL (pcAdd2 s) true (readWordBehindPC (pcAdd2 s)) FLAG_C false)
          (if !isFlagged (CPU_CALL (pcAdd2 s) true (readWordBehindPC (pcAdd2 s)) FLAG_C false).AF.lo FLAG_C then 24 else 12) := rfl
  have d2 : executeOpcode (fuel + 1) s 0xCD = .done (CPU_CALL (pcAdd2 s) false (readWordBehindPC (pcAdd2 s)) 0 false) 24 := rfl
  have e1 : (pcInc s).AF = s.AF := rfl
  have e2 : (pcAdd2 s).AF = s.AF := rfl
  rw [d1, d2, CPU_CALL_AF]
  simp only [e1, e2, condHolds]
  constructor
  · intro h
    refine ⟨_, rfl, ?_⟩
    simp [CPU_CALL, h, e1, e2]
  · intro h
    simp [CPU_CALL, h, e1, e2]

set_option maxRecDepth 100000 in
theorem call_cond_3 (s : Machine) (fuel : Nat) :
    (condHolds 3 s.AF.lo = true →
      ∃ t, executeOpcode (fuel + 1) s 0xCD = .done t 24
        ∧ executeOpcode (fuel + 1) s 0xDC = .done t 24)
    ∧ (condHolds 3 s.AF.lo = false → executeOpcode (fuel + 1) s 0xDC = .done (pcAdd2 s) 12) := by
  have d1 : executeOpcode (fuel + 1) s 0xDC
      = .done (CPU_CALL (pcAdd2 s) true (readWordBehindPC (pcAdd2 s)) FLAG_C true)
          (if isFlagged (CPU_CALL (pcAdd2 s) true (readWordBehindPC (pcAdd2 s)) FLAG_C true).AF.lo FLAG_C then 24 else 12) := rfl
  have d2 : executeOpcode (fuel + 1) s 0xCD = .done (CPU_CALL (pcAdd2 s) false (readWordBehindPC (pcAdd2 s)) 0 false) 24 := rfl
  have e1 : (pcInc s).AF = s.AF := rfl
  have e2 : (pcAdd2 s).AF = s.AF := rfl
  rw [d1, d2, CPU_CALL_AF]
  simp only [e1, e2, condHolds]
  constructor
  · intro h
    refine ⟨_, rfl, ?_⟩
    simp [CPU_CALL, h, e1, e2]
  · intro h
    simp [CPU_CALL, h, e1, e2]

set_option maxRecDepth 100000 in
theorem ret_cond_0 (s : Machine) (fuel : Nat) :
    (condHolds 0 s.AF.lo = true →
      ∃ t, executeOpcode (fuel + 1) s 0xC9 = .done t 16
        ∧ executeOpcode (fuel + 1) s 0xC0 = .done t 20)
    ∧ (condHolds 0 s.AF.lo = false → executeOpcode (fuel + 1) s 0xC0 = .done (s) 8) := by
  have d1 : executeOpcode (fuel + 1) s 0xC0
      = .done (CPU_RET s true FLAG_Z false)
          (if !isFlagged (CPU_RET s true FLAG_Z false).AF.lo FLAG_Z then 20 else 8) := rfl
  have d2 : executeOpcode (fuel + 1) s 0xC9 = .done (CPU_RET s false 0 false) 16 := rfl
  have e1 : (pcInc s).AF = s.AF := rfl
  have e2 : (pcAdd2 s).AF = s.AF := rfl
  rw [d1, d2, CPU_RET_AF]
  simp only [e1, e2, condHolds]
  constructor
  · intro h
    refine ⟨_, rfl, ?_⟩
    simp [CPU_RET, h, e1, e2]
  · intro h
    simp [CPU_RET, h, e1, e2]

set_option maxRecDepth 100000 in
theorem ret_cond_1 (s : Machine) (fuel : Nat) :
    (condHolds 1 s.AF.lo = true →
      ∃ t, executeOpcode (fuel + 1) s 0xC9 = .done t 16
        ∧ executeOpcode (fuel + 1) s 0xC8 = .done t 20)
    ∧ (condHolds 1 s.AF.lo = false → executeOpcode (fuel + 1) s 0xC8 = .done (s) 8) := by
  have d1 : executeOpcode (fuel + 1) s 0xC8
      = .done (CPU_RET s true FLAG_Z true)
          (if isFlagged (CPU_RET s true FLAG_Z true).AF.lo FLAG_Z then 20 else 8) := rfl
  have d2 : executeOpcode (fuel + 1) s 0xC9 = .done (CPU_RET s false 0 false) 16 := rfl
  have e1 : (pcInc s).AF = s.AF := rfl
  have e2 : (pcAdd2 s).AF = s.AF := rfl
  rw [d1, d2, CPU_RET_AF]
  simp only [e1, e2, condHolds]
  constructor
  · intro h
    refine ⟨_, rfl, ?_⟩
    simp [CPU_RET, h, e1, e2]
  · intro h
    simp [CPU_RET, h, e1, e2]

set_option maxRecDepth 100000 in
theorem ret_cond_2 (s : Machine) (fuel : Nat) :
    (condHolds 2 s.AF.lo = true →
      ∃ t, executeOpcode (fuel + 1) s 0xC9 = .done t 16
        ∧ executeOpcode (fuel + 1) s 0xD0 = .done t 20)
    ∧ (condHolds 2 s.AF.lo = false → executeOpcode (fuel + 1) s 0xD0 = .done (s) 8) := by
  have d1 : executeOpcode (fuel + 1) s 0xD0
      = .done (CPU_RET s true FLAG_C false)
          (if !isFlagged (CPU_RET s true FLAG_C false).AF.lo FLAG_C then 20 else 8) := rfl
  have d2 : executeOpcode (fuel + 1) s 0xC9 = .done (CPU_RET s false 0 false) 16 := rfl
  have e1 : (pcInc s).AF = s.AF := rfl
  have e2 : (pcAdd2 s).AF = s.AF := rfl
  rw [d1, d2, CPU_RET_AF]
  simp only [e1, e2, condHolds]
  constructor
  · intro h
    refine ⟨_, rfl, ?_⟩
    simp [CPU_RET, h, e1, e2]
  · intro h
    simp [CPU_RET, h, e1, e2]

set_option maxRecDepth 100000 in
theorem ret_cond_3 (s : Machine) (fuel : Nat) :
    (condHolds 3 s.AF.lo = true →
      ∃ t, executeOpcode (fuel + 1) s 0xC9 = .done t 16
        ∧ executeOpcode (fuel + 1) s 0xD8 = .done t 20)
    ∧ (condHolds 3 s.AF.lo = false → executeOpcode (fuel + 1) s 0xD8 = .done (s) 8) := by
  have d1 : executeOpcode (fuel + 1) s 0xD8
      = .done (CPU_RET s true FLAG_C true)
          (if isFlagged (CPU_RET s true FLAG_C true).AF.lo FLAG_C then 20 else 8) := rfl
  have d2 : executeOpcode (fuel + 1) s 0xC9 = .done (CPU_RET s false 0 false) 16 := rfl
  have e1 : (pcInc s).AF = s.AF := rfl
  have e2 : (pcAdd2 s).AF = s.AF := rfl
  rw [d1, d2, CPU_RET_AF]
  simp only [e1, e2, condHolds]
  constructor
  · intro h
    refine ⟨_, rfl, ?_⟩
    simp [CPU_RET, h, e1, e2]
  · intro h
    simp [CPU_RET, h, e1, e2]

theorem done_of_same {o1 o2 : Outcome} {u : Machine} {c1 c2 : Nat}
    (h : ∃ t, o1 = .done t c1 ∧ o2 = .done t c2) (hu : o1 = .done u c1) : o2 = .done u c2 := by
  obtain ⟨t, h1, h2⟩ := h
  rw [h1] at hu
  injection hu with e _
  rw [h2, e]

theorem readWord_lt (s : Machine) (a : Nat) : MMU.readWord s a < 65536 := by
  unfold MMU.readWord
  exact Nat.mod_lt _ (by decide)

theorem readWordBehindPC_pcAdd2 (s : Machine) :
    readWordBehindPC (pcAdd2 s) = MMU.readWord s (s.PC % 65536) := by
  have ea : ((pcAdd2 s).PC + 65536 - 2) % 65536 = s.PC % 65536 := by
    show ((s.PC + 2) % 65536 + 65536 - 2) % 65536 = s.PC % 65536
    omega
  unfold readWordBehindPC MMU.readWord
  rw [ea, readByte_congr s (pcAdd2 s) _ rfl rfl rfl rfl rfl rfl,
    readByte_congr s (pcAdd2 s) _ rfl rfl rfl rfl rfl rfl]

set_option maxRecDepth 100000 in
theorem jr_always (s : Machine) (fuel : Nat) :
    executeOpcode (fuel + 1) s 0x18
      = .done { s with PC := toWord ((((s.PC + 1) % 65536 : Nat) : Int)
                                      + toSigned (MMU.readByte s s.PC)) } 12 := rfl

set_option maxRecDepth 100000 in
theorem jp_always (s : Machine) (fuel : Nat) :
    executeOpcode (fuel + 1) s 0xC3
      = .done { s with PC := MMU.readWord s (s.PC % 65536) } 16 := by
  have d : executeOpcode (fuel + 1) s 0xC3
      = .done (CPU_JP (pcAdd2 s) false (readWordBehindPC (pcAdd2 s)) 0 false) 16 := rfl
  rw [d, readWordBehindPC_pcAdd2]
  have e : CPU_JP (pcAdd2 s) false (MMU.readWord s (s.PC % 65536)) 0 false
      = { s with PC := MMU.readWord s (s.PC % 65536) % 65536 } := rfl
  rw [e, Nat.mod_eq_of_lt (readWord_lt _ _)]

set_option maxRecDepth 100000 in
theorem call_always (s : Machine) (fuel : Nat) :
    executeOpcode (fuel + 1) s 0xCD
      = .done ((MMU.writeWord
          { s with PC := (s.PC + 2) % 65536,
                   SP := Register.ofWord ((s.SP.reg + 65536 - 2) % 65536) }
          ((s.SP.reg + 65536 - 2) % 65536) ((s.PC + 2) % 65536)).set16 .PC
            (MMU.readWord s (s.PC % 65536))) 24 := by
  have d : executeOpcode (fuel + 1) s 0xCD
      = .done (CPU_CALL (pcAdd2 s) false (readWordBehindPC (pcAdd2 s)) 0 false) 24 := rfl
  rw [d, readWordBehindPC_pcAdd2]
  have e := CPU_PUSH_eq (pcAdd2 s) .PC (by decide)
  simp only [CPU_CALL, Bool.not_false, Bool.true_or, if_true, e]
  rfl

set_option maxRecDepth 100000 in
theorem ret_always (s : Machine) (fuel : Nat) :
    executeOpcode (fuel + 1) s 0xC9
      = .done { s with PC := MMU.readWord s s.SP.reg,
                       SP := Register.ofWord ((s.SP.reg + 2) % 65536) } 16 := by
  have d : executeOpcode (fuel + 1) s 0xC9 = .done (CPU_RET s false 0 false) 16 := rfl
  have e : CPU_RET s false 0 false
      = { s with PC := MMU.readWord s s.SP.reg % 65536,
                 SP := Register.ofWord ((s.SP.reg + 2) % 65536) } := rfl
  rw [d, e, Nat.mod_eq_of_lt (readWord_lt _ _)]

/-- What the taken CALL leaves: PC is the operand, SP is two less, the other
registers and the flip-flops are kept, and the return address is on the
stack. -/
theorem call_state_facts (s : Machine) (target : Nat) (ht : target < 65536) :
    ((MMU.writeWord
        { s with PC := (s.PC + 2) % 65536,
                 SP := Register.ofWord ((s.SP.reg + 65536 - 2) % 65536) }
        ((s.SP.reg + 65536 - 2) % 65536) ((s.PC + 2) % 65536)).set16 .PC target).PC = target
    ∧ ((MMU.writeWord
        { s with PC := (s.PC + 2) % 65536,
                 SP := Register.ofWord ((s.SP.reg + 65536 - 2) % 65536) }
        ((s.SP.reg + 65536 - 2) % 65536) ((s.PC + 2) % 65536)).set16 .PC target).SP.reg
        = (s.SP.reg + 65536 - 2) % 65536
    ∧ ((MMU.writeWord
        { s with PC := (s.PC + 2) % 65536,
                 SP := Register.ofWord ((s.SP.reg + 65536 - 2) % 65536) }
        ((s.SP.reg + 65536 - 2) % 65536) ((s.PC + 2) % 65536)).set16 .PC target).AF = s.AF
    ∧ ((MMU.writeWord
        { s with PC := (s.PC + 2) % 65536,
                 SP := Register.ofWord ((s.SP.reg + 65536 - 2) % 65536) }
        ((s.SP.reg + 65536 - 2) % 65536) ((s.PC + 2) % 65536)).set16 .PC target).BC = s.BC
    ∧ ((MMU.writeWord
        { s with PC := (s.PC + 2) % 65536,
                 SP := Register.ofWord ((s.SP.reg + 65536 - 2) % 65536) }
        ((s.SP.reg + 65536 - 2) % 65536) ((s.PC + 2) % 65536)).set16 .PC target).DE = s.DE
    ∧ ((MMU.writeWord
        { s with PC := (s.PC + 2) % 65536,
                 SP := Register.ofWord ((s.SP.reg + 65536 - 2) % 65536) }
        ((s.SP.reg + 65536 - 2) % 65536) ((s.PC + 2) % 65536)).set16 .PC target).HL = s.HL
    ∧ ((MMU.writeWord
        { s with PC := (s.PC + 2) % 65536,
                 SP := Register.ofWord ((s.SP.reg + 65536 - 2) % 65536) }
        ((s.SP.reg + 65536 - 2) % 65536) ((s.PC + 2) % 65536)).set16 .PC target).cpu = s.cpu
    ∧ (InRam ((s.SP.reg + 65536 - 2) % 65536) → InRam ((s.SP.reg + 65536 - 1) % 65536) →
        MMU.readWord ((MMU.writeWord
          { s with PC := (s.PC + 2) % 65536,
                   SP := Register.ofWord ((s.SP.reg + 65536 - 2) % 65536) }
          ((s.SP.reg + 65536 - 2) % 65536) ((s.PC + 2) % 65536)).set16 .PC target)
          ((s.SP.reg + 65536 - 2) % 65536) = (s.PC + 2) % 65536) := by
  have ea : ((s.SP.reg + 65536 - 2) % 65536 + 1) % 65536 = (s.SP.reg + 65536 - 1) % 65536 := by
    omega
  have hr := readWord_writeWord_ram
    { s with PC := (s.PC + 2) % 65536, SP := Register.ofWord ((s.SP.reg + 65536 - 2) % 65536) }
    ((s.SP.reg + 65536 - 2) % 65536) ((s.PC + 2) % 65536)
  have hs := writeWord_sameCPU
    { s with PC := (s.PC + 2) % 65536, SP := Register.ofWord ((s.SP.reg + 65536 - 2) % 65536) }
    ((s.SP.reg + 65536 - 2) % 65536) ((s.PC + 2) % 65536)
  rw [ea] at hr
  generalize MMU.writeWord _ _ _ = w at hr hs ⊢
  obtain ⟨h1, h2, h3, h4, h5, h6, h7⟩ := hs
  have e5 : (w.set16 .PC target).SP = w.SP := rfl
  refine ⟨Nat.mod_eq_of_lt ht, ?_, h1, h2, h3, h4, h7, fun i0 i1 => ?_⟩
  · rw [e5, h5]
    show (Register.ofWord _).reg = _
    rw [Register.reg_ofWord]; omega
  · unfold MMU.readWord
    rw [readByte_set16_PC, readByte_set16_PC]
    exact hr i0 i1 (Nat.mod_lt _ (by decide))

set_option maxRecDepth 100000 in
/-- C10: for every machine (PC just past the opcode byte) and the condition
number k (0 NZ, 1 Z, 2 NC, 3 C): the unconditional JR (0x18), JP (0xC3), CALL
(0xCD) and RET (0xC9) return 12, 16, 24 and 16 cycles; JR moves PC past the
operand byte and adds the signed operand, JP loads PC with the operand word,
CALL lowers SP by 2, writes the address past the two operand bytes at the new
SP and loads PC with the operand word, RET loads PC with the word at SP and
raises SP by 2; JR, JP and RET change nothing else.  When the condition holds
on F the conditional JR, JP, CALL and RET end in these same states and return
12, 16, 24 and 20 cycles; when it does not hold they return 8, 12, 12 and 8
cycles and change nothing but PC, which is moved past the one (JR) or two (JP,
CALL) operand bytes and left in place by RET.  The state after the CALL has
PC at the operand word, SP two less, the registers AF, BC, DE, HL and the
flip-flops as before, and, with the two bytes below the old SP in work RAM or
high RAM, the return address as the word at the new SP. -/
theorem conditional_branch_cycles (s : Machine) (k fuel : Nat) (hk : k < 4) :
    (executeOpcode (fuel + 1) s 0x18
        = .done { s with PC := toWord ((((s.PC + 1) % 65536 : Nat) : Int)
                                        + toSigned (MMU.readByte s s.PC)) } 12
      ∧ executeOpcode (fuel + 1) s 0xC3
        = .done { s with PC := MMU.readWord s (s.PC % 65536) } 16
      ∧ executeOpcode (fuel + 1) s 0xCD
        = .done ((MMU.writeWord
            { s with PC := (s.PC + 2) % 65536,
                     SP := Register.ofWord ((s.SP.reg + 65536 - 2) % 65536) }
            ((s.SP.reg + 65536 - 2) % 65536) ((s.PC + 2) % 65536)).set16 .PC
              (MMU.readWord s (s.PC % 65536))) 24
      ∧ executeOpcode (fuel + 1) s 0xC9
        = .done { s with PC := MMU.readWord s s.SP.reg,
                         SP := Register.ofWord ((s.SP.reg + 2) % 65536) } 16)
    ∧ (condHolds k s.AF.lo = true →
      executeOpcode (fuel + 1) s (0x20 + 8 * k)
        = .done { s with PC := toWord ((((s.PC + 1) % 65536 : Nat) : Int)
                                        + toSigned (MMU.readByte s s.PC)) } 12
      ∧ executeOpcode (fuel + 1) s (0xC2 + 8 * k)
        = .done { s with PC := MMU.readWord s (s.PC % 65536) } 16
      ∧ executeOpcode (fuel + 1) s (0xC4 + 8 * k)
        = .done ((MMU.writeWord
            { s with PC := (s.PC + 2) % 65536,
                     SP := Register.ofWord ((s.SP.reg + 65536 - 2) % 65536) }
            ((s.SP.reg + 65536 - 2) % 65536) ((s.PC + 2) % 65536)).set16 .PC
              (MMU.readWord s (s.PC % 65536))) 24
      ∧ executeOpcode (fuel + 1) s (0xC0 + 8 * k)
        = .done { s with PC := MMU.readWord s s.SP.reg,
                         SP := Register.ofWord ((s.SP.reg + 2) % 65536) } 20)
    ∧ (condHolds k s.AF.lo = false →
      executeOpcode (fuel + 1) s (0x20 + 8 * k) = .done (pcInc s) 8
      ∧ executeOpcode (fuel + 1) s (0xC2 + 8 * k) = .done (pcAdd2 s) 12
      ∧ executeOpcode (fuel + 1) s (0xC4 + 8 * k) = .done (pcAdd2 s) 12
      ∧ executeOpcode (fuel + 1) s (0xC0 + 8 * k) = .done s 8)
    ∧ (pcInc s).SP = s.SP ∧ (pcInc s).mmu = s.mmu ∧ (pcInc s).PC = (s.PC + 1) % 65536
    ∧ (pcAdd2 s).SP = s.SP ∧ (pcAdd2 s).mmu = s.mmu ∧ (pcAdd2 s).PC = (s.PC + 2) % 65536
    ∧ ∀ t : Machine,
        t = ((MMU.writeWord
            { s with PC := (s.PC + 2) % 65536,
                     SP := Register.ofWord ((s.SP.reg + 65536 - 2) % 65536) }
            ((s.SP.reg + 65536 - 2) % 65536) ((s.PC + 2) % 65536)).set16 .PC
              (MMU.readWord s (s.PC % 65536))) →
        t.PC = MMU.readWord s (s.PC % 65536)
        ∧ t.SP.reg = (s.SP.reg + 65536 - 2) % 65536
        ∧ t.AF = s.AF ∧ t.BC = s.BC ∧ t.DE = s.DE ∧ t.HL = s.HL ∧ t.cpu = s.cpu
        ∧ (InRam ((s.SP.reg + 65536 - 2) % 65536) → InRam ((s.SP.reg + 65536 - 1) % 65536) →
            MMU.readWord t ((s.SP.reg + 65536 - 2) % 65536) = (s.PC + 2) % 65536) := by
  have hjr := jr_always s fuel
  have hjp := jp_always s fuel
  have hcall := call_always s fuel
  have hret := ret_always s fuel
  refine ⟨⟨hjr, hjp, hcall, hret⟩, ?_, ?_, rfl, rfl, rfl, rfl, rfl, rfl, ?_⟩
  · intro h
    interval_cases k
    · exact ⟨done_of_same ((jr_cond_0 s fuel).1 h) hjr, done_of_same ((jp_cond_0 s fuel).1 h) hjp,
        done_of_same ((call_cond_0 s fuel).1 h) hcall, done_of_same ((ret_cond_0 s fuel).1 h) hret⟩
    · exact ⟨done_of_same ((jr_cond_1 s fuel).1 h) hjr, done_of_same ((jp_cond_1 s fuel).1 h) hjp,
        done_of_same ((call_cond_1 s fuel).1 h) hcall, done_of_same ((ret_cond_1 s fuel).1 h) hret⟩
    · exact ⟨done_of_same ((jr_cond_2 s fuel).1 h) hjr, done_of_same ((jp_cond_2 s fuel).1 h) hjp,
        done_of_same ((call_cond_2 s fuel).1 h) hcall, done_of_same ((ret_cond_2 s fuel).1 h) hret⟩
    · exact ⟨done_of_same ((jr_cond_3 s fuel).1 h) hjr, done_of_same ((jp_cond_3 s fuel).1 h) hjp,
        done_of_same ((call_cond_3 s fuel).1 h) hcall, done_of_same ((ret_cond_3 s fuel).1 h) hret⟩
  · intro h
    interval_cases k
    · exact ⟨(jr_cond_0 s fuel).2 h, (jp_cond_0 s fuel).2 h, (call_cond_0 s fuel).2 h,
        (ret_cond_0 s fuel).2 h⟩
    · exact ⟨(jr_cond_1 s fuel).2 h, (jp_cond_1 s fuel).2 h, (call_cond_1 s fuel).2 h,
        (ret_cond_1 s fuel).2 h⟩
    · exact ⟨(jr_cond_2 s fuel).2 h, (jp_cond_2 s fuel).2 h, (call_cond_2 s fuel).2 h,
        (ret_cond_2 s fuel).2 h⟩
    · exact ⟨(jr_cond_3 s fuel).2 h, (jp_cond_3 s fuel).2 h, (call_cond_3 s fuel).2 h,
        (ret_cond_3 s fuel).2 h⟩
  · intro t ht
    rw [ht]
    exact call_state_facts s _ (readWord_lt _ _)

set_option maxRecDepth 100000 in
/-- C10, witness: with Z set, the NZ branches are not taken (8, 12, 12 and 8
cycles).  With Z set, PC = 0xC000 at the operand bytes 0x05 0xC1, SP = 0xD000
and the word 0x1234 on the stack, the Z branches are taken: JR Z ends with
PC = 0xC006 (12 cycles), JP Z with PC = 0xC105 (16 cycles), CALL Z with
PC = 0xC105, SP = 0xCFFE and the return address 0xC002 on the stack (24
cycles), RET Z with PC = 0x1234 and SP = 0xD002 (20 cycles). -/
theorem conditional_branch_cycles_witness :
    0 < 4 ∧ condHolds 0 zFlagMachine.AF.lo = false ∧ 1 < 4 ∧ condHolds 1 branchMachine.AF.lo = true
    ∧ (executeOpcode 1 zFlagMachine (0x20 + 8 * 0) = .done (pcInc zFlagMachine) 8
      ∧ executeOpcode 1 zFlagMachine (0xC2 + 8 * 0) = .done (pcAdd2 zFlagMachine) 12
      ∧ executeOpcode 1 zFlagMachine (0xC4 + 8 * 0) = .done (pcAdd2 zFlagMachine) 12
      ∧ executeOpcode 1 zFlagMachine (0xC0 + 8 * 0) = .done zFlagMachine 8)
    ∧ (∃ t, executeOpcode 1 branchMachine (0x20 + 8 * 1) = .done t 12
        ∧ t.PC = 0xC006 ∧ t.SP.reg = 0xD000)
    ∧ (∃ t, executeOpcode 1 branchMachine (0xC2 + 8 * 1) = .done t 16
        ∧ t.PC = 0xC105 ∧ t.SP.reg = 0xD000)
    ∧ (∃ t, executeOpcode 1 branchMachine (0xC4 + 8 * 1) = .done t 24
        ∧ t.PC = 0xC105 ∧ t.SP.reg = 0xCFFE ∧ MMU.readWord t 0xCFFE = 0xC002)
    ∧ (∃ t, executeOpcode 1 branchMachine (0xC0 + 8 * 1) = .done t 20
        ∧ t.PC = 0x1234 ∧ t.SP.reg = 0xD002) :=
  have h := (conditional_branch_cycles branchMachine 1 0 (by decide)).2.1 (by decide)
  ⟨by decide, by decide, by decide, by decide,
    (conditional_branch_cycles zFlagMachine 0 0 (by decide)).2.2.1 (by decide),
    ⟨_, h.1, by decide, by decide⟩,
    ⟨_, h.2.1, by decide, by decide⟩,
    ⟨_, h.2.2.1, by decide, by decide, by decide⟩,
    ⟨_, h.2.2.2, by decide, by decide⟩⟩

/-! ## C11 -/

set_option maxRecDepth 100000 in
theorem executeOpcode_undefined (s : Machine) (op fuel : Nat) (h : op ∈ undefinedOpcodes) :
    executeOpcode (fuel + 1) s op = .unknownOpcode := by
  simp only [undefinedOpcodes, List.mem_cons, List.mem_singleton, List.not_mem_nil, or_false] at h
  rcases h with rfl | rfl | rfl | rfl | rfl | rfl | rfl | rfl | rfl | rfl | rfl <;> rfl

/-- C11: for an opcode byte, `executeOpcode` falls to its `default` case
(`assert(false)`) when the byte is one of the eleven undefined ones; for every
other byte except HALT it returns from a `case` (for 0xCB, from the extended
table, on a byte operand); HALT (0x76) has its own `case`, which returns 4 or
hands the following byte to `executeOpcode` again; and `executeExtendedOpcode`
returns from a `case` for each of the 256 bytes. -/
theorem unknown_opcode_exactly_undefined (s : Machine) (op fuel : Nat) (h : op < 256) :
    (op ∈ undefinedOpcodes → executeOpcode (fuel + 1) s op = .unknownOpcode)
    ∧ (op ∉ undefinedOpcodes → op ≠ 0x76 → (op = 0xCB → MMU.readByte s s.PC < 256) →
        ∃ t c, executeOpcode (fuel + 1) s op = .done t c)
    ∧ executeOpcode (fuel + 1) s 0x76
        = (if !(CPU_HALT s).cpu.halt then
            match executeOpcode fuel (CPU_HALT s) (MMU.readByte (CPU_HALT s) (CPU_HALT s).PC) with
            | .done s1 cycles => .done s1 (4 + cycles)
            | o => o
          else .done (CPU_HALT s) 4)
    ∧ 0x76 ∉ undefinedOpcodes
    ∧ ∃ t c, executeExtendedOpcode s op = .done t c := by
  refine ⟨executeOpcode_undefined s op fuel, ?_, executeOpcode_halt s fuel, by decide, ?_⟩
  · intro hu h76 hcb
    obtain ⟨t, c, e, -⟩ := executeOpcode_cycles_cb s op fuel ⟨h, hu⟩ h76 hcb
    exact ⟨t, c, e⟩
  · obtain ⟨t, c, e, -⟩ := executeExtendedOpcode_cycles s op h
    exact ⟨t, c, e⟩

set_option maxRecDepth 100000 in
/-- C11, witness: byte 0xD3 reaches the unknown-opcode case, byte 0x00 (NOP)
returns, and the extended byte 0xD3 (SET 2,E) returns. -/
theorem unknown_opcode_exactly_undefined_witness :
    0xD3 < 256 ∧ 0xD3 ∈ undefinedOpcodes
    ∧ executeOpcode 1 zFlagMachine 0xD3 = .unknownOpcode
    ∧ (∃ t c, executeOpcode 1 zFlagMachine 0x00 = .done t c)
    ∧ ∃ t c, executeExtendedOpcode zFlagMachine 0xD3 = .done t c :=
  ⟨by decide, by decide,
    (unknown_opcode_exactly_undefined zFlagMachine 0xD3 0 (by decide)).1 (by decide),
    (unknown_opcode_exactly_undefined zFlagMachine 0x00 0 (by decide)).2.1 (by decide) (by decide)
      (by decide),
    (unknown_opcode_exactly_undefined zFlagMachine 0xD3 0 (by decide)).2.2.2.2⟩

/-! ## C12: the HALT flag under the other instructions -/

theorem halt_ite {c : Prop} [Decidable c] (a b : Machine) :
    (if c then a else b).cpu.halt = if c then a.cpu.halt else b.cpu.halt := by
  split <;> rfl

theorem snd_ite {c : Prop} [Decidable c] (p q : Nat × Machine) :
    (if c then p else q).2 = if c then p.2 else q.2 := by
  split <;> rfl

theorem halt_set8 (s : Machine) (r : Reg8) (v : Nat) : (s.set8 r v).cpu.halt = s.cpu.halt := by
  cases r <;> rfl

theorem halt_set16 (s : Machine) (r : Reg16) (v : Nat) : (s.set16 r v).cpu.halt = s.cpu.halt := by
  cases r <;> rfl

theorem halt_flagBit (s : Machine) (r : Reg8) (b : Nat) : (flagBit s r b).cpu.halt = s.cpu.halt := by
  unfold flagBit
  simp only [halt_ite, halt_set8, ite_self]

theorem halt_unflagBit (s : Machine) (r : Reg8) (b : Nat) :
    (unflagBit s r b).cpu.halt = s.cpu.halt := by
  unfold unflagBit
  simp only [halt_ite, halt_set8, ite_self]

theorem halt_flagBitLocal (s : Machine) (r b : Nat) :
    (flagBitLocal s r b).2.cpu.halt = s.cpu.halt := by
  unfold flagBitLocal
  simp only [halt_ite, halt_set8, ite_self]

theorem halt_clearF (s : Machine) : (clearF s).cpu.halt = s.cpu.halt := halt_set8 s .AFlo 0

theorem halt_pcInc (s : Machine) : (pcInc s).cpu.halt = s.cpu.halt := rfl

theorem halt_pcAdd2 (s : Machine) : (pcAdd2 s).cpu.halt = s.cpu.halt := rfl

theorem halt_with_PC (x : Machine) (v : Nat) : ({ x with PC := v } : Machine).cpu.halt = x.cpu.halt :=
  rfl

theorem halt_with_IME (x : Machine) (v : Bool) :
    ({ x with cpu := { x.cpu with IME := v } } : Machine).cpu.halt = x.cpu.halt := rfl

theorem halt_writeByte (s : Machine) (a v : Nat) : (MMU.writeByte s a v).cpu.halt = s.cpu.halt := by
  rw [(writeByte_sameCPU s a v).2.2.2.2.2.2]

theorem halt_writeWord (s : Machine) (a v : Nat) : (MMU.writeWord s a v).cpu.halt = s.cpu.halt := by
  rw [(writeWord_sameCPU s a v).2.2.2.2.2.2]

theorem halt_CPU_LOAD (s : Machine) (b1 : Reg8) (b2 : Nat) :
    (CPU_LOAD s b1 b2).cpu.halt = s.cpu.halt := by
  unfold CPU_LOAD
  simp only [halt_ite, snd_ite, halt_set8, halt_set16, halt_flagBit, halt_unflagBit, halt_flagBitLocal, halt_clearF, halt_pcInc, halt_pcAdd2, halt_writeByte, halt_writeWord, ite_self]

theorem halt_CPU_LOAD_WRITE (s : Machine) (w b : Nat) :
    (CPU_LOAD_WRITE s w b).cpu.halt = s.cpu.halt := by
  unfold CPU_LOAD_WRITE
  simp only [halt_ite, snd_ite, halt_set8, halt_set16, halt_flagBit, halt_unflagBit, halt_flagBitLocal, halt_clearF, halt_pcInc, halt_pcAdd2, halt_writeByte, halt_writeWord, ite_self, halt_CPU_LOAD]

theorem halt_CPU_LOAD_16BIT (s : Machine) (reg : Reg16) (val : Nat) (immValue : Int) (isStackPointer : Bool) :
    (CPU_LOAD_16BIT s reg val immValue isStackPointer).cpu.halt = s.cpu.halt := by
  unfold CPU_LOAD_16BIT
  simp only [halt_ite, snd_ite, halt_set8, halt_set16, halt_flagBit, halt_unflagBit, halt_flagBitLocal, halt_clearF, halt_pcInc, halt_pcAdd2, halt_writeByte, halt_writeWord, ite_self, halt_CPU_LOAD, halt_CPU_LOAD_WRITE]

theorem halt_CPU_LOAD_WRITE_16BIT (s : Machine) (w b : Nat) :
    (CPU_LOAD_WRITE_16BIT s w b).cpu.halt = s.cpu.halt := by
  unfold CPU_LOAD_WRITE_16BIT
  simp only [halt_ite, snd_ite, halt_set8, halt_set16, halt_flagBit, halt_unflagBit, halt_flagBitLocal, halt_clearF, halt_pcInc, halt_pcAdd2, halt_writeByte, halt_writeWord, ite_self, halt_CPU_LOAD, halt_CPU_LOAD_WRITE, halt_CPU_LOAD_16BIT]

theorem halt_CPU_PUSH (s : Machine) (reg : Reg16) :
    (CPU_PUSH s reg).cpu.halt = s.cpu.halt := by
  unfold CPU_PUSH
  simp only [halt_ite, snd_ite, halt_set8, halt_set16, halt_flagBit, halt_unflagBit, halt_flagBitLocal, halt_clearF, halt_pcInc, halt_pcAdd2, halt_writeByte, halt_writeWord, ite_self, halt_CPU_LOAD, halt_CPU_LOAD_WRITE, halt_CPU_LOAD_16BIT, halt_CPU_LOAD_WRITE_16BIT]

theorem halt_CPU_POP (s : Machine) (reg : Reg16) :
    (CPU_POP s reg).cpu.halt = s.cpu.halt := by
  unfold CPU_POP
  simp only [halt_ite, snd_ite, halt_set8, halt_set16, halt_flagBit, halt_unflagBit, halt_flagBitLocal, halt_clearF, halt_pcInc, halt_pcAdd2, halt_writeByte, halt_writeWord, ite_self, halt_CPU_LOAD, halt_CPU_LOAD_WRITE, halt_CPU_LOAD_16BIT, halt_CPU_LOAD_WRITE_16BIT, halt_CPU_PUSH]

theorem halt_CPU_ADD (s : Machine) (b : Nat) (carry : Bool) :
    (CPU_ADD s b carry).cpu.halt = s.cpu.halt := by
  unfold CPU_ADD
  simp only [halt_ite, snd_ite, halt_set8, halt_set16, halt_flagBit, halt_unflagBit, halt_flagBitLocal, halt_clearF, halt_pcInc, halt_pcAdd2, halt_writeByte, halt_writeWord, ite_self, halt_CPU_LOAD, halt_CPU_LOAD_WRITE, halt_CPU_LOAD_16BIT, halt_CPU_LOAD_WRITE_16BIT, halt_CPU_PUSH, halt_CPU_POP]

theorem halt_CPU_SUB (s : Machine) (b : Nat) (carry : Bool) :
    (CPU_SUB s b carry).cpu.halt = s.cpu.halt := by
  unfold CPU_SUB
  simp only [halt_ite, snd_ite, halt_set8, halt_set16, halt_flagBit, halt_unflagBit, halt_flagBitLocal, halt_clearF, halt_pcInc, halt_pcAdd2, halt_writeByte, halt_writeWord, ite_self, halt_CPU_LOAD, halt_CPU_LOAD_WRITE, halt_CPU_LOAD_16BIT, halt_CPU_LOAD_WRITE_16BIT, halt_CPU_PUSH, halt_CPU_POP, halt_CPU_ADD]

theorem halt_CPU_AND (s : Machine) (b : Nat) :
    (CPU_AND s b).cpu.halt = s.cpu.halt := by
  unfold CPU_AND
  simp only [halt_ite, snd_ite, halt_set8, halt_set16, halt_flagBit, halt_unflagBit, halt_flagBitLocal, halt_clearF, halt_pcInc, halt_pcAdd2, halt_writeByte, halt_writeWord, ite_self, halt_CPU_LOAD, halt_CPU_LOAD_WRITE, halt_CPU_LOAD_16BIT, halt_CPU_LOAD_WRITE_16BIT, halt_CPU_PUSH, halt_CPU_POP, halt_CPU_ADD, halt_CPU_SUB]

theorem halt_CPU_XOR (s : Machine) (b : Nat) :
    (CPU_XOR s b).cpu.halt = s.cpu.halt := by
  unfold CPU_XOR
  simp only [halt_ite, snd_ite, halt_set8, halt_set16, halt_flagBit, halt_unflagBit, halt_flagBitLocal, halt_clearF, halt_pcInc, halt_pcAdd2, halt_writeByte, halt_writeWord, ite_self, halt_CPU_LOAD, halt_CPU_LOAD_WRITE, halt_CPU_LOAD_16BIT, halt_CPU_LOAD_WRITE_16BIT, halt_CPU_PUSH, halt_CPU_POP, halt_CPU_ADD, halt_CPU_SUB, halt_CPU_AND]

theorem halt_CPU_OR (s : Machine) (b : Nat) :
    (CPU_OR s b).cpu.halt = s.cpu.halt := by
  unfold CPU_OR
  simp only [halt_ite, snd_ite, halt_set8, halt_set16, halt_flagBit, halt_unflagBit, halt_flagBitLocal, halt_clearF, halt_pcInc, halt_pcAdd2, halt_writeByte, halt_writeWord, ite_self, halt_CPU_LOAD, halt_CPU_LOAD_WRITE, halt_CPU_LOAD_16BIT, halt_CPU_LOAD_WRITE_16BIT, halt_CPU_PUSH, halt_CPU_POP, halt_CPU_ADD, halt_CPU_SUB, halt_CPU_AND, halt_CPU_XOR]

theorem halt_CPU_CP (s : Machine) (b : Nat) :
    (CPU_CP s b).cpu.halt = s.cpu.halt := by
  unfold CPU_CP
  simp only [halt_ite, snd_ite, halt_set8, halt_set16, halt_flagBit, halt_unflagBit, halt_flagBitLocal, halt_clearF, halt_pcInc, halt_pcAdd2, halt_writeByte, halt_writeWord, ite_self, halt_CPU_LOAD, halt_CPU_LOAD_WRITE, halt_CPU_LOAD_16BIT, halt_CPU_LOAD_WRITE_16BIT, halt_CPU_PUSH, halt_CPU_POP, halt_CPU_ADD, halt_CPU_SUB, halt_CPU_AND, halt_CPU_XOR, halt_CPU_OR]

theorem halt_CPU_INC (s : Machine) (b : Reg8) :
    (CPU_INC s b).cpu.halt = s.cpu.halt := by
  unfold CPU_INC
  simp only [halt_ite, snd_ite, halt_set8, halt_set16, halt_flagBit, halt_unflagBit, halt_flagBitLocal, halt_clearF, halt_pcInc, halt_pcAdd2, halt_writeByte, halt_writeWord, ite_self, halt_CPU_LOAD, halt_CPU_LOAD_WRITE, halt_CPU_LOAD_16BIT, halt_CPU_LOAD_WRITE_16BIT, halt_CPU_PUSH, halt_CPU_POP, halt_CPU_ADD, halt_CPU_SUB, halt_CPU_AND, halt_CPU_XOR, halt_CPU_OR, halt_CPU_CP]

theorem halt_CPU_INC_WRITE (s : Machine) :
    (CPU_INC_WRITE s).cpu.halt = s.cpu.halt := by
  unfold CPU_INC_WRITE
  simp only [halt_ite, snd_ite, halt_set8, halt_set16, halt_flagBit, halt_unflagBit, halt_flagBitLocal, halt_clearF, halt_pcInc, halt_pcAdd2, halt_writeByte, halt_writeWord, ite_self, halt_CPU_LOAD, halt_CPU_LOAD_WRITE, halt_CPU_LOAD_16BIT, halt_CPU_LOAD_WRITE_16BIT, halt_CPU_PUSH, halt_CPU_POP, halt_CPU_ADD, halt_CPU_SUB, halt_CPU_AND, halt_CPU_XOR, halt_CPU_OR, halt_CPU_CP, halt_CPU_INC]

theorem halt_CPU_DEC (s : Machine) (b : Reg8) :
    (CPU_DEC s b).cpu.halt = s.cpu.halt := by
  unfold CPU_DEC
  simp only [halt_ite, snd_ite, halt_set8, halt_set16, halt_flagBit, halt_unflagBit, halt_flagBitLocal, halt_clearF, halt_pcInc, halt_pcAdd2, halt_writeByte, halt_writeWord, ite_self, halt_CPU_LOAD, halt_CPU_LOAD_WRITE, halt_CPU_LOAD_16BIT, halt_CPU_LOAD_WRITE_16BIT, halt_CPU_PUSH, halt_CPU_POP, halt_CPU_ADD, halt_CPU_SUB, halt_CPU_AND, halt_CPU_XOR, halt_CPU_OR, halt_CPU_CP, halt_CPU_INC, halt_CPU_INC_WRITE]

theorem halt_CPU_DEC_WRITE (s : Machine) :
    (CPU_DEC_WRITE s).cpu.halt = s.cpu.halt := by
  unfold CPU_DEC_WRITE
  simp only [halt_ite, snd_ite, halt_set8, halt_set16, halt_flagBit, halt_unflagBit, halt_flagBitLocal, halt_clearF, halt_pcInc, halt_pcAdd2, halt_writeByte, halt_writeWord, ite_self, halt_CPU_LOAD, halt_CPU_LOAD_WRITE, halt_CPU_LOAD_16BIT, halt_CPU_LOAD_WRITE_16BIT, halt_CPU_PUSH, halt_CPU_POP, halt_CPU_ADD, halt_CPU_SUB, halt_CPU_AND, halt_CPU_XOR, halt_CPU_OR, halt_CPU_CP, halt_CPU_INC, halt_CPU_INC_WRITE, halt_CPU_DEC]

theorem halt_CPU_DAA (s : Machine) :
    (CPU_DAA s).cpu.halt = s.cpu.halt := by
  unfold CPU_DAA
  simp only [halt_ite, snd_ite, halt_set8, halt_set16, halt_flagBit, halt_unflagBit, halt_flagBitLocal, halt_clearF, halt_pcInc, halt_pcAdd2, halt_writeByte, halt_writeWord, ite_self, halt_CPU_LOAD, halt_CPU_LOAD_WRITE, halt_CPU_LOAD_16BIT, halt_CPU_LOAD_WRITE_16BIT, halt_CPU_PUSH, halt_CPU_POP, halt_CPU_ADD, halt_CPU_SUB, halt_CPU_AND, halt_CPU_XOR, halt_CPU_OR, halt_CPU_CP, halt_CPU_INC, halt_CPU_INC_WRITE, halt_CPU_DEC, halt_CPU_DEC_WRITE]

theorem halt_CPU_CPL (s : Machine) :
    (CPU_CPL s).cpu.halt = s.cpu.halt := by
  unfold CPU_CPL
  simp only [halt_ite, snd_ite, halt_set8, halt_set16, halt_flagBit, halt_unflagBit, halt_flagBitLocal, halt_clearF, halt_pcInc, halt_pcAdd2, halt_writeByte, halt_writeWord, ite_self, halt_CPU_LOAD, halt_CPU_LOAD_WRITE, halt_CPU_LOAD_16BIT, halt_CPU_LOAD_WRITE_16BIT, halt_CPU_PUSH, halt_CPU_POP, halt_CPU_ADD, halt_CPU_SUB, halt_CPU_AND, halt_CPU_XOR, halt_CPU_OR, halt_CPU_CP, halt_CPU_INC, halt_CPU_INC_WRITE, halt_CPU_DEC, halt_CPU_DEC_WRITE, halt_CPU_DAA]

theorem halt_CPU_ADD_16BIT (s : Machine) (reg val : Reg16) :
    (CPU_ADD_16BIT s reg val).cpu.halt = s.cpu.halt := by
  unfold CPU_ADD_16BIT
  simp only [halt_ite, snd_ite, halt_set8, halt_set16, halt_flagBit, halt_unflagBit, halt_flagBitLocal, halt_clearF, halt_pcInc, halt_pcAdd2, halt_writeByte, halt_writeWord, ite_self, halt_CPU_LOAD, halt_CPU_LOAD_WRITE, halt_CPU_LOAD_16BIT, halt_CPU_LOAD_WRITE_16BIT, halt_CPU_PUSH, halt_CPU_POP, halt_CPU_ADD, halt_CPU_SUB, halt_CPU_AND, halt_CPU_XOR, halt_CPU_OR, halt_CPU_CP, halt_CPU_INC, halt_CPU_INC_WRITE, halt_CPU_DEC, halt_CPU_DEC_WRITE, halt_CPU_DAA, halt_CPU_CPL]

theorem halt_CPU_ADD_16BIT_SIGNED (s : Machine) (reg : Reg16) (val : Int) :
    (CPU_ADD_16BIT_SIGNED s reg val).cpu.halt = s.cpu.halt := by
  unfold CPU_ADD_16BIT_SIGNED
  simp only [halt_ite, snd_ite, halt_set8, halt_set16, halt_flagBit, halt_unflagBit, halt_flagBitLocal, halt_clearF, halt_pcInc, halt_pcAdd2, halt_writeByte, halt_writeWord, ite_self, halt_CPU_LOAD, halt_CPU_LOAD_WRITE, halt_CPU_LOAD_16BIT, halt_CPU_LOAD_WRITE_16BIT, halt_CPU_PUSH, halt_CPU_POP, halt_CPU_ADD, halt_CPU_SUB, halt_CPU_AND, halt_CPU_XOR, halt_CPU_OR, halt_CPU_CP, halt_CPU_INC, halt_CPU_INC_WRITE, halt_CPU_DEC, halt_CPU_DEC_WRITE, halt_CPU_DAA, halt_CPU_CPL, halt_CPU_ADD_16BIT]

theorem halt_CPU_INC_16BIT (s : Machine) (reg : Reg16) :
    (CPU_INC_16BIT s reg).cpu.halt = s.cpu.halt := by
  unfold CPU_INC_16BIT
  simp only [halt_ite, snd_ite, halt_set8, halt_set16, halt_flagBit, halt_unflagBit, halt_flagBitLocal, halt_clearF, halt_pcInc, halt_pcAdd2, halt_writeByte, halt_writeWord, ite_self, halt_CPU_LOAD, halt_CPU_LOAD_WRITE, halt_CPU_LOAD_16BIT, halt_CPU_LOAD_WRITE_16BIT, halt_CPU_PUSH, halt_CPU_POP, halt_CPU_ADD, halt_CPU_SUB, halt_CPU_AND, halt_CPU_XOR, halt_CPU_OR, halt_CPU_CP, halt_CPU_INC, halt_CPU_INC_WRITE, halt_CPU_DEC, halt_CPU_DEC_WRITE, halt_CPU_DAA, halt_CPU_CPL, halt_CPU_ADD_16BIT, halt_CPU_ADD_16BIT_SIGNED]

theorem halt_CPU_DEC_16BIT (s : Machine) (reg : Reg16) :
    (CPU_DEC_16BIT s reg).cpu.halt = s.cpu.halt := by
  unfold CPU_DEC_16BIT
  simp only [halt_ite, snd_ite, halt_set8, halt_set16, halt_flagBit, halt_unflagBit, halt_flagBitLocal, halt_clearF, halt_pcInc, halt_pcAdd2, halt_writeByte, halt_writeWord, ite_self, halt_CPU_LOAD, halt_CPU_LOAD_WRITE, halt_CPU_LOAD_16BIT, halt_CPU_LOAD_WRITE_16BIT, halt_CPU_PUSH, halt_CPU_POP, halt_CPU_ADD, halt_CPU_SUB, halt_CPU_AND, halt_CPU_XOR, halt_CPU_OR, halt_CPU_CP, halt_CPU_INC, halt_CPU_INC_WRITE, halt_CPU_DEC, halt_CPU_DEC_WRITE, halt_CPU_DAA, halt_CPU_CPL, halt_CPU_ADD_16BIT, halt_CPU_ADD_16BIT_SIGNED, halt_CPU_INC_16BIT]

theorem halt_CPU_RLC (s : Machine) (reg : Reg8) :
    (CPU_RLC s reg).cpu.halt = s.cpu.halt := by
  unfold CPU_RLC
  simp only [halt_ite, snd_ite, halt_set8, halt_set16, halt_flagBit, halt_unflagBit, halt_flagBitLocal, halt_clearF, halt_pcInc, halt_pcAdd2, halt_writeByte, halt_writeWord, ite_self, halt_CPU_LOAD, halt_CPU_LOAD_WRITE, halt_CPU_LOAD_16BIT, halt_CPU_LOAD_WRITE_16BIT, halt_CPU_PUSH, halt_CPU_POP, halt_CPU_ADD, halt_CPU_SUB, halt_CPU_AND, halt_CPU_XOR, halt_CPU_OR, halt_CPU_CP, halt_CPU_INC, halt_CPU_INC_WRITE, halt_CPU_DEC, halt_CPU_DEC_WRITE, halt_CPU_DAA, halt_CPU_CPL, halt_CPU_ADD_16BIT, halt_CPU_ADD_16BIT_SIGNED, halt_CPU_INC_16BIT, halt_CPU_DEC_16BIT]

theorem halt_CPU_RLCA (s : Machine) (reg : Reg8) :
    (CPU_RLCA s reg).cpu.halt = s.cpu.halt := by
  unfold CPU_RLCA
  simp only [halt_ite, snd_ite, halt_set8, halt_set16, halt_flagBit, halt_unflagBit, halt_flagBitLocal, halt_clearF, halt_pcInc, halt_pcAdd2, halt_writeByte, halt_writeWord, ite_self, halt_CPU_LOAD, halt_CPU_LOAD_WRITE, halt_CPU_LOAD_16BIT, halt_CPU_LOAD_WRITE_16BIT, halt_CPU_PUSH, halt_CPU_POP, halt_CPU_ADD, halt_CPU_SUB, halt_CPU_AND, halt_CPU_XOR, halt_CPU_OR, halt_CPU_CP, halt_CPU_INC, halt_CPU_INC_WRITE, halt_CPU_DEC, halt_CPU_DEC_WRITE, halt_CPU_DAA, halt_CPU_CPL, halt_CPU_ADD_16BIT, halt_CPU_ADD_16BIT_SIGNED, halt_CPU_INC_16BIT, halt_CPU_DEC_16BIT, halt_CPU_RLC]

theorem halt_CPU_RL (s : Machine) (reg : Reg8) :
    (CPU_RL s reg).cpu.halt = s.cpu.halt := by
  unfold CPU_RL
  simp only [halt_ite, snd_ite, halt_set8, halt_set16, halt_flagBit, halt_unflagBit, halt_flagBitLocal, halt_clearF, halt_pcInc, halt_pcAdd2, halt_writeByte, halt_writeWord, ite_self, halt_CPU_LOAD, halt_CPU_LOAD_WRITE, halt_CPU_LOAD_16BIT, halt_CPU_LOAD_WRITE_16BIT, halt_CPU_PUSH, halt_CPU_POP, halt_CPU_ADD, halt_CPU_SUB, halt_CPU_AND, halt_CPU_XOR, halt_CPU_OR, halt_CPU_CP, halt_CPU_INC, halt_CPU_INC_WRITE, halt_CPU_DEC, halt_CPU_DEC_WRITE, halt_CPU_DAA, halt_CPU_CPL, halt_CPU_ADD_16BIT, halt_CPU_ADD_16BIT_SIGNED, halt_CPU_INC_16BIT, halt_CPU_DEC_16BIT, halt_CPU_RLC, halt_CPU_RLCA]

theorem halt_CPU_RLA (s : Machine) (reg : Reg8) :
    (CPU_RLA s reg).cpu.halt = s.cpu.halt := by
  unfold CPU_RLA
  simp only [halt_ite, snd_ite, halt_set8, halt_set16, halt_flagBit, halt_unflagBit, halt_flagBitLocal, halt_clearF, halt_pcInc, halt_pcAdd2, halt_writeByte, halt_writeWord, ite_self, halt_CPU_LOAD, halt_CPU_LOAD_WRITE, halt_CPU_LOAD_16BIT, halt_CPU_LOAD_WRITE_16BIT, halt_CPU_PUSH, halt_CPU_POP, halt_CPU_ADD, halt_CPU_SUB, halt_CPU_AND, halt_CPU_XOR, halt_CPU_OR, halt_CPU_CP, halt_CPU_INC, halt_CPU_INC_WRITE, halt_CPU_DEC, halt_CPU_DEC_WRITE, halt_CPU_DAA, halt_CPU_CPL, halt_CPU_ADD_16BIT, halt_CPU_ADD_16BIT_SIGNED, halt_CPU_INC_16BIT, halt_CPU_DEC_16BIT, halt_CPU_RLC, halt_CPU_RLCA, halt_CPU_RL]

theorem halt_CPU_RRC (s : Machine) (reg : Reg8) :
    (CPU_RRC s reg).cpu.halt = s.cpu.halt := by
  unfold CPU_RRC
  simp only [halt_ite, snd_ite, halt_set8, halt_set16, halt_flagBit, halt_unflagBit, halt_flagBitLocal, halt_clearF, halt_pcInc, halt_pcAdd2, halt_writeByte, halt_writeWord, ite_self, halt_CPU_LOAD, halt_CPU_LOAD_WRITE, halt_CPU_LOAD_16BIT, halt_CPU_LOAD_WRITE_16BIT, halt_CPU_PUSH, halt_CPU_POP, halt_CPU_ADD, halt_CPU_SUB, halt_CPU_AND, halt_CPU_XOR, halt_CPU_OR, halt_CPU_CP, halt_CPU_INC, halt_CPU_INC_WRITE, halt_CPU_DEC, halt_CPU_DEC_WRITE, halt_CPU_DAA, halt_CPU_CPL, halt_CPU_ADD_16BIT, halt_CPU_ADD_16BIT_SIGNED, halt_CPU_INC_16BIT, halt_CPU_DEC_16BIT, halt_CPU_RLC, halt_CPU_RLCA, halt_CPU_RL, halt_CPU_RLA]

theorem halt_CPU_RR (s : Machine) (reg : Reg8) :
    (CPU_RR s reg).cpu.halt = s.cpu.halt := by
  unfold CPU_RR
  simp only [halt_ite, snd_ite, halt_set8, halt_set16, halt_flagBit, halt_unflagBit, halt_flagBitLocal, halt_clearF, halt_pcInc, halt_pcAdd2, halt_writeByte, halt_writeWord, ite_self, halt_CPU_LOAD, halt_CPU_LOAD_WRITE, halt_CPU_LOAD_16BIT, halt_CPU_LOAD_WRITE_16BIT, halt_CPU_PUSH, halt_CPU_POP, halt_CPU_ADD, halt_CPU_SUB, halt_CPU_AND, halt_CPU_XOR, halt_CPU_OR, halt_CPU_CP, halt_CPU_INC, halt_CPU_INC_WRITE, halt_CPU_DEC, halt_CPU_DEC_WRITE, halt_CPU_DAA, halt_CPU_CPL, halt_CPU_ADD_16BIT, halt_CPU_ADD_16BIT_SIGNED, halt_CPU_INC_16BIT, halt_CPU_DEC_16BIT, halt_CPU_RLC, halt_CPU_RLCA, halt_CPU_RL, halt_CPU_RLA, halt_CPU_RRC]

theorem halt_CPU_RRCA (s : Machine) (reg : Reg8) :
    (CPU_RRCA s reg).cpu.halt = s.cpu.halt := by
  unfold CPU_RRCA
  simp only [halt_ite, snd_ite, halt_set8, halt_set16, halt_flagBit, halt_unflagBit, halt_flagBitLocal, halt_clearF, halt_pcInc, halt_pcAdd2, halt_writeByte, halt_writeWord, ite_self, halt_CPU_LOAD, halt_CPU_LOAD_WRITE, halt_CPU_LOAD_16BIT, halt_CPU_LOAD_WRITE_16BIT, halt_CPU_PUSH, halt_CPU_POP, halt_CPU_ADD, halt_CPU_SUB, halt_CPU_AND, halt_CPU_XOR, halt_CPU_OR, halt_CPU_CP, halt_CPU_INC, halt_CPU_INC_WRITE, halt_CPU_DEC, halt_CPU_DEC_WRITE, halt_CPU_DAA, halt_CPU_CPL, halt_CPU_ADD_16BIT, halt_CPU_ADD_16BIT_SIGNED, halt_CPU_INC_16BIT, halt_CPU_DEC_16BIT, halt_CPU_RLC, halt_CPU_RLCA, halt_CPU_RL, halt_CPU_RLA, halt_CPU_RRC, halt_CPU_RR]

theorem halt_CPU_RRA (s : Machine) (reg : Reg8) :
    (CPU_RRA s reg).cpu.halt = s.cpu.halt := by
  unfold CPU_RRA
  simp only [halt_ite, snd_ite, halt_set8, halt_set16, halt_flagBit, halt_unflagBit, halt_flagBitLocal, halt_clearF, halt_pcInc, halt_pcAdd2, halt_writeByte, halt_writeWord, ite_self, halt_CPU_LOAD, halt_CPU_LOAD_WRITE, halt_CPU_LOAD_16BIT, halt_CPU_LOAD_WRITE_16BIT, halt_CPU_PUSH, halt_CPU_POP, halt_CPU_ADD, halt_CPU_SUB, halt_CPU_AND, halt_CPU_XOR, halt_CPU_OR, halt_CPU_CP, halt_CPU_INC, halt_CPU_INC_WRITE, halt_CPU_DEC, halt_CPU_DEC_WRITE, halt_CPU_DAA, halt_CPU_CPL, halt_CPU_ADD_16BIT, halt_CPU_ADD_16BIT_SIGNED, halt_CPU_INC_16BIT, halt_CPU_DEC_16BIT, halt_CPU_RLC, halt_CPU_RLCA, halt_CPU_RL, halt_CPU_RLA, halt_CPU_RRC, halt_CPU_RR, halt_CPU_RRCA]

theorem halt_CPU_RLC_WRITE (s : Machine) :
    (CPU_RLC_WRITE s).cpu.halt = s.cpu.halt := by
  unfold CPU_RLC_WRITE
  simp only [halt_ite, snd_ite, halt_set8, halt_set16, halt_flagBit, halt_unflagBit, halt_flagBitLocal, halt_clearF, halt_pcInc, halt_pcAdd2, halt_writeByte, halt_writeWord, ite_self, halt_CPU_LOAD, halt_CPU_LOAD_WRITE, halt_CPU_LOAD_16BIT, halt_CPU_LOAD_WRITE_16BIT, halt_CPU_PUSH, halt_CPU_POP, halt_CPU_ADD, halt_CPU_SUB, halt_CPU_AND, halt_CPU_XOR, halt_CPU_OR, halt_CPU_CP, halt_CPU_INC, halt_CPU_INC_WRITE, halt_CPU_DEC, halt_CPU_DEC_WRITE, halt_CPU_DAA, halt_CPU_CPL, halt_CPU_ADD_16BIT, halt_CPU_ADD_16BIT_SIGNED, halt_CPU_INC_16BIT, halt_CPU_DEC_16BIT, halt_CPU_RLC, halt_CPU_RLCA, halt_CPU_RL, halt_CPU_RLA, halt_CPU_RRC, halt_CPU_RR, halt_CPU_RRCA, halt_CPU_RRA]

theorem halt_CPU_RL_WRITE (s : Machine) :
    (CPU_RL_WRITE s).cpu.halt = s.cpu.halt := by
  unfold CPU_RL_WRITE
  simp only [halt_ite, snd_ite, halt_set8, halt_set16, halt_flagBit, halt_unflagBit, halt_flagBitLocal, halt_clearF, halt_pcInc, halt_pcAdd2, halt_writeByte, halt_writeWord, ite_self, halt_CPU_LOAD, halt_CPU_LOAD_WRITE, halt_CPU_LOAD_16BIT, halt_CPU_LOAD_WRITE_16BIT, halt_CPU_PUSH, halt_CPU_POP, halt_CPU_ADD, halt_CPU_SUB, halt_CPU_AND, halt_CPU_XOR, halt_CPU_OR, halt_CPU_CP, halt_CPU_INC, halt_CPU_INC_WRITE, halt_CPU_DEC, halt_CPU_DEC_WRITE, halt_CPU_DAA, halt_CPU_CPL, halt_CPU_ADD_16BIT, halt_CPU_ADD_16BIT_SIGNED, halt_CPU_INC_16BIT, halt_CPU_DEC_16BIT, halt_CPU_RLC, halt_CPU_RLCA, halt_CPU_RL, halt_CPU_RLA, halt_CPU_RRC, halt_CPU_RR, halt_CPU_RRCA, halt_CPU_RRA, halt_CPU_RLC_WRITE]

theorem halt_CPU_RRC_WRITE (s : Machine) :
    (CPU_RRC_WRITE s).cpu.halt = s.cpu.halt := by
  unfold CPU_RRC_WRITE
  simp only [halt_ite, snd_ite, halt_set8, halt_set16, halt_flagBit, halt_unflagBit, halt_flagBitLocal, halt_clearF, halt_pcInc, halt_pcAdd2, halt_writeByte, halt_writeWord, ite_self, halt_CPU_LOAD, halt_CPU_LOAD_WRITE, halt_CPU_LOAD_16BIT, halt_CPU_LOAD_WRITE_16BIT, halt_CPU_PUSH, halt_CPU_POP, halt_CPU_ADD, halt_CPU_SUB, halt_CPU_AND, halt_CPU_XOR, halt_CPU_OR, halt_CPU_CP, halt_CPU_INC, halt_CPU_INC_WRITE, halt_CPU_DEC, halt_CPU_DEC_WRITE, halt_CPU_DAA, halt_CPU_CPL, halt_CPU_ADD_16BIT, halt_CPU_ADD_16BIT_SIGNED, halt_CPU_INC_16BIT, halt_CPU_DEC_16BIT, halt_CPU_RLC, halt_CPU_RLCA, halt_CPU_RL, halt_CPU_RLA, halt_CPU_RRC, halt_CPU_RR, halt_CPU_RRCA, halt_CPU_RRA, halt_CPU_RLC_WRITE, halt_CPU_RL_WRITE]

theorem halt_CPU_RR_WRITE (s : Machine) :
    (CPU_RR_WRITE s).cpu.halt = s.cpu.halt := by
  unfold CPU_RR_WRITE
  simp only [halt_ite, snd_ite, halt_set8, halt_set16, halt_flagBit, halt_unflagBit, halt_flagBitLocal, halt_clearF, halt_pcInc, halt_pcAdd2, halt_writeByte, halt_writeWord, ite_self, halt_CPU_LOAD, halt_CPU_LOAD_WRITE, halt_CPU_LOAD_16BIT, halt_CPU_LOAD_WRITE_16BIT, halt_CPU_PUSH, halt_CPU_POP, halt_CPU_ADD, halt_CPU_SUB, halt_CPU_AND, halt_CPU_XOR, halt_CPU_OR, halt_CPU_CP, halt_CPU_INC, halt_CPU_INC_WRITE, halt_CPU_DEC, halt_CPU_DEC_WRITE, halt_CPU_DAA, halt_CPU_CPL, halt_CPU_ADD_16BIT, halt_CPU_ADD_16BIT_SIGNED, halt_CPU_INC_16BIT, halt_CPU_DEC_16BIT, halt_CPU_RLC, halt_CPU_RLCA, halt_CPU_RL, halt_CPU_RLA, halt_CPU_RRC, halt_CPU_RR, halt_CPU_RRCA, halt_CPU_RRA, halt_CPU_RLC_WRITE, halt_CPU_RL_WRITE, halt_CPU_RRC_WRITE]

theorem halt_CPU_SLA (s : Machine) (reg : Reg8) :
    (CPU_SLA s reg).cpu.halt = s.cpu.halt := by
  unfold CPU_SLA
  simp only [halt_ite, snd_ite, halt_set8, halt_set16, halt_flagBit, halt_unflagBit, halt_flagBitLocal, halt_clearF, halt_pcInc, halt_pcAdd2, halt_writeByte, halt_writeWord, ite_self, halt_CPU_LOAD, halt_CPU_LOAD_WRITE, halt_CPU_LOAD_16BIT, halt_CPU_LOAD_WRITE_16BIT, halt_CPU_PUSH, halt_CPU_POP, halt_CPU_ADD, halt_CPU_SUB, halt_CPU_AND, halt_CPU_XOR, halt_CPU_OR, halt_CPU_CP, halt_CPU_INC, halt_CPU_INC_WRITE, halt_CPU_DEC, halt_CPU_DEC_WRITE, halt_CPU_DAA, halt_CPU_CPL, halt_CPU_ADD_16BIT, halt_CPU_ADD_16BIT_SIGNED, halt_CPU_INC_16BIT, halt_CPU_DEC_16BIT, halt_CPU_RLC, halt_CPU_RLCA, halt_CPU_RL, halt_CPU_RLA, halt_CPU_RRC, halt_CPU_RR, halt_CPU_RRCA, halt_CPU_RRA, halt_CPU_RLC_WRITE, halt_CPU_RL_WRITE, halt_CPU_RRC_WRITE, halt_CPU_RR_WRITE]

theorem halt_CPU_SLA_WRITE (s : Machine) :
    (CPU_SLA_WRITE s).cpu.halt = s.cpu.halt := by
  unfold CPU_SLA_WRITE
  simp only [halt_ite, snd_ite, halt_set8, halt_set16, halt_flagBit, halt_unflagBit, halt_flagBitLocal, halt_clearF, halt_pcInc, halt_pcAdd2, halt_writeByte, halt_writeWord, ite_self, halt_CPU_LOAD, halt_CPU_LOAD_WRITE, halt_CPU_LOAD_16BIT, halt_CPU_LOAD_WRITE_16BIT, halt_CPU_PUSH, halt_CPU_POP, halt_CPU_ADD, halt_CPU_SUB, halt_CPU_AND, halt_CPU_XOR, halt_CPU_OR, halt_CPU_CP, halt_CPU_INC, halt_CPU_INC_WRITE, halt_CPU_DEC, halt_CPU_DEC_WRITE, halt_CPU_DAA, halt_CPU_CPL, halt_CPU_ADD_16BIT, halt_CPU_ADD_16BIT_SIGNED, halt_CPU_INC_16BIT, halt_CPU_DEC_16BIT, halt_CPU_RLC, halt_CPU_RLCA, halt_CPU_RL, halt_CPU_RLA, halt_CPU_RRC, halt_CPU_RR, halt_CPU_RRCA, halt_CPU_RRA, halt_CPU_RLC_WRITE, halt_CPU_RL_WRITE, halt_CPU_RRC_WRITE, halt_CPU_RR_WRITE, halt_CPU_SLA]

theorem halt_CPU_SWAP (s : Machine) (reg : Reg8) :
    (CPU_SWAP s reg).cpu.halt = s.cpu.halt := by
  unfold CPU_SWAP
  simp only [halt_ite, snd_ite, halt_set8, halt_set16, halt_flagBit, halt_unflagBit, halt_flagBitLocal, halt_clearF, halt_pcInc, halt_pcAdd2, halt_writeByte, halt_writeWord, ite_self, halt_CPU_LOAD, halt_CPU_LOAD_WRITE, halt_CPU_LOAD_16BIT, halt_CPU_LOAD_WRITE_16BIT, halt_CPU_PUSH, halt_CPU_POP, halt_CPU_ADD, halt_CPU_SUB, halt_CPU_AND, halt_CPU_XOR, halt_CPU_OR, halt_CPU_CP, halt_CPU_INC, halt_CPU_INC_WRITE, halt_CPU_DEC, halt_CPU_DEC_WRITE, halt_CPU_DAA, halt_CPU_CPL, halt_CPU_ADD_16BIT, halt_CPU_ADD_16BIT_SIGNED, halt_CPU_INC_16BIT, halt_CPU_DEC_16BIT, halt_CPU_RLC, halt_CPU_RLCA, halt_CPU_RL, halt_CPU_RLA, halt_CPU_RRC, halt_CPU_RR, halt_CPU_RRCA, halt_CPU_RRA, halt_CPU_RLC_WRITE, halt_CPU_RL_WRITE, halt_CPU_RRC_WRITE, halt_CPU_RR_WRITE, halt_CPU_SLA, halt_CPU_SLA_WRITE]

theorem halt_CPU_SWAP_WRITE (s : Machine) :
    (CPU_SWAP_WRITE s).cpu.halt = s.cpu.halt := by
  unfold CPU_SWAP_WRITE
  simp only [halt_ite, snd_ite, halt_set8, halt_set16, halt_flagBit, halt_unflagBit, halt_flagBitLocal, halt_clearF, halt_pcInc, halt_pcAdd2, halt_writeByte, halt_writeWord, ite_self, halt_CPU_LOAD, halt_CPU_LOAD_WRITE, halt_CPU_LOAD_16BIT, halt_CPU_LOAD_WRITE_16BIT, halt_CPU_PUSH, halt_CPU_POP, halt_CPU_ADD, halt_CPU_SUB, halt_CPU_AND, halt_CPU_XOR, halt_CPU_OR, halt_CPU_CP, halt_CPU_INC, halt_CPU_INC_WRITE, halt_CPU_DEC, halt_CPU_DEC_WRITE, halt_CPU_DAA, halt_CPU_CPL, halt_CPU_ADD_16BIT, halt_CPU_ADD_16BIT_SIGNED, halt_CPU_INC_16BIT, halt_CPU_DEC_16BIT, halt_CPU_RLC, halt_CPU_RLCA, halt_CPU_RL, halt_CPU_RLA, halt_CPU_RRC, halt_CPU_RR, halt_CPU_RRCA, halt_CPU_RRA, halt_CPU_RLC_WRITE, halt_CPU_RL_WRITE, halt_CPU_RRC_WRITE, halt_CPU_RR_WRITE, halt_CPU_SLA, halt_CPU_SLA_WRITE, halt_CPU_SWAP]

theorem halt_CPU_SRA (s : Machine) (reg : Reg8) :
    (CPU_SRA s reg).cpu.halt = s.cpu.halt := by
  unfold CPU_SRA
  simp only [halt_ite, snd_ite, halt_set8, halt_set16, halt_flagBit, halt_unflagBit, halt_flagBitLocal, halt_clearF, halt_pcInc, halt_pcAdd2, halt_writeByte, halt_writeWord, ite_self, halt_CPU_LOAD, halt_CPU_LOAD_WRITE, halt_CPU_LOAD_16BIT, halt_CPU_LOAD_WRITE_16BIT, halt_CPU_PUSH, halt_CPU_POP, halt_CPU_ADD, halt_CPU_SUB, halt_CPU_AND, halt_CPU_XOR, halt_CPU_OR, halt_CPU_CP, halt_CPU_INC, halt_CPU_INC_WRITE, halt_CPU_DEC, halt_CPU_DEC_WRITE, halt_CPU_DAA, halt_CPU_CPL, halt_CPU_ADD_16BIT, halt_CPU_ADD_16BIT_SIGNED, halt_CPU_INC_16BIT, halt_CPU_DEC_16BIT, halt_CPU_RLC, halt_CPU_RLCA, halt_CPU_RL, halt_CPU_RLA, halt_CPU_RRC, halt_CPU_RR, halt_CPU_RRCA, halt_CPU_RRA, halt_CPU_RLC_WRITE, halt_CPU_RL_WRITE, halt_CPU_RRC_WRITE, halt_CPU_RR_WRITE, halt_CPU_SLA, halt_CPU_SLA_WRITE, halt_CPU_SWAP, halt_CPU_SWAP_WRITE]

theorem halt_CPU_SRA_WRITE (s : Machine) :
    (CPU_SRA_WRITE s).cpu.halt = s.cpu.halt := by
  unfold CPU_SRA_WRITE
  simp only [halt_ite, snd_ite, halt_set8, halt_set16, halt_flagBit, halt_unflagBit, halt_flagBitLocal, halt_clearF, halt_pcInc, halt_pcAdd2, halt_writeByte, halt_writeWord, ite_self, halt_CPU_LOAD, halt_CPU_LOAD_WRITE, halt_CPU_LOAD_16BIT, halt_CPU_LOAD_WRITE_16BIT, halt_CPU_PUSH, halt_CPU_POP, halt_CPU_ADD, halt_CPU_SUB, halt_CPU_AND, halt_CPU_XOR, halt_CPU_OR, halt_CPU_CP, halt_CPU_INC, halt_CPU_INC_WRITE, halt_CPU_DEC, halt_CPU_DEC_WRITE, halt_CPU_DAA, halt_CPU_CPL, halt_CPU_ADD_16BIT, halt_CPU_ADD_16BIT_SIGNED, halt_CPU_INC_16BIT, halt_CPU_DEC_16BIT, halt_CPU_RLC, halt_CPU_RLCA, halt_CPU_RL, halt_CPU_RLA, halt_CPU_RRC, halt_CPU_RR, halt_CPU_RRCA, halt_CPU_RRA, halt_CPU_RLC_WRITE, halt_CPU_RL_WRITE, halt_CPU_RRC_WRITE, halt_CPU_RR_WRITE, halt_CPU_SLA, halt_CPU_SLA_WRITE, halt_CPU_SWAP, halt_CPU_SWAP_WRITE, halt_CPU_SRA]

theorem halt_CPU_SRL (s : Machine) (reg : Reg8) :
    (CPU_SRL s reg).cpu.halt = s.cpu.halt := by
  unfold CPU_SRL
  simp only [halt_ite, snd_ite, halt_set8, halt_set16, halt_flagBit, halt_unflagBit, halt_flagBitLocal, halt_clearF, halt_pcInc, halt_pcAdd2, halt_writeByte, halt_writeWord, ite_self, halt_CPU_LOAD, halt_CPU_LOAD_WRITE, halt_CPU_LOAD_16BIT, halt_CPU_LOAD_WRITE_16BIT, halt_CPU_PUSH, halt_CPU_POP, halt_CPU_ADD, halt_CPU_SUB, halt_CPU_AND, halt_CPU_XOR, halt_CPU_OR, halt_CPU_CP, halt_CPU_INC, halt_CPU_INC_WRITE, halt_CPU_DEC, halt_CPU_DEC_WRITE, halt_CPU_DAA, halt_CPU_CPL, halt_CPU_ADD_16BIT, halt_CPU_ADD_16BIT_SIGNED, halt_CPU_INC_16BIT, halt_CPU_DEC_16BIT, halt_CPU_RLC, halt_CPU_RLCA, halt_CPU_RL, halt_CPU_RLA, halt_CPU_RRC, halt_CPU_RR, halt_CPU_RRCA, halt_CPU_RRA, halt_CPU_RLC_WRITE, halt_CPU_RL_WRITE, halt_CPU_RRC_WRITE, halt_CPU_RR_WRITE, halt_CPU_SLA, halt_CPU_SLA_WRITE, halt_CPU_SWAP, halt_CPU_SWAP_WRITE, halt_CPU_SRA, halt_CPU_SRA_WRITE]

theorem halt_CPU_SRL_WRITE (s : Machine) :
    (CPU_SRL_WRITE s).cpu.halt = s.cpu.halt := by
  unfold CPU_SRL_WRITE
  simp only [halt_ite, snd_ite, halt_set8, halt_set16, halt_flagBit, halt_unflagBit, halt_flagBitLocal, halt_clearF, halt_pcInc, halt_pcAdd2, halt_writeByte, halt_writeWord, ite_self, halt_CPU_LOAD, halt_CPU_LOAD_WRITE, halt_CPU_LOAD_16BIT, halt_CPU_LOAD_WRITE_16BIT, halt_CPU_PUSH, halt_CPU_POP, halt_CPU_ADD, halt_CPU_SUB, halt_CPU_AND, halt_CPU_XOR, halt_CPU_OR, halt_CPU_CP, halt_CPU_INC, halt_CPU_INC_WRITE, halt_CPU_DEC, halt_CPU_DEC_WRITE, halt_CPU_DAA, halt_CPU_CPL, halt_CPU_ADD_16BIT, halt_CPU_ADD_16BIT_SIGNED, halt_CPU_INC_16BIT, halt_CPU_DEC_16BIT, halt_CPU_RLC, halt_CPU_RLCA, halt_CPU_RL, halt_CPU_RLA, halt_CPU_RRC, halt_CPU_RR, halt_CPU_RRCA, halt_CPU_RRA, halt_CPU_RLC_WRITE, halt_CPU_RL_WRITE, halt_CPU_RRC_WRITE, halt_CPU_RR_WRITE, halt_CPU_SLA, halt_CPU_SLA_WRITE, halt_CPU_SWAP, halt_CPU_SWAP_WRITE, halt_CPU_SRA, halt_CPU_SRA_WRITE, halt_CPU_SRL]

theorem halt_CPU_BIT (s : Machine) (bit reg : Nat) :
    (CPU_BIT s bit reg).cpu.halt = s.cpu.halt := by
  unfold CPU_BIT
  simp only [halt_ite, snd_ite, halt_set8, halt_set16, halt_flagBit, halt_unflagBit, halt_flagBitLocal, halt_clearF, halt_pcInc, halt_pcAdd2, halt_writeByte, halt_writeWord, ite_self, halt_CPU_LOAD, halt_CPU_LOAD_WRITE, halt_CPU_LOAD_16BIT, halt_CPU_LOAD_WRITE_16BIT, halt_CPU_PUSH, halt_CPU_POP, halt_CPU_ADD, halt_CPU_SUB, halt_CPU_AND, halt_CPU_XOR, halt_CPU_OR, halt_CPU_CP, halt_CPU_INC, halt_CPU_INC_WRITE, halt_CPU_DEC, halt_CPU_DEC_WRITE, halt_CPU_DAA, halt_CPU_CPL, halt_CPU_ADD_16BIT, halt_CPU_ADD_16BIT_SIGNED, halt_CPU_INC_16BIT, halt_CPU_DEC_16BIT, halt_CPU_RLC, halt_CPU_RLCA, halt_CPU_RL, halt_CPU_RLA, halt_CPU_RRC, halt_CPU_RR, halt_CPU_RRCA, halt_CPU_RRA, halt_CPU_RLC_WRITE, halt_CPU_RL_WRITE, halt_CPU_RRC_WRITE, halt_CPU_RR_WRITE, halt_CPU_SLA, halt_CPU_SLA_WRITE, halt_CPU_SWAP, halt_CPU_SWAP_WRITE, halt_CPU_SRA, halt_CPU_SRA_WRITE, halt_CPU_SRL, halt_CPU_SRL_WRITE]

theorem halt_CPU_SET (s : Machine) (bit : Nat) (reg : Reg8) :
    (CPU_SET s bit reg).cpu.halt = s.cpu.halt := by
  unfold CPU_SET
  simp only [halt_ite, snd_ite, halt_set8, halt_set16, halt_flagBit, halt_unflagBit, halt_flagBitLocal, halt_clearF, halt_pcInc, halt_pcAdd2, halt_writeByte, halt_writeWord, ite_self, halt_CPU_LOAD, halt_CPU_LOAD_WRITE, halt_CPU_LOAD_16BIT, halt_CPU_LOAD_WRITE_16BIT, halt_CPU_PUSH, halt_CPU_POP, halt_CPU_ADD, halt_CPU_SUB, halt_CPU_AND, halt_CPU_XOR, halt_CPU_OR, halt_CPU_CP, halt_CPU_INC, halt_CPU_INC_WRITE, halt_CPU_DEC, halt_CPU_DEC_WRITE, halt_CPU_DAA, halt_CPU_CPL, halt_CPU_ADD_16BIT, halt_CPU_ADD_16BIT_SIGNED, halt_CPU_INC_16BIT, halt_CPU_DEC_16BIT, halt_CPU_RLC, halt_CPU_RLCA, halt_CPU_RL, halt_CPU_RLA, halt_CPU_RRC, halt_CPU_RR, halt_CPU_RRCA, halt_CPU_RRA, halt_CPU_RLC_WRITE, halt_CPU_RL_WRITE, halt_CPU_RRC_WRITE, halt_CPU_RR_WRITE, halt_CPU_SLA, halt_CPU_SLA_WRITE, halt_CPU_SWAP, halt_CPU_SWAP_WRITE, halt_CPU_SRA, halt_CPU_SRA_WRITE, halt_CPU_SRL, halt_CPU_SRL_WRITE, halt_CPU_BIT]

theorem halt_CPU_SET_WRITE (s : Machine) (bit : Nat) :
    (CPU_SET_WRITE s bit).cpu.halt = s.cpu.halt := by
  unfold CPU_SET_WRITE
  simp only [halt_ite, snd_ite, halt_set8, halt_set16, halt_flagBit, halt_unflagBit, halt_flagBitLocal, halt_clearF, halt_pcInc, halt_pcAdd2, halt_writeByte, halt_writeWord, ite_self, halt_CPU_LOAD, halt_CPU_LOAD_WRITE, halt_CPU_LOAD_16BIT, halt_CPU_LOAD_WRITE_16BIT, halt_CPU_PUSH, halt_CPU_POP, halt_CPU_ADD, halt_CPU_SUB, halt_CPU_AND, halt_CPU_XOR, halt_CPU_OR, halt_CPU_CP, halt_CPU_INC, halt_CPU_INC_WRITE, halt_CPU_DEC, halt_CPU_DEC_WRITE, halt_CPU_DAA, halt_CPU_CPL, halt_CPU_ADD_16BIT, halt_CPU_ADD_16BIT_SIGNED, halt_CPU_INC_16BIT, halt_CPU_DEC_16BIT, halt_CPU_RLC, halt_CPU_RLCA, halt_CPU_RL, halt_CPU_RLA, halt_CPU_RRC, halt_CPU_RR, halt_CPU_RRCA, halt_CPU_RRA, halt_CPU_RLC_WRITE, halt_CPU_RL_WRITE, halt_CPU_RRC_WRITE, halt_CPU_RR_WRITE, halt_CPU_SLA, halt_CPU_SLA_WRITE, halt_CPU_SWAP, halt_CPU_SWAP_WRITE, halt_CPU_SRA, halt_CPU_SRA_WRITE, halt_CPU_SRL, halt_CPU_SRL_WRITE, halt_CPU_BIT, halt_CPU_SET]

theorem halt_CPU_RES (s : Machine) (bit : Nat) (reg : Reg8) :
    (CPU_RES s bit reg).cpu.halt = s.cpu.halt := by
  unfold CPU_RES
  simp only [halt_ite, snd_ite, halt_set8, halt_set16, halt_flagBit, halt_unflagBit, halt_flagBitLocal, halt_clearF, halt_pcInc, halt_pcAdd2, halt_writeByte, halt_writeWord, ite_self, halt_CPU_LOAD, halt_CPU_LOAD_WRITE, halt_CPU_LOAD_16BIT, halt_CPU_LOAD_WRITE_16BIT, halt_CPU_PUSH, halt_CPU_POP, halt_CPU_ADD, halt_CPU_SUB, halt_CPU_AND, halt_CPU_XOR, halt_CPU_OR, halt_CPU_CP, halt_CPU_INC, halt_CPU_INC_WRITE, halt_CPU_DEC, halt_CPU_DEC_WRITE, halt_CPU_DAA, halt_CPU_CPL, halt_CPU_ADD_16BIT, halt_CPU_ADD_16BIT_SIGNED, halt_CPU_INC_16BIT, halt_CPU_DEC_16BIT, halt_CPU_RLC, halt_CPU_RLCA, halt_CPU_RL, halt_CPU_RLA, halt_CPU_RRC, halt_CPU_RR, halt_CPU_RRCA, halt_CPU_RRA, halt_CPU_RLC_WRITE, halt_CPU_RL_WRITE, halt_CPU_RRC_WRITE, halt_CPU_RR_WRITE, halt_CPU_SLA, halt_CPU_SLA_WRITE, halt_CPU_SWAP, halt_CPU_SWAP_WRITE, halt_CPU_SRA, halt_CPU_SRA_WRITE, halt_CPU_SRL, halt_CPU_SRL_WRITE, halt_CPU_BIT, halt_CPU_SET, halt_CPU_SET_WRITE]

theorem halt_CPU_RES_WRITE (s : Machine) (bit : Nat) :
    (CPU_RES_WRITE s bit).cpu.halt = s.cpu.halt := by
  unfold CPU_RES_WRITE
  simp only [halt_ite, snd_ite, halt_set8, halt_set16, halt_flagBit, halt_unflagBit, halt_flagBitLocal, halt_clearF, halt_pcInc, halt_pcAdd2, halt_writeByte, halt_writeWord, ite_self, halt_CPU_LOAD, halt_CPU_LOAD_WRITE, halt_CPU_LOAD_16BIT, halt_CPU_LOAD_WRITE_16BIT, halt_CPU_PUSH, halt_CPU_POP, halt_CPU_ADD, halt_CPU_SUB, halt_CPU_AND, halt_CPU_XOR, halt_CPU_OR, halt_CPU_CP, halt_CPU_INC, halt_CPU_INC_WRITE, halt_CPU_DEC, halt_CPU_DEC_WRITE, halt_CPU_DAA, halt_CPU_CPL, halt_CPU_ADD_16BIT, halt_CPU_ADD_16BIT_SIGNED, halt_CPU_INC_16BIT, halt_CPU_DEC_16BIT, halt_CPU_RLC, halt_CPU_RLCA, halt_CPU_RL, halt_CPU_RLA, halt_CPU_RRC, halt_CPU_RR, halt_CPU_RRCA, halt_CPU_RRA, halt_CPU_RLC_WRITE, halt_CPU_RL_WRITE, halt_CPU_RRC_WRITE, halt_CPU_RR_WRITE, halt_CPU_SLA, halt_CPU_SLA_WRITE, halt_CPU_SWAP, halt_CPU_SWAP_WRITE, halt_CPU_SRA, halt_CPU_SRA_WRITE, halt_CPU_SRL, halt_CPU_SRL_WRITE, halt_CPU_BIT, halt_CPU_SET, halt_CPU_SET_WRITE, halt_CPU_RES]

theorem halt_CPU_CCF (s : Machine) :
    (CPU_CCF s).cpu.halt = s.cpu.halt := by
  unfold CPU_CCF
  simp only [halt_ite, snd_ite, halt_set8, halt_set16, halt_flagBit, halt_unflagBit, halt_flagBitLocal, halt_clearF, halt_pcInc, halt_pcAdd2, halt_writeByte, halt_writeWord, ite_self, halt_CPU_LOAD, halt_CPU_LOAD_WRITE, halt_CPU_LOAD_16BIT, halt_CPU_LOAD_WRITE_16BIT, halt_CPU_PUSH, halt_CPU_POP, halt_CPU_ADD, halt_CPU_SUB, halt_CPU_AND, halt_CPU_XOR, halt_CPU_OR, halt_CPU_CP, halt_CPU_INC, halt_CPU_INC_WRITE, halt_CPU_DEC, halt_CPU_DEC_WRITE, halt_CPU_DAA, halt_CPU_CPL, halt_CPU_ADD_16BIT, halt_CPU_ADD_16BIT_SIGNED, halt_CPU_INC_16BIT, halt_CPU_DEC_16BIT, halt_CPU_RLC, halt_CPU_RLCA, halt_CPU_RL, halt_CPU_RLA, halt_CPU_RRC, halt_CPU_RR, halt_CPU_RRCA, halt_CPU_RRA, halt_CPU_RLC_WRITE, halt_CPU_RL_WRITE, halt_CPU_RRC_WRITE, halt_CPU_RR_WRITE, halt_CPU_SLA, halt_CPU_SLA_WRITE, halt_CPU_SWAP, halt_CPU_SWAP_WRITE, halt_CPU_SRA, halt_CPU_SRA_WRITE, halt_CPU_SRL, halt_CPU_SRL_WRITE, halt_CPU_BIT, halt_CPU_SET, halt_CPU_SET_WRITE, halt_CPU_RES, halt_CPU_RES_WRITE]

theorem halt_CPU_SCF (s : Machine) :
    (CPU_SCF s).cpu.halt = s.cpu.halt := by
  unfold CPU_SCF
  simp only [halt_ite, snd_ite, halt_set8, halt_set16, halt_flagBit, halt_unflagBit, halt_flagBitLocal, halt_clearF, halt_pcInc, halt_pcAdd2, halt_writeByte, halt_writeWord, ite_self, halt_CPU_LOAD, halt_CPU_LOAD_WRITE, halt_CPU_LOAD_16BIT, halt_CPU_LOAD_WRITE_16BIT, halt_CPU_PUSH, halt_CPU_POP, halt_CPU_ADD, halt_CPU_SUB, halt_CPU_AND, halt_CPU_XOR, halt_CPU_OR, halt_CPU_CP, halt_CPU_INC, halt_CPU_INC_WRITE, halt_CPU_DEC, halt_CPU_DEC_WRITE, halt_CPU_DAA, halt_CPU_CPL, halt_CPU_ADD_16BIT, halt_CPU_ADD_16BIT_SIGNED, halt_CPU_INC_16BIT, halt_CPU_DEC_16BIT, halt_CPU_RLC, halt_CPU_RLCA, halt_CPU_RL, halt_CPU_RLA, halt_CPU_RRC, halt_CPU_RR, halt_CPU_RRCA, halt_CPU_RRA, halt_CPU_RLC_WRITE, halt_CPU_RL_WRITE, halt_CPU_RRC_WRITE, halt_CPU_RR_WRITE, halt_CPU_SLA, halt_CPU_SLA_WRITE, halt_CPU_SWAP, halt_CPU_SWAP_WRITE, halt_CPU_SRA, halt_CPU_SRA_WRITE, halt_CPU_SRL, halt_CPU_SRL_WRITE, halt_CPU_BIT, halt_CPU_SET, halt_CPU_SET_WRITE, halt_CPU_RES, halt_CPU_RES_WRITE, halt_CPU_CCF]

theorem halt_CPU_DI (s : Machine) :
    (CPU_DI s).cpu.halt = s.cpu.halt := by
  unfold CPU_DI
  simp only [halt_ite, snd_ite, halt_set8, halt_set16, halt_flagBit, halt_unflagBit, halt_flagBitLocal, halt_clearF, halt_pcInc, halt_pcAdd2, halt_writeByte, halt_writeWord, ite_self, halt_CPU_LOAD, halt_CPU_LOAD_WRITE, halt_CPU_LOAD_16BIT, halt_CPU_LOAD_WRITE_16BIT, halt_CPU_PUSH, halt_CPU_POP, halt_CPU_ADD, halt_CPU_SUB, halt_CPU_AND, halt_CPU_XOR, halt_CPU_OR, halt_CPU_CP, halt_CPU_INC, halt_CPU_INC_WRITE, halt_CPU_DEC, halt_CPU_DEC_WRITE, halt_CPU_DAA, halt_CPU_CPL, halt_CPU_ADD_16BIT, halt_CPU_ADD_16BIT_SIGNED, halt_CPU_INC_16BIT, halt_CPU_DEC_16BIT, halt_CPU_RLC, halt_CPU_RLCA, halt_CPU_RL, halt_CPU_RLA, halt_CPU_RRC, halt_CPU_RR, halt_CPU_RRCA, halt_CPU_RRA, halt_CPU_RLC_WRITE, halt_CPU_RL_WRITE, halt_CPU_RRC_WRITE, halt_CPU_RR_WRITE, halt_CPU_SLA, halt_CPU_SLA_WRITE, halt_CPU_SWAP, halt_CPU_SWAP_WRITE, halt_CPU_SRA, halt_CPU_SRA_WRITE, halt_CPU_SRL, halt_CPU_SRL_WRITE, halt_CPU_BIT, halt_CPU_SET, halt_CPU_SET_WRITE, halt_CPU_RES, halt_CPU_RES_WRITE, halt_CPU_CCF, halt_CPU_SCF]

theorem halt_CPU_EI (s : Machine) :
    (CPU_EI s).cpu.halt = s.cpu.halt := by
  unfold CPU_EI
  simp only [halt_ite, snd_ite, halt_set8, halt_set16, halt_flagBit, halt_unflagBit, halt_flagBitLocal, halt_clearF, halt_pcInc, halt_pcAdd2, halt_writeByte, halt_writeWord, ite_self, halt_CPU_LOAD, halt_CPU_LOAD_WRITE, halt_CPU_LOAD_16BIT, halt_CPU_LOAD_WRITE_16BIT, halt_CPU_PUSH, halt_CPU_POP, halt_CPU_ADD, halt_CPU_SUB, halt_CPU_AND, halt_CPU_XOR, halt_CPU_OR, halt_CPU_CP, halt_CPU_INC, halt_CPU_INC_WRITE, halt_CPU_DEC, halt_CPU_DEC_WRITE, halt_CPU_DAA, halt_CPU_CPL, halt_CPU_ADD_16BIT, halt_CPU_ADD_16BIT_SIGNED, halt_CPU_INC_16BIT, halt_CPU_DEC_16BIT, halt_CPU_RLC, halt_CPU_RLCA, halt_CPU_RL, halt_CPU_RLA, halt_CPU_RRC, halt_CPU_RR, halt_CPU_RRCA, halt_CPU_RRA, halt_CPU_RLC_WRITE, halt_CPU_RL_WRITE, halt_CPU_RRC_WRITE, halt_CPU_RR_WRITE, halt_CPU_SLA, halt_CPU_SLA_WRITE, halt_CPU_SWAP, halt_CPU_SWAP_WRITE, halt_CPU_SRA, halt_CPU_SRA_WRITE, halt_CPU_SRL, halt_CPU_SRL_WRITE, halt_CPU_BIT, halt_CPU_SET, halt_CPU_SET_WRITE, halt_CPU_RES, halt_CPU_RES_WRITE, halt_CPU_CCF, halt_CPU_SCF, halt_CPU_DI]

theorem halt_CPU_JP (s : Machine) (useFlag : Bool) (address flag : Nat) (set : Bool) :
    (CPU_JP s useFlag address flag set).cpu.halt = s.cpu.halt := by
  unfold CPU_JP
  simp only [halt_ite, snd_ite, halt_set8, halt_set16, halt_flagBit, halt_unflagBit, halt_flagBitLocal, halt_clearF, halt_pcInc, halt_pcAdd2, halt_writeByte, halt_writeWord, ite_self, halt_CPU_LOAD, halt_CPU_LOAD_WRITE, halt_CPU_LOAD_16BIT, halt_CPU_LOAD_WRITE_16BIT, halt_CPU_PUSH, halt_CPU_POP, halt_CPU_ADD, halt_CPU_SUB, halt_CPU_AND, halt_CPU_XOR, halt_CPU_OR, halt_CPU_CP, halt_CPU_INC, halt_CPU_INC_WRITE, halt_CPU_DEC, halt_CPU_DEC_WRITE, halt_CPU_DAA, halt_CPU_CPL, halt_CPU_ADD_16BIT, halt_CPU_ADD_16BIT_SIGNED, halt_CPU_INC_16BIT, halt_CPU_DEC_16BIT, halt_CPU_RLC, halt_CPU_RLCA, halt_CPU_RL, halt_CPU_RLA, halt_CPU_RRC, halt_CPU_RR, halt_CPU_RRCA, halt_CPU_RRA, halt_CPU_RLC_WRITE, halt_CPU_RL_WRITE, halt_CPU_RRC_WRITE, halt_CPU_RR_WRITE, halt_CPU_SLA, halt_CPU_SLA_WRITE, halt_CPU_SWAP, halt_CPU_SWAP_WRITE, halt_CPU_SRA, halt_CPU_SRA_WRITE, halt_CPU_SRL, halt_CPU_SRL_WRITE, halt_CPU_BIT, halt_CPU_SET, halt_CPU_SET_WRITE, halt_CPU_RES, halt_CPU_RES_WRITE, halt_CPU_CCF, halt_CPU_SCF, halt_CPU_DI, halt_CPU_EI]

theorem halt_CPU_JR (s : Machine) (useFlag : Bool) (address : Int) (flag : Nat) (set : Bool) :
    (CPU_JR s useFlag address flag set).cpu.halt = s.cpu.halt := by
  unfold CPU_JR
  simp only [halt_ite, snd_ite, halt_set8, halt_set16, halt_flagBit, halt_unflagBit, halt_flagBitLocal, halt_clearF, halt_pcInc, halt_pcAdd2, halt_writeByte, halt_writeWord, ite_self, halt_CPU_LOAD, halt_CPU_LOAD_WRITE, halt_CPU_LOAD_16BIT, halt_CPU_LOAD_WRITE_16BIT, halt_CPU_PUSH, halt_CPU_POP, halt_CPU_ADD, halt_CPU_SUB, halt_CPU_AND, halt_CPU_XOR, halt_CPU_OR, halt_CPU_CP, halt_CPU_INC, halt_CPU_INC_WRITE, halt_CPU_DEC, halt_CPU_DEC_WRITE, halt_CPU_DAA, halt_CPU_CPL, halt_CPU_ADD_16BIT, halt_CPU_ADD_16BIT_SIGNED, halt_CPU_INC_16BIT, halt_CPU_DEC_16BIT, halt_CPU_RLC, halt_CPU_RLCA, halt_CPU_RL, halt_CPU_RLA, halt_CPU_RRC, halt_CPU_RR, halt_CPU_RRCA, halt_CPU_RRA, halt_CPU_RLC_WRITE, halt_CPU_RL_WRITE, halt_CPU_RRC_WRITE, halt_CPU_RR_WRITE, halt_CPU_SLA, halt_CPU_SLA_WRITE, halt_CPU_SWAP, halt_CPU_SWAP_WRITE, halt_CPU_SRA, halt_CPU_SRA_WRITE, halt_CPU_SRL, halt_CPU_SRL_WRITE, halt_CPU_BIT, halt_CPU_SET, halt_CPU_SET_WRITE, halt_CPU_RES, halt_CPU_RES_WRITE, halt_CPU_CCF, halt_CPU_SCF, halt_CPU_DI, halt_CPU_EI, halt_CPU_JP]

theorem halt_CPU_CALL (s : Machine) (useFlag : Bool) (address flag : Nat) (set : Bool) :
    (CPU_CALL s useFlag address flag set).cpu.halt = s.cpu.halt := by
  unfold CPU_CALL
  split_ifs
  · exact (halt_with_PC _ _).trans (halt_CPU_PUSH s .PC)
  · rfl

theorem halt_CPU_RET (s : Machine) (useFlag : Bool) (flag : Nat) (set : Bool) :
    (CPU_RET s useFlag flag set).cpu.halt = s.cpu.halt := by
  unfold CPU_RET
  simp only [halt_ite, snd_ite, halt_set8, halt_set16, halt_flagBit, halt_unflagBit, halt_flagBitLocal, halt_clearF, halt_pcInc, halt_pcAdd2, halt_writeByte, halt_writeWord, ite_self, halt_CPU_LOAD, halt_CPU_LOAD_WRITE, halt_CPU_LOAD_16BIT, halt_CPU_LOAD_WRITE_16BIT, halt_CPU_PUSH, halt_CPU_POP, halt_CPU_ADD, halt_CPU_SUB, halt_CPU_AND, halt_CPU_XOR, halt_CPU_OR, halt_CPU_CP, halt_CPU_INC, halt_CPU_INC_WRITE, halt_CPU_DEC, halt_CPU_DEC_WRITE, halt_CPU_DAA, halt_CPU_CPL, halt_CPU_ADD_16BIT, halt_CPU_ADD_16BIT_SIGNED, halt_CPU_INC_16BIT, halt_CPU_DEC_16BIT, halt_CPU_RLC, halt_CPU_RLCA, halt_CPU_RL, halt_CPU_RLA, halt_CPU_RRC, halt_CPU_RR, halt_CPU_RRCA, halt_CPU_RRA, halt_CPU_RLC_WRITE, halt_CPU_RL_WRITE, halt_CPU_RRC_WRITE, halt_CPU_RR_WRITE, halt_CPU_SLA, halt_CPU_SLA_WRITE, halt_CPU_SWAP, halt_CPU_SWAP_WRITE, halt_CPU_SRA, halt_CPU_SRA_WRITE, halt_CPU_SRL, halt_CPU_SRL_WRITE, halt_CPU_BIT, halt_CPU_SET, halt_CPU_SET_WRITE, halt_CPU_RES, halt_CPU_RES_WRITE, halt_CPU_CCF, halt_CPU_SCF, halt_CPU_DI, halt_CPU_EI, halt_CPU_JP, halt_CPU_JR, halt_CPU_CALL]

theorem halt_CPU_RETI (s : Machine) :
    (CPU_RETI s).cpu.halt = s.cpu.halt := by
  unfold CPU_RETI
  exact (halt_with_IME _ _).trans (halt_CPU_RET s false 0 false)

theorem halt_CPU_RST (s : Machine) (address : Nat) :
    (CPU_RST s address).cpu.halt = s.cpu.halt := by
  unfold CPU_RST
  simp only [halt_ite, snd_ite, halt_set8, halt_set16, halt_flagBit, halt_unflagBit, halt_flagBitLocal, halt_clearF, halt_pcInc, halt_pcAdd2, halt_writeByte, halt_writeWord, ite_self, halt_CPU_LOAD, halt_CPU_LOAD_WRITE, halt_CPU_LOAD_16BIT, halt_CPU_LOAD_WRITE_16BIT, halt_CPU_PUSH, halt_CPU_POP, halt_CPU_ADD, halt_CPU_SUB, halt_CPU_AND, halt_CPU_XOR, halt_CPU_OR, halt_CPU_CP, halt_CPU_INC, halt_CPU_INC_WRITE, halt_CPU_DEC, halt_CPU_DEC_WRITE, halt_CPU_DAA, halt_CPU_CPL, halt_CPU_ADD_16BIT, halt_CPU_ADD_16BIT_SIGNED, halt_CPU_INC_16BIT, halt_CPU_DEC_16BIT, halt_CPU_RLC, halt_CPU_RLCA, halt_CPU_RL, halt_CPU_RLA, halt_CPU_RRC, halt_CPU_RR, halt_CPU_RRCA, halt_CPU_RRA, halt_CPU_RLC_WRITE, halt_CPU_RL_WRITE, halt_CPU_RRC_WRITE, halt_CPU_RR_WRITE, halt_CPU_SLA, halt_CPU_SLA_WRITE, halt_CPU_SWAP, halt_CPU_SWAP_WRITE, halt_CPU_SRA, halt_CPU_SRA_WRITE, halt_CPU_SRL, halt_CPU_SRL_WRITE, halt_CPU_BIT, halt_CPU_SET, halt_CPU_SET_WRITE, halt_CPU_RES, halt_CPU_RES_WRITE, halt_CPU_CCF, halt_CPU_SCF, halt_CPU_DI, halt_CPU_EI, halt_CPU_JP, halt_CPU_JR, halt_CPU_CALL, halt_CPU_RET, halt_CPU_RETI]

set_option maxRecDepth 100000 in
set_option maxHeartbeats 4000000 in
theorem executeExtendedOpcode_keeps_halt (s : Machine) (op : Nat) (h : op < 256) :
    ∃ t c, executeExtendedOpcode s op = .done t c ∧ t.cpu.halt = s.cpu.halt := by
  interval_cases op <;>
  exact ⟨_, _, rfl, by simp only [halt_ite, snd_ite, halt_set8, halt_set16, halt_flagBit, halt_unflagBit, halt_flagBitLocal, halt_clearF, halt_pcInc, halt_pcAdd2, halt_writeByte, halt_writeWord, ite_self, halt_CPU_LOAD, halt_CPU_LOAD_WRITE, halt_CPU_LOAD_16BIT, halt_CPU_LOAD_WRITE_16BIT, halt_CPU_PUSH, halt_CPU_POP, halt_CPU_ADD, halt_CPU_SUB, halt_CPU_AND, halt_CPU_XOR, halt_CPU_OR, halt_CPU_CP, halt_CPU_INC, halt_CPU_INC_WRITE, halt_CPU_DEC, halt_CPU_DEC_WRITE, halt_CPU_DAA, halt_CPU_CPL, halt_CPU_ADD_16BIT, halt_CPU_ADD_16BIT_SIGNED, halt_CPU_INC_16BIT, halt_CPU_DEC_16BIT, halt_CPU_RLC, halt_CPU_RLCA, halt_CPU_RL, halt_CPU_RLA, halt_CPU_RRC, halt_CPU_RR, halt_CPU_RRCA, halt_CPU_RRA, halt_CPU_RLC_WRITE, halt_CPU_RL_WRITE, halt_CPU_RRC_WRITE, halt_CPU_RR_WRITE, halt_CPU_SLA, halt_CPU_SLA_WRITE, halt_CPU_SWAP, halt_CPU_SWAP_WRITE, halt_CPU_SRA, halt_CPU_SRA_WRITE, halt_CPU_SRL, halt_CPU_SRL_WRITE, halt_CPU_BIT, halt_CPU_SET, halt_CPU_SET_WRITE, halt_CPU_RES, halt_CPU_RES_WRITE, halt_CPU_CCF, halt_CPU_SCF, halt_CPU_DI, halt_CPU_EI, halt_CPU_JP, halt_CPU_JR, halt_CPU_CALL, halt_CPU_RET, halt_CPU_RETI, halt_CPU_RST]⟩

set_option maxRecDepth 100000 in
set_option maxHeartbeats 4000000 in
theorem executeOpcode_keeps_halt (s : Machine) (op fuel : Nat) (h : Implemented op)
    (h76 : op ≠ 0x76) (hcb : op ≠ 0xCB) :
    ∃ t c, executeOpcode (fuel + 1) s op = .done t c ∧ t.cpu.halt = s.cpu.halt := by
  obtain ⟨hlt, hu⟩ := h
  interval_cases op
  all_goals
    first
    | exact absurd rfl h76
    | exact absurd rfl hcb
    | exact absurd (by decide) hu
    | exact ⟨_, _, rfl, by simp only [halt_ite, snd_ite, halt_set8, halt_set16, halt_flagBit, halt_unflagBit, halt_flagBitLocal, halt_clearF, halt_pcInc, halt_pcAdd2, halt_writeByte, halt_writeWord, ite_self, halt_CPU_LOAD, halt_CPU_LOAD_WRITE, halt_CPU_LOAD_16BIT, halt_CPU_LOAD_WRITE_16BIT, halt_CPU_PUSH, halt_CPU_POP, halt_CPU_ADD, halt_CPU_SUB, halt_CPU_AND, halt_CPU_XOR, halt_CPU_OR, halt_CPU_CP, halt_CPU_INC, halt_CPU_INC_WRITE, halt_CPU_DEC, halt_CPU_DEC_WRITE, halt_CPU_DAA, halt_CPU_CPL, halt_CPU_ADD_16BIT, halt_CPU_ADD_16BIT_SIGNED, halt_CPU_INC_16BIT, halt_CPU_DEC_16BIT, halt_CPU_RLC, halt_CPU_RLCA, halt_CPU_RL, halt_CPU_RLA, halt_CPU_RRC, halt_CPU_RR, halt_CPU_RRCA, halt_CPU_RRA, halt_CPU_RLC_WRITE, halt_CPU_RL_WRITE, halt_CPU_RRC_WRITE, halt_CPU_RR_WRITE, halt_CPU_SLA, halt_CPU_SLA_WRITE, halt_CPU_SWAP, halt_CPU_SWAP_WRITE, halt_CPU_SRA, halt_CPU_SRA_WRITE, halt_CPU_SRL, halt_CPU_SRL_WRITE, halt_CPU_BIT, halt_CPU_SET, halt_CPU_SET_WRITE, halt_CPU_RES, halt_CPU_RES_WRITE, halt_CPU_CCF, halt_CPU_SCF, halt_CPU_DI, halt_CPU_EI, halt_CPU_JP, halt_CPU_JR, halt_CPU_CALL, halt_CPU_RET, halt_CPU_RETI, halt_CPU_RST]⟩

theorem CPU_HALT_entered_PC (s : Machine) (h : ¬ HaltSkipped s) :
    (CPU_HALT s).PC = (s.PC + 65536 - 1) % 65536 := by
  unfold HaltSkipped at h
  unfold CPU_HALT
  split
  · rename_i hc
    exfalso
    apply h
    simp only [Bool.and_eq_true, Bool.not_eq_true', decide_eq_true_eq] at hc
    exact hc
  · rfl

/-- C12: when the byte at PC is HALT, IME is clear, an enabled interrupt is
pending and the following byte is an implemented opcode other than HALT, the
`step` returns with the HALT flag clear; when IME is set or no enabled
interrupt is pending, the `step` returns 4 with the HALT flag set and PC
back on the HALT opcode. -/
theorem halt_entered_iff_not_skipped (s : Machine) (fuel : Nat)
    (h76 : MMU.readByte s s.PC = 0x76) (hpc : s.PC < 65536) :
    (HaltSkipped s → Implemented (MMU.readByte s ((s.PC + 1) % 65536)) →
      MMU.readByte s ((s.PC + 1) % 65536) ≠ 0x76 →
      ∃ t c, step (fuel + 2) s = .done t c ∧ t.cpu.halt = false)
    ∧ (¬ HaltSkipped s →
      ∃ t, step (fuel + 1) s = .done t 4 ∧ t.cpu.halt = true ∧ t.PC = s.PC) := by
  have hr : ∀ a, MMU.readByte (pcInc s) a = MMU.readByte s a :=
    fun a => readByte_congr _ _ a rfl rfl rfl rfl rfl rfl
  have hpc1 : (pcInc s).PC = (s.PC + 1) % 65536 := rfl
  constructor
  · intro hs hnext hne
    have hs1 : HaltSkipped (pcInc s) := hs
    obtain ⟨k1, k2, k3⟩ := CPU_HALT_skipped _ hs1
    unfold step
    simp only [h76]
    rw [executeOpcode_halt, if_pos (by rw [k1]; decide), k3, k2, hr, hpc1]
    by_cases hcb : MMU.readByte s ((s.PC + 1) % 65536) = 0xCB
    · rw [hcb, executeOpcode_cb, k3, k2, hr, hpc1, hcb]
      obtain ⟨t, c, e, ht⟩ := executeExtendedOpcode_keeps_halt (pcInc (CPU_HALT (pcInc s))) 0xCB
        (by decide)
      rw [e]
      exact ⟨t, 4 + c, rfl, by rw [ht, halt_pcInc, k1]⟩
    · obtain ⟨t, c, e, ht⟩ := executeOpcode_keeps_halt (CPU_HALT (pcInc s))
        (MMU.readByte s ((s.PC + 1) % 65536)) fuel hnext hne hcb
      rw [e]
      exact ⟨t, 4 + c, rfl, by rw [ht, k1]⟩
  · intro hn
    have hs : ¬ HaltSkipped (pcInc s) := hn
    unfold step
    simp only [h76]
    rw [executeOpcode_halt, if_neg (by rw [CPU_HALT_entered _ hs]; decide)]
    refine ⟨_, rfl, CPU_HALT_entered _ hs, ?_⟩
    rw [CPU_HALT_entered_PC _ hs, hpc1]
    omega

set_option maxRecDepth 100000 in
/-- C12, witness: HALT followed by CALL with IME clear and VBlank pending leaves
the HALT flag clear; HALT with IME set returns 4 with the flag set and PC on
the HALT. -/
theorem halt_entered_iff_not_skipped_witness :
    MMU.readByte haltCallMachine haltCallMachine.PC = 0x76 ∧ haltCallMachine.PC < 65536
    ∧ HaltSkipped haltCallMachine
    ∧ (∃ t c, step (0 + 2) haltCallMachine = .done t c ∧ t.cpu.halt = false)
    ∧ MMU.readByte haltMachine haltMachine.PC = 0x76 ∧ ¬ HaltSkipped haltMachine
    ∧ ∃ t, step (0 + 1) haltMachine = .done t 4 ∧ t.cpu.halt = true ∧ t.PC = haltMachine.PC :=
  ⟨by decide, by decide, by unfold HaltSkipped; decide,
    (halt_entered_iff_not_skipped haltCallMachine 0 (by decide) (by decide)).1
      (by unfold HaltSkipped; decide) (by unfold Implemented; decide) (by decide),
    by decide, by unfold HaltSkipped; decide,
    (halt_entered_iff_not_skipped haltMachine 0 (by decide) (by decide)).2
      (by unfold HaltSkipped; decide)⟩

/-! ## What a write keeps of the memory unit -/

theorem keptAll_refl (s : Machine) : KeptAll s s :=
  ⟨⟨rfl, rfl, rfl, id⟩, ⟨rfl, rfl, rfl⟩, rfl, rfl, ⟨rfl, fun _ _ _ => rfl⟩⟩

theorem keptAll_trans {s t u : Machine} (h1 : KeptAll s t) (h2 : KeptAll t u) : KeptAll s u := by
  obtain ⟨⟨a1, a2, a3, a4⟩, ⟨b1, b2, b3⟩, c1, d1, ⟨e1, e2⟩⟩ := h1
  obtain ⟨⟨a1', a2', a3', a4'⟩, ⟨b1', b2', b3'⟩, c1', d1', ⟨e1', e2'⟩⟩ := h2
  exact ⟨⟨a1'.trans a1, a2'.trans a2, a3'.trans a3, fun h => a4 (a4' h)⟩,
    ⟨b1'.trans b1, b2'.trans b2, b3'.trans b3⟩, c1'.trans c1, d1'.trans d1,
    ⟨e1'.trans e1, fun b h0 h1 => (e2' b h0 h1).trans (e2 b h0 h1)⟩⟩

theorem KeptAll.kept {s t : Machine} (h : KeptAll s t) (a : Nat) : Kept a s t :=
  ⟨h.1, fun _ => h.2.1, fun _ => h.2.2.1, fun _ => h.2.2.2.1, fun _ => h.2.2.2.2⟩

theorem Kept.all {a : Nat} {s t : Machine} (h : Kept a s t) (h1 : 0x9800 ≤ a)
    (h2 : ¬ (0xA000 ≤ a ∧ a < 0xC000)) : KeptAll s t :=
  ⟨h.1, h.2.1 (by omega), h.2.2.1 (by omega), h.2.2.2.1 h2, h.2.2.2.2 (by omega)⟩

theorem kept_ite {c : Prop} [Decidable c] {a : Nat} {s x y : Machine}
    (hx : c → Kept a s x) (hy : ¬c → Kept a s y) : Kept a s (if c then x else y) := by
  split
  · exact hx ‹_›
  · exact hy ‹_›

theorem foldl_keptAll {α : Type} (f : Machine → α → Machine) :
    ∀ (l : List α) (s : Machine), (∀ t x, x ∈ l → KeptAll t (f t x)) → KeptAll s (l.foldl f s) := by
  intro l
  induction l with
  | nil => intro s _; exact keptAll_refl s
  | cons x xs ih =>
    intro s hf
    exact keptAll_trans (hf s x (List.mem_cons_self _ _))
      (ih (f s x) (fun t y hy => hf t y (List.mem_cons_of_mem _ hy)))

theorem storeMemory_keptAll (s : Machine) (a v : Nat) (h : ¬ (0x8000 ≤ a ∧ a ≤ 0x97FF)) :
    KeptAll s (MMU.storeMemory s a v) := by
  refine ⟨⟨rfl, rfl, rfl, id⟩, ⟨rfl, rfl, rfl⟩, rfl, rfl, ⟨rfl, ?_⟩⟩
  intro b h0 h1
  have hne : b ≠ a := by omega
  simp only [MMU.storeMemory, if_neg hne]

theorem handleBanking_fields (m : MMU) (a v : Nat) :
    (MMU.handleBanking m a v).cartridgeMemory = m.cartridgeMemory
    ∧ (MMU.handleBanking m a v).bootROM = m.bootROM
    ∧ (MMU.handleBanking m a v).mbc1 = m.mbc1
    ∧ (MMU.handleBanking m a v).inBIOS = m.inBIOS
    ∧ (MMU.handleBanking m a v).ramMemory = m.ramMemory
    ∧ (MMU.handleBanking m a v).tileSet = m.tileSet
    ∧ (MMU.handleBanking m a v).memory = m.memory
    ∧ (0x2000 ≤ a → (MMU.handleBanking m a v).ramEnabled = m.ramEnabled) := by
  unfold MMU.handleBanking
  dsimp only
  split_ifs <;> first | exact ⟨rfl, rfl, rfl, rfl, rfl, rfl, rfl, fun _ => rfl⟩
                      | exact ⟨rfl, rfl, rfl, rfl, rfl, rfl, rfl, fun h => by omega⟩

/-- The fields of the memory unit other than the tile cache, as one tuple. -/
theorem updateTileSet_rest (s : Machine) (a : Nat) :
    (MMU.updateTileSet s a).mmu.cartridgeMemory = s.mmu.cartridgeMemory
    ∧ (MMU.updateTileSet s a).mmu.bootROM = s.mmu.bootROM
    ∧ (MMU.updateTileSet s a).mmu.mbc1 = s.mmu.mbc1
    ∧ (MMU.updateTileSet s a).mmu.inBIOS = s.mmu.inBIOS
    ∧ (MMU.updateTileSet s a).mmu.romBankNumber = s.mmu.romBankNumber
    ∧ (MMU.updateTileSet s a).mmu.ramBankNumber = s.mmu.ramBankNumber
    ∧ (MMU.updateTileSet s a).mmu.romMode = s.mmu.romMode
    ∧ (MMU.updateTileSet s a).mmu.ramEnabled = s.mmu.ramEnabled
    ∧ (MMU.updateTileSet s a).mmu.ramMemory = s.mmu.ramMemory
    ∧ (MMU.updateTileSet s a).mmu.memory = s.mmu.memory := by
  unfold MMU.updateTileSet
  refine foldl_mem_inv (fun t => t.mmu.cartridgeMemory = s.mmu.cartridgeMemory
    ∧ t.mmu.bootROM = s.mmu.bootROM ∧ t.mmu.mbc1 = s.mmu.mbc1 ∧ t.mmu.inBIOS = s.mmu.inBIOS
    ∧ t.mmu.romBankNumber = s.mmu.romBankNumber ∧ t.mmu.ramBankNumber = s.mmu.ramBankNumber
    ∧ t.mmu.romMode = s.mmu.romMode ∧ t.mmu.ramEnabled = s.mmu.ramEnabled
    ∧ t.mmu.ramMemory = s.mmu.ramMemory ∧ t.mmu.memory = s.mmu.memory) _ _ ?_ s
    ⟨rfl, rfl, rfl, rfl, rfl, rfl, rfl, rfl, rfl, rfl⟩
  intro t x _ ht
  exact ht

theorem writeByteFuel_kept : ∀ (fuel : Nat) (s : Machine) (a v : Nat),
    Kept a s (MMU.writeByteFuel fuel s a v) := by
  intro fuel
  induction fuel with
  | zero => intro s a v; exact (keptAll_refl s).kept a
  | succ n ih =>
    intro s a v
    unfold MMU.writeByteFuel
    repeat' (apply kept_ite <;> intro _)
    all_goals
      first
      | exact (keptAll_refl s).kept a
      | exact (storeMemory_keptAll s a v (by omega)).kept a
      | exact ⟨⟨rfl, rfl, rfl, id⟩, fun _ => ⟨rfl, rfl, rfl⟩, fun _ => rfl, fun _ => rfl,
          fun _ => ⟨rfl, fun _ _ _ => rfl⟩⟩
      | exact ⟨⟨rfl, rfl, rfl, fun h => absurd h (by decide)⟩, fun _ => ⟨rfl, rfl, rfl⟩, fun _ => rfl,
          fun _ => rfl, fun _ => ⟨rfl, fun _ _ _ => rfl⟩⟩
      | skip
    · -- the mapper registers, 0x0000-0x7FFF
      obtain ⟨h1, h2, h3, h4, h5, h6, h7, h8⟩ := handleBanking_fields s.mmu a v
      refine ⟨⟨h1, h2, h3, fun h => ?_⟩, fun h => by omega, h8, fun _ => h5, fun _ => ⟨h6, ?_⟩⟩
      · rw [← h4]; exact h
      · intro b hb0 hb1
        have hne : b ≠ a := by omega
        simp only [MMU.storeMemory, if_neg hne]
        rw [h7]
    · -- cartridge RAM
      exact ⟨⟨rfl, rfl, rfl, id⟩, fun _ => ⟨rfl, rfl, rfl⟩, fun _ => rfl, fun h => absurd ‹_› h,
        fun _ => ⟨rfl, fun _ _ _ => rfl⟩⟩
    · -- echo
      exact (keptAll_trans ((ih s (a - 0x2000) v).all (by omega) (by omega))
        (storeMemory_keptAll _ a v (by omega))).kept a
    · -- tile data
      obtain ⟨h1, h2, h3, h4, h5, h6, h7, h8, h9, -⟩ := updateTileSet_rest (MMU.storeMemory s a v) a
      exact ⟨⟨h1, h2, h3, fun h => by rw [h4] at h; exact h⟩, fun _ => ⟨h5, h6, h7⟩, fun _ => h8,
        fun _ => h9, fun h => absurd ‹_› h⟩
    · -- DMA
      refine (keptAll_trans ?_ (storeMemory_keptAll _ a v (by omega))).kept a
      apply foldl_keptAll
      intro t x hx
      have hx' := List.mem_range.mp hx
      exact (ih t (0xFE00 + x) _).all (by omega) (by omega)
    · -- the boot overlay switch
      exact ⟨⟨rfl, rfl, rfl, fun h => Bool.noConfusion h⟩, fun _ => ⟨rfl, rfl, rfl⟩, fun _ => rfl,
        fun _ => rfl, fun _ => ⟨rfl, fun _ _ _ => rfl⟩⟩

theorem writeByte_kept (s : Machine) (a v : Nat) : Kept a s (MMU.writeByte s a v) :=
  writeByteFuel_kept 2 s a v

/-! ## C13 -/

set_option maxRecDepth 100000 in
theorem romBank_low_table : ∀ r < 128, ∀ w < 32, r % 32 ≠ 0 →
    (if (r &&& 0xE0) ||| w = 0x00 ∨ (r &&& 0xE0) ||| w = 0x20 ∨ (r &&& 0xE0) ||| w = 0x40
        ∨ (r &&& 0xE0) ||| w = 0x60 then (((r &&& 0xE0) ||| w) + 1) % 256 else (r &&& 0xE0) ||| w) < 128
    ∧ (if (r &&& 0xE0) ||| w = 0x00 ∨ (r &&& 0xE0) ||| w = 0x20 ∨ (r &&& 0xE0) ||| w = 0x40
        ∨ (r &&& 0xE0) ||| w = 0x60 then (((r &&& 0xE0) ||| w) + 1) % 256 else (r &&& 0xE0) ||| w) % 32
        ≠ 0 := by
  decide

set_option maxRecDepth 100000 in
theorem romBank_high_table : ∀ r < 128, ∀ u < 4, r % 32 ≠ 0 →
    ((u <<< 5) + (r &&& 0x1F)) % 256 < 128 ∧ ((u <<< 5) + (r &&& 0x1F)) % 256 % 32 ≠ 0 := by
  decide

/-- The mapper keeps the ROM bank number below 0x80 with nonzero low five bits. -/
theorem handleBanking_romBank (m : MMU) (a v : Nat) (h1 : m.romBankNumber < 128)
    (h2 : m.romBankNumber % 32 ≠ 0) :
    (MMU.handleBanking m a v).romBankNumber < 128
    ∧ (MMU.handleBanking m a v).romBankNumber % 32 ≠ 0 := by
  have e1 : v &&& 0x1F = v % 32 := Nat.and_pow_two_sub_one_eq_mod v 5
  have e2 : v &&& 0x3 = v % 4 := Nat.and_pow_two_sub_one_eq_mod v 2
  have t1 := romBank_low_table m.romBankNumber h1 (v % 32) (Nat.mod_lt _ (by decide)) h2
  have t2 := romBank_high_table m.romBankNumber h1 (v % 4) (Nat.mod_lt _ (by decide)) h2
  unfold MMU.handleBanking
  dsimp only
  rw [e1, e2]
  split_ifs
  all_goals
    first
    | exact ⟨h1, h2⟩
    | (rw [if_pos ‹_›] at t1; exact t1)
    | (rw [if_neg ‹_›] at t1; exact t1)
    | exact t2
    | (exfalso; have := t2.2; omega)

theorem writeByte_banking (s : Machine) (a v : Nat) (h : a < 0x8000) :
    MMU.writeByte s a v
      = MMU.storeMemory { s with mmu := MMU.handleBanking s.mmu a v } a v := by
  unfold MMU.writeByte MMU.writeByteFuel
  simp (disch := omega) only [if_neg, if_pos]

theorem writeByte_romBank (s : Machine) (a v : Nat) (h1 : s.mmu.romBankNumber < 128)
    (h2 : s.mmu.romBankNumber % 32 ≠ 0) :
    (MMU.writeByte s a v).mmu.romBankNumber < 128
    ∧ (MMU.writeByte s a v).mmu.romBankNumber % 32 ≠ 0 := by
  by_cases h : a < 0x8000
  · rw [writeByte_banking s a v h]
    exact handleBanking_romBank s.mmu a v h1 h2
  · rw [((writeByte_kept s a v).2.1 (by omega)).1]
    exact ⟨h1, h2⟩

theorem writes_romBank (ws : List (Nat × Nat)) : ∀ (s : Machine), s.mmu.romBankNumber < 128 →
    s.mmu.romBankNumber % 32 ≠ 0 →
    (MMU.writes s ws).mmu.romBankNumber < 128 ∧ (MMU.writes s ws).mmu.romBankNumber % 32 ≠ 0 := by
  induction ws with
  | nil => intro s h1 h2; exact ⟨h1, h2⟩
  | cons w ws ih =>
    intro s h1 h2
    obtain ⟨k1, k2⟩ := writeByte_romBank s w.1 w.2 h1 h2
    exact ih _ k1 k2

/-- C13: from a mapper state with ROM bank 1, after any finite sequence of
`writeByte` calls (to 0x0000-0x7FFF or anywhere else, with any values) the
ROM bank number, which `readByte` uses for 0x4000-0x7FFF, is none of 0x00,
0x20, 0x40, 0x60: it stays below 0x80 with nonzero low five bits. -/
theorem rom_bank_never_forbidden (s : Machine) (ws : List (Nat × Nat))
    (h0 : s.mmu.romBankNumber = 0x01) :
    (MMU.writes s ws).mmu.romBankNumber ≠ 0x00
    ∧ (MMU.writes s ws).mmu.romBankNumber ≠ 0x20
    ∧ (MMU.writes s ws).mmu.romBankNumber ≠ 0x40
    ∧ (MMU.writes s ws).mmu.romBankNumber ≠ 0x60
    ∧ (MMU.writes s ws).mmu.romBankNumber < 0x80
    ∧ ∀ a, 0x4000 ≤ a → a ≤ 0x7FFF → (MMU.writes s ws).mmu.inBIOS = false →
        MMU.readByte (MMU.writes s ws) a
          = (MMU.writes s ws).mmu.cartridgeMemory
              ((a - 0x4000) + (MMU.writes s ws).mmu.romBankNumber * 0x4000) := by
  obtain ⟨k1, k2⟩ := writes_romBank ws s (by rw [h0]; decide) (by rw [h0]; decide)
  refine ⟨by omega, by omega, by omega, by omega, k1, ?_⟩
  intro a ha0 ha1 hb
  unfold MMU.readByte
  have hn : ¬ ((MMU.writes s ws).mmu.inBIOS = true ∧ a < 0x100) := by omega
  rw [if_neg hn, if_neg (by omega), if_pos ⟨ha0, ha1⟩]

set_option maxRecDepth 100000 in
/-- C13, witness: on an MBC1 cartridge, selecting low bits 0 (write 0x00 to
0x2000) and high bits 1 (write 0x01 to 0x4000) leaves bank 0x21. -/
theorem rom_bank_never_forbidden_witness :
    mbc1Machine.mmu.romBankNumber = 0x01
    ∧ (MMU.writes mbc1Machine [(0x2000, 0x00), (0x4000, 0x01)]).mmu.romBankNumber = 0x21
    ∧ (MMU.writes mbc1Machine [(0x2000, 0x00), (0x4000, 0x01)]).mmu.romBankNumber ≠ 0x20 :=
  ⟨rfl, by decide, (rom_bank_never_forbidden mbc1Machine [(0x2000, 0x00), (0x4000, 0x01)] rfl).2.1⟩

/-! ## C14 -/

theorem writes_ramEnabled (ws : List (Nat × Nat)) : ∀ (s : Machine), (∀ w ∈ ws, 0x2000 ≤ w.1) →
    (MMU.writes s ws).mmu.ramEnabled = s.mmu.ramEnabled := by
  induction ws with
  | nil => intro s _; rfl
  | cons w ws ih =>
    intro s h
    have h1 := (writeByte_kept s w.1 w.2).2.2.1 (h w (List.mem_cons_self _ _))
    exact (ih _ (fun x hx => h x (List.mem_cons_of_mem _ hx))).trans h1

theorem writes_ramMemory (ws : List (Nat × Nat)) : ∀ (s : Machine),
    (∀ w ∈ ws, ¬ (0xA000 ≤ w.1 ∧ w.1 < 0xC000)) →
    (MMU.writes s ws).mmu.ramMemory = s.mmu.ramMemory := by
  induction ws with
  | nil => intro s _; rfl
  | cons w ws ih =>
    intro s h
    have h1 := (writeByte_kept s w.1 w.2).2.2.2.1 (h w (List.mem_cons_self _ _))
    exact (ih _ (fun x hx => h x (List.mem_cons_of_mem _ hx))).trans h1

theorem readByte_cartridgeRam (s : Machine) (a : Nat) (h0 : 0xA000 ≤ a) (h1 : a ≤ 0xBFFF) :
    MMU.readByte s a = s.mmu.ramMemory ((a - 0xA000) + (s.mmu.ramBankNumber * 0x2000)) := by
  unfold MMU.readByte
  rw [if_neg (by omega), if_neg (by omega), if_neg (by omega), if_pos ⟨h0, h1⟩]

theorem writeByte_cartridgeRam (s : Machine) (a v : Nat) (h0 : 0xA000 ≤ a) (h1 : a ≤ 0xBFFF) :
    MMU.writeByte s a v
      = if s.mmu.ramEnabled then
          { s with mmu := { s.mmu with ramMemory := fun b =>
              if b = (a - 0xA000) + (s.mmu.ramBankNumber * 0x2000) then v else s.mmu.ramMemory b } }
        else s := by
  unfold MMU.writeByte MMU.writeByteFuel
  rw [if_neg (by omega), if_neg (by omega), if_pos (by omega)]

theorem writeByte_ramEnable (s : Machine) (a v : Nat) (hm : s.mmu.mbc1 = true) (h : a < 0x2000) :
    (MMU.writeByte s a v).mmu.ramEnabled = decide ((v &&& 0x0F) = 0x0A) := by
  rw [writeByte_banking s a v (by omega)]
  show (MMU.handleBanking s.mmu a v).ramEnabled = _
  unfold MMU.handleBanking
  rw [if_neg (by rw [hm]; decide), if_pos h]

/-- C14: on an MBC1 cartridge, after a write of `v0` to 0x0000-0x1FFF followed
by writes elsewhere, `ramEnabled` is true exactly when `(v0 & 0x0F) == 0x0A`;
for `a` in 0xA000-0xBFFF a write of `v` with RAM enabled makes reads of `a`
return `v` after any later writes outside 0xA000-0xBFFF that leave the same
RAM bank selected (disabling RAM among them); a write with RAM disabled
changes nothing. -/
theorem cartridge_ram_enable (s : Machine) (a v : Nat) (ha : 0xA000 ≤ a) (ha' : a ≤ 0xBFFF) :
    (∀ a0 v0 ws, s.mmu.mbc1 = true → a0 < 0x2000 → (∀ w ∈ ws, 0x2000 ≤ w.1) →
      ((MMU.writes (MMU.writeByte s a0 v0) ws).mmu.ramEnabled = true ↔ (v0 &&& 0x0F) = 0x0A))
    ∧ (s.mmu.ramEnabled = true → ∀ ws, (∀ w ∈ ws, ¬ (0xA000 ≤ w.1 ∧ w.1 < 0xC000)) →
        (MMU.writes (MMU.writeByte s a v) ws).mmu.ramBankNumber = s.mmu.ramBankNumber →
        MMU.readByte (MMU.writes (MMU.writeByte s a v) ws) a = v)
    ∧ (s.mmu.ramEnabled = false → MMU.writeByte s a v = s) := by
  refine ⟨?_, ?_, ?_⟩
  · intro a0 v0 ws hm h0 hws
    rw [writes_ramEnabled ws _ hws, writeByte_ramEnable s a0 v0 hm h0, decide_eq_true_eq]
  · intro he ws hws hb
    rw [readByte_cartridgeRam _ a ha ha', writes_ramMemory ws _ hws, hb,
      writeByte_cartridgeRam s a v ha ha', if_pos he]
    simp only [if_true]
  · intro he
    rw [writeByte_cartridgeRam s a v ha ha', if_neg (by rw [he]; decide)]

set_option maxRecDepth 100000 in
/-- C14, witness: on an MBC1 cartridge, write 0x0A to 0x0000, 0xAA to 0xA000,
0x00 to 0x0000: a read of 0xA000 returns 0xAA, also after a further write of
0x55 to 0xA000, which is ignored. -/
theorem cartridge_ram_enable_witness :
    0xA000 ≤ 0xA000 ∧ 0xA000 ≤ 0xBFFF
    ∧ (MMU.writeByte mbc1Machine 0x0000 0x0A).mmu.ramEnabled = true
    ∧ MMU.readByte
        (MMU.writes (MMU.writeByte (MMU.writeByte mbc1Machine 0x0000 0x0A) 0xA000 0xAA)
          [(0x0000, 0x00)]) 0xA000 = 0xAA
    ∧ MMU.readByte (MMU.writes mbc1Machine
        [(0x0000, 0x0A), (0xA000, 0xAA), (0x0000, 0x00), (0xA000, 0x55)]) 0xA000 = 0xAA :=
  ⟨by decide, by decide, by decide,
    (cartridge_ram_enable (MMU.writeByte mbc1Machine 0x0000 0x0A) 0xA000 0xAA (by decide)
      (by decide)).2.1 (by decide) [(0x0000, 0x00)] (by decide) (by decide),
    by decide⟩

/-! ## C15 -/

theorem and_0xFFFE (a : Nat) : a &&& 0xFFFE = 2 * (a / 2 % 32768) := by
  have h1 : (a &&& 0xFFFE) / 2 = a / 2 % 32768 := by
    rw [Nat.and_div_two]
    exact Nat.and_pow_two_sub_one_eq_mod (a / 2) 15
  have h3 : ¬ ((a &&& 0xFFFE) % 2 = 1) := by
    rw [Nat.and_mod_two_eq_one]
    intro h
    exact absurd h.2 (by decide)
  omega

theorem and_0x1FFE (a : Nat) : a &&& 0x1FFE = 2 * (a / 2 % 4096) := by
  have h1 : (a &&& 0x1FFE) / 2 = a / 2 % 4096 := by
    rw [Nat.and_div_two]
    exact Nat.and_pow_two_sub_one_eq_mod (a / 2) 12
  have h3 : ¬ ((a &&& 0x1FFE) % 2 = 1) := by
    rw [Nat.and_mod_two_eq_one]
    intro h
    exact absurd h.2 (by decide)
  omega

/-- The test `byte & bitIndex` of `updateTileSet` reads one bit. -/
theorem bit_test (b k : Nat) (hk : k < 8) :
    (if (b &&& ((1 <<< k) % 256)) ≠ 0 then 1 else 0) = b / 2 ^ k % 2 := by
  have h1 : (1 <<< k) % 256 = 2 ^ k := by
    rw [Nat.one_shiftLeft]
    exact Nat.mod_eq_of_lt (by
      have : k = 0 ∨ k = 1 ∨ k = 2 ∨ k = 3 ∨ k = 4 ∨ k = 5 ∨ k = 6 ∨ k = 7 := by omega
      rcases this with rfl | rfl | rfl | rfl | rfl | rfl | rfl | rfl <;> decide)
  rw [h1, Nat.and_two_pow, Nat.testBit_to_div_mod]
  have hp : 0 < 2 ^ k := Nat.two_pow_pos k
  by_cases c : b / 2 ^ k % 2 = 1
  · simp only [c, decide_True, Bool.toNat_true, Nat.one_mul]
    rw [if_pos (by omega)]
  · simp only [c, decide_False, Bool.toNat_false, Nat.zero_mul]
    rw [if_neg (by omega)]
    omega

theorem readByte_vram (s : Machine) (b : Nat) (h0 : 0x8000 ≤ b) (h1 : b ≤ 0x9FFF) :
    MMU.readByte s b = s.mmu.memory b := by
  unfold MMU.readByte
  have hn : ¬ (s.mmu.inBIOS = true ∧ b < 0x100) := by omega
  rw [if_neg hn]
  simp (disch := omega) only [if_neg, if_pos]

/-- A read does not look at the tile cache. -/
theorem readByte_with_tileSet (u : Machine) (f : Nat → Nat → Nat → Nat) (b : Nat) :
    MMU.readByte { u with mmu := { u.mmu with tileSet := f } } b = MMU.readByte u b := rfl

theorem foldl_tile_row (s : Machine) (f : Machine → Nat → Machine) (val : Nat → Nat) (tile y : Nat)
    (hread : ∀ u x b, MMU.readByte (f u x) b = MMU.readByte u b)
    (htile : ∀ u x t r c, (∀ b, MMU.readByte u b = MMU.readByte s b) →
      (f u x).mmu.tileSet t r c = if t = tile ∧ r = y ∧ c = x then val x else u.mmu.tileSet t r c) :
    ∀ n, (∀ b, MMU.readByte ((List.range n).foldl f s) b = MMU.readByte s b)
      ∧ ∀ t r c, ((List.range n).foldl f s).mmu.tileSet t r c
          = if t = tile ∧ r = y ∧ c < n then val c else s.mmu.tileSet t r c := by
  intro n
  induction n with
  | zero =>
    refine ⟨fun b => rfl, fun t r c => ?_⟩
    rw [if_neg (by omega)]
    rfl
  | succ n ih =>
    obtain ⟨ih1, ih2⟩ := ih
    rw [List.range_succ, List.foldl_append]
    refine ⟨fun b => (hread _ _ b).trans (ih1 b), fun t r c => ?_⟩
    show (f _ n).mmu.tileSet t r c = _
    rw [htile _ n t r c ih1, ih2]
    by_cases h1 : t = tile ∧ r = y
    · by_cases h2 : c = n
      · rw [if_pos ⟨h1.1, h1.2, h2⟩, if_pos ⟨h1.1, h1.2, by omega⟩, h2]
      · rw [if_neg (fun h => h2 h.2.2)]
        by_cases h3 : c < n
        · rw [if_pos ⟨h1.1, h1.2, h3⟩, if_pos ⟨h1.1, h1.2, by omega⟩]
        · rw [if_neg (fun h => h3 h.2.2), if_neg (fun h => by have := h.2.2; omega)]
    · rw [if_neg (fun h => h1 ⟨h.1, h.2.1⟩), if_neg (fun h => h1 ⟨h.1, h.2.1⟩),
        if_neg (fun h => h1 ⟨h.1, h.2.1⟩)]

/-- What `updateTileSet` leaves: reads are unchanged, and the row of the
written address holds the pixels of its two bytes. -/
theorem updateTileSet_spec (s : Machine) (a : Nat) :
    (∀ b, MMU.readByte (MMU.updateTileSet s a) b = MMU.readByte s b)
    ∧ ∀ t r c, (MMU.updateTileSet s a).mmu.tileSet t r c
        = if t = ((a &&& 0x1FFE) >>> 4) &&& 0x1FF ∧ r = ((a &&& 0x1FFE) >>> 1) % 8 ∧ c < 8 then
            (if (MMU.readByte s (a &&& 0xFFFE) &&& ((1 <<< (7 - c)) % 256)) ≠ 0 then 1 else 0)
            + (if (MMU.readByte s (((a &&& 0xFFFE) + 1) % 65536) &&& ((1 <<< (7 - c)) % 256)) ≠ 0
                then 2 else 0)
          else s.mmu.tileSet t r c := by
  unfold MMU.updateTileSet
  refine foldl_tile_row s _
    (fun c => (if (MMU.readByte s (a &&& 0xFFFE) &&& ((1 <<< (7 - c)) % 256)) ≠ 0 then 1 else 0)
      + (if (MMU.readByte s (((a &&& 0xFFFE) + 1) % 65536) &&& ((1 <<< (7 - c)) % 256)) ≠ 0
          then 2 else 0))
    _ _ (fun u x b => readByte_with_tileSet u _ b) ?_ 8
  intro u x t r c hu
  show (if _ then _ else _) = _
  rw [hu, hu]

theorem bit_test_two (b k : Nat) (hk : k < 8) :
    (if (b &&& ((1 <<< k) % 256)) ≠ 0 then 2 else 0) = 2 * (b / 2 ^ k % 2) := by
  rw [← bit_test b k hk]
  split <;> rfl

theorem writeByte_tile (s : Machine) (a v : Nat) (h0 : 0x8000 ≤ a) (h1 : a ≤ 0x97FF) :
    MMU.writeByte s a v = MMU.updateTileSet (MMU.storeMemory s a v) a := by
  unfold MMU.writeByte MMU.writeByteFuel
  simp (disch := omega) only [if_neg, if_pos]

theorem readByte_storeMemory_vram (s : Machine) (a v b : Nat) (h0 : 0x8000 ≤ b) (h1 : b ≤ 0x9FFF) :
    MMU.readByte (MMU.storeMemory s a v) b = if b = a then v else MMU.readByte s b := by
  rw [readByte_vram _ b h0 h1, readByte_vram _ b h0 h1]
  rfl

/-- The row of the tile cache that a write to 0x8000-0x97FF refreshes. -/
theorem tile_row_of_address (a : Nat) (h0 : 0x8000 ≤ a) (h1 : a ≤ 0x97FF) :
    ((a &&& 0x1FFE) >>> 4) &&& 0x1FF = (a - 0x8000) / 16
    ∧ (a &&& 0x1FFE) >>> 4 = (a - 0x8000) / 16
    ∧ ((a &&& 0x1FFE) >>> 1) % 8 = (a - 0x8000) / 2 % 8
    ∧ a &&& 0xFFFE = 0x8000 + 16 * ((a - 0x8000) / 16) + 2 * ((a - 0x8000) / 2 % 8)
    ∧ ((a &&& 0xFFFE) + 1) % 65536
        = 0x8000 + 16 * ((a - 0x8000) / 16) + 2 * ((a - 0x8000) / 2 % 8) + 1 := by
  have e : (a &&& 0x1FFE) >>> 4 &&& 0x1FF = (a &&& 0x1FFE) >>> 4 % 512 :=
    Nat.and_pow_two_sub_one_eq_mod _ 9
  rw [e, and_0x1FFE, and_0xFFFE, Nat.shiftRight_eq_div_pow, Nat.shiftRight_eq_div_pow]
  simp only [Nat.reducePow, Nat.pow_one]
  refine ⟨?_, ?_, ?_, ?_, ?_⟩ <;> omega

/-- C15: `writeByte` keeps the tile cache coherent with the tile data, for
every 16-bit address and every value; after a write into 0x8000-0x97FF the
row tile = (addr & 0x1FFE) >> 4, row = ((addr & 0x1FFE) >> 1) mod 8 holds the
pixels of the two bytes of that row as they read after the write, the written
byte among them. -/
theorem tile_cache_coherence (s : Machine) (a v : Nat) (ha : a < 65536) :
    (TileCoherent s → TileCoherent (MMU.writeByte s a v))
    ∧ (0x8000 ≤ a → a ≤ 0x97FF →
        MMU.readByte (MMU.writeByte s a v) a = v
        ∧ ∀ x, x < 8 →
          (MMU.writeByte s a v).mmu.tileSet ((a &&& 0x1FFE) >>> 4) (((a &&& 0x1FFE) >>> 1) % 8) x
            = MMU.readByte (MMU.writeByte s a v) (a &&& 0xFFFE) / 2 ^ (7 - x) % 2
              + 2 * (MMU.readByte (MMU.writeByte s a v) ((a &&& 0xFFFE) + 1) / 2 ^ (7 - x) % 2)) := by
  constructor
  · intro h t r x ht hr hx
    by_cases hrange : 0x8000 ≤ a ∧ a ≤ 0x97FF
    · obtain ⟨h0, h1⟩ := hrange
      obtain ⟨k1, -, k3, k4, k5⟩ := tile_row_of_address a h0 h1
      obtain ⟨p1, p2⟩ := updateTileSet_spec (MMU.storeMemory s a v) a
      rw [writeByte_tile s a v h0 h1, p1, p1, p2, k1, k3, k5, k4]
      by_cases hrow : t = (a - 0x8000) / 16 ∧ r = (a - 0x8000) / 2 % 8
      · rw [if_pos ⟨hrow.1, hrow.2, hx⟩, bit_test _ _ (by omega), bit_test_two _ _ (by omega),
          ← hrow.1, ← hrow.2]
      · rw [if_neg (fun hh => hrow ⟨hh.1, hh.2.1⟩),
          readByte_storeMemory_vram s a v _ (by omega) (by omega),
          readByte_storeMemory_vram s a v _ (by omega) (by omega),
          if_neg (by omega), if_neg (by omega)]
        exact h t r x ht hr hx
    · obtain ⟨q1, q2⟩ := (writeByte_kept s a v).2.2.2.2 hrange
      rw [q1, readByte_vram _ _ (by omega) (by omega), readByte_vram _ _ (by omega) (by omega),
        q2 _ (by omega) (by omega), q2 _ (by omega) (by omega),
        ← readByte_vram s _ (by omega) (by omega), ← readByte_vram s _ (by omega) (by omega)]
      exact h t r x ht hr hx
  · intro h0 h1
    obtain ⟨k1, k2, k3, k4, k5⟩ := tile_row_of_address a h0 h1
    obtain ⟨p1, p2⟩ := updateTileSet_spec (MMU.storeMemory s a v) a
    have hm : (a &&& 0xFFFE) + 1 = ((a &&& 0xFFFE) + 1) % 65536 := by
      rw [k4]; omega
    constructor
    · rw [writeByte_tile s a v h0 h1, p1, readByte_storeMemory_vram s a v a h0 (by omega), if_pos rfl]
    · intro x hx
      rw [hm, writeByte_tile s a v h0 h1, p1, p1, p2, k1, k2,
        if_pos ⟨rfl, rfl, hx⟩, bit_test _ _ (by omega), bit_test_two _ _ (by omega)]

theorem tileMachine_coherent : TileCoherent tileMachine := by
  intro t r x ht hr hx
  rw [readByte_vram _ _ (by omega) (by omega), readByte_vram _ _ (by omega) (by omega)]
  simp only [tileMachine]
  split_ifs <;> first | rfl | (exfalso; omega) | simp only [Nat.zero_div, Nat.zero_mod]

/-- C15, witness: a coherent machine stays coherent under a write of 0xFF to
0x8010, which then reads back 0xFF. -/
theorem tile_cache_coherence_witness :
    0x8010 < 65536 ∧ TileCoherent tileMachine
    ∧ TileCoherent (MMU.writeByte tileMachine 0x8010 0xFF)
    ∧ MMU.readByte (MMU.writeByte tileMachine 0x8010 0xFF) 0x8010 = 0xFF :=
  ⟨by decide, tileMachine_coherent,
    (tile_cache_coherence tileMachine 0x8010 0xFF (by decide)).1 tileMachine_coherent,
    ((tile_cache_coherence tileMachine 0x8010 0xFF (by decide)).2 (by decide) (by decide)).1⟩

/-! ## C16 -/

/-- A write to the sprite table, at any depth bound of one or more. -/
theorem writeByteFuel_oam (k : Nat) (s : Machine) (a v : Nat) (h0 : 0xFE00 ≤ a) (h1 : a ≤ 0xFE9F) :
    MMU.writeByteFuel (k + 1) s a v
      = { MMU.storeMemory s a v with
            mmu := MMU.updateSpriteSet (MMU.storeMemory s a v).mmu a v } := by
  unfold MMU.writeByteFuel
  simp (disch := omega) only [if_neg, if_pos]

theorem readByte_oam (s : Machine) (b : Nat) (h0 : 0xFE00 ≤ b) (h1 : b ≤ 0xFE9F) :
    MMU.readByte s b = s.mmu.memory b := by
  unfold MMU.readByte
  have hn : ¬ (s.mmu.inBIOS = true ∧ b < 0x100) := by omega
  rw [if_neg hn]
  simp (disch := omega) only [if_neg, if_pos]

/-- A read at `b` looks at the fields listed here and at `memory[b]`. -/
theorem readByte_congr_mem (s t : Machine) (b : Nat)
    (m0 : t.mmu.inBIOS = s.mmu.inBIOS) (m1 : t.mmu.bootROM = s.mmu.bootROM)
    (m2 : t.mmu.cartridgeMemory = s.mmu.cartridgeMemory)
    (m3 : t.mmu.romBankNumber = s.mmu.romBankNumber) (m4 : t.mmu.ramMemory = s.mmu.ramMemory)
    (m5 : t.mmu.ramBankNumber = s.mmu.ramBankNumber) (m6 : t.mmu.switchBG = s.mmu.switchBG)
    (m7 : t.mmu.switchOBJ = s.mmu.switchOBJ) (m8 : t.mmu.spriteDoubled = s.mmu.spriteDoubled)
    (m9 : t.mmu.bgMap = s.mmu.bgMap) (m10 : t.mmu.bgTile = s.mmu.bgTile)
    (m11 : t.mmu.switchWindow = s.mmu.switchWindow) (m12 : t.mmu.windowTile = s.mmu.windowTile)
    (m13 : t.mmu.switchLCD = s.mmu.switchLCD)
    (m14 : t.mmu.lcdStatRegister = s.mmu.lcdStatRegister) (m15 : t.mmu.scrollY = s.mmu.scrollY)
    (m16 : t.mmu.scrollX = s.mmu.scrollX) (m17 : t.mmu.line = s.mmu.line)
    (m18 : t.mmu.windowY = s.mmu.windowY) (m19 : t.mmu.windowX = s.mmu.windowX)
    (g0 : t.joypad = s.joypad) (g1 : t.timer = s.timer) (g2 : t.apu = s.apu)
    (g3 : t.ifRegister = s.ifRegister) (g4 : t.ieRegister = s.ieRegister)
    (hm : t.mmu.memory b = s.mmu.memory b) : MMU.readByte t b = MMU.readByte s b := by
  unfold MMU.readByte
  rw [m0, m1, m2, m3, m4, m5, m6, m7, m8, m9, m10, m11, m12, m13, m14, m15, m16, m17, m18, m19, g0, g1, g2, g3, g4, hm]

theorem readByte_writeByteFuel_oam (k : Nat) (s : Machine) (a v b : Nat) (h0 : 0xFE00 ≤ a)
    (h1 : a ≤ 0xFE9F) :
    MMU.readByte (MMU.writeByteFuel (k + 1) s a v) b = if b = a then v else MMU.readByte s b := by
  rw [writeByteFuel_oam k s a v h0 h1]
  by_cases hb : b = a
  · rw [if_pos hb, hb, readByte_oam _ a h0 h1]
    show (if a = a then v else _) = v
    rw [if_pos rfl]
  · rw [if_neg hb]
    apply readByte_congr_mem s _ b <;>
      first
      | rfl
      | (show (if b = a then v else _) = _; rw [if_neg hb])

theorem SPRITE.eq_of_fields (a b : SPRITE) (h1 : a.posY = b.posY) (h2 : a.posX = b.posX)
    (h3 : a.tileNumber = b.tileNumber) (h4 : a.prioritized = b.prioritized)
    (h5 : a.flippedY = b.flippedY) (h6 : a.flippedX = b.flippedX)
    (h7 : a.zeroPalette = b.zeroPalette) : a = b := by
  cases a; cases b
  simp only [SPRITE.mk.injEq]
  exact ⟨h1, h2, h3, h4, h5, h6, h7⟩

/-- One more byte of a sprite row. -/
theorem updateSpriteSet_spriteAfter (m : MMU) (old : SPRITE) (j r v b0 b1 b2 b3 : Nat) (hr : r < 4)
    (hv : (r = 0 → v = b0) ∧ (r = 1 → v = b1) ∧ (r = 2 → v = b2) ∧ (r = 3 → v = b3))
    (hm : m.spriteSet j = spriteAfter old r b0 b1 b2 b3) :
    (MMU.updateSpriteSet m (0xFE00 + (4 * j + r)) v).spriteSet j
      = spriteAfter old (r + 1) b0 b1 b2 b3 := by
  have e1 : 0xFE00 + (4 * j + r) - 0xFE00 = 4 * j + r := by omega
  have e2 : (4 * j + r) >>> 2 = j := by rw [Nat.shiftRight_eq_div_pow]; omega
  have e3 : (4 * j + r) &&& 0x03 = r := by
    have := Nat.and_pow_two_sub_one_eq_mod (4 * j + r) 2
    rw [show (2 : Nat) ^ 2 - 1 = 0x03 from rfl] at this
    rw [this]; omega
  unfold MMU.updateSpriteSet
  simp only [e1, e2, e3, if_true, hm]
  have hr4 : r = 0 ∨ r = 1 ∨ r = 2 ∨ r = 3 := by omega
  rcases hr4 with rfl | rfl | rfl | rfl
  · rw [← hv.1 rfl]; apply SPRITE.eq_of_fields <;> rfl
  · rw [← hv.2.1 rfl]; apply SPRITE.eq_of_fields <;> rfl
  · rw [← hv.2.2.1 rfl]; apply SPRITE.eq_of_fields <;> rfl
  · rw [← hv.2.2.2 rfl]; apply SPRITE.eq_of_fields <;> rfl

theorem updateSpriteSet_other (m : MMU) (a v j : Nat) (h : j ≠ (a - 0xFE00) >>> 2) :
    (MMU.updateSpriteSet m a v).spriteSet j = m.spriteSet j := by
  unfold MMU.updateSpriteSet
  simp only [if_neg h]

theorem spriteAfter_saturates (old : SPRITE) (n b0 b1 b2 b3 : Nat) (h : 4 ≤ n) :
    spriteAfter old n b0 b1 b2 b3 = spriteAfter old 4 b0 b1 b2 b3 := by
  unfold spriteAfter
  simp (disch := omega) only [if_pos]

/-- What reads return after the first `n` copies of the transfer. -/
theorem dma_fold_read (k : Nat) (s : Machine) (V : Nat) (hV : V < 256) : ∀ n, n ≤ 160 → ∀ b,
    MMU.readByte ((List.range n).foldl (fun acc i => MMU.writeByteFuel (k + 1) acc (0xFE00 + i)
        (MMU.readByte acc ((V * 0x100 % 65536 + i) % 65536))) s) b
      = if 0xFE00 ≤ b ∧ b < 0xFE00 + n then MMU.readByte s (V * 0x100 + (b - 0xFE00))
        else MMU.readByte s b := by
  intro n
  induction n with
  | zero =>
    intro _ b
    rw [if_neg (by omega)]
    rfl
  | succ n ih =>
    intro hn b
    have ih' := ih (by omega)
    rw [List.range_succ, List.foldl_append]
    show MMU.readByte (MMU.writeByteFuel (k + 1) _ (0xFE00 + n) _) b = _
    have es : (V * 0x100 % 65536 + n) % 65536 = V * 0x100 + n := by omega
    rw [readByte_writeByteFuel_oam k _ _ _ b (by omega) (by omega), es]
    by_cases hb : b = 0xFE00 + n
    · have e : 0xFE00 + n - 0xFE00 = n := by omega
      rw [if_pos hb, ih' (V * 0x100 + n), if_neg (by omega), if_pos (by omega), hb, e]
    · rw [if_neg hb, ih' b]
      by_cases hc : 0xFE00 ≤ b ∧ b < 0xFE00 + n
      · rw [if_pos hc, if_pos (by omega)]
      · rw [if_neg hc, if_neg (by omega)]

/-- The sprite entries after the first `n` copies of the transfer. -/
theorem dma_fold_sprite (k : Nat) (s : Machine) (V : Nat) (hV : V < 256) : ∀ n, n ≤ 160 → ∀ j,
    ((List.range n).foldl (fun acc i => MMU.writeByteFuel (k + 1) acc (0xFE00 + i)
        (MMU.readByte acc ((V * 0x100 % 65536 + i) % 65536))) s).mmu.spriteSet j
      = spriteAfter (s.mmu.spriteSet j) (n - 4 * j) (MMU.readByte s (V * 0x100 + 4 * j))
          (MMU.readByte s (V * 0x100 + (4 * j + 1))) (MMU.readByte s (V * 0x100 + (4 * j + 2)))
          (MMU.readByte s (V * 0x100 + (4 * j + 3))) := by
  intro n
  induction n with
  | zero =>
    intro _ j
    rw [Nat.zero_sub]
    rfl
  | succ n ih =>
    intro hn j
    have ih' := ih (by omega) j
    have hval := dma_fold_read k s V hV n (by omega) (V * 0x100 + n)
    rw [if_neg (by omega)] at hval
    have es : (V * 0x100 % 65536 + n) % 65536 = V * 0x100 + n := by omega
    rw [List.range_succ, List.foldl_append]
    show (MMU.writeByteFuel (k + 1) _ (0xFE00 + n) _).mmu.spriteSet j = _
    rw [writeByteFuel_oam k _ _ _ (by omega) (by omega), es, hval]
    show (MMU.updateSpriteSet (MMU.storeMemory _ _ _).mmu _ _).spriteSet j = _
    by_cases hj : j = n / 4
    · have ea : 0xFE00 + n = 0xFE00 + (4 * j + n % 4) := by omega
      have eb : n + 1 - 4 * j = n % 4 + 1 := by omega
      have ec : n - 4 * j = n % 4 := by omega
      rw [ea, eb]
      refine updateSpriteSet_spriteAfter _ _ j (n % 4) _ _ _ _ _ (by omega) ⟨?_, ?_, ?_, ?_⟩ ?_
      · intro h; congr 2; omega
      · intro h; congr 2; omega
      · intro h; congr 2; omega
      · intro h; congr 2; omega
      · rw [← ec]; exact ih'
    · have hne : j ≠ (0xFE00 + n - 0xFE00) >>> 2 := by
        rw [Nat.shiftRight_eq_div_pow]
        have : 0xFE00 + n - 0xFE00 = n := by omega
        rw [this]
        exact hj
      rw [updateSpriteSet_other _ _ _ _ hne]
      show (List.foldl _ s (List.range n)).mmu.spriteSet j = _
      rw [ih']
      by_cases h4 : n < 4 * j
      · have e0 : n - 4 * j = 0 := by omega
        have e1 : n + 1 - 4 * j = 0 := by omega
        rw [e0, e1]
      · rw [spriteAfter_saturates _ (n - 4 * j) _ _ _ _ (by omega),
          spriteAfter_saturates _ (n + 1 - 4 * j) _ _ _ _ (by omega)]

theorem readByte_storeMemory_ne (s : Machine) (a v b : Nat) (h : b ≠ a) :
    MMU.readByte (MMU.storeMemory s a v) b = MMU.readByte s b := by
  apply readByte_congr_mem s _ b <;>
    first
    | rfl
    | (show (if b = a then v else _) = _; rw [if_neg h])

theorem foldl_congr_mem {α : Type} (f g : Machine → α → Machine) :
    ∀ (l : List α) (s : Machine), (∀ t x, x ∈ l → f t x = g t x) → l.foldl f s = l.foldl g s := by
  intro l
  induction l with
  | nil => intro s _; rfl
  | cons x xs ih =>
    intro s h
    rw [List.foldl_cons, List.foldl_cons, h s x (List.mem_cons_self _ _)]
    exact ih _ (fun t y hy => h t y (List.mem_cons_of_mem _ hy))

/-- The transfer, at any depth bound of two or more. -/
theorem writeByteFuel_dma (k : Nat) (s : Machine) (V : Nat) :
    MMU.writeByteFuel (k + 2) s 0xFF46 V
      = MMU.storeMemory ((List.range 0xA0).foldl (fun acc i => MMU.writeByteFuel (k + 1) acc
          (0xFE00 + i) (MMU.readByte acc ((V * 0x100 % 65536 + i) % 65536))) s) 0xFF46 V := rfl

/-- C16: for every byte V and every i below 160, after `writeByte(0xFF46, V)`
a read of 0xFE00 + i returns what a read of V*0x100 + i returned before, and
sprite entry i/4 is decoded from the four copied bytes of its row; the write
is 160 `writeByte` calls to 0xFE00..0xFE9F followed by the store to 0xFF46,
whatever depth bound (of two or more) the recursion is given. -/
theorem dma_transfer_copies_oam (s : Machine) (V i : Nat) (hV : V < 256) (hi : i < 160) :
    MMU.readByte (MMU.writeByte s 0xFF46 V) (0xFE00 + i) = MMU.readByte s (V * 0x100 + i)
    ∧ ((MMU.writeByte s 0xFF46 V).mmu.spriteSet (i / 4)).posY
        = (MMU.readByte s (V * 0x100 + 4 * (i / 4)) : Int) - 16
    ∧ ((MMU.writeByte s 0xFF46 V).mmu.spriteSet (i / 4)).posX
        = (MMU.readByte s (V * 0x100 + (4 * (i / 4) + 1)) : Int) - 8
    ∧ ((MMU.writeByte s 0xFF46 V).mmu.spriteSet (i / 4)).tileNumber
        = MMU.readByte s (V * 0x100 + (4 * (i / 4) + 2))
    ∧ ((MMU.writeByte s 0xFF46 V).mmu.spriteSet (i / 4)).prioritized
        = (if (MMU.readByte s (V * 0x100 + (4 * (i / 4) + 3)) &&& 0x80) ≠ 0 then false else true)
    ∧ ((MMU.writeByte s 0xFF46 V).mmu.spriteSet (i / 4)).flippedY
        = (if (MMU.readByte s (V * 0x100 + (4 * (i / 4) + 3)) &&& 0x40) ≠ 0 then true else false)
    ∧ ((MMU.writeByte s 0xFF46 V).mmu.spriteSet (i / 4)).flippedX
        = (if (MMU.readByte s (V * 0x100 + (4 * (i / 4) + 3)) &&& 0x20) ≠ 0 then true else false)
    ∧ ((MMU.writeByte s 0xFF46 V).mmu.spriteSet (i / 4)).zeroPalette
        = (if (MMU.readByte s (V * 0x100 + (4 * (i / 4) + 3)) &&& 0x10) ≠ 0 then false else true)
    ∧ MMU.writeByte s 0xFF46 V
        = MMU.storeMemory ((List.range 160).foldl (fun acc n => MMU.writeByte acc (0xFE00 + n)
            (MMU.readByte acc ((V * 0x100 % 65536 + n) % 65536))) s) 0xFF46 V
    ∧ ∀ k, MMU.writeByteFuel (k + 2) s 0xFF46 V = MMU.writeByte s 0xFF46 V := by
  have hinner : ∀ k (t : Machine) (x : Nat), x ∈ List.range 0xA0 →
      MMU.writeByteFuel (k + 1) t (0xFE00 + x) (MMU.readByte t ((V * 0x100 % 65536 + x) % 65536))
        = MMU.writeByteFuel (0 + 1) t (0xFE00 + x)
            (MMU.readByte t ((V * 0x100 % 65536 + x) % 65536)) := by
    intro k t x hx
    have hx' := List.mem_range.mp hx
    rw [writeByteFuel_oam k t _ _ (by omega) (by omega),
      writeByteFuel_oam 0 t _ _ (by omega) (by omega)]
  have hw : MMU.writeByte s 0xFF46 V = MMU.writeByteFuel (0 + 2) s 0xFF46 V := rfl
  have hS := dma_fold_sprite 0 s V hV 160 (by omega) (i / 4)
  rw [spriteAfter_saturates _ _ _ _ _ _ (by omega)] at hS
  have hsp : (MMU.writeByte s 0xFF46 V).mmu.spriteSet (i / 4)
      = spriteAfter (s.mmu.spriteSet (i / 4)) 4 (MMU.readByte s (V * 0x100 + 4 * (i / 4)))
          (MMU.readByte s (V * 0x100 + (4 * (i / 4) + 1)))
          (MMU.readByte s (V * 0x100 + (4 * (i / 4) + 2)))
          (MMU.readByte s (V * 0x100 + (4 * (i / 4) + 3))) := by
    rw [hw, writeByteFuel_dma 0 s V]
    exact hS
  refine ⟨?_, ?_, ?_, ?_, ?_, ?_, ?_, ?_, ?_, ?_⟩
  · rw [hw, writeByteFuel_dma 0 s V, readByte_storeMemory_ne _ _ _ _ (by omega),
      dma_fold_read 0 s V hV 160 (by omega), if_pos (by omega)]
    have e : 0xFE00 + i - 0xFE00 = i := by omega
    rw [e]
  · rw [hsp]; rfl
  · rw [hsp]; rfl
  · rw [hsp]; rfl
  · rw [hsp]; rfl
  · rw [hsp]; rfl
  · rw [hsp]; rfl
  · rw [hsp]; rfl
  · rw [hw, writeByteFuel_dma 0 s V]
    rw [foldl_congr_mem
      (fun acc n => MMU.writeByteFuel (0 + 1) acc (0xFE00 + n)
        (MMU.readByte acc ((V * 0x100 % 65536 + n) % 65536)))
      (fun acc n => MMU.writeByte acc (0xFE00 + n)
        (MMU.readByte acc ((V * 0x100 % 65536 + n) % 65536)))
      (List.range 0xA0) s (fun t x hx => (hinner 1 t x hx).symm)]
  · intro k
    rw [hw, writeByteFuel_dma k s V, writeByteFuel_dma 0 s V]
    rw [foldl_congr_mem
      (fun acc n => MMU.writeByteFuel (k + 1) acc (0xFE00 + n)
        (MMU.readByte acc ((V * 0x100 % 65536 + n) % 65536)))
      (fun acc n => MMU.writeByteFuel (0 + 1) acc (0xFE00 + n)
        (MMU.readByte acc ((V * 0x100 % 65536 + n) % 65536)))
      (List.range 0xA0) s (fun t x hx => hinner k t x hx)]

set_option maxRecDepth 100000 in
/-- C16, witness: with the row 0x20, 0x18, 0x05, 0x80 at 0xC000, a write of
0xC0 to 0xFF46 leaves 0x20 at 0xFE00 and sprite 0 at posY = 16, tile 5. -/
theorem dma_transfer_copies_oam_witness :
    0xC0 < 256 ∧ 0 < 160 ∧ MMU.readByte dmaMachine (0xC0 * 0x100 + 0) = 0x20
    ∧ MMU.readByte (MMU.writeByte dmaMachine 0xFF46 0xC0) (0xFE00 + 0)
        = MMU.readByte dmaMachine (0xC0 * 0x100 + 0)
    ∧ ((MMU.writeByte dmaMachine 0xFF46 0xC0).mmu.spriteSet (0 / 4)).posY
        = (MMU.readByte dmaMachine (0xC0 * 0x100 + 4 * (0 / 4)) : Int) - 16
    ∧ ((MMU.writeByte dmaMachine 0xFF46 0xC0).mmu.spriteSet (0 / 4)).tileNumber
        = MMU.readByte dmaMachine (0xC0 * 0x100 + (4 * (0 / 4) + 2))
    ∧ MMU.readByte dmaMachine (0xC0 * 0x100 + (4 * (0 / 4) + 2)) = 0x05 :=
  have h := dma_transfer_copies_oam dmaMachine 0xC0 0 (by decide) (by decide)
  ⟨by decide, by decide, by decide, h.1, h.2.1, h.2.2.2.1, by decide⟩

/-! ## C17 -/

theorem readByte_writeByte_ram (s : Machine) (a b : Nat) (h : InRam a) :
    MMU.readByte (MMU.writeByte s a b) a = b := by
  rw [writeByte_ram s a b h, readByte_ram _ a h]
  show (if a = a then b else _) = b
  rw [if_pos rfl]

theorem get8_set8 (s : Machine) (r : Reg8) (v : Nat) : (s.set8 r v).get8 r = v := by
  cases r <;> rfl

set_option maxRecDepth 100000 in
theorem executeOpcode_ldImm (s : Machine) (r : Reg8) (fuel : Nat) (hr : r.isGeneral = true) :
    executeOpcode (fuel + 1) s (ldImmOpcode r)
      = .done (CPU_LOAD (pcInc s) r (MMU.readByte s s.PC)) 8 := by
  cases r <;> first | exact absurd hr (by decide) | rfl

set_option maxRecDepth 100000 in
theorem executeOpcode_stHL (s : Machine) (r : Reg8) (fuel : Nat) (hr : r.isGeneral = true) :
    executeOpcode (fuel + 1) s (stHLOpcode r)
      = .done (CPU_LOAD_WRITE s s.HL.reg (s.get8 r)) 8 := by
  cases r <;> first | exact absurd hr (by decide) | rfl

set_option maxRecDepth 100000 in
theorem executeOpcode_ldHL (s : Machine) (r : Reg8) (fuel : Nat) (hr : r.isGeneral = true) :
    executeOpcode (fuel + 1) s (ldHLOpcode r)
      = .done (CPU_LOAD s r (MMU.readByte s s.HL.reg)) 8 := by
  cases r <;> first | exact absurd hr (by decide) | rfl

/-- C17: a byte written to work RAM or high RAM reads back; hence, for 8-bit
registers r and r2 among A, B, C, D, E, H, L and the immediate byte b at PC,
LD r,b; LD (HL),r; LD r2,(HL) (8 cycles each) leaves r2 equal to b, and b at
the address HL holds at the time of the store, when that address is in work
RAM or high RAM. -/
theorem load_store_round_trip (s : Machine) (r r2 : Reg8) (f1 f2 f3 : Nat)
    (hr : r.isGeneral = true) (hr2 : r2.isGeneral = true)
    (hram : InRam (CPU_LOAD (pcInc s) r (MMU.readByte s s.PC)).HL.reg) :
    (∀ a b, InRam a → MMU.readByte (MMU.writeByte s a b) a = b)
    ∧ ∃ s1 s2 s3, executeOpcode (f1 + 1) s (ldImmOpcode r) = .done s1 8
        ∧ s1.get8 r = MMU.readByte s s.PC
        ∧ executeOpcode (f2 + 1) s1 (stHLOpcode r) = .done s2 8
        ∧ executeOpcode (f3 + 1) s2 (ldHLOpcode r2) = .done s3 8
        ∧ MMU.readByte s2 s1.HL.reg = MMU.readByte s s.PC
        ∧ s3.get8 r2 = MMU.readByte s s.PC := by
  refine ⟨fun a b h => readByte_writeByte_ram s a b h, _, _, _, executeOpcode_ldImm s r f1 hr,
    get8_set8 _ r _, executeOpcode_stHL _ r f2 hr, executeOpcode_ldHL _ r2 f3 hr2, ?_, ?_⟩
  · unfold CPU_LOAD_WRITE
    rw [readByte_writeByte_ram _ _ _ hram]
    exact get8_set8 _ r _
  · unfold CPU_LOAD_WRITE
    have hHL := (writeByte_sameCPU (CPU_LOAD (pcInc s) r (MMU.readByte s s.PC))
      (CPU_LOAD (pcInc s) r (MMU.readByte s s.PC)).HL.reg
      ((CPU_LOAD (pcInc s) r (MMU.readByte s s.PC)).get8 r)).2.2.2.1
    unfold CPU_LOAD
    rw [get8_set8]
    unfold CPU_LOAD at hHL hram
    rw [hHL, readByte_writeByte_ram _ _ _ hram]
    exact get8_set8 _ r _

set_option maxRecDepth 100000 in
/-- C17, witness: LD B,0x5A; LD (HL),B; LD E,(HL) with HL = 0xC123. -/
theorem load_store_round_trip_witness :
    Reg8.isGeneral .BChi = true ∧ Reg8.isGeneral .DElo = true
    ∧ InRam (CPU_LOAD (pcInc loadMachine) .BChi (MMU.readByte loadMachine loadMachine.PC)).HL.reg
    ∧ MMU.readByte loadMachine loadMachine.PC = 0x5A
    ∧ ∃ s1 s2 s3, executeOpcode (0 + 1) loadMachine (ldImmOpcode .BChi) = .done s1 8
        ∧ s1.get8 .BChi = MMU.readByte loadMachine loadMachine.PC
        ∧ executeOpcode (0 + 1) s1 (stHLOpcode .BChi) = .done s2 8
        ∧ executeOpcode (0 + 1) s2 (ldHLOpcode .DElo) = .done s3 8
        ∧ MMU.readByte s2 s1.HL.reg = MMU.readByte loadMachine loadMachine.PC
        ∧ s3.get8 .DElo = MMU.readByte loadMachine loadMachine.PC :=
  ⟨rfl, rfl, by unfold InRam; decide, by decide,
    (load_store_round_trip loadMachine .BChi .DElo 0 0 0 rfl rfl (by unfold InRam; decide)).2⟩

/-! ## C18 -/

theorem readByte_echo (s : Machine) (b : Nat) (h0 : 0xE000 ≤ b) (h1 : b ≤ 0xFDFF) :
    MMU.readByte s b = s.mmu.memory b := by
  unfold MMU.readByte
  have hn : ¬ (s.mmu.inBIOS = true ∧ b < 0x100) := by omega
  rw [if_neg hn]
  simp (disch := omega) only [if_neg, if_pos]

theorem storeMemory_memory (s : Machine) (a v b : Nat) :
    (MMU.storeMemory s a v).mmu.memory b = if b = a then v else s.mmu.memory b := rfl

theorem writeByte_echo (s : Machine) (a v : Nat) (h0 : 0xC000 ≤ a) (h1 : a ≤ 0xDDFF) :
    MMU.writeByte s (a + 0x2000) v
      = MMU.storeMemory (MMU.storeMemory s a v) (a + 0x2000) v := by
  have e : a + 0x2000 - 0x2000 = a := by omega
  have hin : MMU.writeByteFuel 1 s a v = MMU.storeMemory s a v := by
    unfold MMU.writeByteFuel
    simp (disch := omega) only [if_neg, if_pos]
  unfold MMU.writeByte
  rw [MMU.writeByteFuel]
  simp (disch := omega) only [if_neg, if_pos]
  rw [e, hin]

/-- C18 (the code departs from the claim for writes to work RAM): for `a` in
0xC000-0xDDFF, a write to the echo address `a + 0x2000` is stored at `a` and
at `a + 0x2000`, so both read back the value; a write to `a` is stored at `a`
only, and the echo address goes on reading what it read before. -/
theorem echo_ram_mirrors_one_way (s : Machine) (a v : Nat) (h0 : 0xC000 ≤ a) (h1 : a ≤ 0xDDFF) :
    MMU.readByte (MMU.writeByte s (a + 0x2000) v) a = v
    ∧ MMU.readByte (MMU.writeByte s (a + 0x2000) v) (a + 0x2000) = v
    ∧ MMU.readByte (MMU.writeByte s a v) a = v
    ∧ MMU.readByte (MMU.writeByte s a v) (a + 0x2000) = MMU.readByte s (a + 0x2000) := by
  have hram : InRam a := Or.inl ⟨h0, by omega⟩
  have hne : a ≠ a + 0x2000 := by omega
  refine ⟨?_, ?_, readByte_writeByte_ram s a v hram, ?_⟩
  · rw [writeByte_echo s a v h0 h1, readByte_storeMemory_ne _ _ _ _ hne, readByte_ram _ a hram,
      storeMemory_memory, if_pos rfl]
  · rw [writeByte_echo s a v h0 h1, readByte_echo _ _ (by omega) (by omega),
      storeMemory_memory, if_pos rfl]
  · rw [writeByte_ram s a v hram, readByte_storeMemory_ne _ _ _ _ hne.symm]

set_option maxRecDepth 100000 in
/-- C18, the failing input: with zeros in memory, after a write of 0x42 to
0xC000 a read of the echo address 0xE000 returns 0x00. -/
theorem echo_ram_mirrors_one_way_witness :
    0xC000 ≤ 0xC000 ∧ 0xC000 ≤ 0xDDFF
    ∧ MMU.readByte echoMachine (0xC000 + 0x2000) = 0x00
    ∧ MMU.readByte (MMU.writeByte echoMachine 0xC000 0x42) 0xC000 = 0x42
    ∧ MMU.readByte (MMU.writeByte echoMachine 0xC000 0x42) (0xC000 + 0x2000)
        = MMU.readByte echoMachine (0xC000 + 0x2000)
    ∧ MMU.readByte (MMU.writeByte echoMachine 0xC000 0x42) 0xE000 = 0x00 :=
  have h := echo_ram_mirrors_one_way echoMachine 0xC000 0x42 (by decide) (by decide)
  ⟨by decide, by decide, by decide, h.2.2.1, h.2.2.2, by decide⟩

/-! ## C19 -/

theorem keptAlways_trans {s t u : Machine} (h1 : KeptAlways s t) (h2 : KeptAlways t u) :
    KeptAlways s u :=
  ⟨h2.1.trans h1.1, h2.2.1.trans h1.2.1, h2.2.2.1.trans h1.2.2.1, fun h => h1.2.2.2 (h2.2.2.2 h)⟩

theorem writes_keptAlways (ws : List (Nat × Nat)) : ∀ (s : Machine),
    KeptAlways s (MMU.writes s ws) := by
  induction ws with
  | nil => intro s; exact ⟨rfl, rfl, rfl, id⟩
  | cons w ws ih =>
    intro s
    exact keptAlways_trans (writeByte_kept s w.1 w.2).1 (ih _)

theorem writeByte_boot_switch (s : Machine) (v : Nat) :
    (MMU.writeByte s 0xFF50 v).mmu.inBIOS = false := rfl

/-- C19: while the boot overlay is armed, a read below 0x100 returns the boot
ROM byte; after a write of any value to 0xFF50 and any further finite sequence
of `writeByte` calls, the overlay is off and a read below 0x100 returns the
cartridge byte, the cartridge being what it was. -/
theorem boot_overlay_disarmed_for_good (s : Machine) (v : Nat) (ws : List (Nat × Nat)) (a : Nat)
    (ha : a < 0x100) :
    (s.mmu.inBIOS = true → MMU.readByte s a = s.mmu.bootROM a)
    ∧ (MMU.writes (MMU.writeByte s 0xFF50 v) ws).mmu.inBIOS = false
    ∧ (MMU.writes (MMU.writeByte s 0xFF50 v) ws).mmu.cartridgeMemory = s.mmu.cartridgeMemory
    ∧ MMU.readByte (MMU.writes (MMU.writeByte s 0xFF50 v) ws) a = s.mmu.cartridgeMemory a := by
  obtain ⟨k1, -, -, k4⟩ := writes_keptAlways ws (MMU.writeByte s 0xFF50 v)
  obtain ⟨j1, -, -, -⟩ := (writeByte_kept s 0xFF50 v).1
  have hoff : (MMU.writes (MMU.writeByte s 0xFF50 v) ws).mmu.inBIOS = false := by
    cases h : (MMU.writes (MMU.writeByte s 0xFF50 v) ws).mmu.inBIOS
    · rfl
    · exact absurd (k4 h) (by rw [writeByte_boot_switch]; decide)
  refine ⟨?_, hoff, k1.trans j1, ?_⟩
  · intro harm
    unfold MMU.readByte
    rw [if_pos ⟨harm, ha⟩]
  · unfold MMU.readByte
    rw [if_neg (by rw [hoff]; exact fun h => absurd h.1 (by decide)), if_pos (by omega), k1, j1]

set_option maxRecDepth 100000 in
/-- C19, witness: address 0 reads 0x31 from the boot ROM while the overlay is
armed and 0xC3 from the cartridge after a write to 0xFF50 and two more writes. -/
theorem boot_overlay_disarmed_for_good_witness :
    0 < 0x100 ∧ bootMachine.mmu.inBIOS = true ∧ MMU.readByte bootMachine 0 = 0x31
    ∧ bootMachine.mmu.cartridgeMemory 0 = 0xC3
    ∧ MMU.readByte (MMU.writes (MMU.writeByte bootMachine 0xFF50 0x01)
        [(0xFF50, 0x00), (0x0000, 0xFF)]) 0 = bootMachine.mmu.cartridgeMemory 0 :=
  ⟨by decide, rfl, by decide, by decide,
    (boot_overlay_disarmed_for_good bootMachine 0x01 [(0xFF50, 0x00), (0x0000, 0xFF)] 0
      (by decide)).2.2.2⟩

/-! ## C20 -/

theorem setLCDStatus_keeps (s : Machine) :
    (PPU.setLCDStatus s).ppu = s.ppu ∧ (PPU.setLCDStatus s).mmu.line = s.mmu.line := by
  unfold PPU.setLCDStatus
  dsimp only
  split_ifs <;> exact ⟨rfl, rfl⟩

theorem renderScan_keeps (s : Machine) (scanRow : Nat → Nat) :
    (PPU.renderScan s scanRow).ppu.mode = s.ppu.mode
    ∧ (PPU.renderScan s scanRow).ppu.clock = s.ppu.clock
    ∧ (PPU.renderScan s scanRow).mmu = s.mmu := by
  unfold PPU.renderScan
  split_ifs <;> exact ⟨rfl, rfl, rfl⟩

/-- What one call of `step` does to the line, the mode and the clock. -/
theorem step_line_mode_clock (s : Machine) (scanRow : Nat → Nat) :
    (s.ppu.mode = 2 →
      (PPU.step s scanRow).mmu.line = s.mmu.line
      ∧ (PPU.step s scanRow).ppu.mode = (if s.ppu.clock ≥ 320 then 3 else 2)
      ∧ (PPU.step s scanRow).ppu.clock
          = (if s.ppu.clock ≥ 320 then s.ppu.clock % 320 else s.ppu.clock))
    ∧ (s.ppu.mode = 3 →
      (PPU.step s scanRow).mmu.line = s.mmu.line
      ∧ (PPU.step s scanRow).ppu.mode = (if s.ppu.clock ≥ 688 then 0 else 3)
      ∧ (PPU.step s scanRow).ppu.clock
          = (if s.ppu.clock ≥ 688 then s.ppu.clock % 688 else s.ppu.clock))
    ∧ (s.ppu.mode = 0 →
      (PPU.step s scanRow).mmu.line = (if s.ppu.clock ≥ 816 then s.mmu.line + 1 else s.mmu.line)
      ∧ (PPU.step s scanRow).ppu.mode
          = (if s.ppu.clock ≥ 816 then (if s.mmu.line + 1 = 144 then 1 else 2) else 0)
      ∧ (PPU.step s scanRow).ppu.clock
          = (if s.ppu.clock ≥ 816 then s.ppu.clock % 816 else s.ppu.clock))
    ∧ (s.ppu.mode = 1 →
      (PPU.step s scanRow).mmu.line
          = (if s.ppu.clock ≥ 1824 then (if s.mmu.line + 1 = 154 then 0 else s.mmu.line + 1)
             else s.mmu.line)
      ∧ (PPU.step s scanRow).ppu.mode
          = (if s.ppu.clock ≥ 1824 then (if s.mmu.line + 1 = 154 then 2 else 1) else 1)
      ∧ (PPU.step s scanRow).ppu.clock
          = (if s.ppu.clock ≥ 1824 then s.ppu.clock % 1824 else s.ppu.clock))
    ∧ (s.ppu.mode ≠ 0 → s.ppu.mode ≠ 1 → s.ppu.mode ≠ 2 → s.ppu.mode ≠ 3 →
      (PPU.step s scanRow).mmu.line = s.mmu.line
      ∧ (PPU.step s scanRow).ppu.mode = s.ppu.mode) := by
  obtain ⟨hp, hl⟩ := setLCDStatus_keeps s
  obtain ⟨rm, rc, rmmu⟩ := renderScan_keeps (PPU.setLCDStatus s) scanRow
  refine ⟨?_, ?_, ?_, ?_, ?_⟩
  all_goals
    intro h
    unfold PPU.step PPU.renderImage
    simp only [hp, hl, rm, rc, rmmu, h]
    split_ifs <;> simp_all

theorem step_lineInRange (s : Machine) (scanRow : Nat → Nat) (h : LineInRange s) :
    LineInRange (PPU.step s scanRow) := by
  obtain ⟨h2, h3, h0, h1, -⟩ := step_line_mode_clock s scanRow
  unfold LineInRange at h ⊢
  rcases h with ⟨hm | hm | hm, hl⟩ | ⟨hm, hl, hl'⟩
  · obtain ⟨a, b, -⟩ := h0 hm
    rw [a, b]
    split_ifs <;> omega
  · obtain ⟨a, b, -⟩ := h2 hm
    rw [a, b]
    split_ifs <;> omega
  · obtain ⟨a, b, -⟩ := h3 hm
    rw [a, b]
    split_ifs <;> omega
  · obtain ⟨a, b, -⟩ := h1 hm
    rw [a, b]
    split_ifs <;> omega

theorem writeLY_keeps (s : Machine) (v : Nat) :
    (MMU.writeByte s 0xFF44 v).ppu = s.ppu
    ∧ (MMU.writeByte s 0xFF44 v).mmu.line = s.mmu.line := ⟨rfl, rfl⟩

theorem apply_lineInRange (s : Machine) (e : PPUEvent) (h : LineInRange s) :
    LineInRange (PPUEvent.apply s e) := by
  cases e with
  | addToClock c => exact h
  | step scanRow => exact step_lineInRange s scanRow h
  | writeLY v =>
    obtain ⟨a, b⟩ := writeLY_keeps s v
    unfold LineInRange PPUEvent.apply
    rw [a, b]
    exact h

theorem run_lineInRange (es : List PPUEvent) : ∀ (s : Machine),
    LineInRange s → LineInRange (PPU.run s es) := by
  induction es with
  | nil => intro s h; exact h
  | cons e es ih => intro s h; exact ih _ (apply_lineInRange s e h)

theorem run_append (s : Machine) (es fs : List PPUEvent) :
    PPU.run s (es ++ fs) = PPU.run (PPU.run s es) fs := List.foldl_append _ _ _ _

theorem run_nil (s : Machine) : PPU.run s [] = s := rfl

theorem run_cons (s : Machine) (e : PPUEvent) (es : List PPUEvent) :
    PPU.run s (e :: es) = PPU.run (PPUEvent.apply s e) es := rfl

theorem apply_addToClock (s : Machine) (c : Nat) :
    PPUEvent.apply s (.addToClock c) = PPU.addToClock s (c : Int) := rfl

theorem apply_step (s : Machine) (scanRow : Nat → Nat) :
    PPUEvent.apply s (.step scanRow) = PPU.step s scanRow := rfl

/-- Mode 2 of exact length. -/
theorem step_after_320 (t : Machine) (scanRow : Nat → Nat) (hm : t.ppu.mode = 2)
    (hc : t.ppu.clock = 0) :
    (PPU.step (PPU.addToClock t ((320 : Nat) : Int)) scanRow).mmu.line = t.mmu.line
    ∧ (PPU.step (PPU.addToClock t ((320 : Nat) : Int)) scanRow).ppu.mode = 3
    ∧ (PPU.step (PPU.addToClock t ((320 : Nat) : Int)) scanRow).ppu.clock = 0 := by
  have a := (step_line_mode_clock (PPU.addToClock t ((320 : Nat) : Int)) scanRow).1 hm
  have ac : (PPU.addToClock t ((320 : Nat) : Int)).ppu.clock = 320 := by
    show t.ppu.clock + 320 = 320
    rw [hc]; rfl
  rw [ac] at a
  exact a

/-- Mode 3 of exact length. -/
theorem step_after_688 (t : Machine) (scanRow : Nat → Nat) (hm : t.ppu.mode = 3)
    (hc : t.ppu.clock = 0) :
    (PPU.step (PPU.addToClock t ((688 : Nat) : Int)) scanRow).mmu.line = t.mmu.line
    ∧ (PPU.step (PPU.addToClock t ((688 : Nat) : Int)) scanRow).ppu.mode = 0
    ∧ (PPU.step (PPU.addToClock t ((688 : Nat) : Int)) scanRow).ppu.clock = 0 := by
  have a := (step_line_mode_clock (PPU.addToClock t ((688 : Nat) : Int)) scanRow).2.1 hm
  have ac : (PPU.addToClock t ((688 : Nat) : Int)).ppu.clock = 688 := by
    show t.ppu.clock + 688 = 688
    rw [hc]; rfl
  rw [ac] at a
  exact a

/-- Mode 0 of exact length. -/
theorem step_after_816 (t : Machine) (scanRow : Nat → Nat) (hm : t.ppu.mode = 0)
    (hc : t.ppu.clock = 0) :
    (PPU.step (PPU.addToClock t ((816 : Nat) : Int)) scanRow).mmu.line = t.mmu.line + 1
    ∧ (PPU.step (PPU.addToClock t ((816 : Nat) : Int)) scanRow).ppu.mode
        = (if t.mmu.line + 1 = 144 then 1 else 2)
    ∧ (PPU.step (PPU.addToClock t ((816 : Nat) : Int)) scanRow).ppu.clock = 0 := by
  have a := (step_line_mode_clock (PPU.addToClock t ((816 : Nat) : Int)) scanRow).2.2.1 hm
  have ac : (PPU.addToClock t ((816 : Nat) : Int)).ppu.clock = 816 := by
    show t.ppu.clock + 816 = 816
    rw [hc]; rfl
  have al : (PPU.addToClock t ((816 : Nat) : Int)).mmu.line = t.mmu.line := rfl
  rw [ac, al] at a
  exact a

/-- A line of the vertical blank of exact length. -/
theorem step_after_1824 (t : Machine) (scanRow : Nat → Nat) (hm : t.ppu.mode = 1)
    (hc : t.ppu.clock = 0) :
    (PPU.step (PPU.addToClock t ((1824 : Nat) : Int)) scanRow).mmu.line
        = (if t.mmu.line + 1 = 154 then 0 else t.mmu.line + 1)
    ∧ (PPU.step (PPU.addToClock t ((1824 : Nat) : Int)) scanRow).ppu.mode
        = (if t.mmu.line + 1 = 154 then 2 else 1)
    ∧ (PPU.step (PPU.addToClock t ((1824 : Nat) : Int)) scanRow).ppu.clock = 0 := by
  have a := (step_line_mode_clock (PPU.addToClock t ((1824 : Nat) : Int)) scanRow).2.2.2.1 hm
  have ac : (PPU.addToClock t ((1824 : Nat) : Int)).ppu.clock = 1824 := by
    show t.ppu.clock + 1824 = 1824
    rw [hc]; rfl
  have al : (PPU.addToClock t ((1824 : Nat) : Int)).mmu.line = t.mmu.line := rfl
  rw [ac, al] at a
  exact a

/-- One visible scanline of exact lengths, from the start of mode 2. -/
theorem run_scanlineEvents (s : Machine) (hm : s.ppu.mode = 2) (hc : s.ppu.clock = 0) :
    (PPU.run s scanlineEvents).mmu.line = s.mmu.line + 1
    ∧ (PPU.run s scanlineEvents).ppu.mode = (if s.mmu.line + 1 = 144 then 1 else 2)
    ∧ (PPU.run s scanlineEvents).ppu.clock = 0 := by
  obtain ⟨a1, a2, a3⟩ := step_after_320 s (fun _ => 0) hm hc
  obtain ⟨b1, b2, b3⟩ := step_after_688 _ (fun _ => 0) a2 a3
  obtain ⟨c1, c2, c3⟩ := step_after_816 _ (fun _ => 0) b2 b3
  rw [b1, a1] at c1 c2
  unfold scanlineEvents
  simp only [run_cons, run_nil, apply_addToClock, apply_step]
  exact ⟨c1, c2, c3⟩

/-- One line of the vertical blank of exact length. -/
theorem run_vblankLineEvents (s : Machine) (hm : s.ppu.mode = 1) (hc : s.ppu.clock = 0) :
    (PPU.run s vblankLineEvents).mmu.line = (if s.mmu.line + 1 = 154 then 0 else s.mmu.line + 1)
    ∧ (PPU.run s vblankLineEvents).ppu.mode = (if s.mmu.line + 1 = 154 then 2 else 1)
    ∧ (PPU.run s vblankLineEvents).ppu.clock = 0 := by
  unfold vblankLineEvents
  simp only [run_cons, run_nil, apply_addToClock, apply_step]
  exact step_after_1824 s (fun _ => 0) hm hc

theorem run_scanlines (s : Machine) (hm : s.ppu.mode = 2) (hl : s.mmu.line = 0)
    (hc : s.ppu.clock = 0) : ∀ n, n ≤ 144 →
    (PPU.run s (PPUEvent.repeated scanlineEvents n)).mmu.line = n
    ∧ (PPU.run s (PPUEvent.repeated scanlineEvents n)).ppu.mode = (if n = 144 then 1 else 2)
    ∧ (PPU.run s (PPUEvent.repeated scanlineEvents n)).ppu.clock = 0 := by
  intro n
  induction n with
  | zero => intro _; exact ⟨hl, hm, hc⟩
  | succ n ih =>
    intro hn
    obtain ⟨i1, i2, i3⟩ := ih (by omega)
    rw [if_neg (by omega)] at i2
    obtain ⟨a, b, c⟩ := run_scanlineEvents _ i2 i3
    rw [i1] at a b
    show (PPU.run s (PPUEvent.repeated scanlineEvents n ++ scanlineEvents)).mmu.line = n + 1
      ∧ (PPU.run s (PPUEvent.repeated scanlineEvents n ++ scanlineEvents)).ppu.mode
          = (if n + 1 = 144 then 1 else 2)
      ∧ (PPU.run s (PPUEvent.repeated scanlineEvents n ++ scanlineEvents)).ppu.clock = 0
    rw [run_append]
    exact ⟨a, b, c⟩

theorem run_vblankLines (s : Machine) (hm : s.ppu.mode = 1) (hl : s.mmu.line = 144)
    (hc : s.ppu.clock = 0) : ∀ m, m ≤ 10 →
    (PPU.run s (PPUEvent.repeated vblankLineEvents m)).mmu.line = (if m = 10 then 0 else 144 + m)
    ∧ (PPU.run s (PPUEvent.repeated vblankLineEvents m)).ppu.mode = (if m = 10 then 2 else 1)
    ∧ (PPU.run s (PPUEvent.repeated vblankLineEvents m)).ppu.clock = 0 := by
  intro m
  induction m with
  | zero => intro _; exact ⟨hl, hm, hc⟩
  | succ m ih =>
    intro hn
    obtain ⟨i1, i2, i3⟩ := ih (by omega)
    rw [if_neg (by omega)] at i1 i2
    obtain ⟨a, b, c⟩ := run_vblankLineEvents _ i2 i3
    rw [i1] at a b
    show (PPU.run s (PPUEvent.repeated vblankLineEvents m ++ vblankLineEvents)).mmu.line
          = (if m + 1 = 10 then 0 else 144 + (m + 1))
      ∧ (PPU.run s (PPUEvent.repeated vblankLineEvents m ++ vblankLineEvents)).ppu.mode
          = (if m + 1 = 10 then 2 else 1)
      ∧ (PPU.run s (PPUEvent.repeated vblankLineEvents m ++ vblankLineEvents)).ppu.clock = 0
    rw [run_append]
    refine ⟨?_, ?_, c⟩
    · rw [a]; split_ifs <;> omega
    · rw [b]; split_ifs <;> omega

/-- A frame of exact lengths: `m` lines into the vertical blank. -/
theorem run_frameEvents (s : Machine) (hm : s.ppu.mode = 2) (hl : s.mmu.line = 0)
    (hc : s.ppu.clock = 0) (m : Nat) (h : m ≤ 10) :
    (PPU.run s (frameEvents 144 m)).mmu.line = (if m = 10 then 0 else 144 + m)
    ∧ (PPU.run s (frameEvents 144 m)).ppu.mode = (if m = 10 then 2 else 1) := by
  obtain ⟨a, b, c⟩ := run_scanlines s hm hl hc 144 (le_refl _)
  obtain ⟨x, y, -⟩ := run_vblankLines _ b a c m h
  unfold frameEvents
  rw [run_append]
  exact ⟨x, y⟩

theorem readByte_LY (s : Machine) : MMU.readByte s 0xFF44 = s.mmu.line % 256 := by
  unfold MMU.readByte
  rw [if_neg (fun h => absurd h.2 (by decide))]
  rfl

/-- C20: from a machine whose picture unit is in its first state (mode 2, line
0, clock 0), after any finite sequence of calls of `addToClock` with an amount
that is not negative, calls of `step` and writes of the processor to 0xFF44:
the line is at most 153; it is at most 143 in the modes 0, 2 and 3 and from 144
to 153 in mode 1, and the mode is one of the four; a read of 0xFF44 returns the
line; a call of `step` at line 153 leaves the line or, once the clock has
reached 1824, sets the line to 0 and the mode to 2, and at a line below 153 it
leaves the line or adds one to it.  Line 153 and the return to line 0 in mode 2
are reached by a frame in which every mode lasts exactly its length. -/
theorem line_stays_in_range (s : Machine) (es : List PPUEvent)
    (hm : s.ppu.mode = 2) (hl : s.mmu.line = 0) (hc : s.ppu.clock = 0) :
    (PPU.run s es).mmu.line ≤ 153
    ∧ ((PPU.run s es).ppu.mode = 0 ∨ (PPU.run s es).ppu.mode = 2 ∨ (PPU.run s es).ppu.mode = 3 →
        (PPU.run s es).mmu.line ≤ 143)
    ∧ ((PPU.run s es).ppu.mode = 1 →
        144 ≤ (PPU.run s es).mmu.line ∧ (PPU.run s es).mmu.line ≤ 153)
    ∧ ((PPU.run s es).ppu.mode = 0 ∨ (PPU.run s es).ppu.mode = 1 ∨ (PPU.run s es).ppu.mode = 2
        ∨ (PPU.run s es).ppu.mode = 3)
    ∧ MMU.readByte (PPU.run s es) 0xFF44 = (PPU.run s es).mmu.line
    ∧ (∀ scanRow, (PPU.run s es).mmu.line = 153 →
        (1824 ≤ (PPU.run s es).ppu.clock →
          (PPU.step (PPU.run s es) scanRow).mmu.line = 0
          ∧ (PPU.step (PPU.run s es) scanRow).ppu.mode = 2)
        ∧ ((PPU.run s es).ppu.clock < 1824 →
          (PPU.step (PPU.run s es) scanRow).mmu.line = 153
          ∧ (PPU.step (PPU.run s es) scanRow).ppu.mode = 1))
    ∧ (∀ scanRow, (PPU.run s es).mmu.line < 153 →
        (PPU.step (PPU.run s es) scanRow).mmu.line = (PPU.run s es).mmu.line
        ∨ (PPU.step (PPU.run s es) scanRow).mmu.line = (PPU.run s es).mmu.line + 1)
    ∧ (PPU.run s (frameEvents 144 9)).mmu.line = 153
    ∧ (PPU.run s (frameEvents 144 9)).ppu.mode = 1
    ∧ (PPU.run s (frameEvents 144 10)).mmu.line = 0
    ∧ (PPU.run s (frameEvents 144 10)).ppu.mode = 2 := by
  have inv : LineInRange (PPU.run s es) :=
    run_lineInRange es s (Or.inl ⟨Or.inr (Or.inl hm), by omega⟩)
  obtain ⟨f1, f2⟩ := run_frameEvents s hm hl hc 9 (by decide)
  obtain ⟨g1, g2⟩ := run_frameEvents s hm hl hc 10 (by decide)
  refine ⟨?_, ?_, ?_, ?_, ?_, ?_, ?_, f1, f2, g1, g2⟩
  · rcases inv with ⟨-, h⟩ | ⟨-, -, h⟩ <;> omega
  · intro h
    rcases inv with ⟨-, h'⟩ | ⟨h', -, -⟩ <;> omega
  · intro h
    rcases inv with ⟨h', -⟩ | ⟨-, h'⟩
    · omega
    · exact h'
  · rcases inv with ⟨h, -⟩ | ⟨h, -, -⟩ <;> omega
  · rw [readByte_LY]
    rcases inv with ⟨-, h⟩ | ⟨-, -, h⟩ <;> omega
  · intro scanRow h153
    have h1 : (PPU.run s es).ppu.mode = 1 := by
      rcases inv with ⟨-, h⟩ | ⟨h, -, -⟩
      · omega
      · exact h
    obtain ⟨a, b, -⟩ := (step_line_mode_clock (PPU.run s es) scanRow).2.2.2.1 h1
    rw [a, b, h153]
    constructor
    · intro hge
      rw [if_pos hge, if_pos hge]
      exact ⟨rfl, rfl⟩
    · intro hlt
      rw [if_neg (by omega), if_neg (by omega)]
      exact ⟨rfl, rfl⟩
  · intro scanRow hlt
    obtain ⟨h2, h3, h0, h1, -⟩ := step_line_mode_clock (PPU.run s es) scanRow
    rcases inv with ⟨h | h | h, -⟩ | ⟨h, -, -⟩
    · rw [(h0 h).1]; split_ifs <;> simp
    · rw [(h2 h).1]; simp
    · rw [(h3 h).1]; simp
    · rw [(h1 h).1]; split_ifs <;> omega

/-- C20, witness: the machine at reset, one mode 2 of exact length, a step and
a write of 0x99 to 0xFF44. -/
theorem line_stays_in_range_witness :
    ({} : Machine).ppu.mode = 2 ∧ ({} : Machine).mmu.line = 0 ∧ ({} : Machine).ppu.clock = 0
    ∧ (PPU.run {} [.addToClock 320, .step (fun _ => 0), .writeLY 0x99]).mmu.line ≤ 153
    ∧ (PPU.run {} (frameEvents 144 10)).mmu.line = 0 :=
  ⟨rfl, rfl, rfl,
    (line_stays_in_range {} [.addToClock 320, .step (fun _ => 0), .writeLY 0x99] rfl rfl rfl).1,
    (line_stays_in_range {} [.addToClock 320, .step (fun _ => 0), .writeLY 0x99]
      rfl rfl rfl).2.2.2.2.2.2.2.2.2.1⟩

/-! ## C21 -/

theorem or_and_mask (a b k : Nat) : (a ||| b) &&& k = (a &&& k) ||| (b &&& k) := by
  rw [Nat.and_comm, Nat.and_or_distrib_left, Nat.and_comm k a, Nat.and_comm k b]

theorem stat_bits_mode1 (x : Nat) : ((x &&& 0xFC) ||| 0x01) &&& 0x3 = 1 := by
  have e : (0xFC &&& 0x3 : Nat) = 0 := rfl
  rw [or_and_mask, Nat.and_assoc, e, Nat.and_zero]
  rfl

theorem stat_bits_mode3 (x : Nat) : (x ||| 0x03) &&& 0x3 = 3 := by
  apply Nat.eq_of_testBit_eq
  intro i
  rw [Nat.testBit_and, Nat.testBit_or]
  cases (3 : Nat).testBit i <;> simp

theorem stat_bits_mode0 (x : Nat) : (x &&& 0xFC) &&& 0x3 = 0 := by
  have e : (0xFC &&& 0x3 : Nat) = 0 := rfl
  rw [Nat.and_assoc, e, Nat.and_zero]

theorem stat_bits_or_4 (x : Nat) : (x ||| 0x4) &&& 0x3 = x &&& 0x3 := by
  rw [or_and_mask]
  exact Nat.or_zero _

theorem stat_bits_and_FB (x : Nat) : (x &&& 0xFB) &&& 0x3 = x &&& 0x3 := by
  rw [Nat.and_assoc]
  rfl

/-- The two low bits of STAT after `setLCDStatus`. -/
theorem setLCDStatus_mode_bits (s : Machine) :
    (PPU.setLCDStatus s).mmu.lcdStatRegister &&& 0x3 = statModeBits s.mmu.line s.ppu.clock := by
  unfold PPU.setLCDStatus statModeBits
  dsimp only
  split_ifs <;>
    simp only [stat_bits_or_4, stat_bits_and_FB, stat_bits_mode1, stat_bits_mode3, stat_bits_mode0] <;>
    omega

theorem step_lcdStatRegister (s : Machine) (scanRow : Nat → Nat) :
    (PPU.step s scanRow).mmu.lcdStatRegister = (PPU.setLCDStatus s).mmu.lcdStatRegister := by
  obtain ⟨-, -, rmmu⟩ := renderScan_keeps (PPU.setLCDStatus s) scanRow
  unfold PPU.step PPU.renderImage
  dsimp only
  split_ifs <;> simp only [rmmu]

theorem readByte_STAT (s : Machine) : MMU.readByte s 0xFF41 = s.mmu.lcdStatRegister := by
  unfold MMU.readByte
  rw [if_neg (fun h => absurd h.2 (by decide))]
  rfl

theorem statModeBits_ne_two (line : Nat) (clock : Int) : statModeBits line clock ≠ 2 := by
  unfold statModeBits
  split_ifs <;> decide

/-- C21 (the code departs from the claim): after `step`, the two low bits of
STAT, as read at 0xFF41, are what `setLCDStatus` derived from the line and the
clock before the mode switch: 1 from line 144 on or with a clock of 1504 or
more, 3 with a clock of 816 or more, and 0 otherwise; they are never 2.  In
particular a `step` in mode 2 on a visible line with a clock below 320 leaves
mode 2 and the bits 0. -/
theorem stat_mode_bits_follow_clock (s : Machine) (scanRow : Nat → Nat)
    (hm : s.ppu.mode = 2) (hl : s.mmu.line < 144) (hc : s.ppu.clock < 320) :
    (PPU.step s scanRow).ppu.mode = 2
    ∧ MMU.readByte (PPU.step s scanRow) 0xFF41 &&& 0x3 = 0
    ∧ (∀ t r, MMU.readByte (PPU.step t r) 0xFF41 &&& 0x3 = statModeBits t.mmu.line t.ppu.clock)
    ∧ (∀ t r, MMU.readByte (PPU.step t r) 0xFF41 &&& 0x3 ≠ 2) := by
  have bits : ∀ t r, MMU.readByte (PPU.step t r) 0xFF41 &&& 0x3
      = statModeBits t.mmu.line t.ppu.clock := by
    intro t r
    rw [readByte_STAT, step_lcdStatRegister, setLCDStatus_mode_bits]
  refine ⟨?_, ?_, bits, ?_⟩
  · rw [((step_line_mode_clock s scanRow).1 hm).2.1, if_neg (by omega)]
  · rw [bits]
    unfold statModeBits
    rw [if_neg (by omega), if_neg (by omega), if_neg (by omega)]
  · intro t r
    rw [bits]
    exact statModeBits_ne_two _ _

/-- C21, the failing input: from the machine at reset, `addToClock(4)` and
`step` leave mode 2 and the low bits of STAT 0. -/
theorem stat_mode_bits_follow_clock_witness :
    (PPU.addToClock {} 4).ppu.mode = 2 ∧ (PPU.addToClock {} 4).mmu.line < 144
    ∧ (PPU.addToClock {} 4).ppu.clock < 320
    ∧ (PPU.step (PPU.addToClock {} 4) (fun _ => 0)).ppu.mode = 2
    ∧ MMU.readByte (PPU.step (PPU.addToClock {} 4) (fun _ => 0)) 0xFF41 &&& 0x3 = 0 :=
  have h := stat_mode_bits_follow_clock (PPU.addToClock {} 4) (fun _ => 0) rfl (by decide) (by decide)
  ⟨rfl, by decide, by decide, h.1, h.2.1⟩

/-! ## C22 -/

/-- What one pass of at most 24 cycles does to a well-timed picture unit. -/
theorem pass_wellTimed (s : Machine) (p : Nat × (Nat → Nat)) (h : PPU.WellTimed s)
    (hc : p.1 ≤ 24) :
    PPU.WellTimed (PPU.pass s p)
    ∧ PPU.framePosition (PPU.pass s p)
        = PPU.framePosition s + (p.1 : Int) - (if PPU.wraps s p = true then 280896 else 0)
    ∧ (PPU.wraps s p = true ↔ PPU.framePosition s + (p.1 : Int) ≥ 280896)
    ∧ (PPU.wraps s p = true →
        (PPU.pass s p).ppu.mode = 2 ∧ (PPU.pass s p).mmu.line = 0
        ∧ (PPU.pass s p).ppu.clock < 24) := by
  obtain ⟨h2, h3, h0, h1, -⟩ := step_line_mode_clock (PPU.addToClock s (p.1 : Int)) p.2
  have em : (PPU.addToClock s (p.1 : Int)).ppu.mode = s.ppu.mode := rfl
  have ec : (PPU.addToClock s (p.1 : Int)).ppu.clock = s.ppu.clock + (p.1 : Int) := rfl
  have el : (PPU.addToClock s (p.1 : Int)).mmu.line = s.mmu.line := rfl
  rw [em, ec, el] at h2 h3 h0 h1
  obtain ⟨hin, hc0, hc1⟩ := h
  unfold PPU.WellTimed LineInRange PPU.framePosition PPU.wraps
  have hp : PPU.pass s p = PPU.step (PPU.addToClock s (p.1 : Int)) p.2 := rfl
  rw [hp]
  simp only [decide_eq_true_eq]
  unfold LineInRange at hin
  rcases hin with ⟨hm | hm | hm, hl⟩ | ⟨hm, hl, hl'⟩
  · obtain ⟨a, b, c⟩ := h0 hm
    generalize (PPU.step (PPU.addToClock s (p.1 : Int)) p.2).mmu.line = L at a ⊢
    generalize (PPU.step (PPU.addToClock s (p.1 : Int)) p.2).ppu.mode = M at b ⊢
    generalize (PPU.step (PPU.addToClock s (p.1 : Int)) p.2).ppu.clock = C at c ⊢
    rw [hm] at hc1 ⊢
    try simp at hc1
    split_ifs at a b c <;> subst a b c <;> simp <;> omega
  · obtain ⟨a, b, c⟩ := h2 hm
    generalize (PPU.step (PPU.addToClock s (p.1 : Int)) p.2).mmu.line = L at a ⊢
    generalize (PPU.step (PPU.addToClock s (p.1 : Int)) p.2).ppu.mode = M at b ⊢
    generalize (PPU.step (PPU.addToClock s (p.1 : Int)) p.2).ppu.clock = C at c ⊢
    rw [hm] at hc1 ⊢
    try simp at hc1
    split_ifs at a b c <;> subst a b c <;> simp <;> omega
  · obtain ⟨a, b, c⟩ := h3 hm
    generalize (PPU.step (PPU.addToClock s (p.1 : Int)) p.2).mmu.line = L at a ⊢
    generalize (PPU.step (PPU.addToClock s (p.1 : Int)) p.2).ppu.mode = M at b ⊢
    generalize (PPU.step (PPU.addToClock s (p.1 : Int)) p.2).ppu.clock = C at c ⊢
    rw [hm] at hc1 ⊢
    try simp at hc1
    split_ifs at a b c <;> subst a b c <;> simp <;> omega
  · obtain ⟨a, b, c⟩ := h1 hm
    generalize (PPU.step (PPU.addToClock s (p.1 : Int)) p.2).mmu.line = L at a ⊢
    generalize (PPU.step (PPU.addToClock s (p.1 : Int)) p.2).ppu.mode = M at b ⊢
    generalize (PPU.step (PPU.addToClock s (p.1 : Int)) p.2).ppu.clock = C at c ⊢
    rw [hm] at hc1 ⊢
    try simp at hc1
    split_ifs at a b c <;> subst a b c <;> simp <;> omega

theorem framePosition_bounds (s : Machine) (h : PPU.WellTimed s) :
    0 ≤ PPU.framePosition s ∧ PPU.framePosition s < 280896 := by
  obtain ⟨hin, hc0, hc1⟩ := h
  unfold PPU.framePosition
  unfold LineInRange at hin
  rcases hin with ⟨hm | hm | hm, hl⟩ | ⟨hm, hl, hl'⟩ <;>
    · rw [hm] at hc1 ⊢
      simp at hc1 ⊢
      omega

theorem passes_nil (s : Machine) : PPU.passes s [] = s := rfl

theorem passes_cons (s : Machine) (p : Nat × (Nat → Nat)) (ps : List (Nat × (Nat → Nat))) :
    PPU.passes s (p :: ps) = PPU.passes (PPU.pass s p) ps := rfl

theorem passes_append (s : Machine) (ps qs : List (Nat × (Nat → Nat))) :
    PPU.passes s (ps ++ qs) = PPU.passes (PPU.passes s ps) qs := List.foldl_append _ _ _ _

theorem cyclesOf_cons (p : Nat × (Nat → Nat)) (ps : List (Nat × (Nat → Nat))) :
    PPU.cyclesOf (p :: ps) = p.1 + PPU.cyclesOf ps := by
  unfold PPU.cyclesOf
  rw [List.map_cons, List.sum_cons]

theorem cyclesOf_append (ps qs : List (Nat × (Nat → Nat))) :
    PPU.cyclesOf (ps ++ qs) = PPU.cyclesOf ps + PPU.cyclesOf qs := by
  unfold PPU.cyclesOf
  rw [List.map_append, List.sum_append]

theorem cyclesOf_replicate (n : Nat) (p : Nat × (Nat → Nat)) :
    PPU.cyclesOf (List.replicate n p) = n * p.1 := by
  unfold PPU.cyclesOf
  rw [List.map_replicate, List.sum_replicate, smul_eq_mul]

/-- The account of a sequence of passes of at most 24 cycles each: the cycles
go to the position in the frame, 280896 of them for each wrap of the line. -/
theorem passes_wellTimed (ps : List (Nat × (Nat → Nat))) : ∀ (s : Machine),
    PPU.WellTimed s → (∀ q ∈ ps, q.1 ≤ 24) →
    PPU.WellTimed (PPU.passes s ps)
    ∧ PPU.framePosition (PPU.passes s ps) + 280896 * (PPU.wrapCount s ps : Int)
        = PPU.framePosition s + (PPU.cyclesOf ps : Int) := by
  induction ps with
  | nil =>
    intro s h _
    refine ⟨h, ?_⟩
    show PPU.framePosition s + 280896 * ((0 : Nat) : Int) = PPU.framePosition s + ((0 : Nat) : Int)
    omega
  | cons p ps ih =>
    intro s h hq
    obtain ⟨w, e, -, -⟩ := pass_wellTimed s p h (hq p (List.mem_cons_self _ _))
    obtain ⟨w', e'⟩ := ih (PPU.pass s p) w (fun q hq' => hq q (List.mem_cons_of_mem _ hq'))
    rw [passes_cons, cyclesOf_cons]
    refine ⟨w', ?_⟩
    have ec : PPU.wrapCount s (p :: ps)
        = (if PPU.wraps s p = true then 1 else 0) + PPU.wrapCount (PPU.pass s p) ps := rfl
    rw [ec]
    split_ifs at e ⊢ <;> push_cast <;> omega

/-- A run of `n` passes of 4 cycles from the start of a frame, short of a whole frame. -/
theorem passes_of_four (s : Machine) (f : Nat → Nat) (n : Nat) (hm : s.ppu.mode = 2)
    (hl : s.mmu.line = 0) (hc : s.ppu.clock = 0) (hn : n < 70224) :
    PPU.WellTimed (PPU.passes s (List.replicate n (4, f)))
    ∧ PPU.wrapCount s (List.replicate n (4, f)) = 0
    ∧ PPU.framePosition (PPU.passes s (List.replicate n (4, f))) = 4 * (n : Int) := by
  have hs : PPU.WellTimed s := by
    refine ⟨Or.inl ⟨Or.inr (Or.inl hm), by omega⟩, by omega, ?_⟩
    rw [hm, hc]
    decide
  have h0 : PPU.framePosition s = 0 := by
    unfold PPU.framePosition
    rw [hm, hl, hc]
    rfl
  obtain ⟨w, e⟩ := passes_wellTimed (List.replicate n (4, f)) s hs
    (fun q hq => by rw [List.eq_of_mem_replicate hq]; show (4 : Nat) ≤ 24; omega)
  obtain ⟨b0, b1⟩ := framePosition_bounds _ w
  rw [cyclesOf_replicate, h0] at e
  push_cast at e
  refine ⟨w, ?_, ?_⟩ <;> omega

theorem four_cycle_passes_le (n : Nat) (f : Nat → Nat) :
    ∀ q ∈ List.replicate n (4, f) ++ [(4, f)], q.1 ≤ 24 := by
  intro q hq
  rcases List.mem_append.mp hq with h | h
  · rw [List.eq_of_mem_replicate h]
    show (4 : Nat) ≤ 24
    omega
  · rw [List.mem_singleton.mp h]
    show (4 : Nat) ≤ 24
    omega

/-- The pass that follows 70223 passes of 4 cycles from the start of a frame
takes the line from 153 to 0. -/
theorem wraps_after_70223 (s : Machine) (f : Nat → Nat) (hm : s.ppu.mode = 2)
    (hl : s.mmu.line = 0) (hc : s.ppu.clock = 0) :
    PPU.wraps (PPU.passes s (List.replicate 70223 (4, f))) (4, f) = true := by
  obtain ⟨w, -, e⟩ := passes_of_four s f 70223 hm hl hc (by omega)
  have h := (pass_wellTimed _ (4, f) w (by show (4 : Nat) ≤ 24; omega)).2.2.1
  rw [h, e]
  show (4 : Int) * ((70223 : Nat) : Int) + ((4 : Nat) : Int) ≥ 280896
  omega

/-- C22 (amended: 280896 in place of 70224): from the start of a frame (mode 2,
line 0, a clock from 0 to 23), after passes of the loop of at most 24 cycles
each, the last of which is the first to take the line from 153 to 0, the
cycles of the passes are 280896 (154 lines of 1824 cycles) less the clock at
the start plus the clock at the end, so within 24 of 280896; the picture unit
is then again in mode 2 on line 0 with a clock from 0 to 23. -/
theorem frame_cycles_between_wraps (s : Machine) (ps : List (Nat × (Nat → Nat)))
    (p : Nat × (Nat → Nat)) (hm : s.ppu.mode = 2) (hl : s.mmu.line = 0)
    (hc0 : 0 ≤ s.ppu.clock) (hc1 : s.ppu.clock < 24) (hcs : ∀ q ∈ ps ++ [p], q.1 ≤ 24)
    (hno : PPU.wrapCount s ps = 0) (hw : PPU.wraps (PPU.passes s ps) p = true) :
    280896 - 24 < PPU.cyclesOf (ps ++ [p]) ∧ PPU.cyclesOf (ps ++ [p]) < 280896 + 24
    ∧ (PPU.cyclesOf (ps ++ [p]) : Int)
        = 280896 - s.ppu.clock + (PPU.passes s (ps ++ [p])).ppu.clock
    ∧ (PPU.passes s (ps ++ [p])).ppu.mode = 2 ∧ (PPU.passes s (ps ++ [p])).mmu.line = 0
    ∧ 0 ≤ (PPU.passes s (ps ++ [p])).ppu.clock ∧ (PPU.passes s (ps ++ [p])).ppu.clock < 24 := by
  have hs : PPU.WellTimed s := by
    refine ⟨Or.inl ⟨Or.inr (Or.inl hm), by omega⟩, hc0, ?_⟩
    rw [hm]
    simp only [if_pos]
    omega
  have h0 : PPU.framePosition s = s.ppu.clock := by
    unfold PPU.framePosition
    rw [hm, hl]
    simp
  obtain ⟨w, e⟩ := passes_wellTimed ps s hs (fun q hq => hcs q (List.mem_append_left _ hq))
  obtain ⟨w2, e2, -, post⟩ := pass_wellTimed (PPU.passes s ps) p w
    (hcs p (List.mem_append_right _ (List.mem_singleton_self _)))
  obtain ⟨pm, pl, pc⟩ := post hw
  have hlast : PPU.passes s (ps ++ [p]) = PPU.pass (PPU.passes s ps) p := by
    rw [passes_append, passes_cons, passes_nil]
  have h1 : PPU.framePosition (PPU.pass (PPU.passes s ps) p)
      = (PPU.pass (PPU.passes s ps) p).ppu.clock := by
    unfold PPU.framePosition
    rw [pm, pl]
    simp
  have hcy : PPU.cyclesOf (ps ++ [p]) = PPU.cyclesOf ps + p.1 := by
    rw [cyclesOf_append, cyclesOf_cons]
    rfl
  rw [hlast, hcy]
  rw [if_pos hw, h1] at e2
  rw [hno, h0] at e
  have hnn := w2.2.1
  push_cast at e ⊢
  refine ⟨?_, ?_, ?_, pm, pl, hnn, pc⟩ <;> omega

/-- C22, counterexample: from the machine at reset, with passes of 4 cycles
each, the 70224th pass is the first to take the line from 153 to 0: the frame
takes 280896 cycles, not 70224 give or take 24. -/
theorem frame_of_four_cycle_passes :
    PPU.wrapCount {} (List.replicate 70223 (4, fun _ => 0)) = 0
    ∧ PPU.wraps (PPU.passes {} (List.replicate 70223 (4, fun _ => 0))) (4, fun _ => 0) = true
    ∧ PPU.cyclesOf (List.replicate 70223 (4, fun _ => 0) ++ [(4, fun _ => 0)]) = 280896
    ∧ 70224 + 24 < 280896 :=
  ⟨(passes_of_four {} (fun _ => 0) 70223 rfl rfl rfl (by omega)).2.1,
    wraps_after_70223 {} (fun _ => 0) rfl rfl rfl,
    by rw [cyclesOf_append, cyclesOf_replicate, cyclesOf_cons]; rfl,
    by omega⟩

/-- C22, witness: the machine at reset and 70224 passes of 4 cycles. -/
theorem frame_cycles_between_wraps_witness :
    ({} : Machine).ppu.mode = 2 ∧ ({} : Machine).mmu.line = 0
    ∧ 280896 - 24 < PPU.cyclesOf (List.replicate 70223 (4, fun _ => 1) ++ [(4, fun _ => 1)])
    ∧ PPU.cyclesOf (List.replicate 70223 (4, fun _ => 1) ++ [(4, fun _ => 1)]) < 280896 + 24
    ∧ (PPU.passes {} (List.replicate 70223 (4, fun _ => 1) ++ [(4, fun _ => 1)])).mmu.line = 0 :=
  have h := frame_cycles_between_wraps {} (List.replicate 70223 (4, fun _ => 1)) (4, fun _ => 1)
    rfl rfl (by decide) (by decide) (four_cycle_passes_le 70223 (fun _ => 1))
    (passes_of_four {} (fun _ => 1) 70223 rfl rfl rfl (by omega)).2.1
    (wraps_after_70223 {} (fun _ => 1) rfl rfl rfl)
  ⟨rfl, rfl, h.1, h.2.1, h.2.2.2.2.1⟩

/-! ## C23 -/

theorem putPixel_white (fb : Nat → Nat) (off : Nat) (colour : Nat → Nat)
    (h : ∀ k, k < 4 → colour k = 255) (i : Nat) :
    PPU.putPixel fb off colour i = if off ≤ i ∧ i < off + 4 then 255 else fb i := by
  unfold PPU.putPixel
  rw [h 0 (by omega), h 1 (by omega), h 2 (by omega), h 3 (by omega)]
  split_ifs <;> first | rfl | omega

/-- A loop over the columns that writes a white pixel at each. -/
theorem foldl_white_pixels (F : (Nat → Nat) × (Nat → Nat) → Nat → (Nat → Nat) × (Nat → Nat))
    (base N : Nat)
    (hF : ∀ acc col, col < N → ∀ i,
      (F acc col).1 i = if base + 4 * col ≤ i ∧ i < base + 4 * col + 4 then 255 else acc.1 i) :
    ∀ n, n ≤ N → ∀ r i, ((List.range n).foldl F r).1 i
      = if base ≤ i ∧ i < base + 4 * n then 255 else r.1 i := by
  intro n
  induction n with
  | zero =>
    intro _ r i
    rw [List.range_zero, List.foldl_nil, if_neg (by omega)]
  | succ n ih =>
    intro hn r i
    rw [List.range_succ, List.foldl_append, List.foldl_cons, List.foldl_nil,
      hF _ n (by omega) i, ih (by omega) r i]
    split_ifs <;> first | rfl | omega

/-- The background of one line under the white setup. -/
theorem renderBackground_white (s : Machine) (hw : WhiteSetup s) (r : (Nat → Nat) × (Nat → Nat))
    (i : Nat) :
    (PPU.renderBackground s r).1 i
      = if s.mmu.line * 160 * 4 ≤ i ∧ i < s.mmu.line * 160 * 4 + 4 * 160 then 255 else r.1 i := by
  obtain ⟨-, -, -, -, hpal, hmem, htile⟩ := hw
  unfold PPU.renderBackground
  refine foldl_white_pixels _ (s.mmu.line * 160 * 4) 160 ?_ 160 (le_refl _) r i
  intro acc col hcol j
  dsimp only
  apply putPixel_white
  intro k hk
  have haddr : ∀ m, (m = 0x9C00 ∨ m = 0x9800) →
      MMU.readByte s ((m + ((s.mmu.scrollY + s.mmu.line) % 256 / 8 * 32
        + (s.mmu.scrollX + col) % 256 / 8) % 65536) % 65536) = 0 := by
    intro m hm
    have h1 : (s.mmu.scrollY + s.mmu.line) % 256 / 8 < 32 := by omega
    have h2 : (s.mmu.scrollX + col) % 256 / 8 < 32 := by omega
    rw [readByte_vram _ _ (by omega) (by omega)]
    exact hmem _ (by omega) (by omega)
  have hmap : MMU.readByte s (((if s.mmu.bgMap = true then 0x9C00 else 0x9800)
      + ((s.mmu.scrollY + s.mmu.line) % 256 / 8 * 32
        + (s.mmu.scrollX + col) % 256 / 8) % 65536) % 65536) = 0 := by
    split_ifs
    · exact haddr _ (Or.inl rfl)
    · exact haddr _ (Or.inr rfl)
  rw [hmap]
  have ht : ∀ t, (t = 0 ∨ t = 256) → s.mmu.tileSet t ((s.mmu.scrollY + s.mmu.line) % 256 % 8)
      ((s.mmu.scrollX + col) % 256 % 8) = 0 := by
    intro t ht
    exact htile _ _ _ (by omega) (by omega) (by omega)
  split_ifs
  · rw [ht _ (Or.inr rfl)]
    exact hpal k hk
  · rw [ht _ (Or.inl rfl)]
    exact hpal k hk

/-- One scanline under the white setup: row `line` of the frame buffer
becomes white and no other byte changes. -/
theorem renderScan_white (s : Machine) (hw : WhiteSetup s) (scanRow : Nat → Nat) (i : Nat) :
    (PPU.renderScan s scanRow).ppu.frameBuffer i
      = if 640 * s.mmu.line ≤ i ∧ i < 640 * s.mmu.line + 640 then 255 else s.ppu.frameBuffer i := by
  have hb := renderBackground_white s hw (s.ppu.frameBuffer, scanRow) i
  obtain ⟨h1, h2, h3, h4, -⟩ := hw
  unfold PPU.renderScan
  rw [if_neg (not_not.mpr h1)]
  dsimp only
  have n3 : ¬ s.mmu.switchWindow = true := by rw [h3]; decide
  have n4 : ¬ s.mmu.switchOBJ = true := by rw [h4]; decide
  rw [if_neg n4, if_neg n3, if_pos h2, hb]
  split_ifs <;> first | rfl | omega

theorem whiteSetup_of_fields (s t : Machine) (hw : WhiteSetup s)
    (h1 : t.mmu.switchLCD = s.mmu.switchLCD) (h2 : t.mmu.switchBG = s.mmu.switchBG)
    (h3 : t.mmu.switchWindow = s.mmu.switchWindow) (h4 : t.mmu.switchOBJ = s.mmu.switchOBJ)
    (h5 : t.mmu.palette = s.mmu.palette)
    (h6 : ∀ a, 0x8000 ≤ a → a ≤ 0x9FFF → t.mmu.memory a = s.mmu.memory a)
    (h7 : t.mmu.tileSet = s.mmu.tileSet) : WhiteSetup t := by
  obtain ⟨a1, a2, a3, a4, a5, a6, a7⟩ := hw
  refine ⟨h1.trans a1, h2.trans a2, h3.trans a3, h4.trans a4, ?_, ?_, ?_⟩
  · rw [h5]; exact a5
  · intro a b0 b1
    rw [h6 a b0 b1]
    exact a6 a b0 b1
  · rw [h7]; exact a7

theorem setLCDStatus_video (s : Machine) :
    (PPU.setLCDStatus s).mmu.switchLCD = s.mmu.switchLCD
    ∧ (PPU.setLCDStatus s).mmu.switchBG = s.mmu.switchBG
    ∧ (PPU.setLCDStatus s).mmu.switchWindow = s.mmu.switchWindow
    ∧ (PPU.setLCDStatus s).mmu.switchOBJ = s.mmu.switchOBJ
    ∧ (PPU.setLCDStatus s).mmu.palette = s.mmu.palette
    ∧ (PPU.setLCDStatus s).mmu.memory = s.mmu.memory
    ∧ (PPU.setLCDStatus s).mmu.tileSet = s.mmu.tileSet := by
  unfold PPU.setLCDStatus
  dsimp only
  split_ifs <;> exact ⟨rfl, rfl, rfl, rfl, rfl, rfl, rfl⟩

theorem step_video (s : Machine) (scanRow : Nat → Nat) :
    (PPU.step s scanRow).mmu.switchLCD = s.mmu.switchLCD
    ∧ (PPU.step s scanRow).mmu.switchBG = s.mmu.switchBG
    ∧ (PPU.step s scanRow).mmu.switchWindow = s.mmu.switchWindow
    ∧ (PPU.step s scanRow).mmu.switchOBJ = s.mmu.switchOBJ
    ∧ (PPU.step s scanRow).mmu.palette = s.mmu.palette
    ∧ (PPU.step s scanRow).mmu.memory = s.mmu.memory
    ∧ (PPU.step s scanRow).mmu.tileSet = s.mmu.tileSet := by
  obtain ⟨v1, v2, v3, v4, v5, v6, v7⟩ := setLCDStatus_video s
  obtain ⟨-, -, rmmu⟩ := renderScan_keeps (PPU.setLCDStatus s) scanRow
  unfold PPU.step PPU.renderImage
  dsimp only
  split_ifs <;> (try simp only [rmmu]) <;> exact ⟨v1, v2, v3, v4, v5, v6, v7⟩

/-- The frame buffer after `step`: a scanline is rendered when mode 0 ends. -/
theorem step_frameBuffer (s : Machine) (scanRow : Nat → Nat) :
    (PPU.step s scanRow).ppu.frameBuffer
      = if s.ppu.mode = 0 ∧ s.ppu.clock ≥ 816 then
          (PPU.renderScan (PPU.setLCDStatus s) scanRow).ppu.frameBuffer
        else s.ppu.frameBuffer := by
  obtain ⟨hp, -⟩ := setLCDStatus_keeps s
  obtain ⟨rm, rc, -⟩ := renderScan_keeps (PPU.setLCDStatus s) scanRow
  unfold PPU.step PPU.renderImage
  simp only [hp, rc]
  split_ifs <;> first | rfl | omega | rw [hp]

theorem step_whiteSetup (s : Machine) (scanRow : Nat → Nat) (hw : WhiteSetup s) :
    WhiteSetup (PPU.step s scanRow) := by
  obtain ⟨v1, v2, v3, v4, v5, v6, v7⟩ := step_video s scanRow
  exact whiteSetup_of_fields s _ hw v1 v2 v3 v4 v5 (fun a _ _ => by rw [v6]) v7

theorem setLCDStatus_whiteSetup (s : Machine) (hw : WhiteSetup s) :
    WhiteSetup (PPU.setLCDStatus s) := by
  obtain ⟨v1, v2, v3, v4, v5, v6, v7⟩ := setLCDStatus_video s
  exact whiteSetup_of_fields s _ hw v1 v2 v3 v4 v5 (fun a _ _ => by rw [v6]) v7

theorem step_whiteAbove (s : Machine) (scanRow : Nat → Nat) (hw : WhiteSetup s)
    (hin : LineInRange s) (ha : WhiteAbove s) : WhiteAbove (PPU.step s scanRow) := by
  obtain ⟨h2, h3, h0, h1, -⟩ := step_line_mode_clock s scanRow
  obtain ⟨hp, hl⟩ := setLCDStatus_keeps s
  have hfb := step_frameBuffer s scanRow
  have hr := renderScan_white _ (setLCDStatus_whiteSetup s hw) scanRow
  rw [hl, hp] at hr
  unfold WhiteAbove at ha ⊢
  unfold LineInRange at hin
  intro i hi hi'
  rw [hfb]
  rcases hin with ⟨hm | hm | hm, hle⟩ | ⟨hm, hle, hle'⟩
  · rw [(h0 hm).1] at hi
    by_cases hc : s.ppu.clock ≥ 816
    · rw [if_pos ⟨hm, hc⟩, hr]
      rw [if_pos hc] at hi
      split_ifs
      · rfl
      · exact ha i (by omega) hi'
    · rw [if_neg (fun h => hc h.2)]
      rw [if_neg hc] at hi
      exact ha i hi hi'
  · rw [(h2 hm).1] at hi
    rw [if_neg (fun h => by omega)]
    exact ha i hi hi'
  · rw [(h3 hm).1] at hi
    rw [if_neg (fun h => by omega)]
    exact ha i hi hi'
  · rw [(h1 hm).1] at hi
    rw [if_neg (fun h => by omega)]
    exact ha i (by omega) hi'

theorem writeByte_LY_eq (s : Machine) (v : Nat) :
    MMU.writeByte s 0xFF44 v = MMU.storeMemory s 0xFF44 v := rfl

/-- The white setup, the place of the line and the white rows above the line
are kept by every event. -/
theorem run_white (es : List PPUEvent) : ∀ (s : Machine),
    WhiteSetup s → LineInRange s → WhiteAbove s →
    WhiteSetup (PPU.run s es) ∧ LineInRange (PPU.run s es) ∧ WhiteAbove (PPU.run s es) := by
  induction es with
  | nil => intro s a b c; exact ⟨a, b, c⟩
  | cons e es ih =>
    intro s a b c
    rw [run_cons]
    refine ih _ ?_ (apply_lineInRange s e b) ?_
    · cases e with
      | addToClock k => exact a
      | step scanRow => exact step_whiteSetup s scanRow a
      | writeLY v =>
        rw [PPUEvent.apply, writeByte_LY_eq]
        refine whiteSetup_of_fields s _ a rfl rfl rfl rfl rfl (fun x x0 x1 => ?_) rfl
        rw [storeMemory_memory, if_neg (by omega)]
    · cases e with
      | addToClock k => exact c
      | step scanRow => exact step_whiteAbove s scanRow a b c
      | writeLY v => exact c

theorem whiteSetup_of_writes (s : Machine)
    (hmem : ∀ a, 0x8000 ≤ a → a ≤ 0x9FFF → s.mmu.memory a = 0)
    (htile : ∀ t y x, t < 384 → y < 8 → x < 8 → s.mmu.tileSet t y x = 0) :
    WhiteSetup (MMU.writes s [(0xFF40, 0x91), (0xFF47, 0xE4)]) := by
  refine ⟨rfl, rfl, rfl, rfl, ?_, hmem, htile⟩
  intro k hk
  interval_cases k <;> rfl

/-- C23: under LCDC = 0x91 and BGP = 0xE4 over a video RAM and a tile cache of
zeros (which the two register writes set up), for every line, scroll position
and contents of `scanRow`, `renderScan` writes 255 to the 640 bytes of row
`line` of the frame buffer and changes no other byte; hence, from mode 2 on
line 0, after any sequence of `addToClock`, `step` and writes to 0xFF44 that
has brought the line to 144 or beyond, all 92160 bytes of the frame buffer are
255, and a frame in which every mode lasts exactly its length does bring the
line to 144. -/
theorem white_background_frame (s : Machine) (hw : WhiteSetup s) :
    (∀ scanRow i, (PPU.renderScan s scanRow).ppu.frameBuffer i
      = if 640 * s.mmu.line ≤ i ∧ i < 640 * s.mmu.line + 640 then 255 else s.ppu.frameBuffer i)
    ∧ (∀ es, s.ppu.mode = 2 → s.mmu.line = 0 → 144 ≤ (PPU.run s es).mmu.line →
        ∀ i, i < 92160 → (PPU.run s es).ppu.frameBuffer i = 255)
    ∧ (s.ppu.mode = 2 → s.mmu.line = 0 → s.ppu.clock = 0 →
        (PPU.run s (frameEvents 144 0)).mmu.line = 144
        ∧ ∀ i, i < 92160 → (PPU.run s (frameEvents 144 0)).ppu.frameBuffer i = 255)
    ∧ (∀ s0 : Machine, (∀ a, 0x8000 ≤ a → a ≤ 0x9FFF → s0.mmu.memory a = 0) →
        (∀ t y x, t < 384 → y < 8 → x < 8 → s0.mmu.tileSet t y x = 0) →
        WhiteSetup (MMU.writes s0 [(0xFF40, 0x91), (0xFF47, 0xE4)])) := by
  have frame : ∀ es, s.ppu.mode = 2 → s.mmu.line = 0 → 144 ≤ (PPU.run s es).mmu.line →
      ∀ i, i < 92160 → (PPU.run s es).ppu.frameBuffer i = 255 := by
    intro es hm hl h144 i hi
    have hin : LineInRange s := Or.inl ⟨Or.inr (Or.inl hm), by omega⟩
    have ha : WhiteAbove s := by
      intro j hj _
      rw [hl] at hj
      omega
    exact (run_white es s hw hin ha).2.2 i (by omega) hi
  refine ⟨renderScan_white s hw, frame, ?_, whiteSetup_of_writes⟩
  intro hm hl hc
  have hline : (PPU.run s (frameEvents 144 0)).mmu.line = 144 :=
    (run_frameEvents s hm hl hc 0 (by omega)).1
  exact ⟨hline, frame _ hm hl (by omega)⟩

/-- C23, witness: the machine at reset after the writes of LCDC = 0x91 and
BGP = 0xE4; the first byte and the last byte of the frame buffer are 255 after
one frame. -/
theorem white_background_frame_witness :
    WhiteSetup whiteMachine
    ∧ (PPU.run whiteMachine (frameEvents 144 0)).mmu.line = 144
    ∧ (PPU.run whiteMachine (frameEvents 144 0)).ppu.frameBuffer 0 = 255
    ∧ (PPU.run whiteMachine (frameEvents 144 0)).ppu.frameBuffer 92159 = 255 :=
  have hw : WhiteSetup whiteMachine :=
    whiteSetup_of_writes {} (fun _ _ _ => rfl) (fun _ _ _ _ _ _ => rfl)
  have h := (white_background_frame whiteMachine hw).2.2.1 rfl rfl rfl
  ⟨hw, h.1, h.2 0 (by omega), h.2 92159 (by omega)⟩

/-! ## Lemmas on the timer -/

theorem setControlRate_fields (t : Timer) :
    t.setControlRate.divider = t.divider ∧ t.setControlRate.dividerClock = t.dividerClock
    ∧ t.setControlRate.counter = t.counter ∧ t.setControlRate.modulo = t.modulo
    ∧ t.setControlRate.control = t.control
    ∧ t.setControlRate.isClockEnabled = decide ((t.control &&& 0x4) ≠ 0) := by
  unfold Timer.setControlRate
  dsimp only
  split <;> exact ⟨rfl, rfl, rfl, rfl, rfl, rfl⟩

/-- The divider part of `Timer::addToClock`. -/
theorem addToClock_divider (s : Machine) (c : Int) :
    (Timer.addToClock s c).timer.dividerClock
      = (if s.timer.dividerClock + c ≥ 256 then (s.timer.dividerClock + c) % 256
         else s.timer.dividerClock + c)
    ∧ (Timer.addToClock s c).timer.divider
      = (if s.timer.dividerClock + c ≥ 256 then (s.timer.divider + 1) % 256
         else s.timer.divider) := by
  unfold Timer.addToClock
  dsimp only
  split_ifs <;> simp only [(setControlRate_fields _).1, (setControlRate_fields _).2.1] <;>
    first | exact ⟨rfl, rfl⟩ | exact ⟨trivial, trivial⟩

theorem readByte_DIV (s : Machine) : MMU.readByte s 0xFF04 = s.timer.divider := by
  unfold MMU.readByte
  rw [if_neg (fun h => absurd h.2 (by decide))]
  rfl

theorem or_4_and_4 (x : Nat) : (x ||| 0x4) &&& 0x4 = 0x4 := by
  apply Nat.eq_of_testBit_eq
  intro i
  rw [Nat.testBit_and, Nat.testBit_or]
  cases x.testBit i <;> cases (0x4 : Nat).testBit i <;> rfl

theorem setControlRate_rate1 (t : Timer) (h : t.control = 0x05) :
    t.setControlRate.controlClock = 16 ∧ t.setControlRate.isClockEnabled = true := by
  refine ⟨?_, ?_⟩
  · unfold Timer.setControlRate
    rw [h]
    rfl
  · rw [(setControlRate_fields t).2.2.2.2.2, h]
    rfl

/-- The timer part of `Timer::addToClock` while the timer is enabled at the
rate of TAC = 0x05. -/
theorem addToClock_rate1 (s : Machine) (c : Int) (he : s.timer.isClockEnabled = true)
    (hc : s.timer.control = 0x05) :
    (Timer.addToClock s c).timer.control = 0x05
    ∧ (Timer.addToClock s c).timer.isClockEnabled = true
    ∧ (Timer.addToClock s c).timer.modulo = s.timer.modulo
    ∧ (Timer.addToClock s c).timer.controlClock
        = (if s.timer.controlClock - c ≤ 0 then 16 else s.timer.controlClock - c)
    ∧ (Timer.addToClock s c).timer.counter
        = (if s.timer.controlClock - c ≤ 0 then
            (if s.timer.counter = 0xFF then s.timer.modulo else (s.timer.counter + 1) % 256)
           else s.timer.counter)
    ∧ (Timer.addToClock s c).ifRegister
        = (if s.timer.controlClock - c ≤ 0 ∧ s.timer.counter = 0xFF then s.ifRegister ||| 0x4
           else s.ifRegister) := by
  have key : ∀ t : Timer, t.control = 0x05 → t.isClockEnabled = true →
      t.counter = s.timer.counter → t.modulo = s.timer.modulo →
      t.controlClock = s.timer.controlClock →
      ({ t with controlClock := t.controlClock - c } : Timer).setControlRate.control = 0x05
      ∧ ({ t with controlClock := t.controlClock - c } : Timer).setControlRate.isClockEnabled = true
      ∧ ({ t with controlClock := t.controlClock - c } : Timer).setControlRate.modulo = s.timer.modulo
      ∧ ({ t with controlClock := t.controlClock - c } : Timer).setControlRate.controlClock = 16
      ∧ ({ t with controlClock := t.controlClock - c } : Timer).setControlRate.counter
          = s.timer.counter := by
    intro t h1 _ h3 h4 _
    obtain ⟨-, -, f3, f4, f5, -⟩ := setControlRate_fields ({ t with controlClock := t.controlClock - c } : Timer)
    obtain ⟨g1, g2⟩ := setControlRate_rate1 ({ t with controlClock := t.controlClock - c } : Timer) h1
    exact ⟨f5.trans h1, g2, f4.trans h4, g1, f3.trans h3⟩
  unfold Timer.addToClock
  dsimp only
  by_cases hd : s.timer.dividerClock + c ≥ 256
  · obtain ⟨k1, k2, k3, k4, k5⟩ := key
      { s.timer with dividerClock := (s.timer.dividerClock + c) % 256,
                     divider := (s.timer.divider + 1) % 256 } hc he rfl rfl rfl
    rw [if_pos hd]
    simp only [he, if_true]
    split_ifs <;> simp only [k1, k2, k3, k4, k5, hc, he] <;> first | exact ⟨rfl, rfl, rfl, rfl, rfl, rfl⟩ | simp_all
  · obtain ⟨k1, k2, k3, k4, k5⟩ := key
      { s.timer with dividerClock := s.timer.dividerClock + c } hc he rfl rfl rfl
    rw [if_neg hd]
    simp only [he, if_true]
    split_ifs <;> simp only [k1, k2, k3, k4, k5, hc, he] <;> first | exact ⟨rfl, rfl, rfl, rfl, rfl, rfl⟩ | simp_all

/-! ## C24 -/

theorem timerWrites_timer (s : Machine) :
    (MMU.writes s timerWrites).timer.control = 0x05
    ∧ (MMU.writes s timerWrites).timer.isClockEnabled = true
    ∧ (MMU.writes s timerWrites).timer.modulo = 0x80
    ∧ (MMU.writes s timerWrites).timer.controlClock = 16
    ∧ (MMU.writes s timerWrites).timer.counter = 0xFD
    ∧ (MMU.writes s timerWrites).ifRegister = s.ifRegister := by
  have e : (MMU.writes s timerWrites).timer
      = { Timer.setControlRate { s.timer with control := 0x05 } with
            counter := 0xFD, modulo := 0x80 } := rfl
  obtain ⟨g1, g2⟩ := setControlRate_rate1 { s.timer with control := 0x05 } rfl
  have g3 := (setControlRate_fields { s.timer with control := 0x05 }).2.2.2.2.1
  rw [e]
  exact ⟨g3, g2, rfl, g1, rfl, rfl⟩

theorem addToClockTimes_succ (s : Machine) (c : Int) (n : Nat) :
    Timer.addToClockTimes s c (n + 1) = Timer.addToClock (Timer.addToClockTimes s c n) c := rfl

/-- The timer scenario, call by call: the timer ticks at every fourth call of
`addToClock(4)`, and TIMA overflows at the twelfth call and at no other of the
first 512. -/
theorem timer_trajectory (s : Machine) : ∀ n, n ≤ 512 →
    (Timer.addToClockTimes (MMU.writes s timerWrites) 4 n).timer.control = 0x05
    ∧ (Timer.addToClockTimes (MMU.writes s timerWrites) 4 n).timer.isClockEnabled = true
    ∧ (Timer.addToClockTimes (MMU.writes s timerWrites) 4 n).timer.modulo = 0x80
    ∧ (Timer.addToClockTimes (MMU.writes s timerWrites) 4 n).timer.controlClock
        = 16 - 4 * ((n % 4 : Nat) : Int)
    ∧ (Timer.addToClockTimes (MMU.writes s timerWrites) 4 n).timer.counter = timaAfter n
    ∧ (Timer.addToClockTimes (MMU.writes s timerWrites) 4 n).ifRegister
        = (if n < 12 then s.ifRegister else s.ifRegister ||| 0x4) := by
  intro n
  induction n with
  | zero =>
    intro _
    exact timerWrites_timer s
  | succ n ih =>
    intro hn
    obtain ⟨i1, i2, i3, i4, i5, i6⟩ := ih (by omega)
    obtain ⟨a1, a2, a3, a4, a5, a6⟩ :=
      addToClock_rate1 (Timer.addToClockTimes (MMU.writes s timerWrites) 4 n) 4 i2 i1
    rw [addToClockTimes_succ]
    rw [i3] at a3
    rw [i4] at a4 a5 a6
    rw [i5, i3] at a5
    rw [i5, i6] at a6
    refine ⟨a1, a2, a3, ?_, ?_, ?_⟩
    · rw [a4]
      split_ifs <;> omega
    · rw [a5]
      unfold timaAfter
      split_ifs <;> omega
    · rw [a6]
      unfold timaAfter
      split_ifs <;> first | rfl | omega

theorem readByte_TIMA (s : Machine) : MMU.readByte s 0xFF05 = s.timer.counter := by
  unfold MMU.readByte
  rw [if_neg (fun h => absurd h.2 (by decide))]
  rfl

theorem or_4_and_4_of_clear (x : Nat) (h : x &&& 0x4 = 0) (n : Nat) :
    (if n < 12 then x else x ||| 0x4) &&& 0x4 = (if n < 12 then 0 else 0x4) := by
  split_ifs
  · exact h
  · exact or_4_and_4 x

/-- C24 (amended: TIMA is 0xFD, not 0x80, after the 2048 cycles): after the
writes TAC = 0x05, TIMA = 0xFD, TMA = 0x80 with bit 2 of IF clear, for each of
the first 512 calls of `addToClock(4)` TIMA, as read at 0xFF05, is one higher
every fourth call and is reloaded with 0x80 at the twelfth call (48 cycles),
the one overflow, from which on bit 2 of IF is set; after the 512 calls (2048
cycles) TIMA is 0xFD. -/
theorem timer_scenario_tima (s : Machine) (hif : s.ifRegister &&& 0x4 = 0) :
    (∀ n, n ≤ 512 →
      MMU.readByte (Timer.addToClockTimes (MMU.writes s timerWrites) 4 n) 0xFF05 = timaAfter n
      ∧ (Timer.addToClockTimes (MMU.writes s timerWrites) 4 n).ifRegister &&& 0x4
          = (if n < 12 then 0 else 0x4))
    ∧ MMU.readByte (Timer.addToClockTimes (MMU.writes s timerWrites) 4 11) 0xFF05 = 0xFF
    ∧ MMU.readByte (Timer.addToClockTimes (MMU.writes s timerWrites) 4 12) 0xFF05 = 0x80
    ∧ MMU.readByte (Timer.addToClockTimes (MMU.writes s timerWrites) 4 512) 0xFF05 = 0xFD
    ∧ (Timer.addToClockTimes (MMU.writes s timerWrites) 4 512).ifRegister &&& 0x4 = 0x4 := by
  have h : ∀ n, n ≤ 512 →
      MMU.readByte (Timer.addToClockTimes (MMU.writes s timerWrites) 4 n) 0xFF05 = timaAfter n
      ∧ (Timer.addToClockTimes (MMU.writes s timerWrites) 4 n).ifRegister &&& 0x4
          = (if n < 12 then 0 else 0x4) := by
    intro n hn
    obtain ⟨-, -, -, -, i5, i6⟩ := timer_trajectory s n hn
    rw [readByte_TIMA, i5, i6]
    exact ⟨rfl, or_4_and_4_of_clear _ hif n⟩
  exact ⟨h, (h 11 (by omega)).1, (h 12 (by omega)).1, (h 512 (by omega)).1, (h 512 (by omega)).2⟩

/-- C24, counterexample: from the machine at reset, after the three writes and
512 calls of `addToClock(4)`, a read of TIMA returns 0xFD. -/
theorem timer_scenario_tima_is_0xFD :
    ({} : Machine).ifRegister &&& 0x4 = 0
    ∧ MMU.readByte (Timer.addToClockTimes (MMU.writes {} timerWrites) 4 512) 0xFF05 = 0xFD
    ∧ (0xFD : Nat) ≠ 0x80 := by
  refine ⟨by decide, ?_, by decide⟩
  rw [readByte_TIMA, (timer_trajectory {} 512 (le_refl _)).2.2.2.2.1]
  rfl

/-- C24, witness: the machine at reset; TIMA is 0x80 after 12 calls and bit 2
of IF is set after the 512. -/
theorem timer_scenario_tima_witness :
    ({} : Machine).ifRegister &&& 0x4 = 0
    ∧ MMU.readByte (Timer.addToClockTimes (MMU.writes {} timerWrites) 4 12) 0xFF05 = 0x80
    ∧ (Timer.addToClockTimes (MMU.writes {} timerWrites) 4 512).ifRegister &&& 0x4 = 0x4 :=
  have h := timer_scenario_tima {} (by decide)
  ⟨by decide, h.2.2.1, h.2.2.2.2⟩

/-! ## C25 -/

/-- C25 (amended: one increment of DIV at most): for a divider clock from 0
to 255, a DIV below 256 and `n` cycles, `addToClock(n)` leaves the divider
clock at `(div_clock + n) mod 256` and DIV, as read at 0xFF04, one higher
modulo 256 when `div_clock + n` is 256 or more, and as it was otherwise; this
is the increase by `floor((div_clock + n) / 256)` of the claim when
`div_clock + n` is below 512. -/
theorem div_clock_single_increment (s : Machine) (n : Nat)
    (h0 : 0 ≤ s.timer.dividerClock) (h1 : s.timer.dividerClock < 256)
    (hd : s.timer.divider < 256) :
    (Timer.addToClock s (n : Int)).timer.dividerClock = (s.timer.dividerClock + (n : Int)) % 256
    ∧ MMU.readByte (Timer.addToClock s (n : Int)) 0xFF04
        = (s.timer.divider + (if s.timer.dividerClock + (n : Int) ≥ 256 then 1 else 0)) % 256
    ∧ (s.timer.dividerClock + (n : Int) < 512 →
        MMU.readByte (Timer.addToClock s (n : Int)) 0xFF04
          = (s.timer.divider + ((s.timer.dividerClock + (n : Int)) / 256).toNat) % 256) := by
  obtain ⟨a, b⟩ := addToClock_divider s (n : Int)
  rw [readByte_DIV, a, b]
  refine ⟨?_, ?_, ?_⟩
  · split_ifs <;> omega
  · split_ifs <;> omega
  · intro h
    split_ifs <;> omega

/-- C25, counterexample: from the timer at reset (divider clock 0, DIV 0),
`addToClock(512)` leaves DIV at 1, and `floor(512 / 256)` is 2. -/
theorem div_clock_512_increments_once :
    ({} : Machine).timer.dividerClock = 0 ∧ ({} : Machine).timer.divider = 0
    ∧ (Timer.addToClock {} 512).timer.dividerClock = 0
    ∧ MMU.readByte (Timer.addToClock {} 512) 0xFF04 = 1
    ∧ (0 + (0 + 512) / 256) % 256 = 2 := by
  refine ⟨rfl, rfl, by decide, ?_, by decide⟩
  rw [readByte_DIV]
  decide

/-- C25, witness: the timer at reset and `addToClock(300)`: the divider clock
is 44 and DIV is 1. -/
theorem div_clock_single_increment_witness :
    (0 : Int) ≤ ({} : Machine).timer.dividerClock ∧ ({} : Machine).timer.dividerClock < 256
    ∧ ({} : Machine).timer.divider < 256
    ∧ (Timer.addToClock {} ((300 : Nat) : Int)).timer.dividerClock = (0 + ((300 : Nat) : Int)) % 256
    ∧ MMU.readByte (Timer.addToClock {} ((300 : Nat) : Int)) 0xFF04 = 1 :=
  have h := div_clock_single_increment {} 300 (by decide) (by decide) (by decide)
  ⟨by decide, by decide, by decide, h.1, h.2.1⟩

/-! ## C26 -/

/-- C26 (the code departs from the claim): after `writeByte(0xFF07, v)` the
timer holds `v` as its control byte, with the enable from bit 2, and a read of
0xFF07 returns `v & 0x03`: the two bits of the rate, without the enable bit.  A
write of 0x04 reads back as 0x00. -/
theorem tac_reads_rate_bits_only (s : Machine) (v : Nat) :
    (MMU.writeByte s 0xFF07 v).timer.control = v
    ∧ (MMU.writeByte s 0xFF07 v).timer.isClockEnabled = decide ((v &&& 0x4) ≠ 0)
    ∧ MMU.readByte (MMU.writeByte s 0xFF07 v) 0xFF07 = v &&& 0x3
    ∧ MMU.readByte (MMU.writeByte s 0xFF07 0x04) 0xFF07 = 0x00
    ∧ (0x04 &&& 0x07 : Nat) = 0x04 := by
  have e : ∀ w, (MMU.writeByte s 0xFF07 w).timer
      = Timer.setControlRate { s.timer with control := w } := fun _ => rfl
  have r : ∀ w, MMU.readByte (MMU.writeByte s 0xFF07 w) 0xFF07 = w &&& 0x3 := by
    intro w
    have h : MMU.readByte (MMU.writeByte s 0xFF07 w) 0xFF07
        = (MMU.writeByte s 0xFF07 w).timer.control &&& 0x3 := by
      unfold MMU.readByte
      rw [if_neg (fun h => absurd h.2 (by decide))]
      rfl
    rw [h, e, (setControlRate_fields _).2.2.2.2.1]
  refine ⟨?_, ?_, r v, ?_, by decide⟩
  · rw [e, (setControlRate_fields _).2.2.2.2.1]
  · rw [e, (setControlRate_fields _).2.2.2.2.2]
  · rw [r]
    decide

/-! ## C27 -/

theorem stat_write_bits (v m : Nat) :
    ((v &&& 0x78) ||| (m &&& 0x07)) &&& 0x07 = m &&& 0x07
    ∧ ((v &&& 0x78) ||| (m &&& 0x07)) &&& 0x78 = v &&& 0x78 := by
  have e1 : (0x78 &&& 0x07 : Nat) = 0 := rfl
  have e2 : (0x07 &&& 0x07 : Nat) = 0x07 := rfl
  have e3 : (0x78 &&& 0x78 : Nat) = 0x78 := rfl
  have e4 : (0x07 &&& 0x78 : Nat) = 0 := rfl
  constructor
  · rw [or_and_mask, Nat.and_assoc, Nat.and_assoc, e1, e2, Nat.and_zero, Nat.zero_or]
  · rw [or_and_mask, Nat.and_assoc, Nat.and_assoc, e3, e4, Nat.and_zero, Nat.or_zero]

/-- C27 (the code departs from the claim): `writeByte(0xFF41, v)` sets STAT to
`(v & 0x78) | (memory[0xFF41] & 0x07)`: the bits 3 to 6 are those of `v`, and
the low three bits are those of the byte of `memory[]` at 0xFF41, which the
write leaves as it was, not those of STAT before the write.  With STAT at 0x05
and that byte 0, a write of 0x78 leaves STAT at 0x78. -/
theorem stat_write_low_bits_from_memory (s : Machine) (v : Nat) :
    MMU.readByte (MMU.writeByte s 0xFF41 v) 0xFF41
      = (v &&& 0x78) ||| (s.mmu.memory 0xFF41 &&& 0x07)
    ∧ MMU.readByte (MMU.writeByte s 0xFF41 v) 0xFF41 &&& 0x78 = v &&& 0x78
    ∧ MMU.readByte (MMU.writeByte s 0xFF41 v) 0xFF41 &&& 0x07 = s.mmu.memory 0xFF41 &&& 0x07
    ∧ (MMU.writeByte s 0xFF41 v).mmu.memory = s.mmu.memory
    ∧ MMU.readByte statMachine 0xFF41 = 0x05
    ∧ MMU.readByte (MMU.writeByte statMachine 0xFF41 0x78) 0xFF41 = 0x78 := by
  have e : MMU.readByte (MMU.writeByte s 0xFF41 v) 0xFF41
      = (v &&& 0x78) ||| (s.mmu.memory 0xFF41 &&& 0x07) := by
    rw [readByte_STAT]
    rfl
  obtain ⟨b1, b2⟩ := stat_write_bits v (s.mmu.memory 0xFF41)
  refine ⟨e, ?_, ?_, rfl, by decide, by decide⟩
  · rw [e, b2]
  · rw [e, b1]

/-! ## C28 -/

theorem activeLow_and (b0 b1 b2 b3 : Bool) :
    activeLow b0 b1 b2 b3 &&& 0x0E = activeLow true b1 b2 b3
    ∧ activeLow b0 b1 b2 b3 &&& 0x0D = activeLow b0 true b2 b3
    ∧ activeLow b0 b1 b2 b3 &&& 0x0B = activeLow b0 b1 true b3
    ∧ activeLow b0 b1 b2 b3 &&& 0x07 = activeLow b0 b1 b2 true := by
  cases b0 <;> cases b1 <;> cases b2 <;> cases b3 <;> exact ⟨rfl, rfl, rfl, rfl⟩

theorem activeLow_or (b0 b1 b2 b3 : Bool) :
    activeLow b0 b1 b2 b3 ||| 0x01 = activeLow false b1 b2 b3
    ∧ activeLow b0 b1 b2 b3 ||| 0x02 = activeLow b0 false b2 b3
    ∧ activeLow b0 b1 b2 b3 ||| 0x04 = activeLow b0 b1 false b3
    ∧ activeLow b0 b1 b2 b3 ||| 0x08 = activeLow b0 b1 b2 false := by
  cases b0 <;> cases b1 <;> cases b2 <;> cases b3 <;> exact ⟨rfl, rfl, rfl, rfl⟩

theorem keyDown_joypad (s : Machine) (key : SDL_Keycode) :
    (JOYPAD.keyDown s key).joypad
      = (match key with
        | .SDLK_w => { s.joypad with controls0 := s.joypad.controls0 &&& 0x0B }
        | .SDLK_a => { s.joypad with controls0 := s.joypad.controls0 &&& 0x0D }
        | .SDLK_s => { s.joypad with controls0 := s.joypad.controls0 &&& 0x07 }
        | .SDLK_d => { s.joypad with controls0 := s.joypad.controls0 &&& 0x0E }
        | .SDLK_z => { s.joypad with controls1 := s.joypad.controls1 &&& 0x0E }
        | .SDLK_x => { s.joypad with controls1 := s.joypad.controls1 &&& 0x0D }
        | .SDLK_LSHIFT => { s.joypad with controls1 := s.joypad.controls1 &&& 0x07 }
        | .SDLK_SPACE => { s.joypad with controls1 := s.joypad.controls1 &&& 0x0B }
        | .other => s.joypad) := by
  unfold JOYPAD.keyDown
  dsimp only
  split_ifs <;> rfl

/-- A key event keeps the column and shows the key in its bit. -/
theorem event_shows (s : Machine) (e : Bool × SDL_Keycode) (held : SDL_Keycode → Bool)
    (h : JoypadShows s held) :
    JoypadShows (JOYPAD.event s e) (fun k => if k = e.2 then e.1 else held k)
    ∧ (JOYPAD.event s e).joypad.column = s.joypad.column := by
  obtain ⟨h0, h1⟩ := h
  obtain ⟨a1, a2, a3, a4⟩ :=
    activeLow_and (held .SDLK_d) (held .SDLK_a) (held .SDLK_w) (held .SDLK_s)
  obtain ⟨b1, b2, b3, b4⟩ :=
    activeLow_and (held .SDLK_z) (held .SDLK_x) (held .SDLK_SPACE) (held .SDLK_LSHIFT)
  obtain ⟨c1, c2, c3, c4⟩ :=
    activeLow_or (held .SDLK_d) (held .SDLK_a) (held .SDLK_w) (held .SDLK_s)
  obtain ⟨d1, d2, d3, d4⟩ :=
    activeLow_or (held .SDLK_z) (held .SDLK_x) (held .SDLK_SPACE) (held .SDLK_LSHIFT)
  obtain ⟨b, k⟩ := e
  unfold JoypadShows JOYPAD.event
  cases b
  · cases k <;> (refine ⟨⟨?_, ?_⟩, rfl⟩) <;>
      first
      | exact h0 | exact h1
      | (show s.joypad.controls0 ||| _ = _; rw [h0]; assumption)
      | (show s.joypad.controls1 ||| _ = _; rw [h1]; assumption)
  · cases k <;> (rw [if_pos rfl, keyDown_joypad]; refine ⟨⟨?_, ?_⟩, rfl⟩) <;>
      first
      | exact h0 | exact h1
      | (show s.joypad.controls0 &&& _ = _; rw [h0]; assumption)
      | (show s.joypad.controls1 &&& _ = _; rw [h1]; assumption)

theorem events_shows (es : List (Bool × SDL_Keycode)) : ∀ (s : Machine) (held : SDL_Keycode → Bool),
    JoypadShows s held →
    JoypadShows (JOYPAD.events s es) (heldAfter held es)
    ∧ (JOYPAD.events s es).joypad.column = s.joypad.column := by
  induction es with
  | nil => intro s held h; exact ⟨h, rfl⟩
  | cons e es ih =>
    intro s held h
    obtain ⟨a, b⟩ := event_shows s e held h
    obtain ⟨c, d⟩ := ih _ _ a
    exact ⟨c, d.trans b⟩

theorem heldAfter_append (held : SDL_Keycode → Bool) (es fs : List (Bool × SDL_Keycode)) :
    heldAfter held (es ++ fs) = heldAfter (heldAfter held es) fs := List.foldl_append _ _ _ _

theorem readByte_joypad (s : Machine) : MMU.readByte s 0xFF00 = s.joypad.readByte := by
  unfold MMU.readByte
  rw [if_neg (fun h => absurd h.2 (by decide))]
  rfl

theorem writeByte_joypad (s : Machine) (v : Nat) :
    (MMU.writeByte s 0xFF00 v).joypad = { s.joypad with column := v &&& 0x30 } := rfl

theorem and_0x30_cases (v : Nat) :
    v &&& 0x30 = 0x00 ∨ v &&& 0x30 = 0x10 ∨ v &&& 0x30 = 0x20 ∨ v &&& 0x30 = 0x30 := by
  have h1 : v &&& 0x30 = (v &&& 0x30) &&& 0x3F := by
    rw [Nat.and_assoc]
    rfl
  have h2 : (v &&& 0x30) &&& 0x0F = 0 := by
    have e : (0x30 &&& 0x0F : Nat) = 0 := rfl
    rw [Nat.and_assoc, e, Nat.and_zero]
  have h3 := Nat.and_pow_two_sub_one_eq_mod (v &&& 0x30) 6
  have h4 := Nat.and_pow_two_sub_one_eq_mod (v &&& 0x30) 4
  simp only [Nat.reducePow, Nat.reduceSub] at h3 h4
  rw [h4] at h2
  rw [h3] at h1
  omega

/-- What a read of 0xFF00 returns, by the column byte. -/
theorem joypad_readByte_cases (j : JOYPAD) :
    (j.column = 0x10 → j.readByte = j.controls1)
    ∧ (j.column = 0x20 → j.readByte = j.controls0)
    ∧ (j.column ≠ 0x10 → j.column ≠ 0x20 → j.readByte = 0x0) := by
  unfold JOYPAD.readByte
  refine ⟨fun h => ?_, fun h => ?_, fun h h' => ?_⟩
  · rw [h]
  · rw [h]
  · split
    · exact absurd ‹_› h
    · exact absurd ‹_› h'
    · rfl

/-- C28 (amended: 0x00, not 0x0F, with no single column selected): from a
joypad with no key held, after key events, a write of `v` to 0xFF00 and more
key events, a read of 0xFF00 returns, when `v & 0x30` is 0x20, the nibble with
Right (d) in bit 0, Left (a) in bit 1, Up (w) in bit 2 and Down (s) in bit 3;
when it is 0x10, the nibble with A (z) in bit 0, B (x) in bit 1, Select (space)
in bit 2 and Start (left shift) in bit 3, each bit 0 for a key that is held;
and 0x00 when it is 0x00 or 0x30, whatever keys are held. -/
theorem joypad_read_by_column (s : Machine) (es1 es2 : List (Bool × SDL_Keycode)) (v : Nat)
    (h0 : s.joypad.controls0 = 0x0F) (h1 : s.joypad.controls1 = 0x0F) :
    (v &&& 0x30 = 0x20 →
      MMU.readByte (JOYPAD.events (MMU.writeByte (JOYPAD.events s es1) 0xFF00 v) es2) 0xFF00
        = activeLow (heldAfter (fun _ => false) (es1 ++ es2) .SDLK_d)
            (heldAfter (fun _ => false) (es1 ++ es2) .SDLK_a)
            (heldAfter (fun _ => false) (es1 ++ es2) .SDLK_w)
            (heldAfter (fun _ => false) (es1 ++ es2) .SDLK_s))
    ∧ (v &&& 0x30 = 0x10 →
      MMU.readByte (JOYPAD.events (MMU.writeByte (JOYPAD.events s es1) 0xFF00 v) es2) 0xFF00
        = activeLow (heldAfter (fun _ => false) (es1 ++ es2) .SDLK_z)
            (heldAfter (fun _ => false) (es1 ++ es2) .SDLK_x)
            (heldAfter (fun _ => false) (es1 ++ es2) .SDLK_SPACE)
            (heldAfter (fun _ => false) (es1 ++ es2) .SDLK_LSHIFT))
    ∧ (v &&& 0x30 = 0x00 ∨ v &&& 0x30 = 0x30 →
      MMU.readByte (JOYPAD.events (MMU.writeByte (JOYPAD.events s es1) 0xFF00 v) es2) 0xFF00
        = 0x00)
    ∧ (v &&& 0x30 = 0x00 ∨ v &&& 0x30 = 0x10 ∨ v &&& 0x30 = 0x20 ∨ v &&& 0x30 = 0x30) := by
  have hs : JoypadShows s (fun _ => false) := ⟨h0, h1⟩
  obtain ⟨a, -⟩ := events_shows es1 s _ hs
  have hw : JoypadShows (MMU.writeByte (JOYPAD.events s es1) 0xFF00 v)
      (heldAfter (fun _ => false) es1) := by
    unfold JoypadShows
    rw [writeByte_joypad]
    exact a
  obtain ⟨⟨c0, c1⟩, d⟩ := events_shows es2 _ _ hw
  rw [← heldAfter_append] at c0 c1
  have hcol : (JOYPAD.events (MMU.writeByte (JOYPAD.events s es1) 0xFF00 v) es2).joypad.column
      = v &&& 0x30 := by
    rw [d, writeByte_joypad]
  obtain ⟨r1, r2, r3⟩ := joypad_readByte_cases
    (JOYPAD.events (MMU.writeByte (JOYPAD.events s es1) 0xFF00 v) es2).joypad
  rw [hcol] at r1 r2 r3
  rw [readByte_joypad]
  refine ⟨fun h => ?_, fun h => ?_, fun h => ?_, and_0x30_cases v⟩
  · rw [r2 h, c0]
  · rw [r1 h, c1]
  · exact r3 (by omega) (by omega)

/-- C28, counterexample: with no key held, after a write of 0x30 to 0xFF00 a
read returns 0x00, and so it does after a write of 0x00. -/
theorem joypad_no_column_reads_zero :
    MMU.readByte (MMU.writeByte {} 0xFF00 0x30) 0xFF00 = 0x00
    ∧ MMU.readByte (MMU.writeByte {} 0xFF00 0x00) 0xFF00 = 0x00
    ∧ (0x00 : Nat) ≠ 0x0F := by
  refine ⟨?_, ?_, by decide⟩ <;>
    · rw [readByte_joypad]
      rfl

/-- C28, witness: from the machine at reset, with Left (a) pressed and the
directions selected by a write of 0x20, a read returns 0x0D. -/
theorem joypad_read_by_column_witness :
    ({} : Machine).joypad.controls0 = 0x0F ∧ ({} : Machine).joypad.controls1 = 0x0F
    ∧ (0x20 &&& 0x30 : Nat) = 0x20
    ∧ activeLow false true false false = 0x0D
    ∧ MMU.readByte (JOYPAD.events (MMU.writeByte (JOYPAD.events {} [(true, .SDLK_a)]) 0xFF00 0x20)
        []) 0xFF00
        = activeLow (heldAfter (fun _ => false) ([(true, .SDLK_a)] ++ []) .SDLK_d)
            (heldAfter (fun _ => false) ([(true, .SDLK_a)] ++ []) .SDLK_a)
            (heldAfter (fun _ => false) ([(true, .SDLK_a)] ++ []) .SDLK_w)
            (heldAfter (fun _ => false) ([(true, .SDLK_a)] ++ []) .SDLK_s) :=
  ⟨rfl, rfl, by decide, by decide,
    (joypad_read_by_column {} [(true, .SDLK_a)] [] 0x20 rfl rfl).1 (by decide)⟩

/-! ## C29 -/

theorem sweepCalculation_no_overflow (t : Tone) (h : (Tone.sweepCalculation t).1 ≤ 2047) :
    (Tone.sweepCalculation t).2 = t := by
  unfold Tone.sweepCalculation at h ⊢
  dsimp only at h ⊢
  rw [if_neg (by omega)]

theorem shiftRight_7_and_1 (v : Nat) (hv : v < 256) :
    (v < 128 → (v >>> 7) &&& 0x1 = 0) ∧ (128 ≤ v → (v >>> 7) &&& 0x1 = 1) := by
  rw [Nat.shiftRight_eq_div_pow]
  constructor
  · intro h
    have e : v / 2 ^ 7 = 0 := by omega
    rw [e]
    rfl
  · intro h
    have e : v / 2 ^ 7 = 1 := by omega
    rw [e]
    rfl

theorem tone_run_append (t : Tone) (es fs : List ToneEvent) :
    Tone.run t (es ++ fs) = Tone.run (Tone.run t es) fs := List.foldl_append _ _ _ _

/-- One step of the frame sequencer as events on the two channels. -/
theorem clockSequencer_tones (a : APU) (h : a.clockStep < 8) :
    (APU.clockSequencer a).tone1 = Tone.run a.tone1 (sequencerEvents true a.clockStep)
    ∧ (APU.clockSequencer a).tone2 = Tone.run a.tone2 (sequencerEvents false a.clockStep)
    ∧ (APU.clockSequencer a).clockStep = (if a.clockStep + 1 ≥ 8 then 0 else a.clockStep + 1) := by
  have key : ∀ c, c < 8 → a.clockStep = c →
      (APU.clockSequencer a).tone1 = Tone.run a.tone1 (sequencerEvents true c)
      ∧ (APU.clockSequencer a).tone2 = Tone.run a.tone2 (sequencerEvents false c)
      ∧ (APU.clockSequencer a).clockStep = (if c + 1 ≥ 8 then 0 else c + 1) := by
    intro c hc e
    unfold APU.clockSequencer
    rw [e]
    interval_cases c <;> simp only [e] <;> exact ⟨rfl, rfl, rfl⟩
  exact key _ h rfl

/-- The 22 writes of 0 of the clearing loop, on the audio unit. -/
theorem apu_clear_fold (k : Nat) (a : APU) :
    (List.range' 0xFF10 22).foldl (fun acc i => APU.writeByteFuel (k + 1) acc i 0) a
      = (List.range' 0xFF10 22).foldl (fun acc i => APU.writeByteFuel 1 acc i 0) a := rfl

/-- The master switch, at any depth bound of two or more. -/
theorem apu_writeByteFuel_nr52 (k : Nat) (a : APU) (v : Nat) :
    APU.writeByteFuel (k + 2) a 0xFF26 v
      = if ((v >>> 7) &&& 0x1) ≠ 0 then { a with soundControl := true }
        else (List.range' 0xFF10 22).foldl (fun acc i => APU.writeByteFuel 1 acc i 0)
          { a with soundControl := false } := by
  have e : APU.writeByteFuel (k + 2) a 0xFF26 v
      = if (!decide (((v >>> 7) &&& 0x1) ≠ 0)) = true then
          (List.range' 0xFF10 22).foldl (fun acc i => APU.writeByteFuel (k + 1) acc i 0)
            { a with soundControl := decide (((v >>> 7) &&& 0x1) ≠ 0) }
        else { a with soundControl := decide (((v >>> 7) &&& 0x1) ≠ 0) } := rfl
  rw [e, apu_clear_fold]
  by_cases h : ((v >>> 7) &&& 0x1) ≠ 0
  · rw [if_pos h, decide_eq_true h]
    rfl
  · rw [if_neg h, decide_eq_false h]
    rfl

theorem readByte_apu (s : Machine) (a : Nat) (h0 : 0xFF10 ≤ a) (h1 : a ≤ 0xFF26) :
    MMU.readByte s a = s.apu.readByte a := by
  unfold MMU.readByte
  have hn : ¬ (s.mmu.inBIOS = true ∧ a < 0x100) := by omega
  rw [if_neg hn]
  simp (disch := omega) only [if_neg, if_pos]

theorem foldl_fixed {α β : Type} (f : β → α → β) (c : β) :
    ∀ (l : List α), (∀ x, x ∈ l → f c x = c) → l.foldl f c = c := by
  intro l
  induction l with
  | nil => intro _; rfl
  | cons x xs ih =>
    intro h
    rw [List.foldl_cons, h x (List.mem_cons_self _ _)]
    exact ih (fun y hy => h y (List.mem_cons_of_mem _ hy))

/-- NR51 reads 0 when no output is enabled. -/
theorem apu_read_enables_zero (a : APU) (hr : ∀ i, i < 4 → a.rightSoundEnable i = false)
    (hl : ∀ i, i < 4 → a.leftSoundEnable i = false) : a.readByte 0xFF25 = 0 := by
  have e : a.readByte 0xFF25
      = (List.range 8).foldl
          (fun acc i =>
            if i < 4 then (acc ||| ((if a.rightSoundEnable i then 1 else 0) <<< i)) % 256
            else (acc ||| ((if a.leftSoundEnable (i - 4) then 1 else 0) <<< i)) % 256)
          0 := rfl
  rw [e]
  apply foldl_fixed
  intro i hi
  have hi' := List.mem_range.mp hi
  split_ifs with h1 h2 h3
  · rw [hr i h1] at h2; exact absurd h2 (by decide)
  · rw [Nat.zero_shiftLeft]; rfl
  · rw [hl (i - 4) (by omega)] at h3; exact absurd h3 (by decide)
  · rw [Nat.zero_shiftLeft]; rfl

theorem tone_clear_frequency (f : Nat) :
    ((((f &&& 0xFF00) ||| 0) &&& 0x00FF) ||| ((0 &&& 0x7) <<< 8)) = 0 := by
  have e : (0xFF00 &&& 0x00FF : Nat) = 0 := rfl
  rw [Nat.or_zero, Nat.and_assoc, e, Nat.and_zero]
  rfl

/-- The registers of a pulse channel read 0 when its fields are 0. -/
theorem tone_reads_zero (t : Tone) (h4 : t.duty = 0) (h5 : t.soundLengthData = 0)
    (h6 : t.volumeEnvelope = 0) (h7 : t.increaseEnvelope = false) (h8 : t.numEnvelopeSweep = 0)
    (h9 : t.frequencyRegister = 0) (h10 : t.initial = false)
    (h11 : t.counterConsecutiveSelection = false) :
    (t.sweepTime = 0 → t.sweepDecrease = false → t.sweepShift = 0 → t.readByte 0xFF10 = 0)
    ∧ t.readByte 0xFF11 = 0 ∧ t.readByte 0xFF12 = 0
    ∧ t.readByte 0xFF13 = 0 ∧ t.readByte 0xFF14 = 0 ∧ t.readByte 0xFF16 = 0
    ∧ t.readByte 0xFF17 = 0 ∧ t.readByte 0xFF18 = 0 ∧ t.readByte 0xFF19 = 0 := by
  have r0 : ∀ x, (x = 0xFF10) → t.readByte x
      = ((t.sweepTime <<< 4) ||| ((if t.sweepDecrease then 1 else 0) <<< 3) ||| t.sweepShift) % 256 := by
    intro x hx; subst hx; rfl
  have r1 : ∀ x, (x = 0xFF11 ∨ x = 0xFF16) → t.readByte x
      = (((t.duty &&& 0x3) <<< 6) ||| (t.soundLengthData &&& 0x3F)) % 256 := by
    intro x hx; rcases hx with hx | hx <;> subst hx <;> rfl
  have r2 : ∀ x, (x = 0xFF12 ∨ x = 0xFF17) → t.readByte x
      = (((t.volumeEnvelope &&& 0xF) <<< 4) ||| ((if t.increaseEnvelope then 1 else 0) <<< 3)
            ||| (t.numEnvelopeSweep &&& 0x7)) % 256 := by
    intro x hx; rcases hx with hx | hx <;> subst hx <;> rfl
  have r3 : ∀ x, (x = 0xFF13 ∨ x = 0xFF18) → t.readByte x = t.frequencyRegister &&& 0xFF := by
    intro x hx; rcases hx with hx | hx <;> subst hx <;> rfl
  have r4 : ∀ x, (x = 0xFF14 ∨ x = 0xFF19) → t.readByte x
      = (((if t.initial then 1 else 0) <<< 7)
          ||| ((if t.counterConsecutiveSelection then 1 else 0) <<< 6)
          ||| ((t.frequencyRegister >>> 8) &&& 0x7)) % 256 := by
    intro x hx; rcases hx with hx | hx <;> subst hx <;> rfl
  have n2 : ¬ (false = true) := by decide
  refine ⟨?_, ?_, ?_, ?_, ?_, ?_, ?_, ?_, ?_⟩
  · intro h1 h2 h3
    rw [r0 _ rfl, h1, h2, h3, if_neg n2]; rfl
  · rw [r1 _ (Or.inl rfl), h4, h5]; rfl
  · rw [r2 _ (Or.inl rfl), h6, h7, h8, if_neg n2]; rfl
  · rw [r3 _ (Or.inl rfl), h9]; rfl
  · rw [r4 _ (Or.inl rfl), h9, h10, h11, if_neg n2]; rfl
  · rw [r1 _ (Or.inr rfl), h4, h5]; rfl
  · rw [r2 _ (Or.inr rfl), h6, h7, h8, if_neg n2]; rfl
  · rw [r3 _ (Or.inr rfl), h9]; rfl
  · rw [r4 _ (Or.inr rfl), h9, h10, h11, if_neg n2]; rfl

/-- The audio unit after the clearing loop: every register from 0xFF10 to
0xFF25 reads 0. -/
theorem apu_cleared_reads (a : APU) (x : Nat) (h0 : 0xFF10 ≤ x) (h1 : x ≤ 0xFF25) :
    ((List.range' 0xFF10 22).foldl (fun acc i => APU.writeByteFuel 1 acc i 0)
      { a with soundControl := false }).readByte x = 0 := by
  generalize hC : (List.range' 0xFF10 22).foldl (fun acc i => APU.writeByteFuel 1 acc i 0)
      { a with soundControl := false } = C
  have f1 : C.tone1.frequencyRegister = 0 := by
    rw [← hC]
    exact tone_clear_frequency a.tone1.frequencyRegister
  have f2 : C.tone2.frequencyRegister = 0 := by
    rw [← hC]
    exact tone_clear_frequency a.tone2.frequencyRegister
  obtain ⟨p0', p1, p2, p3, p4, -, -, -, -⟩ := tone_reads_zero C.tone1
    (by rw [← hC]; rfl) (by rw [← hC]; rfl) (by rw [← hC]; rfl) (by rw [← hC]; rfl)
    (by rw [← hC]; rfl) f1 (by rw [← hC]; rfl) (by rw [← hC]; rfl)
  have p0 := p0' (by rw [← hC]; rfl) (by rw [← hC]; rfl) (by rw [← hC]; rfl)
  obtain ⟨-, -, -, -, -, q1, q2, q3, q4⟩ := tone_reads_zero C.tone2
    (by rw [← hC]; rfl) (by rw [← hC]; rfl) (by rw [← hC]; rfl) (by rw [← hC]; rfl)
    (by rw [← hC]; rfl) f2 (by rw [← hC]; rfl) (by rw [← hC]; rfl)
  have l24 : C.readByte 0xFF24 = 0 := by
    have e : C.readByte 0xFF24 = ((C.leftOutputLevel <<< 4) ||| C.rightOutputLevel) % 256 := rfl
    have e1 : C.leftOutputLevel = 0 := by rw [← hC]; rfl
    have e2 : C.rightOutputLevel = 0 := by rw [← hC]; rfl
    rw [e, e1, e2]
    rfl
  have l25 : C.readByte 0xFF25 = 0 := by
    apply apu_read_enables_zero
    · intro i hi
      rw [← hC]
      interval_cases i <;> rfl
    · intro i hi
      rw [← hC]
      interval_cases i <;> rfl
  have t1 : ∀ y, 0xFF10 ≤ y → y ≤ 0xFF14 → C.readByte y = C.tone1.readByte y := by
    intro y y0 y1
    unfold APU.readByte
    rw [if_pos ⟨y0, y1⟩]
  have t2 : ∀ y, 0xFF16 ≤ y → y ≤ 0xFF19 → C.readByte y = C.tone2.readByte y := by
    intro y y0 y1
    unfold APU.readByte
    rw [if_neg (by omega), if_pos ⟨y0, y1⟩]
  interval_cases x
  · rw [t1 _ (by omega) (by omega)]; exact p0
  · rw [t1 _ (by omega) (by omega)]; exact p1
  · rw [t1 _ (by omega) (by omega)]; exact p2
  · rw [t1 _ (by omega) (by omega)]; exact p3
  · rw [t1 _ (by omega) (by omega)]; exact p4
  · rfl
  · rw [t2 _ (by omega) (by omega)]; exact q1
  · rw [t2 _ (by omega) (by omega)]; exact q2
  · rw [t2 _ (by omega) (by omega)]; exact q3
  · rw [t2 _ (by omega) (by omega)]; exact q4
  · rfl
  · rfl
  · rfl
  · rfl
  · rfl
  · rfl
  · rfl
  · rfl
  · rfl
  · rfl
  · exact l24
  · exact l25

/-- C30: a write to 0xFF26 of a byte with bit 7 clear turns the master enable
off and leaves every address from 0xFF10 to 0xFF25 reading 0; of a byte with
bit 7 set, it turns the master enable on and changes nothing else of the audio
unit.  The write is the same at every depth bound of two or more of the
recursion (the loop writes to 0xFF10..0xFF25, never to 0xFF26), and it changes
the audio unit only. -/
theorem nr52_master_switch (s : Machine) (v : Nat) (hv : v < 256) :
    (v < 128 →
      (MMU.writeByte s 0xFF26 v).apu.soundControl = false
      ∧ ∀ a, 0xFF10 ≤ a → a ≤ 0xFF25 → MMU.readByte (MMU.writeByte s 0xFF26 v) a = 0)
    ∧ (128 ≤ v → (MMU.writeByte s 0xFF26 v).apu = { s.apu with soundControl := true })
    ∧ (∀ k, APU.writeByteFuel (k + 2) s.apu 0xFF26 v = APU.writeByte s.apu 0xFF26 v)
    ∧ MMU.writeByte s 0xFF26 v = { s with apu := APU.writeByte s.apu 0xFF26 v } := by
  obtain ⟨b0, b1⟩ := shiftRight_7_and_1 v hv
  have e : (MMU.writeByte s 0xFF26 v).apu = APU.writeByteFuel (0 + 2) s.apu 0xFF26 v := rfl
  refine ⟨fun h => ?_, fun h => ?_, fun k => ?_, rfl⟩
  · have hz : ¬ ((v >>> 7) &&& 0x1) ≠ 0 := by rw [b0 h]; decide
    have e2 : (MMU.writeByte s 0xFF26 v).apu
        = (List.range' 0xFF10 22).foldl (fun acc i => APU.writeByteFuel 1 acc i 0)
            { s.apu with soundControl := false } := by
      rw [e, apu_writeByteFuel_nr52, if_neg hz]
    constructor
    · rw [e2]
      rfl
    · intro a a0 a1
      rw [readByte_apu _ a a0 (by omega), e2]
      exact apu_cleared_reads s.apu a a0 a1
  · have hz : ((v >>> 7) &&& 0x1) ≠ 0 := by rw [b1 h]; decide
    rw [e, apu_writeByteFuel_nr52, if_pos hz]
  · have e3 : APU.writeByte s.apu 0xFF26 v = APU.writeByteFuel (0 + 2) s.apu 0xFF26 v := rfl
    rw [e3, apu_writeByteFuel_nr52, apu_writeByteFuel_nr52]

set_option maxRecDepth 100000 in
/-- C30, witness: with NR12 = 0xF0, NR50 = 0x77 and NR51 = 0xFF written, the
three addresses read 0xF0, 0x77 and 0xFF; after a write of 0x00 to 0xFF26 they
read 0. -/
theorem nr52_master_switch_witness :
    (0x00 : Nat) < 256 ∧ (0x00 : Nat) < 128
    ∧ MMU.readByte apuMachine 0xFF12 = 0xF0 ∧ MMU.readByte apuMachine 0xFF24 = 0x77
    ∧ MMU.readByte apuMachine 0xFF25 = 0xFF
    ∧ MMU.readByte (MMU.writeByte apuMachine 0xFF26 0x00) 0xFF12 = 0
    ∧ MMU.readByte (MMU.writeByte apuMachine 0xFF26 0x00) 0xFF24 = 0
    ∧ MMU.readByte (MMU.writeByte apuMachine 0xFF26 0x00) 0xFF25 = 0 :=
  have h := ((nr52_master_switch apuMachine 0x00 (by decide)).1 (by decide)).2
  ⟨by decide, by decide, by decide, by decide, by decide,
    h 0xFF12 (by decide) (by decide), h 0xFF24 (by decide) (by decide),
    h 0xFF25 (by decide) (by decide)⟩

/-! ## C31 -/

theorem cycles_add (x : Nat) : ∀ (a : APU) (y : Nat),
    APU.cycles a (x + y) = APU.cycles (APU.cycles a x) y := by
  induction x with
  | zero => intro a y; rw [Nat.zero_add]; rfl
  | succ x ih =>
    intro a y
    have e : x + 1 + y = (x + y) + 1 := by omega
    rw [e]
    exact ih (APU.cycle a) y

theorem cycle_plain (a : APU) (h : 1 < a.clockCounter) :
    (APU.cycle a).clockCounter = a.clockCounter - 1
    ∧ (APU.cycle a).clockStep = a.clockStep
    ∧ (APU.cycle a).tone1 = a.tone1.step
    ∧ (APU.cycle a).tone2 = a.tone2.step := by
  have hn : ¬ a.clockCounter - 1 ≤ 0 := by omega
  unfold APU.cycle
  simp only [if_neg hn]
  split_ifs <;> exact ⟨rfl, rfl, rfl, rfl⟩

theorem cycle_tick (a : APU) (h : a.clockCounter ≤ 1) (hs : a.clockStep < 8) :
    (APU.cycle a).clockCounter = 8192
    ∧ (APU.cycle a).clockStep = (if a.clockStep + 1 ≥ 8 then 0 else a.clockStep + 1)
    ∧ (APU.cycle a).tone1 = (Tone.run a.tone1 (sequencerEvents true a.clockStep)).step
    ∧ (APU.cycle a).tone2 = (Tone.run a.tone2 (sequencerEvents false a.clockStep)).step := by
  have hn : a.clockCounter - 1 ≤ 0 := by omega
  have s := clockSequencer_tones { a with clockCounter := 8192 } hs
  have s1 : (APU.clockSequencer { a with clockCounter := 8192 }).tone1
      = Tone.run a.tone1 (sequencerEvents true a.clockStep) := s.1
  have s2 : (APU.clockSequencer { a with clockCounter := 8192 }).tone2
      = Tone.run a.tone2 (sequencerEvents false a.clockStep) := s.2.1
  have s3 : (APU.clockSequencer { a with clockCounter := 8192 }).clockStep
      = (if a.clockStep + 1 ≥ 8 then 0 else a.clockStep + 1) := s.2.2
  have s4 : (APU.clockSequencer { a with clockCounter := 8192 }).clockCounter = 8192 := by
    unfold APU.clockSequencer
    dsimp only
    split_ifs <;> split <;> rfl
  unfold APU.cycle
  simp only [if_pos hn]
  generalize APU.clockSequencer { a with clockCounter := 8192 } = b at s1 s2 s3 s4
  generalize (if a.clockStep + 1 ≥ 8 then 0 else a.clockStep + 1) = next at s3 ⊢
  split_ifs <;> exact ⟨s4, s3, by rw [← s1], by rw [← s2]⟩

theorem run_replicate_step_succ (t : Tone) (k : Nat) :
    Tone.run t (List.replicate (k + 1) ToneEvent.step)
      = Tone.run t.step (List.replicate k ToneEvent.step) := rfl

/-- The cycles before the clock counter runs out only step the channels. -/
theorem cycles_plain (k : Nat) : ∀ (a : APU), (k : Int) < a.clockCounter →
    (APU.cycles a k).clockCounter = a.clockCounter - k
    ∧ (APU.cycles a k).clockStep = a.clockStep
    ∧ (APU.cycles a k).tone1 = Tone.run a.tone1 (List.replicate k ToneEvent.step)
    ∧ (APU.cycles a k).tone2 = Tone.run a.tone2 (List.replicate k ToneEvent.step) := by
  induction k with
  | zero =>
    intro a _
    exact ⟨by simp [APU.cycles], rfl, rfl, rfl⟩
  | succ k ih =>
    intro a h
    obtain ⟨c1, c2, c3, c4⟩ := cycle_plain a (by omega)
    obtain ⟨i1, i2, i3, i4⟩ := ih (APU.cycle a) (by rw [c1]; omega)
    have e : APU.cycles a (k + 1) = APU.cycles (APU.cycle a) k := rfl
    rw [e, run_replicate_step_succ, run_replicate_step_succ]
    refine ⟨?_, ?_, ?_, ?_⟩
    · rw [i1, c1]; push_cast; omega
    · rw [i2, c2]
    · rw [i3, c3]
    · rw [i4, c4]

theorem run_snoc_step (t : Tone) (es : List ToneEvent) :
    Tone.run t (es ++ [ToneEvent.step]) = (Tone.run t es).step := by
  rw [tone_run_append]
  rfl

theorem cycles_one (a : APU) : APU.cycles a 1 = APU.cycle a := rfl

/-- One period of 8,192 cycles from a full clock counter. -/
theorem cycles_period (a : APU) (hc : a.clockCounter = 8192) (hs : a.clockStep < 8) :
    (APU.cycles a 8192).clockCounter = 8192
    ∧ (APU.cycles a 8192).clockStep = (if a.clockStep + 1 ≥ 8 then 0 else a.clockStep + 1)
    ∧ (APU.cycles a 8192).tone1 = Tone.run a.tone1 (periodEvents true a.clockStep)
    ∧ (APU.cycles a 8192).tone2 = Tone.run a.tone2 (periodEvents false a.clockStep) := by
  have e : (8192 : Nat) = 8191 + 1 := by omega
  obtain ⟨p1, p2, p3, p4⟩ := cycles_plain 8191 a (by rw [hc]; omega)
  rw [e, cycles_add, cycles_one]
  generalize APU.cycles a 8191 = b at p1 p2 p3 p4
  obtain ⟨t1, t2, t3, t4⟩ := cycle_tick b (by rw [p1, hc]; omega) (by rw [p2]; exact hs)
  rw [p2] at t2 t3 t4
  refine ⟨t1, t2, ?_, ?_⟩
  · rw [t3, p3]
    unfold periodEvents
    rw [tone_run_append, run_snoc_step]
  · rw [t4, p4]
    unfold periodEvents
    rw [tone_run_append, run_snoc_step]

theorem periodsEvents_succ (b : Bool) (c m : Nat) :
    periodsEvents b c (m + 1)
      = periodEvents b c ++ periodsEvents b (if c + 1 ≥ 8 then 0 else c + 1) m := by
  rw [periodsEvents]

/-- Whole periods from a full clock counter. -/
theorem cycles_periods (m : Nat) : ∀ (a : APU), a.clockCounter = 8192 → a.clockStep < 8 →
    (APU.cycles a (8192 * m)).clockCounter = 8192
    ∧ (APU.cycles a (8192 * m)).clockStep = (a.clockStep + m) % 8
    ∧ (APU.cycles a (8192 * m)).tone1 = Tone.run a.tone1 (periodsEvents true a.clockStep m)
    ∧ (APU.cycles a (8192 * m)).tone2 = Tone.run a.tone2 (periodsEvents false a.clockStep m) := by
  induction m with
  | zero =>
    intro a hc hs
    rw [Nat.mul_zero]
    refine ⟨hc, ?_, rfl, rfl⟩
    show a.clockStep = (a.clockStep + 0) % 8
    omega
  | succ m ih =>
    intro a hc hs
    obtain ⟨p1, p2, p3, p4⟩ := cycles_period a hc hs
    have e : 8192 * (m + 1) = 8192 + 8192 * m := by omega
    rw [e, cycles_add, periodsEvents_succ, periodsEvents_succ, tone_run_append, tone_run_append]
    generalize APU.cycles a 8192 = b at p1 p2 p3 p4
    obtain ⟨i1, i2, i3, i4⟩ := ih b p1 (by rw [p2]; split_ifs <;> omega)
    rw [p2] at i2 i3 i4
    refine ⟨i1, ?_, ?_, ?_⟩
    · rw [i2]; split_ifs <;> omega
    · rw [i3, p3]
    · rw [i4, p4]

theorem step_on (a : APU) (n : Nat) (h : a.soundControl = true) : APU.step a n = APU.cycles a n := by
  unfold APU.step
  rw [h]
  rfl

theorem step_off (a : APU) (n : Nat) (h : a.soundControl = false) : APU.step a n = a := by
  unfold APU.step
  rw [h]
  rfl

/-- C31: with the master enable set, from a full clock counter (8,192) at
sequencer step c, after 8192 m + k cycles (k < 8192) of `APU::step` the
sequencer is at step (c + m) mod 8 and the two channels have gone through m
periods, each of 8,191 sample steps, the clocks of one sequencer step and one
more sample step, then k sample steps; the sequencer clocks the length counter
of both channels at steps 0, 2, 4 and 6, before it the sweep of channel 1 at
steps 2 and 6, the envelope of both channels at step 7, and nothing at steps
1, 3 and 5; with the master enable clear `APU::step` returns the audio unit
unchanged. -/
theorem frame_sequencer_every_8192_cycles (a : APU) :
    (a.soundControl = true → a.clockCounter = 8192 → a.clockStep < 8 →
      ∀ m k, k < 8192 →
        (APU.step a (8192 * m + k)).clockStep = (a.clockStep + m) % 8
        ∧ (APU.step a (8192 * m + k)).clockCounter = 8192 - (k : Int)
        ∧ (APU.step a (8192 * m + k)).tone1
            = Tone.run a.tone1 (periodsEvents true a.clockStep m
                ++ List.replicate k ToneEvent.step)
        ∧ (APU.step a (8192 * m + k)).tone2
            = Tone.run a.tone2 (periodsEvents false a.clockStep m
                ++ List.replicate k ToneEvent.step))
    ∧ (sequencerEvents true 0 = [.adjustLength] ∧ sequencerEvents false 0 = [.adjustLength]
      ∧ sequencerEvents true 1 = [] ∧ sequencerEvents false 1 = []
      ∧ sequencerEvents true 2 = [.adjustSweep, .adjustLength]
      ∧ sequencerEvents false 2 = [.adjustLength]
      ∧ sequencerEvents true 3 = [] ∧ sequencerEvents false 3 = []
      ∧ sequencerEvents true 4 = [.adjustLength] ∧ sequencerEvents false 4 = [.adjustLength]
      ∧ sequencerEvents true 5 = [] ∧ sequencerEvents false 5 = []
      ∧ sequencerEvents true 6 = [.adjustSweep, .adjustLength]
      ∧ sequencerEvents false 6 = [.adjustLength]
      ∧ sequencerEvents true 7 = [.adjustEnvelope]
      ∧ sequencerEvents false 7 = [.adjustEnvelope])
    ∧ (a.soundControl = false → ∀ n, APU.step a n = a) := by
  refine ⟨?_, ⟨rfl, rfl, rfl, rfl, rfl, rfl, rfl, rfl, rfl, rfl, rfl, rfl, rfl, rfl, rfl, rfl⟩,
    fun h n => step_off a n h⟩
  intro hon hc hs m k hk
  obtain ⟨p1, p2, p3, p4⟩ := cycles_periods m a hc hs
  rw [step_on a _ hon, cycles_add, tone_run_append, tone_run_append]
  generalize APU.cycles a (8192 * m) = b at p1 p2 p3 p4
  obtain ⟨q1, q2, q3, q4⟩ := cycles_plain k b (by rw [p1]; omega)
  refine ⟨by rw [q2, p2], by rw [q1, p1], by rw [q3, p3], by rw [q4, p4]⟩

/-- C31, witness: with the master enable set at reset, the sequencer is at
step 3 after 3 * 8192 cycles and at step 0 again after 8 * 8192; with the
master enable clear any number of cycles leaves the unit unchanged. -/
theorem frame_sequencer_every_8192_cycles_witness :
    soundOnAPU.soundControl = true ∧ soundOnAPU.clockCounter = 8192 ∧ soundOnAPU.clockStep < 8
    ∧ (APU.step soundOnAPU (8192 * 3 + 0)).clockStep = (soundOnAPU.clockStep + 3) % 8
    ∧ (APU.step soundOnAPU (8192 * 8 + 0)).clockStep = (soundOnAPU.clockStep + 8) % 8
    ∧ (APU.step soundOnAPU (8192 * 0 + 8191)).clockStep = (soundOnAPU.clockStep + 0) % 8
    ∧ soundOffAPU.soundControl = false
    ∧ ∀ n, APU.step soundOffAPU n = soundOffAPU :=
  ⟨rfl, rfl, by decide,
    ((frame_sequencer_every_8192_cycles soundOnAPU).1 rfl rfl (by decide) 3 0 (by decide)).1,
    ((frame_sequencer_every_8192_cycles soundOnAPU).1 rfl rfl (by decide) 8 0 (by decide)).1,
    ((frame_sequencer_every_8192_cycles soundOnAPU).1 rfl rfl (by decide) 0 8191 (by decide)).1,
    rfl, (frame_sequencer_every_8192_cycles soundOffAPU).2.2 rfl⟩

/-! ## C32 -/

theorem flagBit_AFlo_hi (s : Machine) (b : Nat) : (flagBit s .AFlo b).AF.hi = s.AF.hi := by
  rw [flagBit_AFlo]

theorem CPU_CP_eq (s : Machine) (b : Nat) :
    CPU_CP s b = { s with AF := { s.AF with lo := subFlags s.AF.hi b } } := by
  unfold CPU_CP subFlags
  simp only [flagBit_AFlo_hi, apply_ite Machine.AF, apply_ite Register.hi, ite_self,
    show (clearF s).AF.hi = s.AF.hi from rfl]
  by_cases h1 : toByte ((s.AF.hi : Int) - (b : Int)) = 0 <;>
  by_cases h2 : ((s.AF.hi &&& 0xF : Nat) : Int) - ((b &&& 0xF : Nat) : Int) < 0 <;>
  by_cases h3 : s.AF.hi < b <;>
  simp only [h1, h2, h3, if_true, if_false, flagBit_AFlo, clearF, Machine.set8] <;>
  simp +decide [FLAG_Z, FLAG_HC, FLAG_C, FLAG_N]

theorem CPU_SUB_lo_eq (s : Machine) (b : Nat) :
    (CPU_SUB s b false).AF.lo = subFlags s.AF.hi b := by
  have e : ((s.AF.hi : Int) - (b : Int) < 0) ↔ s.AF.hi < b := by omega
  unfold CPU_SUB subFlags
  simp only [flagBit_AFlo, clearF, Machine.set8, Bool.false_and, Bool.false_eq_true, if_false,
    Nat.cast_zero, sub_zero, e]
  split_ifs <;> simp +decide [FLAG_Z, FLAG_HC, FLAG_C, FLAG_N]

theorem subFlags_bits (a b : Nat) (ha : a < 256) (hb : b < 256) :
    (isFlagged (subFlags a b) FLAG_Z = true ↔ a = b)
    ∧ isFlagged (subFlags a b) FLAG_N = true
    ∧ (isFlagged (subFlags a b) FLAG_HC = true ↔ (a &&& 0xF) < (b &&& 0xF))
    ∧ (isFlagged (subFlags a b) FLAG_C = true ↔ a < b)
    ∧ subFlags a b &&& 0x0F = 0 := by
  unfold subFlags toByte
  refine ⟨?_, ?_, ?_, ?_, ?_⟩ <;> split_ifs <;>
    simp +decide [FLAG_Z, FLAG_HC, FLAG_C, FLAG_N, isFlagged] <;> omega

/-- C32: for every accumulator value and operand byte `b`, `CPU_CP` changes
nothing but F, and F is exactly the F that `CPU_SUB` without carry leaves from
the same state: Z iff A = b, N set, H iff (A & 0xF) < (b & 0xF), C iff A < b,
the low nibble zero; opcode 0xB8 (CP B) runs it on register B. -/
theorem CPU_CP_flags_of_SUB (s : Machine) (b : Nat) (fuel : Nat)
    (ha : s.AF.hi < 256) (hb : b < 256) :
    CPU_CP s b = { s with AF := { s.AF with lo := (CPU_SUB s b false).AF.lo } }
    ∧ (CPU_CP s b).AF.hi = s.AF.hi
    ∧ (CPU_CP s b).AF.lo = (CPU_SUB s b false).AF.lo
    ∧ (isFlagged (CPU_CP s b).AF.lo FLAG_Z = true ↔ s.AF.hi = b)
    ∧ isFlagged (CPU_CP s b).AF.lo FLAG_N = true
    ∧ (isFlagged (CPU_CP s b).AF.lo FLAG_HC = true ↔ (s.AF.hi &&& 0xF) < (b &&& 0xF))
    ∧ (isFlagged (CPU_CP s b).AF.lo FLAG_C = true ↔ s.AF.hi < b)
    ∧ (CPU_CP s b).AF.lo &&& 0x0F = 0
    ∧ executeOpcode (fuel + 1) s 0xB8 = .done (CPU_CP s s.BC.hi) 4 := by
  have e : (CPU_CP s b).AF.lo = subFlags s.AF.hi b := by rw [CPU_CP_eq]
  have h := subFlags_bits s.AF.hi b ha hb
  refine ⟨?_, ?_, ?_, ?_, ?_, ?_, ?_, ?_, rfl⟩
  · rw [CPU_CP_eq, CPU_SUB_lo_eq]
  · rw [CPU_CP_eq]
  · rw [e, CPU_SUB_lo_eq]
  · rw [e]; exact h.1
  · rw [e]; exact h.2.1
  · rw [e]; exact h.2.2.1
  · rw [e]; exact h.2.2.2.1
  · rw [e]; exact h.2.2.2.2

/-- C32, witness: A = 0x3C and b = 0x3C leave A = 0x3C and F = 0xC0 (Z and N),
which is the F of SUB A,0x3C. -/
theorem CPU_CP_flags_of_SUB_witness :
    cpMachine.AF.hi < 256 ∧ 0x3C < 256
    ∧ (CPU_CP cpMachine 0x3C).AF.hi = 0x3C
    ∧ (CPU_CP cpMachine 0x3C).AF.lo = (CPU_SUB cpMachine 0x3C false).AF.lo
    ∧ (CPU_CP cpMachine 0x3C).AF.lo = 0xC0 :=
  have h := CPU_CP_flags_of_SUB cpMachine 0x3C 0 (by decide) (by decide)
  ⟨by decide, by decide, h.2.1, h.2.2.1, by decide⟩

/-! ## Lemmas on rotates and shifts -/

theorem carry_16 : ((16 &&& 16 != 0) = true) = True := by decide

theorem carry_0 : ((0 &&& 16 != 0) = true) = False := by decide

theorem CPU_RLC_local (s : Machine) (r : Reg8) (hr : r.isGeneral = true) :
    CPU_RLC s r = (s.set8 r (CPU_RLC (regMachine (s.get8 r) 0) .AFhi).AF.hi).set8 .AFlo
      (CPU_RLC (regMachine (s.get8 r) 0) .AFhi).AF.lo := by
  cases r <;> first
    | exact absurd hr (by decide)
    | (simp only [CPU_RLC, regMachine, flagBit, clearF, Machine.set8, Machine.get8]
       split_ifs <;> rfl)

theorem CPU_RRC_local (s : Machine) (r : Reg8) (hr : r.isGeneral = true) :
    CPU_RRC s r = (s.set8 r (CPU_RRC (regMachine (s.get8 r) 0) .AFhi).AF.hi).set8 .AFlo
      (CPU_RRC (regMachine (s.get8 r) 0) .AFhi).AF.lo := by
  cases r <;> first
    | exact absurd hr (by decide)
    | (simp only [CPU_RRC, regMachine, flagBit, clearF, Machine.set8, Machine.get8]
       split_ifs <;> rfl)

theorem CPU_SLA_local (s : Machine) (r : Reg8) (hr : r.isGeneral = true) :
    CPU_SLA s r = (s.set8 r (CPU_SLA (regMachine (s.get8 r) 0) .AFhi).AF.hi).set8 .AFlo
      (CPU_SLA (regMachine (s.get8 r) 0) .AFhi).AF.lo := by
  cases r <;> first
    | exact absurd hr (by decide)
    | (simp only [CPU_SLA, regMachine, flagBit, clearF, Machine.set8, Machine.get8]
       split_ifs <;> rfl)

set_option maxHeartbeats 1000000 in
theorem CPU_SRA_local (s : Machine) (r : Reg8) (hr : r.isGeneral = true) :
    CPU_SRA s r = (s.set8 r (CPU_SRA (regMachine (s.get8 r) 0) .AFhi).AF.hi).set8 .AFlo
      (CPU_SRA (regMachine (s.get8 r) 0) .AFhi).AF.lo := by
  cases r <;> first
    | exact absurd hr (by decide)
    | (simp only [CPU_SRA, regMachine, flagBit, clearF, Machine.set8, Machine.get8]
       split_ifs <;> rfl)

theorem CPU_SRL_local (s : Machine) (r : Reg8) (hr : r.isGeneral = true) :
    CPU_SRL s r = (s.set8 r (CPU_SRL (regMachine (s.get8 r) 0) .AFhi).AF.hi).set8 .AFlo
      (CPU_SRL (regMachine (s.get8 r) 0) .AFhi).AF.lo := by
  cases r <;> first
    | exact absurd hr (by decide)
    | (simp only [CPU_SRL, regMachine, flagBit, clearF, Machine.set8, Machine.get8]
       split_ifs <;> rfl)

theorem CPU_SWAP_local (s : Machine) (r : Reg8) (hr : r.isGeneral = true) :
    CPU_SWAP s r = (s.set8 r (CPU_SWAP (regMachine (s.get8 r) 0) .AFhi).AF.hi).set8 .AFlo
      (CPU_SWAP (regMachine (s.get8 r) 0) .AFhi).AF.lo := by
  cases r <;> first
    | exact absurd hr (by decide)
    | (simp only [CPU_SWAP, regMachine, flagBit, clearF, Machine.set8, Machine.get8]
       split_ifs <;> rfl)

theorem CPU_RL_local (s : Machine) (r : Reg8) (hr : r.isGeneral = true) :
    CPU_RL s r
      = (s.set8 r (CPU_RL (regMachine (s.get8 r) (carryByte (isFlagged s.AF.lo FLAG_C)))
            .AFhi).AF.hi).set8 .AFlo
          (CPU_RL (regMachine (s.get8 r) (carryByte (isFlagged s.AF.lo FLAG_C))) .AFhi).AF.lo := by
  cases hc : isFlagged s.AF.lo FLAG_C <;>
  cases r <;> first
    | exact absurd hr (by decide)
    | (simp only [CPU_RL, regMachine, flagBit, clearF, Machine.set8, Machine.get8, hc, carryByte]
       simp only [isFlagged, FLAG_C, Bool.false_eq_true, if_false, if_true, carry_16, carry_0]
       split_ifs <;> rfl)

theorem CPU_RR_local (s : Machine) (r : Reg8) (hr : r.isGeneral = true) :
    CPU_RR s r
      = (s.set8 r (CPU_RR (regMachine (s.get8 r) (carryByte (isFlagged s.AF.lo FLAG_C)))
            .AFhi).AF.hi).set8 .AFlo
          (CPU_RR (regMachine (s.get8 r) (carryByte (isFlagged s.AF.lo FLAG_C))) .AFhi).AF.lo := by
  cases hc : isFlagged s.AF.lo FLAG_C <;>
  cases r <;> first
    | exact absurd hr (by decide)
    | (simp only [CPU_RR, regMachine, flagBit, clearF, Machine.set8, Machine.get8, hc, carryByte]
       simp only [isFlagged, FLAG_C, Bool.false_eq_true, if_false, if_true, carry_16, carry_0]
       split_ifs <;> rfl)

set_option maxRecDepth 100000 in
theorem CPU_RLC_table : ∀ v < 256,
    (CPU_RLC (regMachine v 0) .AFhi).AF.hi = rlcByte v
    ∧ (CPU_RLC (regMachine v 0) .AFhi).AF.lo = shiftFlags (rlcByte v) (isFlagged v 0x80) := by
  decide

set_option maxRecDepth 100000 in
theorem CPU_RRC_table : ∀ v < 256,
    (CPU_RRC (regMachine v 0) .AFhi).AF.hi = rrcByte v
    ∧ (CPU_RRC (regMachine v 0) .AFhi).AF.lo = shiftFlags (rrcByte v) (isFlagged v 0x01) := by
  decide

set_option maxRecDepth 100000 in
theorem CPU_SLA_table : ∀ v < 256,
    (CPU_SLA (regMachine v 0) .AFhi).AF.hi = slaByte v
    ∧ (CPU_SLA (regMachine v 0) .AFhi).AF.lo = shiftFlags (slaByte v) (isFlagged v 0x80) := by
  decide

set_option maxRecDepth 100000 in
theorem CPU_SRA_table : ∀ v < 256,
    (CPU_SRA (regMachine v 0) .AFhi).AF.hi = sraByte v
    ∧ (CPU_SRA (regMachine v 0) .AFhi).AF.lo = shiftFlags (sraByte v) (isFlagged v 0x01) := by
  decide

set_option maxRecDepth 100000 in
theorem CPU_SRL_table : ∀ v < 256,
    (CPU_SRL (regMachine v 0) .AFhi).AF.hi = srlByte v
    ∧ (CPU_SRL (regMachine v 0) .AFhi).AF.lo = shiftFlags (srlByte v) (isFlagged v 0x01) := by
  decide

set_option maxRecDepth 100000 in
theorem CPU_SWAP_table : ∀ v < 256,
    (CPU_SWAP (regMachine v 0) .AFhi).AF.hi = swapByte v
    ∧ (CPU_SWAP (regMachine v 0) .AFhi).AF.lo = shiftFlags (swapByte v) false := by
  decide

set_option maxRecDepth 100000 in
theorem CPU_RL_table : ∀ v < 256, ∀ c : Bool,
    (CPU_RL (regMachine v (carryByte c)) .AFhi).AF.hi = rlByte v (carryIn c)
    ∧ (CPU_RL (regMachine v (carryByte c)) .AFhi).AF.lo
        = shiftFlags (rlByte v (carryIn c)) (isFlagged v 0x80) := by
  decide

set_option maxRecDepth 100000 in
theorem CPU_RR_table : ∀ v < 256, ∀ c : Bool,
    (CPU_RR (regMachine v (carryByte c)) .AFhi).AF.hi = rrByte v (carryIn c)
    ∧ (CPU_RR (regMachine v (carryByte c)) .AFhi).AF.lo
        = shiftFlags (rrByte v (carryIn c)) (isFlagged v 0x01) := by
  decide

theorem shiftFlags_bits (x : Nat) (k : Bool) :
    (isFlagged (shiftFlags x k) FLAG_Z = true ↔ x = 0)
    ∧ isFlagged (shiftFlags x k) FLAG_N = false
    ∧ isFlagged (shiftFlags x k) FLAG_HC = false
    ∧ isFlagged (shiftFlags x k) FLAG_C = k
    ∧ shiftFlags x k &&& 0x0F = 0 := by
  unfold shiftFlags
  cases k <;> refine ⟨?_, ?_, ?_, ?_, ?_⟩ <;> split_ifs <;> simp_all +decide

/-! ## Lemmas on register references -/

theorem get8_set8_AFlo (s : Machine) (r : Reg8) (f : Nat) (hr : r.isGeneral = true) :
    (s.set8 .AFlo f).get8 r = s.get8 r := by
  cases r <;> first | exact absurd hr (by decide) | rfl

theorem get8_set8_ne (s : Machine) (r q : Reg8) (v : Nat) (h : q ≠ r) :
    (s.set8 r v).get8 q = s.get8 q := by
  cases r <;> cases q <;> first | exact absurd rfl h | rfl

theorem set8_AFlo_lo (s : Machine) (f : Nat) : (s.set8 .AFlo f).AF.lo = f := rfl

theorem set8_general_lo (s : Machine) (r : Reg8) (v : Nat) (hr : r.isGeneral = true) :
    (s.set8 r v).AF.lo = s.AF.lo := by
  cases r <;> first | exact absurd hr (by decide) | rfl

theorem set8_pair_reads (s : Machine) (r : Reg8) (x f : Nat) (hr : r.isGeneral = true) :
    ((s.set8 r x).set8 .AFlo f).get8 r = x
    ∧ ((s.set8 r x).set8 .AFlo f).AF.lo = f
    ∧ (∀ q : Reg8, q ≠ r → q.isGeneral = true → ((s.set8 r x).set8 .AFlo f).get8 q = s.get8 q)
    ∧ ((s.set8 r x).set8 .AFlo f).SP = s.SP
    ∧ ((s.set8 r x).set8 .AFlo f).PC = s.PC := by
  refine ⟨?_, rfl, ?_, ?_, ?_⟩
  · rw [get8_set8_AFlo _ _ _ hr, get8_set8]
  · intro q hq hg
    rw [get8_set8_AFlo _ _ _ hg, get8_set8_ne _ _ _ _ hq]
  · cases r <;> rfl
  · cases r <;> rfl

/-! ## C33 -/

set_option maxRecDepth 100000 in
/-- C33: for each of the seven registers r holding a byte v, and carry-in c
(the old C flag), the CB-prefixed operations leave in r: RLC the rotation left
by one (C = old bit 7), RL `(v << 1 | c) mod 256` (C = old bit 7), RRC the
rotation right by one (C = old bit 0), RR `c << 7 | v >> 1` (C = old bit 0),
SLA `(v << 1) mod 256` (C = old bit 7), SRA `(v >> 1) | (v & 0x80)` (C = old
bit 0), SRL `v >> 1` (C = old bit 0); F has Z iff the result is 0, N and H
clear and that C; nothing else of the machine changes; the extended opcodes
0x00, 0x10, 0x08, 0x18, 0x20, 0x28 and 0x38 run them on register B. -/
theorem CB_rotates_and_shifts (s : Machine) (r : Reg8)
    (hr : r.isGeneral = true) (hv : s.get8 r < 256) :
    CPU_RLC s r = (s.set8 r (rlcByte (s.get8 r))).set8 .AFlo
        (shiftFlags (rlcByte (s.get8 r)) (isFlagged (s.get8 r) 0x80))
    ∧ CPU_RL s r = (s.set8 r (rlByte (s.get8 r) (carryIn (isFlagged s.AF.lo FLAG_C)))).set8 .AFlo
        (shiftFlags (rlByte (s.get8 r) (carryIn (isFlagged s.AF.lo FLAG_C)))
          (isFlagged (s.get8 r) 0x80))
    ∧ CPU_RRC s r = (s.set8 r (rrcByte (s.get8 r))).set8 .AFlo
        (shiftFlags (rrcByte (s.get8 r)) (isFlagged (s.get8 r) 0x01))
    ∧ CPU_RR s r = (s.set8 r (rrByte (s.get8 r) (carryIn (isFlagged s.AF.lo FLAG_C)))).set8 .AFlo
        (shiftFlags (rrByte (s.get8 r) (carryIn (isFlagged s.AF.lo FLAG_C)))
          (isFlagged (s.get8 r) 0x01))
    ∧ CPU_SLA s r = (s.set8 r (slaByte (s.get8 r))).set8 .AFlo
        (shiftFlags (slaByte (s.get8 r)) (isFlagged (s.get8 r) 0x80))
    ∧ CPU_SRA s r = (s.set8 r (sraByte (s.get8 r))).set8 .AFlo
        (shiftFlags (sraByte (s.get8 r)) (isFlagged (s.get8 r) 0x01))
    ∧ CPU_SRL s r = (s.set8 r (srlByte (s.get8 r))).set8 .AFlo
        (shiftFlags (srlByte (s.get8 r)) (isFlagged (s.get8 r) 0x01))
    ∧ (∀ (x : Nat) (k : Bool),
        (isFlagged (shiftFlags x k) FLAG_Z = true ↔ x = 0)
        ∧ isFlagged (shiftFlags x k) FLAG_N = false
        ∧ isFlagged (shiftFlags x k) FLAG_HC = false
        ∧ isFlagged (shiftFlags x k) FLAG_C = k)
    ∧ (∀ x f : Nat,
        ((s.set8 r x).set8 .AFlo f).get8 r = x
        ∧ ((s.set8 r x).set8 .AFlo f).AF.lo = f
        ∧ (∀ q : Reg8, q ≠ r → q.isGeneral = true →
            ((s.set8 r x).set8 .AFlo f).get8 q = s.get8 q)
        ∧ ((s.set8 r x).set8 .AFlo f).SP = s.SP
        ∧ ((s.set8 r x).set8 .AFlo f).PC = s.PC)
    ∧ (executeExtendedOpcode s 0x00 = .done (CPU_RLC s .BChi) 8
      ∧ executeExtendedOpcode s 0x10 = .done (CPU_RL s .BChi) 8
      ∧ executeExtendedOpcode s 0x08 = .done (CPU_RRC s .BChi) 8
      ∧ executeExtendedOpcode s 0x18 = .done (CPU_RR s .BChi) 8
      ∧ executeExtendedOpcode s 0x20 = .done (CPU_SLA s .BChi) 8
      ∧ executeExtendedOpcode s 0x28 = .done (CPU_SRA s .BChi) 8
      ∧ executeExtendedOpcode s 0x38 = .done (CPU_SRL s .BChi) 8) := by
  refine ⟨?_, ?_, ?_, ?_, ?_, ?_, ?_, ?_, ?_, ⟨rfl, rfl, rfl, rfl, rfl, rfl, rfl⟩⟩
  · rw [CPU_RLC_local s r hr, (CPU_RLC_table _ hv).1, (CPU_RLC_table _ hv).2]
  · rw [CPU_RL_local s r hr, (CPU_RL_table _ hv _).1, (CPU_RL_table _ hv _).2]
  · rw [CPU_RRC_local s r hr, (CPU_RRC_table _ hv).1, (CPU_RRC_table _ hv).2]
  · rw [CPU_RR_local s r hr, (CPU_RR_table _ hv _).1, (CPU_RR_table _ hv _).2]
  · rw [CPU_SLA_local s r hr, (CPU_SLA_table _ hv).1, (CPU_SLA_table _ hv).2]
  · rw [CPU_SRA_local s r hr, (CPU_SRA_table _ hv).1, (CPU_SRA_table _ hv).2]
  · rw [CPU_SRL_local s r hr, (CPU_SRL_table _ hv).1, (CPU_SRL_table _ hv).2]
  · intro x k
    have h := shiftFlags_bits x k
    exact ⟨h.1, h.2.1, h.2.2.1, h.2.2.2.1⟩
  · intro x f
    exact set8_pair_reads s r x f hr

set_option maxRecDepth 100000 in
/-- C33, witness: on B = 0x85 with C set, RLC leaves 0x0B, RL 0x0B, RRC 0xC2,
RR 0xC2, SLA 0x0A, SRA 0xC2 and SRL 0x42, each with C set and Z, N, H clear. -/
theorem CB_rotates_and_shifts_witness :
    Reg8.BChi.isGeneral = true ∧ rotMachine.get8 .BChi < 256
    ∧ CPU_RLC rotMachine .BChi = (rotMachine.set8 .BChi 0x0B).set8 .AFlo 0x10
    ∧ CPU_RL rotMachine .BChi = (rotMachine.set8 .BChi 0x0B).set8 .AFlo 0x10
    ∧ CPU_RRC rotMachine .BChi = (rotMachine.set8 .BChi 0xC2).set8 .AFlo 0x10
    ∧ CPU_RR rotMachine .BChi = (rotMachine.set8 .BChi 0xC2).set8 .AFlo 0x10
    ∧ CPU_SLA rotMachine .BChi = (rotMachine.set8 .BChi 0x0A).set8 .AFlo 0x10
    ∧ CPU_SRA rotMachine .BChi = (rotMachine.set8 .BChi 0xC2).set8 .AFlo 0x10
    ∧ CPU_SRL rotMachine .BChi = (rotMachine.set8 .BChi 0x42).set8 .AFlo 0x10 :=
  have h := CB_rotates_and_shifts rotMachine .BChi (by decide) (by decide)
  ⟨by decide, by decide, h.1, h.2.1, h.2.2.1, h.2.2.2.1, h.2.2.2.2.1, h.2.2.2.2.2.1,
    h.2.2.2.2.2.2.1⟩

/-! ## C34 -/

set_option maxRecDepth 100000 in
theorem inc_flag_bytes : ∀ f < 256,
    ((((f ||| FLAG_Z) % 256 &&& 0xF0) &&& (0xFF ^^^ FLAG_N) &&& 0xF0) ||| FLAG_HC) % 256 &&& 0xF0
        = (f &&& 0x10) + 0x80 + 0x20
    ∧ ((((f ||| FLAG_Z) % 256 &&& 0xF0) &&& (0xFF ^^^ FLAG_N) &&& 0xF0) &&& (0xFF ^^^ FLAG_HC)) &&& 0xF0
        = (f &&& 0x10) + 0x80 + 0
    ∧ ((((f &&& (0xFF ^^^ FLAG_Z)) &&& 0xF0) &&& (0xFF ^^^ FLAG_N) &&& 0xF0) ||| FLAG_HC) % 256 &&& 0xF0
        = (f &&& 0x10) + 0 + 0x20
    ∧ ((((f &&& (0xFF ^^^ FLAG_Z)) &&& 0xF0) &&& (0xFF ^^^ FLAG_N) &&& 0xF0) &&& (0xFF ^^^ FLAG_HC)) &&& 0xF0
        = (f &&& 0x10) + 0 + 0 := by
  decide

set_option maxRecDepth 100000 in
theorem dec_flag_bytes : ∀ f < 256,
    ((((f ||| FLAG_Z) % 256 &&& 0xF0) ||| FLAG_N) % 256 &&& 0xF0 ||| FLAG_HC) % 256 &&& 0xF0
        = (f &&& 0x10) + 0x40 + 0x80 + 0x20
    ∧ ((((f ||| FLAG_Z) % 256 &&& 0xF0) ||| FLAG_N) % 256 &&& 0xF0 &&& (0xFF ^^^ FLAG_HC)) &&& 0xF0
        = (f &&& 0x10) + 0x40 + 0x80 + 0
    ∧ ((((f &&& (0xFF ^^^ FLAG_Z)) &&& 0xF0) ||| FLAG_N) % 256 &&& 0xF0 ||| FLAG_HC) % 256 &&& 0xF0
        = (f &&& 0x10) + 0x40 + 0 + 0x20
    ∧ ((((f &&& (0xFF ^^^ FLAG_Z)) &&& 0xF0) ||| FLAG_N) % 256 &&& 0xF0 &&& (0xFF ^^^ FLAG_HC)) &&& 0xF0
        = (f &&& 0x10) + 0x40 + 0 + 0 := by
  decide

theorem CPU_INC_eq (s : Machine) (r : Reg8) (hr : r.isGeneral = true) (hF : s.AF.lo < 256) :
    CPU_INC s r = (s.set8 r ((s.get8 r + 1) % 256)).set8 .AFlo
      (incFlags s.AF.lo ((s.get8 r + 1) % 256)) := by
  have t := inc_flag_bytes s.AF.lo hF
  cases r <;> first
    | exact absurd hr (by decide)
    | (simp only [CPU_INC, incFlags, Machine.set8, Machine.get8, flagBit_AFlo, unflagBit_AFlo]
       split_ifs <;> simp only [t])

theorem CPU_DEC_eq (s : Machine) (r : Reg8) (hr : r.isGeneral = true) (hF : s.AF.lo < 256) :
    CPU_DEC s r = (s.set8 r ((s.get8 r + 256 - 1) % 256)).set8 .AFlo
      (decFlags s.AF.lo ((s.get8 r + 256 - 1) % 256)) := by
  have t := dec_flag_bytes s.AF.lo hF
  unfold CPU_DEC decFlags
  generalize (s.get8 r + 256 - 1) % 256 = x
  cases r <;> first
    | exact absurd hr (by decide)
    | (simp only [Machine.set8, Machine.get8, flagBit_AFlo, unflagBit_AFlo]
       split_ifs <;> simp only [t])

set_option maxRecDepth 100000 in
theorem and_0x10_cases : ∀ f < 256, f &&& 0x10 = 0 ∨ f &&& 0x10 = 0x10 := by decide

set_option maxRecDepth 100000 in
theorem dec_low_nibble : ∀ v < 256, (((v + 256 - 1) % 256) &&& 0x0F = 0x0F ↔ v &&& 0x0F = 0) := by
  decide

theorem incFlags_bits (f res : Nat) (hF : f < 256) :
    (isFlagged (incFlags f res) FLAG_Z = true ↔ res = 0)
    ∧ isFlagged (incFlags f res) FLAG_N = false
    ∧ (isFlagged (incFlags f res) FLAG_HC = true ↔ res &&& 0x0F = 0)
    ∧ isFlagged (incFlags f res) FLAG_C = isFlagged f FLAG_C
    ∧ incFlags f res &&& 0x0F = 0 := by
  unfold incFlags isFlagged FLAG_Z FLAG_N FLAG_HC FLAG_C
  rcases and_0x10_cases f hF with h | h <;> rw [h] <;>
  refine ⟨?_, ?_, ?_, ?_, ?_⟩ <;> split_ifs <;>
  first | (simp +decide [*]; done) | (subst_vars; simp_all +decide)

theorem decFlags_bits (f res : Nat) (hF : f < 256) :
    (isFlagged (decFlags f res) FLAG_Z = true ↔ res = 0)
    ∧ isFlagged (decFlags f res) FLAG_N = true
    ∧ (isFlagged (decFlags f res) FLAG_HC = true ↔ res &&& 0x0F = 0x0F)
    ∧ isFlagged (decFlags f res) FLAG_C = isFlagged f FLAG_C
    ∧ decFlags f res &&& 0x0F = 0 := by
  unfold decFlags isFlagged FLAG_Z FLAG_N FLAG_HC FLAG_C
  rcases and_0x10_cases f hF with h | h <;> rw [h] <;>
  refine ⟨?_, ?_, ?_, ?_, ?_⟩ <;> split_ifs <;>
  first | (simp +decide [*]; done) | (subst_vars; simp_all +decide)

/-- C34: for each of the seven registers r holding a byte v, and every flag
byte: `CPU_INC` leaves r = (v + 1) mod 256, Z iff the result is 0, N clear,
H iff the low nibble of the result is 0 and C as it was; `CPU_DEC` leaves
r = (v - 1) mod 256, Z iff the result is 0, N set, H iff the low nibble of v
was 0 and C as it was; the other registers are kept, and opcodes 0x04 and 0x05
run them on register B. -/
theorem INC_DEC_result_and_flags (s : Machine) (r : Reg8) (fuel : Nat)
    (hr : r.isGeneral = true) (hv : s.get8 r < 256) (hF : s.AF.lo < 256) :
    ((CPU_INC s r).get8 r = (s.get8 r + 1) % 256
      ∧ (isFlagged (CPU_INC s r).AF.lo FLAG_Z = true ↔ (s.get8 r + 1) % 256 = 0)
      ∧ isFlagged (CPU_INC s r).AF.lo FLAG_N = false
      ∧ (isFlagged (CPU_INC s r).AF.lo FLAG_HC = true ↔ ((s.get8 r + 1) % 256) &&& 0x0F = 0)
      ∧ isFlagged (CPU_INC s r).AF.lo FLAG_C = isFlagged s.AF.lo FLAG_C
      ∧ (∀ q : Reg8, q ≠ r → q.isGeneral = true → (CPU_INC s r).get8 q = s.get8 q))
    ∧ (((CPU_DEC s r).get8 r : Int) = ((s.get8 r : Int) - 1) % 256
      ∧ (isFlagged (CPU_DEC s r).AF.lo FLAG_Z = true ↔ ((s.get8 r : Int) - 1) % 256 = 0)
      ∧ isFlagged (CPU_DEC s r).AF.lo FLAG_N = true
      ∧ (isFlagged (CPU_DEC s r).AF.lo FLAG_HC = true ↔ s.get8 r &&& 0x0F = 0)
      ∧ isFlagged (CPU_DEC s r).AF.lo FLAG_C = isFlagged s.AF.lo FLAG_C
      ∧ (∀ q : Reg8, q ≠ r → q.isGeneral = true → (CPU_DEC s r).get8 q = s.get8 q))
    ∧ executeOpcode (fuel + 1) s 0x04 = .done (CPU_INC s .BChi) 4
    ∧ executeOpcode (fuel + 1) s 0x05 = .done (CPU_DEC s .BChi) 4 := by
  have i := incFlags_bits s.AF.lo ((s.get8 r + 1) % 256) hF
  have d := decFlags_bits s.AF.lo ((s.get8 r + 256 - 1) % 256) hF
  have ei : (CPU_INC s r).AF.lo = incFlags s.AF.lo ((s.get8 r + 1) % 256) := by
    rw [CPU_INC_eq s r hr hF, set8_AFlo_lo]
  have ed : (CPU_DEC s r).AF.lo = decFlags s.AF.lo ((s.get8 r + 256 - 1) % 256) := by
    rw [CPU_DEC_eq s r hr hF, set8_AFlo_lo]
  have gi : (CPU_INC s r).get8 r = (s.get8 r + 1) % 256 := by
    rw [CPU_INC_eq s r hr hF, get8_set8_AFlo _ _ _ hr, get8_set8]
  have gd : (CPU_DEC s r).get8 r = (s.get8 r + 256 - 1) % 256 := by
    rw [CPU_DEC_eq s r hr hF, get8_set8_AFlo _ _ _ hr, get8_set8]
  refine ⟨⟨gi, ?_, ?_, ?_, ?_, ?_⟩, ⟨?_, ?_, ?_, ?_, ?_, ?_⟩, rfl, rfl⟩
  · rw [ei]; exact i.1
  · rw [ei]; exact i.2.1
  · rw [ei]; exact i.2.2.1
  · rw [ei]; exact i.2.2.2.1
  · intro q hq hg
    rw [CPU_INC_eq s r hr hF, get8_set8_AFlo _ _ _ hg, get8_set8_ne _ _ _ _ hq]
  · rw [gd]; omega
  · rw [ed]; exact d.1.trans (by omega)
  · rw [ed]; exact d.2.1
  · rw [ed]; exact d.2.2.1.trans (dec_low_nibble _ hv)
  · rw [ed]; exact d.2.2.2.1
  · intro q hq hg
    rw [CPU_DEC_eq s r hr hF, get8_set8_AFlo _ _ _ hg, get8_set8_ne _ _ _ _ hq]

/-- C34, witness: INC B on B = 0x0F with C set gives B = 0x10, H set, Z clear
and C still set. -/
theorem INC_DEC_result_and_flags_witness :
    Reg8.BChi.isGeneral = true ∧ incMachine.get8 .BChi < 256 ∧ incMachine.AF.lo < 256
    ∧ (CPU_INC incMachine .BChi).get8 .BChi = 0x10
    ∧ isFlagged (CPU_INC incMachine .BChi).AF.lo FLAG_HC = true
    ∧ isFlagged (CPU_INC incMachine .BChi).AF.lo FLAG_Z = false
    ∧ isFlagged (CPU_INC incMachine .BChi).AF.lo FLAG_C = true :=
  have h := INC_DEC_result_and_flags incMachine .BChi 0 (by decide) (by decide) (by decide)
  ⟨by decide, by decide, by decide, h.1.1.trans (by decide), h.1.2.2.2.1.mpr (by decide),
    by decide, h.1.2.2.2.2.1.trans (by decide)⟩

/-! ## C35 -/

set_option maxRecDepth 1000000 in
set_option maxHeartbeats 4000000 in
theorem daa_after_sub_table : ∀ a < 256, ∀ k < 8, daaSubLine a k = true := by
  decide!

set_option maxRecDepth 1000000 in
set_option maxHeartbeats 4000000 in
theorem bcd_difference_table : ∀ da < 100, ∀ db < 100, bcdSubLine da db = true := by
  decide!

theorem CPU_SUB_AF_eq (s : Machine) (b : Nat) :
    (CPU_SUB s b false).AF
      = { hi := toByte ((s.AF.hi : Int) - (b : Int)), lo := subFlags s.AF.hi b } := by
  have e : ((s.AF.hi : Int) - (b : Int) < 0) ↔ s.AF.hi < b := by omega
  unfold CPU_SUB subFlags
  simp only [flagBit_AFlo, clearF, Machine.set8, Bool.false_and, Bool.false_eq_true, if_false,
    Nat.cast_zero, sub_zero, e]
  split_ifs <;> simp +decide [FLAG_Z, FLAG_HC, FLAG_C, FLAG_N]

theorem CPU_DAA_after_sub (a : Nat) (z h c : Bool) (ha : a < 256) :
    (CPU_DAA { AF := { hi := a, lo := 0x40 + (if z then 0x80 else 0) + (if h then 0x20 else 0)
        + (if c then 0x10 else 0) } }).AF
      = { hi := daaSubRuleA a h c,
          lo := 0x40 + (if daaSubRuleA a h c = 0 then 0x80 else 0) + (if c then 0x10 else 0) } := by
  have e : ∀ r : Register, ∀ x y : Nat, (r.hi == x && r.lo == y) = true → r = { hi := x, lo := y } := by
    intro r x y hxy
    cases r
    simp only [Bool.and_eq_true, beq_iff_eq] at hxy
    simp only [hxy.1, hxy.2]
  cases z <;> cases h <;> cases c
  · exact e _ _ _ (daa_after_sub_table a ha 0 (by decide))
  · exact e _ _ _ (daa_after_sub_table a ha 1 (by decide))
  · exact e _ _ _ (daa_after_sub_table a ha 2 (by decide))
  · exact e _ _ _ (daa_after_sub_table a ha 3 (by decide))
  · exact e _ _ _ (daa_after_sub_table a ha 4 (by decide))
  · exact e _ _ _ (daa_after_sub_table a ha 5 (by decide))
  · exact e _ _ _ (daa_after_sub_table a ha 6 (by decide))
  · exact e _ _ _ (daa_after_sub_table a ha 7 (by decide))

set_option maxRecDepth 100000 in
/-- C35: for packed-BCD bytes a and b with decimal values da and db below 100,
SUB A,b on A = a followed by DAA leaves A equal to the packed-BCD byte of
(da - db) mod 100, C set iff da < db, N still set, H clear and Z set iff A
is 0. -/
theorem daa_after_sub_bcd (s : Machine) (da db : Nat) (hda : da < 100) (hdb : db < 100)
    (ha : s.AF.hi = toBCD da) :
    (CPU_DAA (CPU_SUB s (toBCD db) false)).AF.hi = toBCD ((da + 100 - db) % 100)
    ∧ (((da + 100 - db) % 100 : Nat) : Int) = ((da : Int) - (db : Int)) % 100
    ∧ (isFlagged (CPU_DAA (CPU_SUB s (toBCD db) false)).AF.lo FLAG_C = true ↔ da < db)
    ∧ isFlagged (CPU_DAA (CPU_SUB s (toBCD db) false)).AF.lo FLAG_N = true
    ∧ isFlagged (CPU_DAA (CPU_SUB s (toBCD db) false)).AF.lo FLAG_HC = false
    ∧ (isFlagged (CPU_DAA (CPU_SUB s (toBCD db) false)).AF.lo FLAG_Z = true
        ↔ (CPU_DAA (CPU_SUB s (toBCD db) false)).AF.hi = 0) := by
  have hA := toBCD_lt da hda
  have hB := toBCD_lt db hdb
  have hT := bcd_difference_table da hda db hdb
  have m1 : toBCD da &&& 0xF = toBCD da % 16 := Nat.and_pow_two_sub_one_eq_mod _ 4
  have m2 : toBCD db &&& 0xF = toBCD db % 16 := Nat.and_pow_two_sub_one_eq_mod _ 4
  have hb : toByte ((toBCD da : Int) - (toBCD db : Int)) = (toBCD da + 256 - toBCD db) % 256 := by
    unfold toByte; omega
  have hh : (((toBCD da &&& 0xF : Nat) : Int) - ((toBCD db &&& 0xF : Nat) : Int) < 0)
      ↔ toBCD da % 16 < toBCD db % 16 := by
    rw [m1, m2]; omega
  have hf : subFlags (toBCD da) (toBCD db)
      = 0x40 + (if decide ((toBCD da + 256 - toBCD db) % 256 = 0) then 0x80 else 0)
        + (if decide (toBCD da % 16 < toBCD db % 16) then 0x20 else 0)
        + (if decide (toBCD da < toBCD db) then 0x10 else 0) := by
    simp only [subFlags, hb, hh, decide_eq_true_eq]
  have hAF : (CPU_DAA (CPU_SUB s (toBCD db) false)).AF
      = { hi := toBCD ((da + 100 - db) % 100),
          lo := 0x40 + (if toBCD ((da + 100 - db) % 100) = 0 then 0x80 else 0)
            + (if decide (da < db) then 0x10 else 0) } := by
    rw [CPU_DAA_AF_local, CPU_SUB_AF_eq, ha, hf, hb,
      CPU_DAA_after_sub _ _ _ _ (Nat.mod_lt _ (by decide))]
    simp only [bcdSubLine, Bool.and_eq_true, beq_iff_eq] at hT
    rw [hT.1, hT.2]
  refine ⟨?_, by omega, ?_, ?_, ?_, ?_⟩
  all_goals rw [hAF]
  all_goals
    by_cases h1 : toBCD ((da + 100 - db) % 100) = 0 <;> by_cases h2 : da < db <;>
      simp +decide [h1, h2, isFlagged, FLAG_C, FLAG_Z, FLAG_HC, FLAG_N]

set_option maxRecDepth 100000 in
/-- C35, witness: 0x42 - 0x17 gives 0x2B after SUB and 0x25 after DAA, C clear. -/
theorem daa_after_sub_bcd_witness :
    42 < 100 ∧ 17 < 100 ∧ bcdSubMachine.AF.hi = toBCD 42 ∧ toBCD 17 = 0x17
    ∧ (CPU_SUB bcdSubMachine 0x17 false).AF.hi = 0x2B
    ∧ (CPU_DAA (CPU_SUB bcdSubMachine (toBCD 17) false)).AF.hi = toBCD ((42 + 100 - 17) % 100)
    ∧ toBCD ((42 + 100 - 17) % 100) = 0x25
    ∧ (isFlagged (CPU_DAA (CPU_SUB bcdSubMachine (toBCD 17) false)).AF.lo FLAG_C = true ↔ 42 < 17) :=
  have h := daa_after_sub_bcd bcdSubMachine 42 17 (by decide) (by decide) (by decide)
  ⟨by decide, by decide, by decide, by decide, by decide, h.1, by decide, h.2.2.1⟩

/-! ## C36 -/

theorem renderSprites_eq (s : Machine) (r : (Nat → Nat) × (Nat → Nat)) :
    PPU.renderSprites s r = ((List.range 40).foldl (PPU.renderSprite s r.2) r.1, r.2) := rfl

theorem tileSetAt_row (s : Machine) (t R j : Nat) (hj : j < 8) :
    MMU.tileSetAt s t R j = s.mmu.tileSet (t + R / 8) (R % 8) j := by
  unfold MMU.tileSetAt
  have e1 : (64 * t + 8 * R + j) / 64 = t + R / 8 := by omega
  have e2 : (64 * t + 8 * R + j) / 8 % 8 = R % 8 := by omega
  have e3 : (64 * t + 8 * R + j) % 8 = j := by omega
  rw [e1, e2, e3]

set_option maxRecDepth 100000 in
theorem and_0xFE_even : ∀ t < 256, (t % 2 = 0 → t &&& 0xFE = t) ∧ (t % 2 = 1 → t &&& 0xFE = t - 1) := by
  decide

/-- C36 fails as stated: in 8x16 mode, for the sprite with tile number 1 at
the top of line 0 (row index 0, not flipped), the row that `renderSprites`
uses is row 0 of tile 1, not row 0 of tile (1 & 0xFE) + 0 = 0: the pixel at
offset 0 of the frame buffer becomes black (pixel value 3 of tile 1), where
tile 0 holds the transparent value 0. -/
theorem sprite_odd_tile_number_not_masked :
    spriteMachine.mmu.spriteDoubled = true
    ∧ PPU.spriteOnLine spriteMachine (spriteMachine.mmu.spriteSet 0)
    ∧ (spriteMachine.mmu.spriteSet 0).tileNumber = 1
    ∧ PPU.spriteRow spriteMachine (spriteMachine.mmu.spriteSet 0) = 0
    ∧ PPU.spriteTileRow spriteMachine (spriteMachine.mmu.spriteSet 0) 0
        = spriteMachine.mmu.tileSet 1 0 0
    ∧ PPU.spriteTileRow spriteMachine (spriteMachine.mmu.spriteSet 0) 0 = 3
    ∧ spriteMachine.mmu.tileSet (((spriteMachine.mmu.spriteSet 0).tileNumber &&& 0xFE) + 0 / 8)
        (0 % 8) 0 = 0
    ∧ (PPU.renderSprites spriteMachine (fun _ => 255, fun _ => 0)).1 0 = 0 := by
  refine ⟨rfl, ⟨by decide, by decide⟩, rfl, by decide, by decide, by decide, by decide, ?_⟩
  decide

/-- C36 as amended: for a sprite that `renderSprites` finds on the current
line, with r = line - posY, or height - 1 - (line - posY) when flippedY is
set: in 8x16 mode r is in 0..15 and the pixel row used is row r mod 8 of tile
tileNumber + r / 8, the tile number taken as it is (for an even tile number
that is tile (tileNumber & 0xFE) + r / 8, for an odd one it is one tile
further); in 8x8 mode r is in 0..7 and the row used is row r of tile
tileNumber. -/
theorem sprite_row_used (s : Machine) (i j : Nat) (hj : j < 8)
    (hvis : PPU.spriteOnLine s (s.mmu.spriteSet i)) :
    (∀ r, PPU.renderSprites s r = ((List.range 40).foldl (PPU.renderSprite s r.2) r.1, r.2))
    ∧ (s.mmu.spriteDoubled = true →
        PPU.spriteRow s (s.mmu.spriteSet i)
            = (if (s.mmu.spriteSet i).flippedY then
                15 - ((s.mmu.line : Int) - (s.mmu.spriteSet i).posY)
               else (s.mmu.line : Int) - (s.mmu.spriteSet i).posY)
        ∧ 0 ≤ PPU.spriteRow s (s.mmu.spriteSet i) ∧ PPU.spriteRow s (s.mmu.spriteSet i) ≤ 15
        ∧ PPU.spriteTileRow s (s.mmu.spriteSet i) j
            = s.mmu.tileSet
                ((s.mmu.spriteSet i).tileNumber + (PPU.spriteRow s (s.mmu.spriteSet i)).toNat / 8)
                ((PPU.spriteRow s (s.mmu.spriteSet i)).toNat % 8) j
        ∧ ((s.mmu.spriteSet i).tileNumber < 256 →
            ((s.mmu.spriteSet i).tileNumber % 2 = 0 →
              (s.mmu.spriteSet i).tileNumber &&& 0xFE = (s.mmu.spriteSet i).tileNumber)
            ∧ ((s.mmu.spriteSet i).tileNumber % 2 = 1 →
              (s.mmu.spriteSet i).tileNumber &&& 0xFE = (s.mmu.spriteSet i).tileNumber - 1)))
    ∧ (s.mmu.spriteDoubled = false →
        PPU.spriteRow s (s.mmu.spriteSet i)
            = (if (s.mmu.spriteSet i).flippedY then
                7 - ((s.mmu.line : Int) - (s.mmu.spriteSet i).posY)
               else (s.mmu.line : Int) - (s.mmu.spriteSet i).posY)
        ∧ 0 ≤ PPU.spriteRow s (s.mmu.spriteSet i) ∧ PPU.spriteRow s (s.mmu.spriteSet i) ≤ 7
        ∧ PPU.spriteTileRow s (s.mmu.spriteSet i) j
            = s.mmu.tileSet (s.mmu.spriteSet i).tileNumber
                (PPU.spriteRow s (s.mmu.spriteSet i)).toNat j) := by
  obtain ⟨v1, v2⟩ := hvis
  refine ⟨fun r => rfl, ?_, ?_⟩
  · intro hd
    have hh : PPU.spriteHeight s = 16 := by unfold PPU.spriteHeight; rw [hd]; rfl
    rw [hh] at v2
    have hr : PPU.spriteRow s (s.mmu.spriteSet i)
        = (if (s.mmu.spriteSet i).flippedY then
            15 - ((s.mmu.line : Int) - (s.mmu.spriteSet i).posY)
           else (s.mmu.line : Int) - (s.mmu.spriteSet i).posY) := by
      unfold PPU.spriteRow
      rw [hh]
      split_ifs <;> omega
    have b : 0 ≤ PPU.spriteRow s (s.mmu.spriteSet i)
        ∧ PPU.spriteRow s (s.mmu.spriteSet i) ≤ 15 := by
      rw [hr]; split_ifs <;> omega
    refine ⟨hr, b.1, b.2, ?_, fun ht => and_0xFE_even _ ht⟩
    unfold PPU.spriteTileRow
    exact tileSetAt_row s _ _ j hj
  · intro hd
    have hh : PPU.spriteHeight s = 8 := by unfold PPU.spriteHeight; rw [hd]; rfl
    rw [hh] at v2
    have hr : PPU.spriteRow s (s.mmu.spriteSet i)
        = (if (s.mmu.spriteSet i).flippedY then
            7 - ((s.mmu.line : Int) - (s.mmu.spriteSet i).posY)
           else (s.mmu.line : Int) - (s.mmu.spriteSet i).posY) := by
      unfold PPU.spriteRow
      rw [hh]
      split_ifs <;> omega
    have b : 0 ≤ PPU.spriteRow s (s.mmu.spriteSet i)
        ∧ PPU.spriteRow s (s.mmu.spriteSet i) ≤ 7 := by
      rw [hr]; split_ifs <;> omega
    refine ⟨hr, b.1, b.2, ?_⟩
    unfold PPU.spriteTileRow
    rw [tileSetAt_row s _ _ j hj]
    have e1 : (PPU.spriteRow s (s.mmu.spriteSet i)).toNat / 8 = 0 := by omega
    have e2 : (PPU.spriteRow s (s.mmu.spriteSet i)).toNat % 8
        = (PPU.spriteRow s (s.mmu.spriteSet i)).toNat := by omega
    rw [e1, e2, Nat.add_zero]

/-- C36, witness: in 8x16 mode sprite 0 of the machine above, with tile number
1 and row index 0, uses row 0 of tile 1 + 0 / 8 = 1. -/
theorem sprite_row_used_witness :
    (0 : Nat) < 8 ∧ PPU.spriteOnLine spriteMachine (spriteMachine.mmu.spriteSet 0)
    ∧ spriteMachine.mmu.spriteDoubled = true
    ∧ PPU.spriteTileRow spriteMachine (spriteMachine.mmu.spriteSet 0) 0
        = spriteMachine.mmu.tileSet
            ((spriteMachine.mmu.spriteSet 0).tileNumber
              + (PPU.spriteRow spriteMachine (spriteMachine.mmu.spriteSet 0)).toNat / 8)
            ((PPU.spriteRow spriteMachine (spriteMachine.mmu.spriteSet 0)).toNat % 8) 0
    ∧ (spriteMachine.mmu.spriteSet 0).tileNumber
        + (PPU.spriteRow spriteMachine (spriteMachine.mmu.spriteSet 0)).toNat / 8 = 1 :=
  have h := sprite_row_used spriteMachine 0 0 (by decide) ⟨by decide, by decide⟩
  ⟨by decide, ⟨by decide, by decide⟩, rfl, (h.2.1 rfl).2.2.2.1, by decide⟩

/-! ## C37 -/

theorem CPU_HALT_skipped_eq (s : Machine) (h : HaltSkipped s) :
    CPU_HALT s = { s with cpu := { s.cpu with halt := false } } := by
  unfold HaltSkipped at h
  have hc : (!s.cpu.IME && decide ((s.ifRegister &&& s.ieRegister &&& 0x1F) ≠ 0)) = true := by
    simp only [Bool.and_eq_true, Bool.not_eq_true', decide_eq_true_eq]
    exact h
  unfold CPU_HALT
  rw [if_pos hc]

theorem CPU_HALT_keeps_skipped (s : Machine) (h : HaltSkipped s) : HaltSkipped (CPU_HALT s) := by
  rw [CPU_HALT_skipped_eq s h]
  exact h

theorem executeOpcode_halt_repeats (n : Nat) : ∀ (s : Machine), HaltSkipped s →
    MMU.readByte s s.PC = 0x76 → executeOpcode n s 0x76 = .outOfFuel := by
  induction n with
  | zero => intro s _ _; rfl
  | succ n ih =>
    intro s hs hb
    obtain ⟨k1, k2, k3⟩ := CPU_HALT_skipped s hs
    rw [executeOpcode_halt, if_pos (by rw [k1]; rfl), k3, k2, hb,
      ih (CPU_HALT s) (CPU_HALT_keeps_skipped s hs) (by rw [k3, k2, hb])]

/-- C37 (the code departs from the claim at HALT followed by HALT): when the
byte at PC is an implemented opcode, `step` returns unless that opcode is a
HALT executed with IME clear and an enabled interrupt pending; such a HALT
decodes the byte that follows it without moving PC, and returns when that byte
is an implemented opcode other than HALT; when that byte is HALT again, the
HALT case calls itself on an unchanged state and `step` returns for no bound
on the depth of the recursion. -/
theorem step_returns_unless_halt_repeats (s : Machine) (fuel : Nat)
    (hop : Implemented (MMU.readByte s s.PC))
    (hcb : MMU.readByte s s.PC = 0xCB → MMU.readByte s ((s.PC + 1) % 65536) < 256) :
    (¬ (MMU.readByte s s.PC = 0x76 ∧ HaltSkipped s) → ∃ t c, step (fuel + 1) s = .done t c)
    ∧ (MMU.readByte s s.PC = 0x76 → HaltSkipped s →
        Implemented (MMU.readByte s ((s.PC + 1) % 65536)) →
        MMU.readByte s ((s.PC + 1) % 65536) ≠ 0x76 →
        ∃ t c, step (fuel + 2) s = .done t c)
    ∧ (MMU.readByte s s.PC = 0x76 → HaltSkipped s →
        MMU.readByte s ((s.PC + 1) % 65536) = 0x76 →
        (∀ n, step n s = .outOfFuel)
        ∧ CPU_HALT (CPU_HALT (pcInc s)) = CPU_HALT (pcInc s)
        ∧ MMU.readByte (CPU_HALT (pcInc s)) (CPU_HALT (pcInc s)).PC = 0x76) := by
  have hr : ∀ a, MMU.readByte (pcInc s) a = MMU.readByte s a :=
    fun a => readByte_congr _ _ a rfl rfl rfl rfl rfl rfl
  have hpc : (pcInc s).PC = (s.PC + 1) % 65536 := rfl
  refine ⟨?_, ?_, ?_⟩
  · intro hn
    unfold step
    by_cases h76 : MMU.readByte s s.PC = 0x76
    · have hs : ¬ HaltSkipped (pcInc s) := fun h => hn ⟨h76, h⟩
      simp only [h76]
      rw [executeOpcode_halt, if_neg (by rw [CPU_HALT_entered _ hs]; decide)]
      exact ⟨_, _, rfl⟩
    · obtain ⟨t, c, e, _⟩ := executeOpcode_cycles_cb (pcInc s) _ fuel hop h76
        (fun h => by rw [hr, hpc]; exact hcb h)
      exact ⟨t, c, e⟩
  · intro h76 hs hnext hne
    have hs1 : HaltSkipped (pcInc s) := hs
    obtain ⟨k1, k2, k3⟩ := CPU_HALT_skipped _ hs1
    unfold step
    simp only [h76]
    rw [executeOpcode_halt, if_pos (by rw [k1]; decide), k3, k2, hr, hpc]
    obtain ⟨t, c, e, _⟩ := executeOpcode_cycles_cb (CPU_HALT (pcInc s))
      (MMU.readByte s ((s.PC + 1) % 65536)) fuel hnext hne
      (fun h => by rw [k3, k2, hr, hpc, h]; decide)
    rw [e]
    exact ⟨t, 4 + c, rfl⟩
  · intro h76 hs hnext
    have hs1 : HaltSkipped (pcInc s) := hs
    obtain ⟨k1, k2, k3⟩ := CPU_HALT_skipped _ hs1
    refine ⟨?_, ?_, ?_⟩
    · intro n
      unfold step
      simp only [h76]
      exact executeOpcode_halt_repeats n (pcInc s) hs1 (by rw [hr, hpc, hnext])
    · rw [CPU_HALT_skipped_eq _ (CPU_HALT_keeps_skipped _ hs1), CPU_HALT_skipped_eq _ hs1]
    · rw [k3, k2, hr, hpc, hnext]

set_option maxRecDepth 100000 in
/-- C37, witness: with HALT at 0xC000 and at 0xC001, IME clear and VBlank
requested and enabled, `step` returns for no bound on the recursion depth. -/
theorem step_returns_unless_halt_repeats_witness :
    Implemented (MMU.readByte haltHaltMachine haltHaltMachine.PC)
    ∧ MMU.readByte haltHaltMachine haltHaltMachine.PC = 0x76
    ∧ HaltSkipped haltHaltMachine
    ∧ MMU.readByte haltHaltMachine ((haltHaltMachine.PC + 1) % 65536) = 0x76
    ∧ ∀ n, step n haltHaltMachine = .outOfFuel :=
  have h := step_returns_unless_halt_repeats haltHaltMachine 0
    (by unfold Implemented; decide) (by decide)
  ⟨by unfold Implemented; decide, by decide, by unfold HaltSkipped; decide, by decide,
    (h.2.2 (by decide) (by unfold HaltSkipped; decide) (by decide)).1⟩

/-! ## C38 -/

theorem handleBanking_ramBank (m : MMU) (a v : Nat) (h : m.ramBankNumber ≤ 3) :
    (MMU.handleBanking m a v).ramBankNumber ≤ 3 := by
  have e2 : v &&& 0x3 = v % 4 := Nat.and_pow_two_sub_one_eq_mod v 2
  unfold MMU.handleBanking
  dsimp only
  rw [e2]
  split_ifs <;> first | exact h | exact Nat.zero_le _ | exact Nat.le_of_lt_succ (Nat.mod_lt _ (by decide))

theorem writeByte_ramBank (s : Machine) (a v : Nat) (h : s.mmu.ramBankNumber ≤ 3) :
    (MMU.writeByte s a v).mmu.ramBankNumber ≤ 3 := by
  by_cases ha : a < 0x8000
  · rw [writeByte_banking s a v ha]
    exact handleBanking_ramBank s.mmu a v h
  · rw [((writeByte_kept s a v).2.1 (by omega)).2.1]
    exact h

theorem writes_ramBank (ws : List (Nat × Nat)) : ∀ (s : Machine), s.mmu.ramBankNumber ≤ 3 →
    (MMU.writes s ws).mmu.ramBankNumber ≤ 3 := by
  induction ws with
  | nil => intro s h; exact h
  | cons w ws ih =>
    intro s h
    exact ih _ (writeByte_ramBank s w.1 w.2 h)

theorem readByte_switchable (s : Machine) (a : Nat) (h0 : 0x4000 ≤ a) (h1 : a ≤ 0x7FFF) :
    MMU.readByte s a = s.mmu.cartridgeMemory (MMU.romIndex s a) := by
  unfold MMU.readByte MMU.romIndex
  rw [if_neg (by omega), if_neg (by omega), if_pos ⟨h0, h1⟩]

/-- C38: from a mapper state with ROM bank 1 and RAM bank 0, after any finite
sequence of `writeByte` calls the ROM bank number is at most 0x7F and the RAM
bank number at most 3; hence for every address in 0x4000-0x7FFF the index at
which `readByte` reads the cartridge array is below 0x200000, and for every
address in 0xA000-0xBFFF the index at which `readByte` reads and `writeByte`
writes the RAM array is below 0x8000. -/
theorem banked_accesses_in_bounds (s : Machine) (ws : List (Nat × Nat))
    (hrom : s.mmu.romBankNumber = 0x01) (hram : s.mmu.ramBankNumber = 0x00) :
    (MMU.writes s ws).mmu.romBankNumber ≤ 0x7F
    ∧ (MMU.writes s ws).mmu.ramBankNumber ≤ 3
    ∧ (∀ a, 0x4000 ≤ a → a ≤ 0x7FFF →
        MMU.readByte (MMU.writes s ws) a
            = (MMU.writes s ws).mmu.cartridgeMemory (MMU.romIndex (MMU.writes s ws) a)
        ∧ MMU.romIndex (MMU.writes s ws) a < MAX_MEMORY)
    ∧ (∀ a, 0xA000 ≤ a → a ≤ 0xBFFF →
        MMU.readByte (MMU.writes s ws) a
            = (MMU.writes s ws).mmu.ramMemory (MMU.ramIndex (MMU.writes s ws) a)
        ∧ (∀ v, MMU.writeByte (MMU.writes s ws) a v
            = if (MMU.writes s ws).mmu.ramEnabled then
                MMU.storeRam (MMU.writes s ws) (MMU.ramIndex (MMU.writes s ws) a) v
              else MMU.writes s ws)
        ∧ MMU.ramIndex (MMU.writes s ws) a < RAM_MEMORY_LENGTH) := by
  obtain ⟨k1, _⟩ := writes_romBank ws s (by rw [hrom]; decide) (by rw [hrom]; decide)
  have k2 := writes_ramBank ws s (by rw [hram]; decide)
  generalize MMU.writes s ws = t at k1 k2 ⊢
  refine ⟨by omega, k2, ?_, ?_⟩
  · intro a h0 h1
    refine ⟨readByte_switchable t a h0 h1, ?_⟩
    unfold MMU.romIndex MAX_MEMORY
    omega
  · intro a h0 h1
    refine ⟨readByte_cartridgeRam t a h0 h1, fun v => writeByte_cartridgeRam t a v h0 h1, ?_⟩
    unfold MMU.ramIndex RAM_MEMORY_LENGTH
    omega

set_option maxRecDepth 100000 in
/-- C38, witness: on an MBC1 cartridge the writes 0x1F to 0x2000, 0x03 to
0x4000, 0x01 to 0x6000 and 0x03 to 0x4000 select ROM bank 0x7F and RAM bank 3,
the largest of each; address 0x7FFF then reads the last byte of the cartridge
array and 0xBFFF the last byte of the RAM array. -/
theorem banked_accesses_in_bounds_witness :
    mbc1Machine.mmu.romBankNumber = 0x01 ∧ mbc1Machine.mmu.ramBankNumber = 0x00
    ∧ (MMU.writes mbc1Machine bankWrites).mmu.romBankNumber = 0x7F
    ∧ (MMU.writes mbc1Machine bankWrites).mmu.ramBankNumber = 3
    ∧ MMU.romIndex (MMU.writes mbc1Machine bankWrites) 0x7FFF = 0x1FFFFF
    ∧ MMU.romIndex (MMU.writes mbc1Machine bankWrites) 0x7FFF < MAX_MEMORY
    ∧ MMU.ramIndex (MMU.writes mbc1Machine bankWrites) 0xBFFF = 0x7FFF
    ∧ MMU.ramIndex (MMU.writes mbc1Machine bankWrites) 0xBFFF < RAM_MEMORY_LENGTH :=
  have h := banked_accesses_in_bounds mbc1Machine bankWrites (by decide) (by decide)
  ⟨by decide, by decide, by decide, by decide, by decide,
    (h.2.2.1 0x7FFF (by decide) (by decide)).2, by decide,
    (h.2.2.2 0xBFFF (by decide) (by decide)).2.2⟩

/-! ## Lemmas on the (HL) variants -/

theorem CPU_RLC_WRITE_local (s : Machine) (hHL : InRam s.HL.reg) :
    CPU_RLC_WRITE s
      = (MMU.storeMemory s s.HL.reg
          (CPU_RLC (regMachine (MMU.readByte s s.HL.reg) 0) .AFhi).AF.hi).set8 .AFlo
          (CPU_RLC (regMachine (MMU.readByte s s.HL.reg) 0) .AFhi).AF.lo := by
  unfold CPU_RLC_WRITE CPU_RLC
  generalize MMU.readByte s s.HL.reg = v
  simp only [regMachine, flagBit, flagBitLocal, clearF, Machine.set8, Machine.get8]
  split_ifs <;> first
    | (simp only [writeByte_ram _ _ _ hHL, MMU.storeMemory]; done)
    | (simp only [writeByte_ram _ _ _ hHL, MMU.storeMemory]; rfl)

theorem CPU_RRC_WRITE_local (s : Machine) (hHL : InRam s.HL.reg) :
    CPU_RRC_WRITE s
      = (MMU.storeMemory s s.HL.reg
          (CPU_RRC (regMachine (MMU.readByte s s.HL.reg) 0) .AFhi).AF.hi).set8 .AFlo
          (CPU_RRC (regMachine (MMU.readByte s s.HL.reg) 0) .AFhi).AF.lo := by
  unfold CPU_RRC_WRITE CPU_RRC
  generalize MMU.readByte s s.HL.reg = v
  simp only [regMachine, flagBit, flagBitLocal, clearF, Machine.set8, Machine.get8]
  split_ifs <;> first
    | (simp only [writeByte_ram _ _ _ hHL, MMU.storeMemory]; done)
    | (simp only [writeByte_ram _ _ _ hHL, MMU.storeMemory]; rfl)

theorem CPU_SLA_WRITE_local (s : Machine) (hHL : InRam s.HL.reg) :
    CPU_SLA_WRITE s
      = (MMU.storeMemory s s.HL.reg
          (CPU_SLA (regMachine (MMU.readByte s s.HL.reg) 0) .AFhi).AF.hi).set8 .AFlo
          (CPU_SLA (regMachine (MMU.readByte s s.HL.reg) 0) .AFhi).AF.lo := by
  unfold CPU_SLA_WRITE CPU_SLA
  generalize MMU.readByte s s.HL.reg = v
  simp only [regMachine, flagBit, flagBitLocal, clearF, Machine.set8, Machine.get8]
  split_ifs <;> simp only [writeByte_ram _ _ _ hHL, MMU.storeMemory]

theorem CPU_SRA_WRITE_local (s : Machine) (hHL : InRam s.HL.reg) :
    CPU_SRA_WRITE s
      = (MMU.storeMemory s s.HL.reg
          (CPU_SRA (regMachine (MMU.readByte s s.HL.reg) 0) .AFhi).AF.hi).set8 .AFlo
          (CPU_SRA (regMachine (MMU.readByte s s.HL.reg) 0) .AFhi).AF.lo := by
  unfold CPU_SRA_WRITE CPU_SRA
  generalize MMU.readByte s s.HL.reg = v
  simp only [regMachine, flagBit, flagBitLocal, clearF, Machine.set8, Machine.get8]
  split_ifs <;> simp only [writeByte_ram _ _ _ hHL, MMU.storeMemory]

theorem CPU_SRL_WRITE_local (s : Machine) (hHL : InRam s.HL.reg) :
    CPU_SRL_WRITE s
      = (MMU.storeMemory s s.HL.reg
          (CPU_SRL (regMachine (MMU.readByte s s.HL.reg) 0) .AFhi).AF.hi).set8 .AFlo
          (CPU_SRL (regMachine (MMU.readByte s s.HL.reg) 0) .AFhi).AF.lo := by
  unfold CPU_SRL_WRITE CPU_SRL
  generalize MMU.readByte s s.HL.reg = v
  simp only [regMachine, flagBit, flagBitLocal, clearF, Machine.set8, Machine.get8]
  split_ifs <;> simp only [writeByte_ram _ _ _ hHL, MMU.storeMemory]

theorem CPU_SWAP_WRITE_local (s : Machine) (hHL : InRam s.HL.reg) :
    CPU_SWAP_WRITE s
      = (MMU.storeMemory s s.HL.reg
          (CPU_SWAP (regMachine (MMU.readByte s s.HL.reg) 0) .AFhi).AF.hi).set8 .AFlo
          (CPU_SWAP (regMachine (MMU.readByte s s.HL.reg) 0) .AFhi).AF.lo := by
  unfold CPU_SWAP_WRITE CPU_SWAP
  generalize MMU.readByte s s.HL.reg = v
  simp only [regMachine, flagBit, flagBitLocal, clearF, Machine.set8, Machine.get8]
  split_ifs <;> simp only [writeByte_ram _ _ _ hHL, MMU.storeMemory]

theorem CPU_RL_WRITE_local (s : Machine) (hHL : InRam s.HL.reg) :
    CPU_RL_WRITE s
      = (MMU.storeMemory s s.HL.reg
          (CPU_RL (regMachine (MMU.readByte s s.HL.reg) (carryByte (isFlagged s.AF.lo FLAG_C)))
            .AFhi).AF.hi).set8 .AFlo
          (CPU_RL (regMachine (MMU.readByte s s.HL.reg) (carryByte (isFlagged s.AF.lo FLAG_C)))
            .AFhi).AF.lo := by
  unfold CPU_RL_WRITE CPU_RL
  generalize MMU.readByte s s.HL.reg = v
  cases hc : isFlagged s.AF.lo FLAG_C <;>
  simp only [regMachine, flagBit, flagBitLocal, clearF, Machine.set8, Machine.get8, hc, carryByte] <;>
  simp only [isFlagged, FLAG_C, Bool.false_eq_true, if_false, if_true, carry_16, carry_0] <;>
  split_ifs <;> simp only [writeByte_ram _ _ _ hHL, MMU.storeMemory]

theorem CPU_RR_WRITE_local (s : Machine) (hHL : InRam s.HL.reg) :
    CPU_RR_WRITE s
      = (MMU.storeMemory s s.HL.reg
          (CPU_RR (regMachine (MMU.readByte s s.HL.reg) (carryByte (isFlagged s.AF.lo FLAG_C)))
            .AFhi).AF.hi).set8 .AFlo
          (CPU_RR (regMachine (MMU.readByte s s.HL.reg) (carryByte (isFlagged s.AF.lo FLAG_C)))
            .AFhi).AF.lo := by
  unfold CPU_RR_WRITE CPU_RR
  generalize MMU.readByte s s.HL.reg = v
  cases hc : isFlagged s.AF.lo FLAG_C <;>
  simp only [regMachine, flagBit, flagBitLocal, clearF, Machine.set8, Machine.get8, hc, carryByte] <;>
  simp only [isFlagged, FLAG_C, Bool.false_eq_true, if_false, if_true, carry_16, carry_0] <;>
  split_ifs <;> simp only [writeByte_ram _ _ _ hHL, MMU.storeMemory]

theorem CPU_INC_WRITE_eq (s : Machine) (hHL : InRam s.HL.reg) (hF : s.AF.lo < 256) :
    CPU_INC_WRITE s
      = (MMU.storeMemory s s.HL.reg ((MMU.readByte s s.HL.reg + 1) % 256)).set8 .AFlo
          (incFlags s.AF.lo ((MMU.readByte s s.HL.reg + 1) % 256)) := by
  have t := inc_flag_bytes s.AF.lo hF
  simp only [CPU_INC_WRITE, incFlags]
  generalize (MMU.readByte s s.HL.reg + 1) % 256 = x
  simp only [writeByte_ram _ _ _ hHL, MMU.storeMemory, Machine.set8, flagBit_AFlo, unflagBit_AFlo]
  split_ifs <;> simp only [t]

theorem CPU_DEC_WRITE_eq (s : Machine) (hHL : InRam s.HL.reg) (hF : s.AF.lo < 256)
    (hv : MMU.readByte s s.HL.reg < 256) :
    CPU_DEC_WRITE s
      = (MMU.storeMemory s s.HL.reg ((MMU.readByte s s.HL.reg + 256 - 1) % 256)).set8 .AFlo
          (decFlags s.AF.lo ((MMU.readByte s s.HL.reg + 256 - 1) % 256)) := by
  have t := dec_flag_bytes s.AF.lo hF
  have e1 : toByte ((MMU.readByte s s.HL.reg : Int) - 1) = (MMU.readByte s s.HL.reg + 256 - 1) % 256 := by
    unfold toByte; omega
  have e2 : ((MMU.readByte s s.HL.reg : Int) - 1 = 0)
      ↔ (MMU.readByte s s.HL.reg + 256 - 1) % 256 = 0 := by omega
  simp only [CPU_DEC_WRITE, decFlags, e1, e2]
  generalize (MMU.readByte s s.HL.reg + 256 - 1) % 256 = x
  simp only [writeByte_ram _ _ _ hHL, MMU.storeMemory, Machine.set8, flagBit_AFlo, unflagBit_AFlo]
  split_ifs <;> simp only [t]

theorem matchesRegister_of_eq (s w t : Machine) (r : Reg8) (x f : Nat) (hHL : InRam s.HL.reg)
    (hw : w = (MMU.storeMemory s s.HL.reg x).set8 .AFlo f)
    (hx : t.get8 r = x) (hf : t.AF.lo = f) : MatchesRegister s w t r := by
  subst hw hx hf
  refine ⟨?_, rfl, rfl, rfl, rfl, rfl, rfl, rfl⟩
  have e : MMU.readByte ((MMU.storeMemory s s.HL.reg (t.get8 r)).set8 .AFlo t.AF.lo) s.HL.reg
      = ((MMU.storeMemory s s.HL.reg (t.get8 r)).set8 .AFlo t.AF.lo).mmu.memory s.HL.reg :=
    readByte_ram _ _ hHL
  rw [e]
  show (if s.HL.reg = s.HL.reg then t.get8 r else _) = t.get8 r
  rw [if_pos rfl]

theorem matchesRegister_of_locals (s w t t0 : Machine) (r : Reg8) (x f : Nat)
    (hr : r.isGeneral = true) (hHL : InRam s.HL.reg)
    (hw : w = (MMU.storeMemory s s.HL.reg x).set8 .AFlo f)
    (ht : t = (t0.set8 r x).set8 .AFlo f) : MatchesRegister s w t r := by
  have h := set8_pair_reads t0 r x f hr
  exact matchesRegister_of_eq s w t r x f hHL hw (by rw [ht]; exact h.1) (by rw [ht]; exact h.2.1)

theorem set8_AFlo_self (s : Machine) : s.set8 .AFlo s.AF.lo = s := rfl

/-! ## C39 -/

set_option maxRecDepth 100000 in
/-- C39: with HL addressing work RAM or high RAM that holds the byte v, each
(HL) variant of INC, DEC, RLC, RL, RRC, RR, SLA, SRA, SRL, SWAP, SET b and
RES b stores at address HL the value that the register variant computes in a
register r holding v, leaves F as the register variant leaves it from the same
flags, and keeps A, BC, DE, HL, SP and PC; opcodes 0x34 and 0x35 and the
extended opcodes 0x06, 0x16, 0x0E, 0x1E, 0x26, 0x2E, 0x3E, 0x36, 0xC6 and 0x86
run the (HL) variants (the last two for bit 0). -/
theorem HL_variants_match_register_variants (s : Machine) (r : Reg8) (bit : Nat)
    (hr : r.isGeneral = true) (hHL : InRam s.HL.reg)
    (hv : MMU.readByte s s.HL.reg < 256) (hF : s.AF.lo < 256) :
    MatchesRegister s (CPU_INC_WRITE s) (CPU_INC (s.set8 r (MMU.readByte s s.HL.reg)) r) r
    ∧ MatchesRegister s (CPU_DEC_WRITE s) (CPU_DEC (s.set8 r (MMU.readByte s s.HL.reg)) r) r
    ∧ MatchesRegister s (CPU_RLC_WRITE s) (CPU_RLC (s.set8 r (MMU.readByte s s.HL.reg)) r) r
    ∧ MatchesRegister s (CPU_RL_WRITE s) (CPU_RL (s.set8 r (MMU.readByte s s.HL.reg)) r) r
    ∧ MatchesRegister s (CPU_RRC_WRITE s) (CPU_RRC (s.set8 r (MMU.readByte s s.HL.reg)) r) r
    ∧ MatchesRegister s (CPU_RR_WRITE s) (CPU_RR (s.set8 r (MMU.readByte s s.HL.reg)) r) r
    ∧ MatchesRegister s (CPU_SLA_WRITE s) (CPU_SLA (s.set8 r (MMU.readByte s s.HL.reg)) r) r
    ∧ MatchesRegister s (CPU_SRA_WRITE s) (CPU_SRA (s.set8 r (MMU.readByte s s.HL.reg)) r) r
    ∧ MatchesRegister s (CPU_SRL_WRITE s) (CPU_SRL (s.set8 r (MMU.readByte s s.HL.reg)) r) r
    ∧ MatchesRegister s (CPU_SWAP_WRITE s) (CPU_SWAP (s.set8 r (MMU.readByte s s.HL.reg)) r) r
    ∧ MatchesRegister s (CPU_SET_WRITE s bit)
        (CPU_SET (s.set8 r (MMU.readByte s s.HL.reg)) bit r) r
    ∧ MatchesRegister s (CPU_RES_WRITE s bit)
        (CPU_RES (s.set8 r (MMU.readByte s s.HL.reg)) bit r) r
    ∧ (executeOpcode 1 s 0x34 = .done (CPU_INC_WRITE s) 12
      ∧ executeOpcode 1 s 0x35 = .done (CPU_DEC_WRITE s) 12
      ∧ executeExtendedOpcode s 0x06 = .done (CPU_RLC_WRITE s) 16
      ∧ executeExtendedOpcode s 0x16 = .done (CPU_RL_WRITE s) 16
      ∧ executeExtendedOpcode s 0x0E = .done (CPU_RRC_WRITE s) 16
      ∧ executeExtendedOpcode s 0x1E = .done (CPU_RR_WRITE s) 16
      ∧ executeExtendedOpcode s 0x26 = .done (CPU_SLA_WRITE s) 16
      ∧ executeExtendedOpcode s 0x2E = .done (CPU_SRA_WRITE s) 16
      ∧ executeExtendedOpcode s 0x3E = .done (CPU_SRL_WRITE s) 16
      ∧ executeExtendedOpcode s 0x36 = .done (CPU_SWAP_WRITE s) 16
      ∧ executeExtendedOpcode s 0xC6 = .done (CPU_SET_WRITE s 0) 16
      ∧ executeExtendedOpcode s 0x86 = .done (CPU_RES_WRITE s 0) 16) := by
  have hlo : (s.set8 r (MMU.readByte s s.HL.reg)).AF.lo = s.AF.lo := set8_general_lo _ _ _ hr
  have hF2 : (s.set8 r (MMU.readByte s s.HL.reg)).AF.lo < 256 := by rw [hlo]; exact hF
  refine ⟨?_, ?_, ?_, ?_, ?_, ?_, ?_, ?_, ?_, ?_, ?_, ?_,
    ⟨rfl, rfl, rfl, rfl, rfl, rfl, rfl, rfl, rfl, rfl, rfl, rfl⟩⟩
  · exact matchesRegister_of_locals s _ _ (s.set8 r (MMU.readByte s s.HL.reg)) r _ _ hr hHL
      (CPU_INC_WRITE_eq s hHL hF) (by rw [CPU_INC_eq _ r hr hF2, get8_set8, hlo])
  · exact matchesRegister_of_locals s _ _ (s.set8 r (MMU.readByte s s.HL.reg)) r _ _ hr hHL
      (CPU_DEC_WRITE_eq s hHL hF hv) (by rw [CPU_DEC_eq _ r hr hF2, get8_set8, hlo])
  · exact matchesRegister_of_locals s _ _ (s.set8 r (MMU.readByte s s.HL.reg)) r _ _ hr hHL
      (CPU_RLC_WRITE_local s hHL) (by rw [CPU_RLC_local _ r hr, get8_set8])
  · exact matchesRegister_of_locals s _ _ (s.set8 r (MMU.readByte s s.HL.reg)) r _ _ hr hHL
      (CPU_RL_WRITE_local s hHL) (by rw [CPU_RL_local _ r hr, get8_set8, hlo])
  · exact matchesRegister_of_locals s _ _ (s.set8 r (MMU.readByte s s.HL.reg)) r _ _ hr hHL
      (CPU_RRC_WRITE_local s hHL) (by rw [CPU_RRC_local _ r hr, get8_set8])
  · exact matchesRegister_of_locals s _ _ (s.set8 r (MMU.readByte s s.HL.reg)) r _ _ hr hHL
      (CPU_RR_WRITE_local s hHL) (by rw [CPU_RR_local _ r hr, get8_set8, hlo])
  · exact matchesRegister_of_locals s _ _ (s.set8 r (MMU.readByte s s.HL.reg)) r _ _ hr hHL
      (CPU_SLA_WRITE_local s hHL) (by rw [CPU_SLA_local _ r hr, get8_set8])
  · exact matchesRegister_of_locals s _ _ (s.set8 r (MMU.readByte s s.HL.reg)) r _ _ hr hHL
      (CPU_SRA_WRITE_local s hHL) (by rw [CPU_SRA_local _ r hr, get8_set8])
  · exact matchesRegister_of_locals s _ _ (s.set8 r (MMU.readByte s s.HL.reg)) r _ _ hr hHL
      (CPU_SRL_WRITE_local s hHL) (by rw [CPU_SRL_local _ r hr, get8_set8])
  · exact matchesRegister_of_locals s _ _ (s.set8 r (MMU.readByte s s.HL.reg)) r _ _ hr hHL
      (CPU_SWAP_WRITE_local s hHL) (by rw [CPU_SWAP_local _ r hr, get8_set8])
  · refine matchesRegister_of_locals s _ _ (s.set8 r (MMU.readByte s s.HL.reg)) r
      ((bitMask bit ||| MMU.readByte s s.HL.reg) % 256) s.AF.lo hr hHL ?_ ?_
    · show MMU.writeByte s s.HL.reg _ = _
      rw [writeByte_ram _ _ _ hHL]; rfl
    · show (s.set8 r (MMU.readByte s s.HL.reg)).set8 r _ = _
      rw [get8_set8]
      rw [← hlo, ← set8_general_lo (s.set8 r (MMU.readByte s s.HL.reg)) r
        ((bitMask bit ||| MMU.readByte s s.HL.reg) % 256) hr, set8_AFlo_self]
  · refine matchesRegister_of_locals s _ _ (s.set8 r (MMU.readByte s s.HL.reg)) r
      ((0xFF ^^^ bitMask bit) &&& MMU.readByte s s.HL.reg) s.AF.lo hr hHL ?_ ?_
    · show MMU.writeByte s s.HL.reg _ = _
      rw [writeByte_ram _ _ _ hHL]; rfl
    · show (s.set8 r (MMU.readByte s s.HL.reg)).set8 r _ = _
      rw [get8_set8]
      rw [← hlo, ← set8_general_lo (s.set8 r (MMU.readByte s s.HL.reg)) r
        ((0xFF ^^^ bitMask bit) &&& MMU.readByte s s.HL.reg) hr, set8_AFlo_self]

set_option maxRecDepth 100000 in
/-- C39, witness: with HL = 0xC000 holding 0x85 and C set, RL (HL) stores
0x0B (what RL B computes from B = 0x85) and leaves F = 0x10. -/
theorem HL_variants_match_register_variants_witness :
    Reg8.BChi.isGeneral = true ∧ InRam hlMachine.HL.reg
    ∧ MMU.readByte hlMachine hlMachine.HL.reg = 0x85 ∧ hlMachine.AF.lo < 256
    ∧ MatchesRegister hlMachine (CPU_RL_WRITE hlMachine)
        (CPU_RL (hlMachine.set8 .BChi (MMU.readByte hlMachine hlMachine.HL.reg)) .BChi) .BChi
    ∧ MMU.readByte (CPU_RL_WRITE hlMachine) 0xC000 = 0x0B
    ∧ (CPU_RL_WRITE hlMachine).AF.lo = 0x10 :=
  have h := HL_variants_match_register_variants hlMachine .BChi 3 (by decide)
    (Or.inl ⟨by decide, by decide⟩) (by decide) (by decide)
  ⟨by decide, Or.inl ⟨by decide, by decide⟩, by decide, by decide, h.2.2.2.1, by decide,
    by decide⟩

/-! ## C40 -/

theorem renderBackground_eq (s : Machine) (r : (Nat → Nat) × (Nat → Nat)) :
    PPU.renderBackground s r = (List.range 160).foldl (PPU.renderBackgroundColumn s) r := rfl

theorem putPixel_at (fb : Nat → Nat) (off : Nat) (colour : Nat → Nat) (i : Nat) :
    PPU.putPixel fb off colour i = if off ≤ i ∧ i < off + 4 then colour (i - off) else fb i := by
  unfold PPU.putPixel
  split_ifs <;> first | rfl | (exfalso; omega) | (congr 1; omega)

/-- The loop over the columns, pointwise. -/
theorem foldl_columns (s : Machine) (r : (Nat → Nat) × (Nat → Nat)) :
    ∀ n, (∀ i, ((List.range n).foldl (PPU.renderBackgroundColumn s) r).1 i
        = if s.mmu.line * 640 ≤ i ∧ i < s.mmu.line * 640 + 4 * n then
            s.mmu.palette (PPU.bgPixel s ((i - s.mmu.line * 640) / 4)) ((i - s.mmu.line * 640) % 4)
          else r.1 i)
      ∧ (∀ j, ((List.range n).foldl (PPU.renderBackgroundColumn s) r).2 j
        = if j < n then PPU.bgPixel s j else r.2 j) := by
  intro n
  induction n with
  | zero =>
    refine ⟨fun i => ?_, fun j => ?_⟩
    · rw [List.range_zero, List.foldl_nil, if_neg (by omega)]
    · rw [List.range_zero, List.foldl_nil, if_neg (by omega)]
  | succ n ih =>
    obtain ⟨i1, i2⟩ := ih
    refine ⟨fun i => ?_, fun j => ?_⟩
    · rw [List.range_succ, List.foldl_append, List.foldl_cons, List.foldl_nil]
      show PPU.putPixel _ _ _ i = _
      rw [putPixel_at, i1 i]
      by_cases h1 : s.mmu.line * 160 * 4 + 4 * n ≤ i ∧ i < s.mmu.line * 160 * 4 + 4 * n + 4
      · have e1 : (i - s.mmu.line * 640) / 4 = n := by omega
        have e2 : (i - s.mmu.line * 640) % 4 = i - (s.mmu.line * 160 * 4 + 4 * n) := by omega
        rw [if_pos h1, if_pos (by omega), e1, e2]
      · rw [if_neg h1]
        split_ifs <;> first | rfl | (exfalso; omega)
    · rw [List.range_succ, List.foldl_append, List.foldl_cons, List.foldl_nil]
      show (if j = n then PPU.bgPixel s n else _) = _
      rw [i2 j]
      by_cases h : j = n
      · subst h
        rw [if_pos rfl, if_pos (by omega)]
      · rw [if_neg h]
        split_ifs <;> first | rfl | (exfalso; omega)

theorem updateTileSet_bounded (s : Machine) (a : Nat) (h : TileBounded s) :
    TileBounded (MMU.updateTileSet s a) := by
  intro t r x
  rw [(updateTileSet_spec s a).2 t r x]
  split_ifs <;> first | exact h t r x | omega

theorem writeByte_tileBounded (s : Machine) (a v : Nat) (h : TileBounded s) :
    TileBounded (MMU.writeByte s a v) := by
  by_cases ha : 0x8000 ≤ a ∧ a ≤ 0x97FF
  · rw [writeByte_tile s a v ha.1 ha.2]
    exact updateTileSet_bounded _ a h
  · intro t r x
    rw [((writeByte_kept s a v).2.2.2.2 ha).1]
    exact h t r x

theorem writes_tileBounded (ws : List (Nat × Nat)) : ∀ (s : Machine), TileBounded s →
    TileBounded (MMU.writes s ws) := by
  induction ws with
  | nil => intro s h; exact h
  | cons w ws ih =>
    intro s h
    exact ih _ (writeByte_tileBounded s w.1 w.2 h)

theorem bgTileAddress_range (s : Machine) (column : Nat) :
    0x9800 ≤ PPU.bgTileAddress s column ∧ PPU.bgTileAddress s column ≤ 0x9FFF := by
  unfold PPU.bgTileAddress
  dsimp only
  split_ifs <;> omega

/-- C40: on a scanline 0..143, with bytes in the tile maps and pixel values
0..3 in the tile cache (which every sequence of `writeByte` calls keeps), for
every scrollX, scrollY, map and tile-data selection, each of the 160 columns
of `renderBackground` reads its tile byte t inside the maps, uses a tile index
below 384 (t, or t + 256 for signed tile numbers and t < 128), a row and a
column below 8 and a first palette index of at most 3; the call writes the
frame buffer exactly at the offsets line*640 .. line*640+639, which are below
92,160, and `scanRow` exactly at the entries 0..159. -/
theorem background_indices_in_bounds (s : Machine) (r : (Nat → Nat) × (Nat → Nat))
    (hline : s.mmu.line ≤ 143) (hmap : MapBytes s) (htile : TileBounded s) :
    (PPU.renderBackground s r = (List.range 160).foldl (PPU.renderBackgroundColumn s) r)
    ∧ (∀ column, column < 160 →
        0x9800 ≤ PPU.bgTileAddress s column ∧ PPU.bgTileAddress s column ≤ 0x9FFF
        ∧ MMU.readByte s (PPU.bgTileAddress s column) < 256
        ∧ PPU.bgTileIndex s column
            = (if s.mmu.bgTile = true ∨ MMU.readByte s (PPU.bgTileAddress s column) ≥ 128 then
                MMU.readByte s (PPU.bgTileAddress s column)
               else MMU.readByte s (PPU.bgTileAddress s column) + 256)
        ∧ PPU.bgTileIndex s column < MAX_TILES
        ∧ PPU.bgRow s < 8 ∧ PPU.bgColumn s column < 8
        ∧ PPU.bgPixel s column ≤ 3)
    ∧ (∀ i, (PPU.renderBackground s r).1 i
        = if s.mmu.line * 640 ≤ i ∧ i ≤ s.mmu.line * 640 + 639 then
            s.mmu.palette (PPU.bgPixel s ((i - s.mmu.line * 640) / 4)) ((i - s.mmu.line * 640) % 4)
          else r.1 i)
    ∧ (∀ j, (PPU.renderBackground s r).2 j = if j < 160 then PPU.bgPixel s j else r.2 j)
    ∧ s.mmu.line * 640 + 639 < FRAME_BUFFER_LENGTH
    ∧ (∀ ws, TileBounded (MMU.writes s ws)) := by
  refine ⟨rfl, ?_, ?_, ?_, ?_, fun ws => writes_tileBounded ws s htile⟩
  · intro column _
    obtain ⟨a0, a1⟩ := bgTileAddress_range s column
    have hb : MMU.readByte s (PPU.bgTileAddress s column) < 256 := by
      rw [readByte_vram _ _ (by omega) a1]
      exact hmap _ a0 a1
    have hi : PPU.bgTileIndex s column
        = (if s.mmu.bgTile = true ∨ MMU.readByte s (PPU.bgTileAddress s column) ≥ 128 then
            MMU.readByte s (PPU.bgTileAddress s column)
           else MMU.readByte s (PPU.bgTileAddress s column) + 256) := by
      unfold PPU.bgTileIndex
      dsimp only
      generalize MMU.readByte s (PPU.bgTileAddress s column) = t
      cases s.mmu.bgTile <;> simp only [Bool.false_eq_true, not_false_eq_true, true_and, false_or,
        not_true_eq_false, false_and, true_or, if_true, if_false]
      split_ifs <;> first | rfl | (exfalso; omega)
    refine ⟨a0, a1, hb, hi, ?_, ?_, ?_, htile _ _ _⟩
    · rw [hi]
      unfold MAX_TILES
      split_ifs <;> omega
    · unfold PPU.bgRow; omega
    · unfold PPU.bgColumn; omega
  · intro i
    rw [renderBackground_eq, (foldl_columns s r 160).1 i]
    split_ifs <;> first | rfl | (exfalso; omega)
  · intro j
    rw [renderBackground_eq, (foldl_columns s r 160).2 j]
  · unfold FRAME_BUFFER_LENGTH
    omega

set_option maxRecDepth 100000 in
/-- C40, witness: on line 143 with scroll (3, 5) and signed tile numbers,
column 0 reads the byte 0x7F at 0x9A40 and uses tile 0x17F = 383, row 4 and
column 3; the last byte written is at offset 92,159. -/
theorem background_indices_in_bounds_witness :
    backgroundMachine.mmu.line ≤ 143 ∧ MapBytes backgroundMachine ∧ TileBounded backgroundMachine
    ∧ PPU.bgTileAddress backgroundMachine 0 = 0x9A40
    ∧ PPU.bgTileIndex backgroundMachine 0 = 383
    ∧ PPU.bgTileIndex backgroundMachine 0 < MAX_TILES
    ∧ PPU.bgRow backgroundMachine = 4 ∧ PPU.bgColumn backgroundMachine 0 = 3
    ∧ PPU.bgPixel backgroundMachine 0 = 2
    ∧ backgroundMachine.mmu.line * 640 + 639 = 92159
    ∧ backgroundMachine.mmu.line * 640 + 639 < FRAME_BUFFER_LENGTH :=
  have hm : MapBytes backgroundMachine := by
    intro a _ _
    show (if a = 0x9A40 then 0x7F else 0x80) < 256
    split_ifs <;> decide
  have ht : TileBounded backgroundMachine := by
    intro t r x
    show (if t = 0x17F then 2 else 0) ≤ 3
    split_ifs <;> decide
  have h := background_indices_in_bounds backgroundMachine (fun _ => 0, fun _ => 0)
    (by decide) hm ht
  ⟨by decide, hm, ht, by decide, by decide, (h.2.1 0 (by decide)).2.2.2.2.1, by decide,
    by decide, by decide, by decide, h.2.2.2.2.1⟩

end GB
